import Mathlib

/-! # Actuator command protocol of the coprocessor firmware

A shallow embedding of `Copro/src/hw/actuator.c` (command slots, the slot
pool, the timing resolver, the status / kill-switch handlers) together with
the fault list of `lib/safety/safety.c`.

Conventions of the embedding

* C globals become fields of `State` (the command slots) and of `State.vars`
  (everything else); a C function `f(args)` becomes `f args s : State` (or
  `Ret × State` when it returns a value).
* A pointer to a command slot (`actuator_cmd_data_t *`) is a `CmdRef`.
* Function pointers range over the functions whose address the source takes,
  so they are small enumerations; `NULL` is `none`.
* The header `actuator_i2c/interface.h` and the fault ids are not part of the
  sources at hand; what the code uses from them is collected in `Interface`
  and every definition takes it as its first argument.
* The members of the request / response payload unions are kept as separate
  fields (aliasing between union members is not modelled).
* `log`, `cb_trace` and `i2c_trace` are observation fields: they record the
  log lines printed, the response handlers invoked and the transfers handed
  to `async_i2c_enqueue`, in order.
* The kill switch management of `lib/safety/safety.c` has a state of its own,
  `SafetyState`; the two callbacks it leaves to the code using the library
  are recorded in the observation field `callbacks`.
* The transfer queue (`async_i2c.c`) and the checksum functions are not part
  of the sources at hand either. Where a statement is about them they are
  modelled from the specification: `TransferQueue` for the queue with its
  chained requests, `Crc8Engine` for the 8-bit cyclic redundancy check over
  the bytes of a frame as they are on the wire (`command_image`, `read`).
* A failed `hard_assert` stops the program. The kill state query of
  `safety.c` returns `none` when its lifetime assertion fails; the caller
  then sets `vars.assert_failed` and nothing runs afterwards (`step` is the
  identity on a stopped state).
* The status bit-field `missing_timings_status` keeps the bits of its 16-bit
  word that `actuator.c` does not name in the field `spare`, so that the test
  and the merge of the raw word are the operations of the code.
* Times are 64-bit counts of microseconds. `absolute_time_diff_us_int64` is
  the difference as the SDK computes it, in two's complement on 64 bits.
* What happens to the program is an `Event`; `run` applies a list of events
  from a state, `boot` is the state at power-on, and `Reachable` are the
  states of the runs from power-on.
-/

namespace Titan

/-! ## Data model -/

/-- Command ids, `enum actuator_command` (`ACTUATOR_CMD_*`). -/
inductive actuator_command
  | GET_STATUS
  | OPEN_CLAW
  | CLOSE_CLAW
  | CLAW_TIMING
  | ARM_TORPEDO
  | DISARM_TORPEDO
  | FIRE_TORPEDO
  | TORPEDO_TIMING
  | DROP_MARKER
  | CLEAR_DROPPER_STATUS
  | DROPPER_TIMING
  | KILL_SWITCH
  | RESET_ACTUATORS
  deriving DecidableEq, Repr, Inhabited

/-- Torpedo timing kinds, `enum torpedo_timing_type`
(`ACTUATOR_TORPEDO_TIMING_*_TIME`), in index order. -/
inductive torpedo_timing_type
  | COIL1_ON
  | COIL1_2_DELAY
  | COIL2_ON
  | COIL2_3_DELAY
  | COIL3_ON
  deriving DecidableEq, Repr, Inhabited

/-- The request payload `request.data`: the union members written by the source. -/
structure cmd_payload where
  claw_timing_open_time_ms : Nat := 0
  claw_timing_close_time_ms : Nat := 0
  dropper_timing_active_time_ms : Nat := 0
  torpedo_timing_torpedo_num : Nat := 0
  torpedo_timing_timing_type : torpedo_timing_type := .COIL1_ON
  torpedo_timing_time_us : Nat := 0
  fire_torpedo_torpedo_num : Nat := 0
  drop_marker_dropper_num : Nat := 0
  kill_switch_asserting_kill : Bool := false
  deriving DecidableEq, Repr, Inhabited

/-- Outbound frame `actuator_i2c_cmd_t`. -/
structure actuator_i2c_cmd_t where
  cmd_id : actuator_command := .GET_STATUS
  data : cmd_payload := {}
  crc8 : Nat := 0
  deriving DecidableEq, Repr, Inhabited

/-- Bit-field `struct missing_timings_status` (16 bits wide in the source): the
thirteen bits that `actuator.c` names, and in `spare` the remaining bits of
the 16-bit word, as a number. -/
structure missing_timings_status where
  claw_open_timing : Bool := false
  claw_close_timing : Bool := false
  dropper_active_timing : Bool := false
  torpedo1_coil1_on_timing : Bool := false
  torpedo1_coil1_2_delay_timing : Bool := false
  torpedo1_coil2_on_timing : Bool := false
  torpedo1_coil2_3_delay_timing : Bool := false
  torpedo1_coil3_on_timing : Bool := false
  torpedo2_coil1_on_timing : Bool := false
  torpedo2_coil1_2_delay_timing : Bool := false
  torpedo2_coil2_on_timing : Bool := false
  torpedo2_coil2_3_delay_timing : Bool := false
  torpedo2_coil3_on_timing : Bool := false
  spare : Nat := 0
  deriving DecidableEq, Repr, Inhabited

/-- Status payload `struct actuator_i2c_status`: the firmware status fields the
source reads; the remaining health fields are kept as one opaque number. -/
structure actuator_i2c_status where
  version_major : Nat := 0
  version_minor : Nat := 0
  missing_timings : missing_timings_status := {}
  health : Nat := 0
  deriving DecidableEq, Repr, Inhabited

/-- Inbound frame `actuator_i2c_response_t`. -/
structure actuator_i2c_response_t where
  crc8 : Nat := 0
  result : Nat := 0
  status : actuator_i2c_status := {}
  deriving DecidableEq, Repr, Inhabited

/-- Pointer to a command slot: the three static slots and the entries of
`allocated_commands`. -/
inductive CmdRef
  | set_timing_command
  | status_command
  | kill_switch_update_command
  | allocated (i : Nat)
  deriving DecidableEq, Repr, Inhabited

/-- Values of `actuator_cmd_response_cb_t` used by the source. -/
inductive actuator_cmd_response_cb_t
  | actuator_set_timing_general_cb
  | actuator_kill_switch_update_callback
  | actuator_status_callback
  | actuator_generic_result_cb
  deriving DecidableEq, Repr, Inhabited

/-- Values of `async_i2c_cb_t` used by the source. -/
inductive async_i2c_cb_t
  | actuator_command_done
  deriving DecidableEq, Repr, Inhabited

/-- Values of `async_i2c_abort_cb_t` used by the source. -/
inductive async_i2c_abort_cb_t
  | actuator_command_failed
  deriving DecidableEq, Repr, Inhabited

/-- Transfer request `struct async_i2c_request`. The buffers of a populated
request are always the request / response frame of the owning slot, so
`tx_buffer` and `rx_buffer` hold the slot they point into. -/
structure async_i2c_request where
  i2c_is_actuator_bus : Bool := false
  address_is_actuator : Bool := false
  nostop : Bool := false
  tx_buffer : Option CmdRef := none
  rx_buffer : Option CmdRef := none
  bytes_to_send : Nat := 0
  bytes_to_receive : Nat := 0
  completed_callback : Option async_i2c_cb_t := none
  failed_callback : Option async_i2c_abort_cb_t := none
  next_req_on_success : Option CmdRef := none
  user_data : Option CmdRef := none
  deriving DecidableEq, Repr, Inhabited

/-- Command slot `actuator_cmd_data_t`. -/
structure actuator_cmd_data_t where
  request : actuator_i2c_cmd_t := {}
  response : actuator_i2c_response_t := {}
  i2c_request : async_i2c_request := {}
  i2c_in_progress : Bool := false
  response_cb : Option actuator_cmd_response_cb_t := none
  important_request : Bool := false
  in_use : Bool := false
  deriving DecidableEq, Repr, Inhabited

/-- Cached timing `struct timing_entry`. -/
structure timing_entry where
  timing : Nat := 0
  set : Bool := false
  deriving DecidableEq, Repr, Inhabited

/-- An array `struct timing_entry [ACTUATOR_NUM_TORPEDO_TIMINGS]`, one field
per index. -/
structure torpedo_timings where
  coil1_on : timing_entry := {}
  coil1_2_delay : timing_entry := {}
  coil2_on : timing_entry := {}
  coil2_3_delay : timing_entry := {}
  coil3_on : timing_entry := {}
  deriving DecidableEq, Repr, Inhabited

/-- Array read `timings[ty]`. -/
def torpedo_timings.get (t : torpedo_timings) : torpedo_timing_type → timing_entry
  | .COIL1_ON => t.coil1_on
  | .COIL1_2_DELAY => t.coil1_2_delay
  | .COIL2_ON => t.coil2_on
  | .COIL2_3_DELAY => t.coil2_3_delay
  | .COIL3_ON => t.coil3_on

/-- Array write `timings[ty] = e`. -/
def torpedo_timings.put (t : torpedo_timings) (ty : torpedo_timing_type) (e : timing_entry) :
    torpedo_timings :=
  match ty with
  | .COIL1_ON => { t with coil1_on := e }
  | .COIL1_2_DELAY => { t with coil1_2_delay := e }
  | .COIL2_ON => { t with coil2_on := e }
  | .COIL2_3_DELAY => { t with coil2_3_delay := e }
  | .COIL3_ON => { t with coil3_on := e }

/-- Lines written through the `LOG_*` macros. -/
inductive LogMsg
  | warn_crc_mismatch (crc_calc crc_recv : Nat)
  | error_failed_important (cmd_id : actuator_command) (abort_data : Nat)
  | warn_failed (cmd_id : actuator_command) (abort_data : Nat)
  | error_set_timing_failed (cmd_id : actuator_command)
  | error_kill_switch_result (result : Nat)
  | error_invalid_firmware (major minor : Nat)
  | error_poll_in_progress
  | error_request_failed_result (cmd_id : actuator_command) (result : Nat)
  | warn_request_failed_result (cmd_id : actuator_command) (result : Nat)
  | error_create_request
  | fault_raised (fault_id : Nat)
  | fault_lowered (fault_id : Nat)
  deriving DecidableEq, Repr, Inhabited

/-- One call of `async_i2c_enqueue` as seen by the bus driver: the slot whose
embedded request was passed, that request, and the outbound frame at that
moment. -/
structure Transfer where
  cmd : CmdRef
  i2c_request : async_i2c_request
  frame : actuator_i2c_cmd_t
  deriving DecidableEq, Repr, Inhabited

/-- What the code takes from `actuator_i2c/interface.h` and from the fault id
list: frame sizes per command, the two checksum functions, result codes, the
expected firmware version and the fault ids. -/
structure Interface where
  ACTUATOR_GET_CMD_SIZE : actuator_command → Nat
  ACTUATOR_GET_RESPONSE_SIZE : actuator_command → Nat
  actuator_i2c_crc8_calc_command : actuator_i2c_cmd_t → Nat → Nat
  actuator_i2c_crc8_calc_response : actuator_i2c_response_t → Nat → Nat
  ACTUATOR_RESULT_SUCCESSFUL : Nat
  ACTUATOR_RESULT_FAILED : Nat
  ACTUATOR_EXPECTED_FIRMWARE_MAJOR : Nat
  ACTUATOR_EXPECTED_FIRMWARE_MINOR : Nat
  FAULT_ACTUATOR_FAIL : Nat
  FAULT_NO_ACTUATOR : Nat

/-- Embeds `ACTUATOR_MAX_COMMANDS`. -/
def ACTUATOR_MAX_COMMANDS : Nat := 8

/-- Embeds `ACTUATOR_POLLING_RATE_MS`. -/
def ACTUATOR_POLLING_RATE_MS : Nat := 300

/-- Embeds `ACTUATOR_MAX_STATUS_AGE_MS`. -/
def ACTUATOR_MAX_STATUS_AGE_MS : Nat := 1000

/-- Every variable of the program other than the command slots: the remaining
statics of `actuator.c`, the part of `safety.c` it talks to, the clock, the
pending transfers of the bus driver, and the observation fields. -/
structure Vars where
  torpedo1_timings : torpedo_timings := {}
  torpedo2_timings : torpedo_timings := {}
  claw_timing : timing_entry := {}
  dropper_active_timing : timing_entry := {}
  missing_timings : missing_timings_status := {}
  actuator_last_status : actuator_i2c_status := {}
  status_valid_timeout : Nat := 0
  version_warning_printed : Bool := false
  kill_switch_needs_refresh : Bool := false
  actuator_has_been_polled : Bool := false
  actuator_initialized : Bool := false
  fault_list : Nat := 0
  fault_led : Bool := false
  safety_initialized : Bool := false
  last_state_asserting_kill : Bool := true
  now : Nat := 0
  i2c_queue : List CmdRef := []
  assert_failed : Bool := false
  log : List LogMsg := []
  cb_trace : List (actuator_cmd_response_cb_t × CmdRef) := []
  i2c_trace : List Transfer := []
  deriving Repr, Inhabited

/-- The program state: the command slots (the pool `allocated_commands` and
the three static slots) and all other variables. -/
structure State where
  allocated_commands : List actuator_cmd_data_t := []
  set_timing_command : actuator_cmd_data_t := {}
  status_command : actuator_cmd_data_t := {}
  kill_switch_update_command : actuator_cmd_data_t := {}
  vars : Vars := {}
  deriving Repr, Inhabited

/-- Embeds `num_allocated_commands`: the number of constructed pool slots. -/
def State.num_allocated_commands (s : State) : Nat := s.allocated_commands.length

/-- Dereference `*cmd`. -/
def State.cmd (s : State) : CmdRef → actuator_cmd_data_t
  | .set_timing_command => s.set_timing_command
  | .status_command => s.status_command
  | .kill_switch_update_command => s.kill_switch_update_command
  | .allocated i => s.allocated_commands.getD i default

/-- Assignment `*cmd = c`. -/
def State.setCmd (s : State) (r : CmdRef) (c : actuator_cmd_data_t) : State :=
  match r with
  | .set_timing_command => { s with set_timing_command := c }
  | .status_command => { s with status_command := c }
  | .kill_switch_update_command => { s with kill_switch_update_command := c }
  | .allocated i => { s with allocated_commands := s.allocated_commands.set i c }

/-- In-place update of the slot behind `cmd`. -/
def State.modifyCmd (s : State) (r : CmdRef) (f : actuator_cmd_data_t → actuator_cmd_data_t) :
    State :=
  s.setCmd r (f (s.cmd r))

/-- The pointer `r` designates an existing slot. -/
def State.validRef (s : State) : CmdRef → Prop
  | .allocated i => i < s.allocated_commands.length
  | _ => True

instance (s : State) (r : CmdRef) : Decidable (s.validRef r) := by
  cases r <;> simp only [State.validRef] <;> infer_instance

/-! ## `safety.c`: the fault list and the kill state query -/

/-- The test `(*fault_list & (1u<<fault_id)) != 0` on the 32-bit fault list. -/
def fault_is_raised (fault_id : Nat) (s : State) : Bool :=
  s.vars.fault_list &&& ((1 <<< fault_id) % 2 ^ 32) != 0

/-- Embeds `safety_raise_fault`. -/
def safety_raise_fault (fault_id : Nat) (s : State) : State :=
  if s.vars.fault_list &&& ((1 <<< fault_id) % 2 ^ 32) = 0 then
    { s with
      vars.log := s.vars.log ++ [LogMsg.fault_raised fault_id]
      vars.fault_list := (s.vars.fault_list ||| (1 <<< fault_id)) % 2 ^ 32
      vars.fault_led := true }
  else s

/-- Embeds `safety_lower_fault`; `~(1u<<fault_id)` is the 32-bit complement. -/
def safety_lower_fault (fault_id : Nat) (s : State) : State :=
  if s.vars.fault_list &&& ((1 <<< fault_id) % 2 ^ 32) ≠ 0 then
    let fl := s.vars.fault_list &&& (2 ^ 32 - 1 - (1 <<< fault_id) % 2 ^ 32)
    { s with
      vars.log := s.vars.log ++ [LogMsg.fault_lowered fault_id]
      vars.fault_list := fl
      vars.fault_led := decide (fl ≠ 0) }
  else s

/-- Embeds `safety_kill_get_asserting_kill`: the value returned, and `none`
when the lifetime assertion `hard_assert_if(LIFETIME_CHECK, !safety_initialized)`
fails, upon which the program stops and nothing is returned. -/
def safety_kill_get_asserting_kill (s : State) : Option Bool :=
  if s.vars.safety_initialized then some s.vars.last_state_asserting_kill else none

/-! ## Pico SDK time helpers -/

/-- Embeds `absolute_time_diff_us(from, to)` for the clock readings of
`actuator.c`: signed microseconds from `from` to `to`. The 64-bit difference
that the SDK computes is this number whenever the two readings are less than
2^63 microseconds apart; `absolute_time_diff_us_int64` is the function of the
SDK on all 64-bit readings. -/
def absolute_time_diff_us (t_from t_to : Nat) : Int := (t_to : Int) - (t_from : Int)

/-- Embeds `absolute_time_diff_us(from, to)` bit for bit,
`(int64_t)(to_us_since_boot(to) - to_us_since_boot(from))`: the difference of
the two 64-bit readings modulo 2^64, read as a two's complement number. -/
def absolute_time_diff_us_int64 (t_from t_to : Nat) : Int :=
  let d : Nat := (t_to % 2 ^ 64 + (2 ^ 64 - t_from % 2 ^ 64)) % 2 ^ 64
  if d < 2 ^ 63 then (d : Int) else (d : Int) - 2 ^ 64

/-- Embeds `make_timeout_time_ms(ms)`: the time `ms` milliseconds from now. -/
def make_timeout_time_ms (ms : Nat) (s : State) : Nat := s.vars.now + ms * 1000

/-! ## I2C command generation / processing -/

/-- Modelled from the spec: `async_i2c_enqueue(&cmd->i2c_request,
&cmd->i2c_in_progress)`, whose body (`async_i2c.c`) is not among the sources.
It appends the request to the pending sequence and sets the in-progress flag
before returning; the transfer is also recorded in `i2c_trace`. -/
def async_i2c_enqueue (cmd : CmdRef) (s : State) : State :=
  let s := s.modifyCmd cmd fun c => { c with i2c_in_progress := true }
  { s with
    vars.i2c_queue := s.vars.i2c_queue ++ [cmd]
    vars.i2c_trace :=
      s.vars.i2c_trace ++ [⟨cmd, (s.cmd cmd).i2c_request, (s.cmd cmd).request⟩] }

/-- Embeds `actuator_populate_command`. -/
def actuator_populate_command (I : Interface) (cmd : CmdRef) (cmd_id : actuator_command)
    (response_cb : Option actuator_cmd_response_cb_t) (important : Bool) (s : State) : State :=
  s.modifyCmd cmd fun c =>
    { c with
      i2c_request :=
        { i2c_is_actuator_bus := true
          address_is_actuator := true
          nostop := false
          tx_buffer := some cmd
          rx_buffer := some cmd
          bytes_to_send := I.ACTUATOR_GET_CMD_SIZE cmd_id % 65536
          bytes_to_receive := I.ACTUATOR_GET_RESPONSE_SIZE cmd_id % 65536
          completed_callback := some async_i2c_cb_t.actuator_command_done
          failed_callback := some async_i2c_abort_cb_t.actuator_command_failed
          next_req_on_success := none
          user_data := some cmd }
      i2c_in_progress := false
      response_cb := response_cb
      request := { c.request with cmd_id := cmd_id }
      important_request := important }

/-- Embeds `actuator_send_command`. -/
def actuator_send_command (I : Interface) (cmd : CmdRef) (s : State) : State :=
  let s := s.modifyCmd cmd fun c =>
    { c with
      request :=
        { c.request with
          crc8 := I.actuator_i2c_crc8_calc_command c.request c.i2c_request.bytes_to_send % 256 } }
  async_i2c_enqueue cmd s

/-- One arm of the `ELSE_IF_TORPEDO_TIMING_NEEDED` expansion up to (not
including) the clearing of the missing bit: populate and fill the payload. -/
def torpedo_timing_request (I : Interface) (cmd : CmdRef) (torp_num : Nat)
    (ty : torpedo_timing_type) (time_us : Nat) (s : State) : State :=
  let s := actuator_populate_command I cmd actuator_command.TORPEDO_TIMING
    (some actuator_cmd_response_cb_t.actuator_set_timing_general_cb) true s
  s.modifyCmd cmd fun c =>
    { c with
      request :=
        { c.request with
          data :=
            { c.request.data with
              torpedo_timing_torpedo_num := torp_num
              torpedo_timing_timing_type := ty
              torpedo_timing_time_us := time_us } } }

/-- Embeds `actuator_update_missing_timings_common`: the timing resolver. -/
def actuator_update_missing_timings_common (I : Interface) (cmd : CmdRef) (s : State) :
    Bool × State :=
  if (s.vars.missing_timings.claw_open_timing || s.vars.missing_timings.claw_close_timing)
      && s.vars.claw_timing.set then
    let s := actuator_populate_command I cmd actuator_command.CLAW_TIMING
      (some actuator_cmd_response_cb_t.actuator_set_timing_general_cb) true s
    let s := s.modifyCmd cmd fun c =>
      { c with
        request :=
          { c.request with
            data :=
              { c.request.data with
                claw_timing_open_time_ms := s.vars.claw_timing.timing
                claw_timing_close_time_ms := s.vars.claw_timing.timing } } }
    let s := { s with
      vars.missing_timings :=
        { s.vars.missing_timings with claw_open_timing := false, claw_close_timing := false } }
    (true, actuator_send_command I cmd s)
  else if s.vars.missing_timings.dropper_active_timing && s.vars.dropper_active_timing.set then
    let s := actuator_populate_command I cmd actuator_command.DROPPER_TIMING
      (some actuator_cmd_response_cb_t.actuator_set_timing_general_cb) true s
    let s := s.modifyCmd cmd fun c =>
      { c with
        request :=
          { c.request with
            data :=
              { c.request.data with
                dropper_timing_active_time_ms := s.vars.dropper_active_timing.timing } } }
    let s := { s with
      vars.missing_timings := { s.vars.missing_timings with dropper_active_timing := false } }
    (true, actuator_send_command I cmd s)
  else if s.vars.missing_timings.torpedo1_coil1_on_timing
      && s.vars.torpedo1_timings.coil1_on.set then
    let s := torpedo_timing_request I cmd 1 torpedo_timing_type.COIL1_ON
      s.vars.torpedo1_timings.coil1_on.timing s
    let s := { s with
      vars.missing_timings := { s.vars.missing_timings with torpedo1_coil1_on_timing := false } }
    (true, actuator_send_command I cmd s)
  else if s.vars.missing_timings.torpedo1_coil1_2_delay_timing
      && s.vars.torpedo1_timings.coil1_2_delay.set then
    let s := torpedo_timing_request I cmd 1 torpedo_timing_type.COIL1_2_DELAY
      s.vars.torpedo1_timings.coil1_2_delay.timing s
    let s := { s with
      vars.missing_timings :=
        { s.vars.missing_timings with torpedo1_coil1_2_delay_timing := false } }
    (true, actuator_send_command I cmd s)
  else if s.vars.missing_timings.torpedo1_coil2_on_timing
      && s.vars.torpedo1_timings.coil2_on.set then
    let s := torpedo_timing_request I cmd 1 torpedo_timing_type.COIL2_ON
      s.vars.torpedo1_timings.coil2_on.timing s
    let s := { s with
      vars.missing_timings := { s.vars.missing_timings with torpedo1_coil2_on_timing := false } }
    (true, actuator_send_command I cmd s)
  else if s.vars.missing_timings.torpedo1_coil2_3_delay_timing
      && s.vars.torpedo1_timings.coil2_3_delay.set then
    let s := torpedo_timing_request I cmd 1 torpedo_timing_type.COIL2_3_DELAY
      s.vars.torpedo1_timings.coil2_3_delay.timing s
    let s := { s with
      vars.missing_timings :=
        { s.vars.missing_timings with torpedo1_coil2_3_delay_timing := false } }
    (true, actuator_send_command I cmd s)
  else if s.vars.missing_timings.torpedo1_coil3_on_timing
      && s.vars.torpedo1_timings.coil3_on.set then
    let s := torpedo_timing_request I cmd 1 torpedo_timing_type.COIL3_ON
      s.vars.torpedo1_timings.coil3_on.timing s
    let s := { s with
      vars.missing_timings := { s.vars.missing_timings with torpedo1_coil3_on_timing := false } }
    (true, actuator_send_command I cmd s)
  else if s.vars.missing_timings.torpedo2_coil1_on_timing
      && s.vars.torpedo2_timings.coil1_on.set then
    let s := torpedo_timing_request I cmd 2 torpedo_timing_type.COIL1_ON
      s.vars.torpedo2_timings.coil1_on.timing s
    let s := { s with
      vars.missing_timings := { s.vars.missing_timings with torpedo2_coil1_on_timing := false } }
    (true, actuator_send_command I cmd s)
  else if s.vars.missing_timings.torpedo2_coil1_2_delay_timing
      && s.vars.torpedo2_timings.coil1_2_delay.set then
    let s := torpedo_timing_request I cmd 2 torpedo_timing_type.COIL1_2_DELAY
      s.vars.torpedo2_timings.coil1_2_delay.timing s
    let s := { s with
      vars.missing_timings :=
        { s.vars.missing_timings with torpedo2_coil1_2_delay_timing := false } }
    (true, actuator_send_command I cmd s)
  else if s.vars.missing_timings.torpedo2_coil2_on_timing
      && s.vars.torpedo2_timings.coil2_on.set then
    let s := torpedo_timing_request I cmd 2 torpedo_timing_type.COIL2_ON
      s.vars.torpedo2_timings.coil2_on.timing s
    let s := { s with
      vars.missing_timings := { s.vars.missing_timings with torpedo2_coil2_on_timing := false } }
    (true, actuator_send_command I cmd s)
  else if s.vars.missing_timings.torpedo2_coil2_3_delay_timing
      && s.vars.torpedo2_timings.coil2_3_delay.set then
    let s := torpedo_timing_request I cmd 2 torpedo_timing_type.COIL2_3_DELAY
      s.vars.torpedo2_timings.coil2_3_delay.timing s
    let s := { s with
      vars.missing_timings :=
        { s.vars.missing_timings with torpedo2_coil2_3_delay_timing := false } }
    (true, actuator_send_command I cmd s)
  else if s.vars.missing_timings.torpedo2_coil3_on_timing
      && s.vars.torpedo2_timings.coil3_on.set then
    let s := torpedo_timing_request I cmd 2 torpedo_timing_type.COIL3_ON
      s.vars.torpedo2_timings.coil3_on.timing s
    let s := { s with
      vars.missing_timings := { s.vars.missing_timings with torpedo2_coil3_on_timing := false } }
    (true, actuator_send_command I cmd s)
  else
    (false, s)

/-- Embeds `actuator_set_timing_general_cb`. -/
def actuator_set_timing_general_cb (I : Interface) (cmd : CmdRef) (s : State) : Bool × State :=
  let s :=
    if (s.cmd cmd).response.result ≠ I.ACTUATOR_RESULT_SUCCESSFUL then
      safety_raise_fault I.FAULT_ACTUATOR_FAIL
        { s with
          vars.log := s.vars.log ++ [LogMsg.error_set_timing_failed (s.cmd cmd).request.cmd_id] }
    else s
  actuator_update_missing_timings_common I cmd s

/-- Embeds `actuator_update_missing_timings`. -/
def actuator_update_missing_timings (I : Interface) (s : State) : State :=
  if s.set_timing_command.in_use then s
  else
    let s := { s with set_timing_command := { s.set_timing_command with in_use := true } }
    let r := actuator_update_missing_timings_common I CmdRef.set_timing_command s
    if !r.1 then
      { r.2 with set_timing_command := { r.2.set_timing_command with in_use := false } }
    else r.2

/-! ## Actuator board monitoring -/

/-- The statements of a kill-switch send that follow the kill state query,
for the value `k` it returned: store it into the payload, claim the slot,
send. -/
def kill_switch_send_sampled (I : Interface) (k : Bool) (s : State) : State :=
  let s := s.modifyCmd CmdRef.kill_switch_update_command fun c =>
    { c with
      request :=
        { c.request with data := { c.request.data with kill_switch_asserting_kill := k } } }
  let s := s.modifyCmd CmdRef.kill_switch_update_command fun c => { c with in_use := true }
  actuator_send_command I CmdRef.kill_switch_update_command s

/-- The statements shared by the three places that start a kill-switch
transfer: clear the needs-refresh flag, sample the kill state into the
payload, claim the slot, send. When the lifetime assertion of the kill state
query fails, the program stops at the query: `assert_failed` is set and the
remaining statements do not run. -/
def kill_switch_send (I : Interface) (s : State) : State :=
  let s := { s with vars.kill_switch_needs_refresh := false }
  match safety_kill_get_asserting_kill s with
  | none => { s with vars.assert_failed := true }
  | some k => kill_switch_send_sampled I k s

/-- Embeds `actuator_kill_switch_update_callback`; the `assert` on `cmd` is recorded
in `assert_failed`. -/
def actuator_kill_switch_update_callback (I : Interface) (cmd : CmdRef) (s : State) :
    Bool × State :=
  let s := { s with
    vars.assert_failed :=
      s.vars.assert_failed || decide (cmd ≠ CmdRef.kill_switch_update_command) }
  if (s.cmd cmd).response.result ≠ I.ACTUATOR_RESULT_SUCCESSFUL then
    (false, safety_raise_fault I.FAULT_ACTUATOR_FAIL
      { s with
        vars.log := s.vars.log ++ [LogMsg.error_kill_switch_result (s.cmd cmd).response.result] })
  else if s.vars.kill_switch_needs_refresh then
    (true, kill_switch_send I s)
  else
    (false, s)

/-- The raw 16-bit view `*(uint16_t*)(&m) != 0` of the bit-field: some bit of
the word is set, one of the thirteen named ones or one of the others. -/
def missing_timings_status.any (m : missing_timings_status) : Bool :=
  m.claw_open_timing || m.claw_close_timing || m.dropper_active_timing
    || m.torpedo1_coil1_on_timing || m.torpedo1_coil1_2_delay_timing
    || m.torpedo1_coil2_on_timing || m.torpedo1_coil2_3_delay_timing
    || m.torpedo1_coil3_on_timing
    || m.torpedo2_coil1_on_timing || m.torpedo2_coil1_2_delay_timing
    || m.torpedo2_coil2_on_timing || m.torpedo2_coil2_3_delay_timing
    || m.torpedo2_coil3_on_timing
    || m.spare != 0

/-- The raw 16-bit `|=` of two bit-fields. -/
def missing_timings_status.or (a b : missing_timings_status) : missing_timings_status :=
  { claw_open_timing := a.claw_open_timing || b.claw_open_timing
    claw_close_timing := a.claw_close_timing || b.claw_close_timing
    dropper_active_timing := a.dropper_active_timing || b.dropper_active_timing
    torpedo1_coil1_on_timing := a.torpedo1_coil1_on_timing || b.torpedo1_coil1_on_timing
    torpedo1_coil1_2_delay_timing :=
      a.torpedo1_coil1_2_delay_timing || b.torpedo1_coil1_2_delay_timing
    torpedo1_coil2_on_timing := a.torpedo1_coil2_on_timing || b.torpedo1_coil2_on_timing
    torpedo1_coil2_3_delay_timing :=
      a.torpedo1_coil2_3_delay_timing || b.torpedo1_coil2_3_delay_timing
    torpedo1_coil3_on_timing := a.torpedo1_coil3_on_timing || b.torpedo1_coil3_on_timing
    torpedo2_coil1_on_timing := a.torpedo2_coil1_on_timing || b.torpedo2_coil1_on_timing
    torpedo2_coil1_2_delay_timing :=
      a.torpedo2_coil1_2_delay_timing || b.torpedo2_coil1_2_delay_timing
    torpedo2_coil2_on_timing := a.torpedo2_coil2_on_timing || b.torpedo2_coil2_on_timing
    torpedo2_coil2_3_delay_timing :=
      a.torpedo2_coil2_3_delay_timing || b.torpedo2_coil2_3_delay_timing
    torpedo2_coil3_on_timing := a.torpedo2_coil3_on_timing || b.torpedo2_coil3_on_timing
    spare := a.spare ||| b.spare }

/-- Embeds `actuator_status_callback`. -/
def actuator_status_callback (I : Interface) (cmd : CmdRef) (s : State) : Bool × State :=
  let status := (s.cmd cmd).response.status
  if status.version_major ≠ I.ACTUATOR_EXPECTED_FIRMWARE_MAJOR
      ∧ status.version_major ≠ I.ACTUATOR_EXPECTED_FIRMWARE_MINOR then
    if !s.vars.version_warning_printed then
      let s := { s with
        vars.log := s.vars.log ++
          [LogMsg.error_invalid_firmware status.version_major status.version_minor] }
      let s := safety_raise_fault I.FAULT_ACTUATOR_FAIL s
      (false, { s with vars.version_warning_printed := true })
    else (false, s)
  else
    let s := { s with vars.actuator_last_status := status }
    let s := { s with
      vars.status_valid_timeout := make_timeout_time_ms ACTUATOR_MAX_STATUS_AGE_MS s }
    let s :=
      if s.vars.safety_initialized then
        if !s.kill_switch_update_command.in_use then kill_switch_send I s else s
      else s
    if status.missing_timings.any then
      let s := { s with vars.missing_timings := s.vars.missing_timings.or status.missing_timings }
      (false, actuator_update_missing_timings I s)
    else (false, s)

/-- Embeds `actuator_is_connected`. -/
def actuator_is_connected (s : State) : Bool :=
  if s.vars.actuator_initialized then
    decide (absolute_time_diff_us s.vars.status_valid_timeout s.vars.now < 0)
  else false

/-- Embeds `actuator_poll_alarm_callback`; returns the re-arm delay in microseconds. -/
def actuator_poll_alarm_callback (I : Interface) (s : State) : Int × State :=
  let s :=
    if s.vars.actuator_has_been_polled then
      if !actuator_is_connected s then safety_raise_fault I.FAULT_NO_ACTUATOR s
      else safety_lower_fault I.FAULT_NO_ACTUATOR s
    else { s with vars.actuator_has_been_polled := true }
  let s :=
    if s.status_command.in_use then
      safety_raise_fault I.FAULT_ACTUATOR_FAIL
        { s with vars.log := s.vars.log ++ [LogMsg.error_poll_in_progress] }
    else
      let s := { s with status_command := { s.status_command with in_use := true } }
      actuator_send_command I CmdRef.status_command s
  ((ACTUATOR_POLLING_RATE_MS : Int) * 1000, s)

/-! ## Completion and failure handlers -/

/-- Embeds `actuator_generic_result_cb`. -/
def actuator_generic_result_cb (I : Interface) (cmd : CmdRef) (s : State) : Bool × State :=
  if (s.cmd cmd).response.result = I.ACTUATOR_RESULT_FAILED then
    if (s.cmd cmd).important_request then
      (false, safety_raise_fault I.FAULT_ACTUATOR_FAIL
        { s with
          vars.log := s.vars.log ++ [LogMsg.error_request_failed_result (s.cmd cmd).request.cmd_id
            (s.cmd cmd).response.result] })
    else
      (false,
        { s with
          vars.log := s.vars.log ++ [LogMsg.warn_request_failed_result (s.cmd cmd).request.cmd_id
            (s.cmd cmd).response.result] })
  else (false, s)

/-- The indirect call `cmd->response_cb(cmd)`; the call is recorded in
`cb_trace` before the handler body runs. -/
def call_response_cb (I : Interface) (cb : actuator_cmd_response_cb_t) (cmd : CmdRef)
    (s : State) : Bool × State :=
  let s := { s with vars.cb_trace := s.vars.cb_trace ++ [(cb, cmd)] }
  match cb with
  | actuator_cmd_response_cb_t.actuator_set_timing_general_cb =>
    actuator_set_timing_general_cb I cmd s
  | actuator_cmd_response_cb_t.actuator_kill_switch_update_callback =>
    actuator_kill_switch_update_callback I cmd s
  | actuator_cmd_response_cb_t.actuator_status_callback => actuator_status_callback I cmd s
  | actuator_cmd_response_cb_t.actuator_generic_result_cb => actuator_generic_result_cb I cmd s

/-- The checksum test of `actuator_command_done`: `none` when the response
has no bytes or the recomputed checksum agrees, else the pair
(calculated, received). -/
def response_crc_mismatch (I : Interface) (c : actuator_cmd_data_t) : Option (Nat × Nat) :=
  if c.i2c_request.bytes_to_receive > 0 then
    let crc_calc :=
      I.actuator_i2c_crc8_calc_response c.response c.i2c_request.bytes_to_receive % 256
    if crc_calc ≠ c.response.crc8 then some (crc_calc, c.response.crc8) else none
  else none

/-- Embeds `actuator_command_done`; `cmd` is `req->user_data` (a request whose
`user_data` is `NULL` is left alone). -/
def actuator_command_done (I : Interface) (req : async_i2c_request) (s : State) : State :=
  match req.user_data with
  | none => s
  | some cmd =>
    let can_release_request := true
    let r : Bool × State :=
      match response_crc_mismatch I (s.cmd cmd) with
      | some (crc_calc, crc_recv) =>
        let s := { s with vars.log := s.vars.log ++ [LogMsg.warn_crc_mismatch crc_calc crc_recv] }
        let s :=
          if (s.cmd cmd).important_request then safety_raise_fault I.FAULT_ACTUATOR_FAIL s
          else s
        (false, s)
      | none => (true, s)
    let request_successful := r.1
    let s := r.2
    let r : Bool × State :=
      match request_successful, (s.cmd cmd).response_cb with
      | true, some cb =>
        let res := call_response_cb I cb cmd s
        if res.1 then (false, res.2) else (can_release_request, res.2)
      | _, _ => (can_release_request, s)
    if r.1 then r.2.modifyCmd cmd fun c => { c with in_use := false } else r.2

/-- Embeds `actuator_command_failed`. -/
def actuator_command_failed (I : Interface) (req : async_i2c_request) (abort_data : Nat)
    (s : State) : State :=
  match req.user_data with
  | none => s
  | some cmd =>
    let s :=
      if (s.cmd cmd).important_request then
        safety_raise_fault I.FAULT_ACTUATOR_FAIL
          { s with
            vars.log := s.vars.log ++
              [LogMsg.error_failed_important (s.cmd cmd).request.cmd_id abort_data] }
      else
        { s with
          vars.log := s.vars.log ++ [LogMsg.warn_failed (s.cmd cmd).request.cmd_id abort_data] }
    s.modifyCmd cmd fun c => { c with in_use := false }

/-! ## The command slot pool -/

/-- Body of the scan loop of `actuator_generate_command` for index `i`; the
accumulator is the local `cmd` and the state. -/
def generate_scan_step (acc : Option CmdRef × State) (i : Nat) : Option CmdRef × State :=
  if !(acc.2.cmd (CmdRef.allocated i)).in_use then
    (some (CmdRef.allocated i),
      acc.2.modifyCmd (CmdRef.allocated i) fun c => { c with in_use := true })
  else acc

/-- Embeds `actuator_generate_command`. `heap` is the content of the block `malloc`
hands out when a new slot is constructed (`malloc` is taken to succeed). -/
def actuator_generate_command (I : Interface) (heap : actuator_cmd_data_t)
    (cmd_id : actuator_command) (response_cb : Option actuator_cmd_response_cb_t)
    (s : State) : Option CmdRef × State :=
  let r := (List.range s.num_allocated_commands).foldl generate_scan_step (none, s)
  let r : Option CmdRef × State :=
    if r.1.isNone ∧ r.2.num_allocated_commands < ACTUATOR_MAX_COMMANDS then
      (some (CmdRef.allocated r.2.num_allocated_commands),
        { r.2 with allocated_commands := r.2.allocated_commands ++ [{ heap with in_use := true }] })
    else r
  match r.1 with
  | some cmd => (some cmd, actuator_populate_command I cmd cmd_id response_cb true r.2)
  | none => (none, r.2)

/-! ## Public command requests -/

/-- The tail shared by every public command function: on `NULL` log, raise
the fault and return; else let `fill` write the payload and send. -/
def public_command (I : Interface) (r : Option CmdRef × State)
    (fill : cmd_payload → cmd_payload) : State :=
  match r.1 with
  | none =>
    safety_raise_fault I.FAULT_ACTUATOR_FAIL
      { r.2 with vars.log := r.2.vars.log ++ [LogMsg.error_create_request] }
  | some cmd =>
    let s := r.2.modifyCmd cmd fun c =>
      { c with request := { c.request with data := fill c.request.data } }
    actuator_send_command I cmd s

/-- Embeds `actuator_open_claw`. -/
def actuator_open_claw (I : Interface) (heap : actuator_cmd_data_t) (s : State) : State :=
  public_command I
    (actuator_generate_command I heap actuator_command.OPEN_CLAW
      (some actuator_cmd_response_cb_t.actuator_generic_result_cb) s) id

/-- Embeds `actuator_close_claw`. -/
def actuator_close_claw (I : Interface) (heap : actuator_cmd_data_t) (s : State) : State :=
  public_command I
    (actuator_generate_command I heap actuator_command.CLOSE_CLAW
      (some actuator_cmd_response_cb_t.actuator_generic_result_cb) s) id

/-- Embeds `actuator_set_claw_timings`. -/
def actuator_set_claw_timings (I : Interface) (heap : actuator_cmd_data_t)
    (open_time_ms close_time_ms : Nat) (s : State) : State :=
  public_command I
    (actuator_generate_command I heap actuator_command.CLAW_TIMING
      (some actuator_cmd_response_cb_t.actuator_generic_result_cb) s)
    fun d =>
      { d with
        claw_timing_open_time_ms := open_time_ms % 65536
        claw_timing_close_time_ms := close_time_ms % 65536 }

/-- Embeds `actuator_arm_torpedo`. -/
def actuator_arm_torpedo (I : Interface) (heap : actuator_cmd_data_t) (s : State) : State :=
  public_command I
    (actuator_generate_command I heap actuator_command.ARM_TORPEDO
      (some actuator_cmd_response_cb_t.actuator_generic_result_cb) s) id

/-- Embeds `actuator_disarm_torpedo`. -/
def actuator_disarm_torpedo (I : Interface) (heap : actuator_cmd_data_t) (s : State) : State :=
  public_command I
    (actuator_generate_command I heap actuator_command.DISARM_TORPEDO
      (some actuator_cmd_response_cb_t.actuator_generic_result_cb) s) id

/-- Embeds `actuator_fire_torpedo`. -/
def actuator_fire_torpedo (I : Interface) (heap : actuator_cmd_data_t) (torpedo_id : Nat)
    (s : State) : State :=
  public_command I
    (actuator_generate_command I heap actuator_command.FIRE_TORPEDO
      (some actuator_cmd_response_cb_t.actuator_generic_result_cb) s)
    fun d => { d with fire_torpedo_torpedo_num := torpedo_id % 256 }

/-- Embeds `actuator_set_torpedo_timings`. -/
def actuator_set_torpedo_timings (I : Interface) (heap : actuator_cmd_data_t)
    (torpedo_id : Nat) (timing_type : torpedo_timing_type) (time_us : Nat) (s : State) : State :=
  public_command I
    (actuator_generate_command I heap actuator_command.TORPEDO_TIMING
      (some actuator_cmd_response_cb_t.actuator_generic_result_cb) s)
    fun d =>
      { d with
        torpedo_timing_torpedo_num := torpedo_id % 256
        torpedo_timing_timing_type := timing_type
        torpedo_timing_time_us := time_us % 65536 }

/-- Embeds `actuator_drop_marker`. -/
def actuator_drop_marker (I : Interface) (heap : actuator_cmd_data_t) (dropper_id : Nat)
    (s : State) : State :=
  public_command I
    (actuator_generate_command I heap actuator_command.DROP_MARKER
      (some actuator_cmd_response_cb_t.actuator_generic_result_cb) s)
    fun d => { d with drop_marker_dropper_num := dropper_id % 256 }

/-- Embeds `actuator_clear_dropper_status`. -/
def actuator_clear_dropper_status (I : Interface) (heap : actuator_cmd_data_t) (s : State) :
    State :=
  public_command I
    (actuator_generate_command I heap actuator_command.CLEAR_DROPPER_STATUS
      (some actuator_cmd_response_cb_t.actuator_generic_result_cb) s) id

/-- Embeds `actuator_set_dropper_timings`. -/
def actuator_set_dropper_timings (I : Interface) (heap : actuator_cmd_data_t)
    (active_time_ms : Nat) (s : State) : State :=
  public_command I
    (actuator_generate_command I heap actuator_command.DROPPER_TIMING
      (some actuator_cmd_response_cb_t.actuator_generic_result_cb) s)
    fun d => { d with dropper_timing_active_time_ms := active_time_ms % 65536 }

/-- Embeds `actuator_reset_actuators`. -/
def actuator_reset_actuators (I : Interface) (heap : actuator_cmd_data_t) (s : State) : State :=
  public_command I
    (actuator_generate_command I heap actuator_command.RESET_ACTUATORS none s) id

/-! ## Parameter changes -/

/-- The parameter value kinds of `rclc_parameter` (`RCLC_PARAMETER_*`). -/
inductive rclc_parameter_type
  | NOT_SET
  | BOOL
  | INT
  | DOUBLE
  deriving DecidableEq, Repr, Inhabited

/-- The fields of `Parameter` read by `actuator_handle_parameter_change`. -/
structure Parameter where
  name : String
  value_type : rclc_parameter_type
  integer_value : Int
  deriving DecidableEq, Repr, Inhabited

/-- Embeds `IS_VALID_TIMING(num)`. -/
def IS_VALID_TIMING (num : Int) : Bool := decide (num > 0) && decide (num < 2 ^ 16)

/-- The cast of an `int64_t` to the `uint16_t` field `timing`. -/
def to_uint16 (v : Int) : Nat := (v % 65536).toNat

/-- One arm of the `ELSE_IF_TORPEDO_PARAMETER` expansion for torpedo 1. -/
def torpedo1_parameter (I : Interface) (ty : torpedo_timing_type) (v : Int)
    (mark : missing_timings_status → missing_timings_status) (s : State) : Bool × State :=
  if IS_VALID_TIMING v then
    let s := { s with
      vars.torpedo1_timings :=
        s.vars.torpedo1_timings.put ty
          { (s.vars.torpedo1_timings.get ty) with timing := to_uint16 v } }
    let s := { s with
      vars.torpedo1_timings :=
        s.vars.torpedo1_timings.put ty
          { (s.vars.torpedo1_timings.get ty) with set := true } }
    let s := { s with vars.missing_timings := mark s.vars.missing_timings }
    (true, actuator_update_missing_timings I s)
  else (false, s)

/-- One arm of the `ELSE_IF_TORPEDO_PARAMETER` expansion for torpedo 2. -/
def torpedo2_parameter (I : Interface) (ty : torpedo_timing_type) (v : Int)
    (mark : missing_timings_status → missing_timings_status) (s : State) : Bool × State :=
  if IS_VALID_TIMING v then
    let s := { s with
      vars.torpedo2_timings :=
        s.vars.torpedo2_timings.put ty
          { (s.vars.torpedo2_timings.get ty) with timing := to_uint16 v } }
    let s := { s with
      vars.torpedo2_timings :=
        s.vars.torpedo2_timings.put ty
          { (s.vars.torpedo2_timings.get ty) with set := true } }
    let s := { s with vars.missing_timings := mark s.vars.missing_timings }
    (true, actuator_update_missing_timings I s)
  else (false, s)

/-- Embeds `actuator_handle_parameter_change`. -/
def actuator_handle_parameter_change (I : Interface) (param : Parameter) (s : State) :
    Bool × State :=
  if !s.vars.actuator_initialized then (false, s)
  else if param.value_type ≠ rclc_parameter_type.INT then (false, s)
  else if param.name = "claw_timing_ms" then
    if IS_VALID_TIMING param.integer_value then
      let s := { s with
        vars.claw_timing := { s.vars.claw_timing with timing := to_uint16 param.integer_value } }
      let s := { s with vars.claw_timing := { s.vars.claw_timing with set := true } }
      let s := { s with
        vars.missing_timings :=
          { s.vars.missing_timings with claw_open_timing := true, claw_close_timing := true } }
      (true, actuator_update_missing_timings I s)
    else (false, s)
  else if param.name = "dropper_active_timing_ms" then
    if IS_VALID_TIMING param.integer_value then
      let s := { s with
        vars.dropper_active_timing :=
          { s.vars.dropper_active_timing with timing := to_uint16 param.integer_value } }
      let s := { s with
        vars.dropper_active_timing := { s.vars.dropper_active_timing with set := true } }
      let s := { s with
        vars.missing_timings := { s.vars.missing_timings with dropper_active_timing := true } }
      (true, actuator_update_missing_timings I s)
    else (false, s)
  else if param.name = "torpedo1_coil1_on_timing_us" then
    torpedo1_parameter I torpedo_timing_type.COIL1_ON param.integer_value
      (fun m => { m with torpedo1_coil1_on_timing := true }) s
  else if param.name = "torpedo1_coil1_2_delay_timing_us" then
    torpedo1_parameter I torpedo_timing_type.COIL1_2_DELAY param.integer_value
      (fun m => { m with torpedo1_coil1_2_delay_timing := true }) s
  else if param.name = "torpedo1_coil2_on_timing_us" then
    torpedo1_parameter I torpedo_timing_type.COIL2_ON param.integer_value
      (fun m => { m with torpedo1_coil2_on_timing := true }) s
  else if param.name = "torpedo1_coil2_3_delay_timing_us" then
    torpedo1_parameter I torpedo_timing_type.COIL2_3_DELAY param.integer_value
      (fun m => { m with torpedo1_coil2_3_delay_timing := true }) s
  else if param.name = "torpedo1_coil3_on_timing_us" then
    torpedo1_parameter I torpedo_timing_type.COIL3_ON param.integer_value
      (fun m => { m with torpedo1_coil3_on_timing := true }) s
  else if param.name = "torpedo2_coil1_on_timing_us" then
    torpedo2_parameter I torpedo_timing_type.COIL1_ON param.integer_value
      (fun m => { m with torpedo2_coil1_on_timing := true }) s
  else if param.name = "torpedo2_coil1_2_delay_timing_us" then
    torpedo2_parameter I torpedo_timing_type.COIL1_2_DELAY param.integer_value
      (fun m => { m with torpedo2_coil1_2_delay_timing := true }) s
  else if param.name = "torpedo2_coil2_on_timing_us" then
    torpedo2_parameter I torpedo_timing_type.COIL2_ON param.integer_value
      (fun m => { m with torpedo2_coil2_on_timing := true }) s
  else if param.name = "torpedo2_coil2_3_delay_timing_us" then
    torpedo2_parameter I torpedo_timing_type.COIL2_3_DELAY param.integer_value
      (fun m => { m with torpedo2_coil2_3_delay_timing := true }) s
  else if param.name = "torpedo2_coil3_on_timing_us" then
    torpedo2_parameter I torpedo_timing_type.COIL3_ON param.integer_value
      (fun m => { m with torpedo2_coil3_on_timing := true }) s
  else (false, s)

/-! ## Misc public methods -/

/-- Embeds `actuator_kill_report_refresh`. -/
def actuator_kill_report_refresh (I : Interface) (s : State) : State :=
  if !s.vars.actuator_initialized then s
  else if s.kill_switch_update_command.in_use then
    { s with vars.kill_switch_needs_refresh := true }
  else kill_switch_send I s

/-- Embeds `actuator_init`; the lifetime assertion is recorded in `assert_failed`,
and arming the poll alarm is left to the environment (`Event.poll_alarm`). -/
def actuator_init (I : Interface) (s : State) : State :=
  let s := { s with vars.assert_failed := s.vars.assert_failed || s.vars.actuator_initialized }
  let s := { s with vars.status_valid_timeout := s.vars.now }
  let s := { s with vars.actuator_initialized := true }
  let s := actuator_populate_command I CmdRef.status_command actuator_command.GET_STATUS
    (some actuator_cmd_response_cb_t.actuator_status_callback) false s
  actuator_populate_command I CmdRef.kill_switch_update_command actuator_command.KILL_SWITCH
    (some actuator_cmd_response_cb_t.actuator_kill_switch_update_callback) true s

/-! ## The bus driver's events and the executions of the program -/

/-- Modelled from the spec: the transfer queue's success event for the oldest
pending transfer (`async_i2c.c` is not among the sources). The bytes `rx`
read from the bus land in the receive buffer when the request asks for any,
the completion handler is invoked if present, then a chained next request
becomes the very next transfer, else the in-progress flag is cleared. When
the handler has stopped the program at a failed assertion, nothing follows
it. -/
def async_i2c_transfer_done (I : Interface) (rx : actuator_i2c_response_t) (s : State) : State :=
  match s.vars.i2c_queue with
  | [] => s
  | cmd :: rest =>
    let s := { s with vars.i2c_queue := rest }
    let req := (s.cmd cmd).i2c_request
    let s :=
      match req.rx_buffer with
      | some buf =>
        if req.bytes_to_receive > 0 then s.modifyCmd buf fun c => { c with response := rx } else s
      | none => s
    let s :=
      match req.completed_callback with
      | some async_i2c_cb_t.actuator_command_done => actuator_command_done I req s
      | none => s
    if s.vars.assert_failed then s
    else
      match req.next_req_on_success with
      | some next => { s with vars.i2c_queue := next :: s.vars.i2c_queue }
      | none => s.modifyCmd cmd fun c => { c with i2c_in_progress := false }

/-- Modelled from the spec: the transfer queue's failure event (NACK,
arbitration loss, timeout) for the oldest pending transfer: the failure
handler is invoked with the diagnostic code if present and the in-progress
flag is cleared. -/
def async_i2c_transfer_failed (I : Interface) (abort_data : Nat) (s : State) : State :=
  match s.vars.i2c_queue with
  | [] => s
  | cmd :: rest =>
    let s := { s with vars.i2c_queue := rest }
    let req := (s.cmd cmd).i2c_request
    let s :=
      match req.failed_callback with
      | some async_i2c_abort_cb_t.actuator_command_failed =>
        actuator_command_failed I req abort_data s
      | none => s
    s.modifyCmd cmd fun c => { c with i2c_in_progress := false }

/-- What can happen to the program: calls of its entry points and events of
its environment. -/
inductive Event
  | actuator_init
  | safety_init
  | clock (dt : Nat)
  | kill_state (asserting_kill : Bool)
  | raise_fault (fault_id : Nat)
  | lower_fault (fault_id : Nat)
  | open_claw (heap : actuator_cmd_data_t)
  | close_claw (heap : actuator_cmd_data_t)
  | set_claw_timings (heap : actuator_cmd_data_t) (open_time_ms close_time_ms : Nat)
  | arm_torpedo (heap : actuator_cmd_data_t)
  | disarm_torpedo (heap : actuator_cmd_data_t)
  | fire_torpedo (heap : actuator_cmd_data_t) (torpedo_id : Nat)
  | set_torpedo_timings (heap : actuator_cmd_data_t) (torpedo_id : Nat)
      (timing_type : torpedo_timing_type) (time_us : Nat)
  | drop_marker (heap : actuator_cmd_data_t) (dropper_id : Nat)
  | clear_dropper_status (heap : actuator_cmd_data_t)
  | set_dropper_timings (heap : actuator_cmd_data_t) (active_time_ms : Nat)
  | reset_actuators (heap : actuator_cmd_data_t)
  | parameter_change (param : Parameter)
  | poll_alarm
  | kill_report_refresh
  | transfer_done (rx : actuator_i2c_response_t)
  | transfer_failed (abort_data : Nat)
  deriving DecidableEq, Repr, Inhabited

/-- When an event can happen: `actuator_init` runs once, and the command
functions and the poll alarm only after it (`main` initialises the actuator
interface before it starts ROS, and `actuator_init` arms the alarm). -/
def Event.enabled (s : State) : Event → Bool
  | Event.actuator_init => !s.vars.actuator_initialized
  | Event.safety_init => !s.vars.safety_initialized
  | Event.clock _ => true
  | Event.kill_state _ => true
  | Event.raise_fault _ => true
  | Event.lower_fault _ => true
  | Event.parameter_change _ => true
  | Event.kill_report_refresh => true
  | Event.transfer_done _ => true
  | Event.transfer_failed _ => true
  | _ => s.vars.actuator_initialized

/-- The effect of an event. -/
def Event.apply (I : Interface) (s : State) : Event → State
  | Event.actuator_init => Titan.actuator_init I s
  | Event.safety_init => { s with vars.safety_initialized := true }
  | Event.clock dt => { s with vars.now := s.vars.now + dt }
  | Event.kill_state b => { s with vars.last_state_asserting_kill := b }
  | Event.raise_fault fault_id => safety_raise_fault fault_id s
  | Event.lower_fault fault_id => safety_lower_fault fault_id s
  | Event.open_claw heap => actuator_open_claw I heap s
  | Event.close_claw heap => actuator_close_claw I heap s
  | Event.set_claw_timings heap o c => actuator_set_claw_timings I heap o c s
  | Event.arm_torpedo heap => actuator_arm_torpedo I heap s
  | Event.disarm_torpedo heap => actuator_disarm_torpedo I heap s
  | Event.fire_torpedo heap n => actuator_fire_torpedo I heap n s
  | Event.set_torpedo_timings heap n ty t => actuator_set_torpedo_timings I heap n ty t s
  | Event.drop_marker heap n => actuator_drop_marker I heap n s
  | Event.clear_dropper_status heap => actuator_clear_dropper_status I heap s
  | Event.set_dropper_timings heap t => actuator_set_dropper_timings I heap t s
  | Event.reset_actuators heap => actuator_reset_actuators I heap s
  | Event.parameter_change param => (actuator_handle_parameter_change I param s).2
  | Event.poll_alarm => (actuator_poll_alarm_callback I s).2
  | Event.kill_report_refresh => actuator_kill_report_refresh I s
  | Event.transfer_done rx => async_i2c_transfer_done I rx s
  | Event.transfer_failed abort_data => async_i2c_transfer_failed I abort_data s

/-- One step of an execution: an enabled event takes effect, any other is
ignored; nothing happens any more once the program has stopped at a failed
assertion. -/
def step (I : Interface) (s : State) (e : Event) : State :=
  if s.vars.assert_failed then s
  else if e.enabled s then e.apply I s else s

/-- Run a sequence of events. -/
def run (I : Interface) (evs : List Event) (s : State) : State :=
  evs.foldl (step I) s

/-- The state at power-on: every static of `actuator.c` at its initialiser;
the clock, the fault list (it lives in a watchdog scratch register) and the
fault LED are whatever they are. -/
def boot (now fault_list : Nat) (fault_led : Bool) : State :=
  { vars := { now := now, fault_list := fault_list, fault_led := fault_led } }

/-- The states the program can be in. -/
def Reachable (I : Interface) (s : State) : Prop :=
  ∃ (now fault_list : Nat) (fault_led : Bool) (evs : List Event),
    s = run I evs (boot now fault_list fault_led)

/-! ## Scenarios -/

/-- The arguments of one call of `actuator_generate_command`. -/
structure GenerateArgs where
  heap : actuator_cmd_data_t
  cmd_id : actuator_command
  response_cb : Option actuator_cmd_response_cb_t
  deriving Repr, Inhabited

/-- Consecutive calls of `actuator_generate_command` with nothing in between
(no slot is released); the results are returned in call order. -/
def generate_commands (I : Interface) :
    List GenerateArgs → State → List (Option CmdRef) × State
  | [], s => ([], s)
  | a :: rest, s =>
    let r := actuator_generate_command I a.heap a.cmd_id a.response_cb s
    let rs := generate_commands I rest r.2
    (r.1 :: rs.1, rs.2)

/-- The transfer of slot `cmd` completes on the bus: the received bytes `rx`
are in the slot's response buffer and the driver invokes the completion
handler with the slot's request. -/
def transfer_completed (I : Interface) (cmd : CmdRef) (rx : actuator_i2c_response_t)
    (s : State) : State :=
  let s := s.modifyCmd cmd fun c => { c with response := rx }
  actuator_command_done I (s.cmd cmd).i2c_request s

/-- The transfer of slot `cmd` fails on the bus with diagnostic code
`abort_data`: the driver invokes the failure handler with the slot's request. -/
def transfer_aborted (I : Interface) (cmd : CmdRef) (abort_data : Nat) (s : State) : State :=
  actuator_command_failed I (s.cmd cmd).i2c_request abort_data s

/-- A concrete instance of the interface header for evaluating the model on
examples: every command frame is 4 bytes, every response 3 bytes, and the
checksums are simple sums (they stand in for the CRC of the real header). -/
def example_interface : Interface :=
  { ACTUATOR_GET_CMD_SIZE := fun _ => 4
    ACTUATOR_GET_RESPONSE_SIZE := fun _ => 3
    actuator_i2c_crc8_calc_command := fun r n =>
      r.data.claw_timing_open_time_ms + r.data.dropper_timing_active_time_ms
        + r.data.torpedo_timing_time_us + n
    actuator_i2c_crc8_calc_response := fun r n => r.result + r.status.version_major + n
    ACTUATOR_RESULT_SUCCESSFUL := 0
    ACTUATOR_RESULT_FAILED := 1
    ACTUATOR_EXPECTED_FIRMWARE_MAJOR := 1
    ACTUATOR_EXPECTED_FIRMWARE_MINOR := 0
    FAULT_ACTUATOR_FAIL := 3
    FAULT_NO_ACTUATOR := 4 }

/-! ## The resolver in the words of the specification -/

/-- The timing categories of the resolver, as the specification lists them. -/
inductive Category
  | claw
  | dropper
  | torpedo1 (ty : torpedo_timing_type)
  | torpedo2 (ty : torpedo_timing_type)
  deriving DecidableEq, Repr, Inhabited

/-- The remote device's configuration for the category is reported missing. -/
def Category.missing (m : missing_timings_status) : Category → Bool
  | Category.claw => m.claw_open_timing || m.claw_close_timing
  | Category.dropper => m.dropper_active_timing
  | Category.torpedo1 torpedo_timing_type.COIL1_ON => m.torpedo1_coil1_on_timing
  | Category.torpedo1 torpedo_timing_type.COIL1_2_DELAY => m.torpedo1_coil1_2_delay_timing
  | Category.torpedo1 torpedo_timing_type.COIL2_ON => m.torpedo1_coil2_on_timing
  | Category.torpedo1 torpedo_timing_type.COIL2_3_DELAY => m.torpedo1_coil2_3_delay_timing
  | Category.torpedo1 torpedo_timing_type.COIL3_ON => m.torpedo1_coil3_on_timing
  | Category.torpedo2 torpedo_timing_type.COIL1_ON => m.torpedo2_coil1_on_timing
  | Category.torpedo2 torpedo_timing_type.COIL1_2_DELAY => m.torpedo2_coil1_2_delay_timing
  | Category.torpedo2 torpedo_timing_type.COIL2_ON => m.torpedo2_coil2_on_timing
  | Category.torpedo2 torpedo_timing_type.COIL2_3_DELAY => m.torpedo2_coil2_3_delay_timing
  | Category.torpedo2 torpedo_timing_type.COIL3_ON => m.torpedo2_coil3_on_timing

/-- The cached timing entry of the category. -/
def Category.entry (v : Vars) : Category → timing_entry
  | Category.claw => v.claw_timing
  | Category.dropper => v.dropper_active_timing
  | Category.torpedo1 ty => v.torpedo1_timings.get ty
  | Category.torpedo2 ty => v.torpedo2_timings.get ty

/-- Missing on the remote device and locally configured. -/
def Category.qualifies (v : Vars) (c : Category) : Bool :=
  c.missing v.missing_timings && (c.entry v).set

/-- The fixed priority order of the specification. -/
def Category.priority : List Category :=
  [Category.claw, Category.dropper,
    Category.torpedo1 torpedo_timing_type.COIL1_ON,
    Category.torpedo1 torpedo_timing_type.COIL1_2_DELAY,
    Category.torpedo1 torpedo_timing_type.COIL2_ON,
    Category.torpedo1 torpedo_timing_type.COIL2_3_DELAY,
    Category.torpedo1 torpedo_timing_type.COIL3_ON,
    Category.torpedo2 torpedo_timing_type.COIL1_ON,
    Category.torpedo2 torpedo_timing_type.COIL1_2_DELAY,
    Category.torpedo2 torpedo_timing_type.COIL2_ON,
    Category.torpedo2 torpedo_timing_type.COIL2_3_DELAY,
    Category.torpedo2 torpedo_timing_type.COIL3_ON]

/-- The first category in priority order that is both missing and configured. -/
def first_qualifying (v : Vars) : Option Category :=
  Category.priority.find? (Category.qualifies v)

/-- Clearing the missing bit(s) of a category. -/
def Category.clear (m : missing_timings_status) : Category → missing_timings_status
  | Category.claw => { m with claw_open_timing := false, claw_close_timing := false }
  | Category.dropper => { m with dropper_active_timing := false }
  | Category.torpedo1 torpedo_timing_type.COIL1_ON => { m with torpedo1_coil1_on_timing := false }
  | Category.torpedo1 torpedo_timing_type.COIL1_2_DELAY =>
    { m with torpedo1_coil1_2_delay_timing := false }
  | Category.torpedo1 torpedo_timing_type.COIL2_ON => { m with torpedo1_coil2_on_timing := false }
  | Category.torpedo1 torpedo_timing_type.COIL2_3_DELAY =>
    { m with torpedo1_coil2_3_delay_timing := false }
  | Category.torpedo1 torpedo_timing_type.COIL3_ON => { m with torpedo1_coil3_on_timing := false }
  | Category.torpedo2 torpedo_timing_type.COIL1_ON => { m with torpedo2_coil1_on_timing := false }
  | Category.torpedo2 torpedo_timing_type.COIL1_2_DELAY =>
    { m with torpedo2_coil1_2_delay_timing := false }
  | Category.torpedo2 torpedo_timing_type.COIL2_ON => { m with torpedo2_coil2_on_timing := false }
  | Category.torpedo2 torpedo_timing_type.COIL2_3_DELAY =>
    { m with torpedo2_coil2_3_delay_timing := false }
  | Category.torpedo2 torpedo_timing_type.COIL3_ON => { m with torpedo2_coil3_on_timing := false }

/-- The set-timing command of a category as the specification describes it:
the command id of the category, carrying the cached value (and, for
torpedoes, the torpedo number and the timing type). -/
def Category.carried (v : Vars) (cat : Category) (f : actuator_i2c_cmd_t) : Prop :=
  match cat with
  | Category.claw =>
    f.cmd_id = actuator_command.CLAW_TIMING
      ∧ f.data.claw_timing_open_time_ms = v.claw_timing.timing
      ∧ f.data.claw_timing_close_time_ms = v.claw_timing.timing
  | Category.dropper =>
    f.cmd_id = actuator_command.DROPPER_TIMING
      ∧ f.data.dropper_timing_active_time_ms = v.dropper_active_timing.timing
  | Category.torpedo1 ty =>
    f.cmd_id = actuator_command.TORPEDO_TIMING
      ∧ f.data.torpedo_timing_torpedo_num = 1
      ∧ f.data.torpedo_timing_timing_type = ty
      ∧ f.data.torpedo_timing_time_us = (v.torpedo1_timings.get ty).timing
  | Category.torpedo2 ty =>
    f.cmd_id = actuator_command.TORPEDO_TIMING
      ∧ f.data.torpedo_timing_torpedo_num = 2
      ∧ f.data.torpedo_timing_timing_type = ty
      ∧ f.data.torpedo_timing_time_us = (v.torpedo2_timings.get ty).timing

/-- What the resolver does for a category once it is selected: the body of
the corresponding branch of `actuator_update_missing_timings_common` followed
by the common `actuator_send_command`. -/
def resolve_category (I : Interface) (cmd : CmdRef) (cat : Category) (s : State) : State :=
  match cat with
  | Category.claw =>
    let s := actuator_populate_command I cmd actuator_command.CLAW_TIMING
      (some actuator_cmd_response_cb_t.actuator_set_timing_general_cb) true s
    let s := s.modifyCmd cmd fun c =>
      { c with
        request :=
          { c.request with
            data :=
              { c.request.data with
                claw_timing_open_time_ms := s.vars.claw_timing.timing
                claw_timing_close_time_ms := s.vars.claw_timing.timing } } }
    let s := { s with
      vars.missing_timings := Category.clear s.vars.missing_timings Category.claw }
    actuator_send_command I cmd s
  | Category.dropper =>
    let s := actuator_populate_command I cmd actuator_command.DROPPER_TIMING
      (some actuator_cmd_response_cb_t.actuator_set_timing_general_cb) true s
    let s := s.modifyCmd cmd fun c =>
      { c with
        request :=
          { c.request with
            data :=
              { c.request.data with
                dropper_timing_active_time_ms := s.vars.dropper_active_timing.timing } } }
    let s := { s with
      vars.missing_timings := Category.clear s.vars.missing_timings Category.dropper }
    actuator_send_command I cmd s
  | Category.torpedo1 ty =>
    let s := torpedo_timing_request I cmd 1 ty (s.vars.torpedo1_timings.get ty).timing s
    let s := { s with
      vars.missing_timings := Category.clear s.vars.missing_timings (Category.torpedo1 ty) }
    actuator_send_command I cmd s
  | Category.torpedo2 ty =>
    let s := torpedo_timing_request I cmd 2 ty (s.vars.torpedo2_timings.get ty).timing s
    let s := { s with
      vars.missing_timings := Category.clear s.vars.missing_timings (Category.torpedo2 ty) }
    actuator_send_command I cmd s

/-- The resolver in the words of the specification: resolve the first
qualifying category if there is one. -/
def resolver_spec (I : Interface) (cmd : CmdRef) (s : State) : Bool × State :=
  match first_qualifying s.vars with
  | none => (false, s)
  | some cat => (true, resolve_category I cmd cat s)

/-! ## Example states -/

/-- A response frame that the example interface accepts: result code
successful, firmware version 0, checksum 0 + 0 + 3. -/
def example_rx_ok : actuator_i2c_response_t := { crc8 := 3, result := 0 }

/-- A response frame whose checksum byte is wrong for the example interface. -/
def example_rx_corrupt : actuator_i2c_response_t := { crc8 := 9, result := 0 }

/-- After power-on and `actuator_init`. -/
def example_booted : State :=
  run example_interface [Event.actuator_init] (boot 0 0 false)

/-- The first status poll is on the bus. -/
def example_polling : State :=
  run example_interface [Event.actuator_init, Event.poll_alarm] (boot 0 0 false)

/-- Two pool slots have been constructed and both commands have completed:
open-claw and close-claw were requested back to back and both were answered. -/
def example_pool_two_free : State :=
  run example_interface
    [Event.actuator_init, Event.open_claw default, Event.close_claw default,
      Event.transfer_done example_rx_ok, Event.transfer_done example_rx_ok]
    (boot 0 0 false)

/-- The parameter `dropper_active_timing_ms` has just been set to 250: its
set-timing command is on the bus. -/
def example_dropper_sent : State :=
  run example_interface
    [Event.actuator_init,
      Event.parameter_change
        { name := "dropper_active_timing_ms", value_type := rclc_parameter_type.INT,
          integer_value := 250 }]
    (boot 0 0 false)

/-- The claw timing was set to 4500 while the dropper command of
`example_dropper_sent` was on the bus, and that command then failed on the
bus: the claw timing is configured, both claw bits are missing and the timing
slot is free. -/
def example_claw_missing : State :=
  run example_interface
    [Event.parameter_change
        { name := "claw_timing_ms", value_type := rclc_parameter_type.INT,
          integer_value := 4500 },
      Event.transfer_failed 1]
    example_dropper_sent

/-- The status poll of `example_polling` has been answered and the frame in
the receive buffer is intact. -/
def example_status_answered : State :=
  example_polling.modifyCmd CmdRef.status_command fun c => { c with response := example_rx_ok }

/-- The status poll of `example_polling` has been answered and the frame in
the receive buffer has a wrong checksum byte. -/
def example_status_corrupt : State :=
  example_polling.modifyCmd CmdRef.status_command fun c =>
    { c with response := example_rx_corrupt }

/-! ## Vocabulary for the resolver, status and poll theorems -/

/-- A frame is a set-timing command addressed to the category: the command id
of the category and, for torpedoes, its torpedo number and timing type. -/
def Category.addressed (cat : Category) (f : actuator_i2c_cmd_t) : Prop :=
  match cat with
  | Category.claw => f.cmd_id = actuator_command.CLAW_TIMING
  | Category.dropper => f.cmd_id = actuator_command.DROPPER_TIMING
  | Category.torpedo1 ty =>
    f.cmd_id = actuator_command.TORPEDO_TIMING
      ∧ f.data.torpedo_timing_torpedo_num = 1
      ∧ f.data.torpedo_timing_timing_type = ty
  | Category.torpedo2 ty =>
    f.cmd_id = actuator_command.TORPEDO_TIMING
      ∧ f.data.torpedo_timing_torpedo_num = 2
      ∧ f.data.torpedo_timing_timing_type = ty

/-- The missing bits of a category: the open and the close bit for the claw,
the single bit of the entry otherwise. -/
def Category.bits (m : missing_timings_status) (cat : Category) : List Bool :=
  match cat with
  | Category.claw => [m.claw_open_timing, m.claw_close_timing]
  | c => [c.missing m]

instance (cat : Category) (f : actuator_i2c_cmd_t) : Decidable (cat.addressed f) := by
  cases cat <;> simp only [Category.addressed] <;> infer_instance

/-- The test at the top of `actuator_status_callback`: the response is
rejected for its firmware version. -/
def status_version_rejected (I : Interface) (status : actuator_i2c_status) : Prop :=
  status.version_major ≠ I.ACTUATOR_EXPECTED_FIRMWARE_MAJOR
    ∧ status.version_major ≠ I.ACTUATOR_EXPECTED_FIRMWARE_MINOR

instance (I : Interface) (status : actuator_i2c_status) :
    Decidable (status_version_rejected I status) := by
  unfold status_version_rejected; infer_instance

/-- The accepting branch of `actuator_status_callback` up to (not including)
the missing-timings merge: snapshot, staleness deadline and the opportunistic
kill-switch refresh. -/
def status_accept_head (I : Interface) (cmd : CmdRef) (s : State) : State :=
  let status := (s.cmd cmd).response.status
  let s := { s with vars.actuator_last_status := status }
  let s := { s with
    vars.status_valid_timeout := make_timeout_time_ms ACTUATOR_MAX_STATUS_AGE_MS s }
  if s.vars.safety_initialized then
    if !s.kill_switch_update_command.in_use then kill_switch_send I s else s
  else s

/-- Every bit set in `a` is set in `b`: each of the named bits, and each bit
of the rest of the word. -/
def missing_timings_status.le (a b : missing_timings_status) : Prop :=
  (a.claw_open_timing = true → b.claw_open_timing = true)
    ∧ (a.claw_close_timing = true → b.claw_close_timing = true)
    ∧ (a.dropper_active_timing = true → b.dropper_active_timing = true)
    ∧ (a.torpedo1_coil1_on_timing = true → b.torpedo1_coil1_on_timing = true)
    ∧ (a.torpedo1_coil1_2_delay_timing = true → b.torpedo1_coil1_2_delay_timing = true)
    ∧ (a.torpedo1_coil2_on_timing = true → b.torpedo1_coil2_on_timing = true)
    ∧ (a.torpedo1_coil2_3_delay_timing = true → b.torpedo1_coil2_3_delay_timing = true)
    ∧ (a.torpedo1_coil3_on_timing = true → b.torpedo1_coil3_on_timing = true)
    ∧ (a.torpedo2_coil1_on_timing = true → b.torpedo2_coil1_on_timing = true)
    ∧ (a.torpedo2_coil1_2_delay_timing = true → b.torpedo2_coil1_2_delay_timing = true)
    ∧ (a.torpedo2_coil2_on_timing = true → b.torpedo2_coil2_on_timing = true)
    ∧ (a.torpedo2_coil2_3_delay_timing = true → b.torpedo2_coil2_3_delay_timing = true)
    ∧ (a.torpedo2_coil3_on_timing = true → b.torpedo2_coil3_on_timing = true)
    ∧ a.spare &&& b.spare = a.spare

instance (a b : missing_timings_status) : Decidable (a.le b) := by
  unfold missing_timings_status.le; infer_instance

/-- The first statement of `actuator_poll_alarm_callback`: from the second
poll on, `FAULT_NO_ACTUATOR` is raised or lowered by the connectivity; the
first poll only records that a poll happened. -/
def poll_connectivity (I : Interface) (s : State) : State :=
  if s.vars.actuator_has_been_polled then
    if !actuator_is_connected s then safety_raise_fault I.FAULT_NO_ACTUATOR s
    else safety_lower_fault I.FAULT_NO_ACTUATOR s
  else { s with vars.actuator_has_been_polled := true }

/-! ## Example states for the status, resolver and poll theorems -/

/-- A status response frame of the expected firmware version 1.0 that reports
no missing timing; its checksum is right for the example interface. -/
def example_rx_status : actuator_i2c_response_t :=
  { crc8 := 4, result := 0, status := { version_major := 1, version_minor := 0 } }

/-- A status response frame of firmware version 7.0, which the example
interface does not expect; its checksum is right for the example interface. -/
def example_rx_version7 : actuator_i2c_response_t :=
  { crc8 := 10, result := 0, status := { version_major := 7, version_minor := 0 } }

/-- A status poll has been answered with firmware version 7.0 and rejected,
`FAULT_ACTUATOR_FAIL` (3 in the example interface) has then been lowered, and
the next status poll is on the bus. -/
def example_rejected_once : State :=
  run example_interface
    [Event.actuator_init, Event.poll_alarm, Event.transfer_done example_rx_version7,
      Event.lower_fault 3, Event.poll_alarm]
    (boot 0 0 false)

/-- In the state `example_claw_missing` (claw timing configured, both claw
bits missing, timing slot free) the next status poll is on the bus. -/
def example_claw_missing_polling : State :=
  run example_interface [Event.poll_alarm] example_claw_missing

/-- The status poll of `example_rejected_once` has been answered with firmware
version 7.0 again. -/
def example_rejected_twice : State :=
  transfer_completed example_interface CmdRef.status_command example_rx_version7
    example_rejected_once

/-- The status poll of `example_claw_missing_polling` has been answered by a
device of the expected firmware version that reports no missing timing, and
the frame is in the receive buffer. -/
def example_claw_missing_answered : State :=
  example_claw_missing_polling.modifyCmd CmdRef.status_command fun c =>
    { c with response := example_rx_status }

/-- The clock has advanced by 2 s since the first status poll, which is still
unanswered. -/
def example_poll_stalled : State :=
  run example_interface [Event.clock 2000000] example_polling

/-- A status response frame of the expected firmware version 1.0 that reports
the claw open timing as missing; its checksum is right for the example
interface. -/
def example_rx_claw_reported : actuator_i2c_response_t :=
  { crc8 := 4, result := 0,
    status :=
      { version_major := 1, version_minor := 0,
        missing_timings := { claw_open_timing := true } } }

/-- The device has reported the claw timing as missing while nothing was
configured; then the dropper timing was set (its command went on the bus),
the torpedo 1 coil 1 timing was set while that command was in flight, and the
dropper command failed on the bus. The claw entry is missing but not
configured, the torpedo entry is missing and configured, and the timing slot
is free. -/
def example_claw_unconfigured : State :=
  run example_interface
    [Event.actuator_init, Event.poll_alarm, Event.transfer_done example_rx_claw_reported,
      Event.parameter_change
        { name := "dropper_active_timing_ms", value_type := rclc_parameter_type.INT,
          integer_value := 250 },
      Event.parameter_change
        { name := "torpedo1_coil1_on_timing_us", value_type := rclc_parameter_type.INT,
          integer_value := 100 },
      Event.transfer_failed 1]
    (boot 0 0 false)

/-- The claw timing was set to 4500 while the dropper command of
`example_dropper_sent` was on the bus, and that command has now been answered
with a successful result; the frame is in the receive buffer. -/
def example_dropper_answered : State :=
  (run example_interface
    [Event.parameter_change
      { name := "claw_timing_ms", value_type := rclc_parameter_type.INT,
        integer_value := 4500 }]
    example_dropper_sent).modifyCmd CmdRef.set_timing_command fun c =>
      { c with response := example_rx_ok }

/-- The status poll of `example_polling` has been answered with firmware
version 7.0; the frame is in the receive buffer. -/
def example_status_version7 : State :=
  example_polling.modifyCmd CmdRef.status_command fun c =>
    { c with response := example_rx_version7 }

/-- The status poll of `example_polling` has been answered with the expected
firmware version; the frame is in the receive buffer. -/
def example_status_accepted : State :=
  example_polling.modifyCmd CmdRef.status_command fun c =>
    { c with response := example_rx_status }

/-- The status poll of `example_claw_missing_polling` has been answered by a
device that reports the claw open timing as missing; the frame is in the
receive buffer. -/
def example_claw_missing_reported : State :=
  example_claw_missing_polling.modifyCmd CmdRef.status_command fun c =>
    { c with response := example_rx_claw_reported }

/-! ## Vocabulary for the kill-switch, parameter and command theorems -/

/-- The timing cache: the four cached timing variables. -/
def Vars.timing_cache (v : Vars) :
    torpedo_timings × torpedo_timings × timing_entry × timing_entry :=
  (v.torpedo1_timings, v.torpedo2_timings, v.claw_timing, v.dropper_active_timing)

/-- The variables that every function of `actuator.c` other than
`actuator_handle_parameter_change` and `actuator_init` only reads: the timing
cache, the two initialised flags, the sampled kill state and the clock. -/
def Vars.config (v : Vars) :
    (torpedo_timings × torpedo_timings × timing_entry × timing_entry)
      × Bool × Bool × Bool × Nat :=
  (v.timing_cache, v.actuator_initialized, v.safety_initialized, v.last_state_asserting_kill,
    v.now)

/-- The fields of a slot that only `actuator_populate_command` writes: the
command id, the response handler, the importance flag and the embedded
transfer request. -/
def actuator_cmd_data_t.wiring (c : actuator_cmd_data_t) :
    actuator_command × Option actuator_cmd_response_cb_t × Bool × async_i2c_request :=
  (c.request.cmd_id, c.response_cb, c.important_request, c.i2c_request)

/-- The transfer request that `actuator_populate_command` writes into the slot
`cmd` for the command id `cmd_id`. -/
def populated_request (I : Interface) (cmd : CmdRef) (cmd_id : actuator_command) :
    async_i2c_request :=
  { i2c_is_actuator_bus := true
    address_is_actuator := true
    nostop := false
    tx_buffer := some cmd
    rx_buffer := some cmd
    bytes_to_send := I.ACTUATOR_GET_CMD_SIZE cmd_id % 65536
    bytes_to_receive := I.ACTUATOR_GET_RESPONSE_SIZE cmd_id % 65536
    completed_callback := some async_i2c_cb_t.actuator_command_done
    failed_callback := some async_i2c_abort_cb_t.actuator_command_failed
    next_req_on_success := none
    user_data := some cmd }

/-- The two static slots that `actuator_init` populates are as it left them. -/
def State.wired (I : Interface) (s : State) : Prop :=
  s.status_command.wiring
      = (actuator_command.GET_STATUS,
          some actuator_cmd_response_cb_t.actuator_status_callback, false,
          populated_request I CmdRef.status_command actuator_command.GET_STATUS)
    ∧ s.kill_switch_update_command.wiring
      = (actuator_command.KILL_SWITCH,
          some actuator_cmd_response_cb_t.actuator_kill_switch_update_callback, true,
          populated_request I CmdRef.kill_switch_update_command actuator_command.KILL_SWITCH)

instance (I : Interface) (s : State) : Decidable (s.wired I) := by
  unfold State.wired; infer_instance

/-! ## Parameter changes in the words of the specification -/

/-- The parameter name of a timing category (the 12 names that
`actuator_handle_parameter_change` compares with). -/
def Category.parameter_name : Category → String
  | Category.claw => "claw_timing_ms"
  | Category.dropper => "dropper_active_timing_ms"
  | Category.torpedo1 torpedo_timing_type.COIL1_ON => "torpedo1_coil1_on_timing_us"
  | Category.torpedo1 torpedo_timing_type.COIL1_2_DELAY => "torpedo1_coil1_2_delay_timing_us"
  | Category.torpedo1 torpedo_timing_type.COIL2_ON => "torpedo1_coil2_on_timing_us"
  | Category.torpedo1 torpedo_timing_type.COIL2_3_DELAY => "torpedo1_coil2_3_delay_timing_us"
  | Category.torpedo1 torpedo_timing_type.COIL3_ON => "torpedo1_coil3_on_timing_us"
  | Category.torpedo2 torpedo_timing_type.COIL1_ON => "torpedo2_coil1_on_timing_us"
  | Category.torpedo2 torpedo_timing_type.COIL1_2_DELAY => "torpedo2_coil1_2_delay_timing_us"
  | Category.torpedo2 torpedo_timing_type.COIL2_ON => "torpedo2_coil2_on_timing_us"
  | Category.torpedo2 torpedo_timing_type.COIL2_3_DELAY => "torpedo2_coil2_3_delay_timing_us"
  | Category.torpedo2 torpedo_timing_type.COIL3_ON => "torpedo2_coil3_on_timing_us"

/-- The timing category a parameter name designates, if any. -/
def Category.of_parameter_name (name : String) : Option Category :=
  Category.priority.find? fun cat => decide (name = cat.parameter_name)

/-- Setting the missing bit(s) of a category. -/
def Category.mark (m : missing_timings_status) : Category → missing_timings_status
  | Category.claw => { m with claw_open_timing := true, claw_close_timing := true }
  | Category.dropper => { m with dropper_active_timing := true }
  | Category.torpedo1 torpedo_timing_type.COIL1_ON => { m with torpedo1_coil1_on_timing := true }
  | Category.torpedo1 torpedo_timing_type.COIL1_2_DELAY =>
    { m with torpedo1_coil1_2_delay_timing := true }
  | Category.torpedo1 torpedo_timing_type.COIL2_ON => { m with torpedo1_coil2_on_timing := true }
  | Category.torpedo1 torpedo_timing_type.COIL2_3_DELAY =>
    { m with torpedo1_coil2_3_delay_timing := true }
  | Category.torpedo1 torpedo_timing_type.COIL3_ON => { m with torpedo1_coil3_on_timing := true }
  | Category.torpedo2 torpedo_timing_type.COIL1_ON => { m with torpedo2_coil1_on_timing := true }
  | Category.torpedo2 torpedo_timing_type.COIL1_2_DELAY =>
    { m with torpedo2_coil1_2_delay_timing := true }
  | Category.torpedo2 torpedo_timing_type.COIL2_ON => { m with torpedo2_coil2_on_timing := true }
  | Category.torpedo2 torpedo_timing_type.COIL2_3_DELAY =>
    { m with torpedo2_coil2_3_delay_timing := true }
  | Category.torpedo2 torpedo_timing_type.COIL3_ON => { m with torpedo2_coil3_on_timing := true }

/-- Writing the cached timing entry of a category. -/
def Category.put_entry (v : Vars) (cat : Category) (e : timing_entry) : Vars :=
  match cat with
  | Category.claw => { v with claw_timing := e }
  | Category.dropper => { v with dropper_active_timing := e }
  | Category.torpedo1 ty => { v with torpedo1_timings := v.torpedo1_timings.put ty e }
  | Category.torpedo2 ty => { v with torpedo2_timings := v.torpedo2_timings.put ty e }

/-- What an accepted configuration change does before the resolver runs, in
the words of the specification: store the new value, mark the entry
configured, set the corresponding missing bit(s). -/
def Category.configure (cat : Category) (t : Nat) (s : State) : State :=
  { s with
    vars :=
      { (cat.put_entry s.vars { timing := t, set := true }) with
        missing_timings := cat.mark s.vars.missing_timings } }

/-- The function `actuator_handle_parameter_change` in the words of the
specification: a named timing value is validated as a nonzero 16-bit
quantity; an accepted value is stored, marked configured and missing, and the
resolver is invoked; anything else is rejected and changes nothing. -/
def parameter_change_spec (I : Interface) (param : Parameter) (s : State) : Bool × State :=
  if s.vars.actuator_initialized = true ∧ param.value_type = rclc_parameter_type.INT then
    match Category.of_parameter_name param.name with
    | none => (false, s)
    | some cat =>
      if 0 < param.integer_value ∧ param.integer_value < 65536 then
        (true, actuator_update_missing_timings I (cat.configure param.integer_value.toNat s))
      else (false, s)
  else (false, s)

/-! ## The kill-switch coalescing scenario -/

/-- What may happen while a kill-switch transfer is in flight, as far as the
coalescing scenario goes: a further refresh request, or a status response
being handled. -/
inductive WindowEvent
  | refresh
  | status_response (rx : actuator_i2c_response_t)
  deriving DecidableEq, Repr, Inhabited

/-- The effect of a window event. -/
def WindowEvent.apply (I : Interface) (s : State) : WindowEvent → State
  | WindowEvent.refresh => actuator_kill_report_refresh I s
  | WindowEvent.status_response rx => transfer_completed I CmdRef.status_command rx s

/-- The number of kill-switch transfers handed to the bus driver so far. -/
def kill_switch_transfers (s : State) : Nat :=
  (s.vars.i2c_trace.filter fun t => decide (t.cmd = CmdRef.kill_switch_update_command)).length

/-- A response frame that completes a kill-switch transfer successfully: its
checksum is right for the response length of the kill-switch command and its
result code is the successful one. -/
def kill_switch_response_ok (I : Interface) (rx : actuator_i2c_response_t) : Prop :=
  (I.ACTUATOR_GET_RESPONSE_SIZE actuator_command.KILL_SWITCH % 65536 = 0
      ∨ I.actuator_i2c_crc8_calc_response rx
          (I.ACTUATOR_GET_RESPONSE_SIZE actuator_command.KILL_SWITCH % 65536) % 256 = rx.crc8)
    ∧ rx.result = I.ACTUATOR_RESULT_SUCCESSFUL

instance (I : Interface) (rx : actuator_i2c_response_t) :
    Decidable (kill_switch_response_ok I rx) := by
  unfold kill_switch_response_ok; infer_instance

/-- Nothing has happened to the kill-switch protocol between `s` and `t`: the
kill-switch slot, the needs-refresh flag and the number of kill-switch
transfers are the same. -/
def kill_switch_quiet (s t : State) : Prop :=
  t.kill_switch_update_command = s.kill_switch_update_command
    ∧ t.vars.kill_switch_needs_refresh = s.vars.kill_switch_needs_refresh
    ∧ kill_switch_transfers t = kill_switch_transfers s

/-- The coalescing scenario: a refresh request, then the window events while
its transfer is in flight, then that transfer completes with `rx1`, and if the
slot is still in use after that, the follow-up transfer completes with
`rx2`. -/
def coalescing_scenario (I : Interface) (window : List WindowEvent)
    (rx1 rx2 : actuator_i2c_response_t) (s : State) : State :=
  let s := actuator_kill_report_refresh I s
  let s := window.foldl (fun s e => e.apply I s) s
  let s := transfer_completed I CmdRef.kill_switch_update_command rx1 s
  if s.kill_switch_update_command.in_use then
    transfer_completed I CmdRef.kill_switch_update_command rx2 s
  else s

/-! ## The public command functions as requests -/

/-- The command id a public command function sends and what it writes into
the payload (arguments are cast to the C type of the parameter); `none` for
the events that are not public command functions. -/
def Event.request : Event → Option (actuator_command × (cmd_payload → Prop))
  | Event.open_claw _ => some (actuator_command.OPEN_CLAW, fun _ => True)
  | Event.close_claw _ => some (actuator_command.CLOSE_CLAW, fun _ => True)
  | Event.set_claw_timings _ o c =>
    some (actuator_command.CLAW_TIMING, fun d =>
      d.claw_timing_open_time_ms = o % 65536 ∧ d.claw_timing_close_time_ms = c % 65536)
  | Event.arm_torpedo _ => some (actuator_command.ARM_TORPEDO, fun _ => True)
  | Event.disarm_torpedo _ => some (actuator_command.DISARM_TORPEDO, fun _ => True)
  | Event.fire_torpedo _ n =>
    some (actuator_command.FIRE_TORPEDO, fun d => d.fire_torpedo_torpedo_num = n % 256)
  | Event.set_torpedo_timings _ n ty t =>
    some (actuator_command.TORPEDO_TIMING, fun d =>
      d.torpedo_timing_torpedo_num = n % 256 ∧ d.torpedo_timing_timing_type = ty
        ∧ d.torpedo_timing_time_us = t % 65536)
  | Event.drop_marker _ n =>
    some (actuator_command.DROP_MARKER, fun d => d.drop_marker_dropper_num = n % 256)
  | Event.clear_dropper_status _ => some (actuator_command.CLEAR_DROPPER_STATUS, fun _ => True)
  | Event.set_dropper_timings _ t =>
    some (actuator_command.DROPPER_TIMING, fun d =>
      d.dropper_timing_active_time_ms = t % 65536)
  | Event.reset_actuators _ => some (actuator_command.RESET_ACTUATORS, fun _ => True)
  | _ => none

/-- The slot pool is exhausted: 8 slots are constructed and all are in use. -/
def State.pool_exhausted (s : State) : Prop :=
  (∀ c ∈ s.allocated_commands, c.in_use = true)
    ∧ ACTUATOR_MAX_COMMANDS ≤ s.allocated_commands.length

instance (s : State) : Decidable s.pool_exhausted := by
  unfold State.pool_exhausted; infer_instance

/-! ## Example states for the kill-switch and command theorems -/

/-- A response frame with result code 2, which is neither the successful nor
the failed code of the example interface; its checksum is right for the
example interface. -/
def example_rx_result2 : actuator_i2c_response_t := { crc8 := 5, result := 2 }

/-- The command `actuator_open_claw` has been requested after `actuator_init`:
its transfer, on pool slot 0, is on the bus. -/
def example_claw_sent : State :=
  run example_interface [Event.actuator_init, Event.open_claw default] (boot 0 0 false)

/-- A response frame with the failed result code; its checksum is right for
the example interface. -/
def example_rx_failed : actuator_i2c_response_t := { crc8 := 4, result := 1 }

/-- After `actuator_init` and `safety_init`. -/
def example_safety_booted : State :=
  run example_interface [Event.actuator_init, Event.safety_init] (boot 0 0 false)

/-- Two refresh requests were made after `actuator_init` and `safety_init`:
the first started a kill-switch transfer, the second found the slot in use
and set the needs-refresh flag; the transfer has now been answered and the
frame is in the receive buffer. -/
def example_kill_answered : State :=
  (run example_interface
    [Event.actuator_init, Event.safety_init, Event.kill_report_refresh,
      Event.kill_report_refresh]
    (boot 0 0 false)).modifyCmd CmdRef.kill_switch_update_command fun c =>
      { c with response := example_rx_ok }

/-- The open-claw command of `example_claw_sent` has been answered with the
failed result code; the frame is in the receive buffer. -/
def example_claw_failed : State :=
  example_claw_sent.modifyCmd (CmdRef.allocated 0) fun c =>
    { c with response := example_rx_failed }

/-! ## Calls of the fault interface -/

/-- A call of one of the two fault functions of `safety.c`. -/
inductive FaultCall
  | raise (fault_id : Nat)
  | lower (fault_id : Nat)
  deriving DecidableEq, Repr, Inhabited

/-- The fault id a call is made with. -/
def FaultCall.fault_id : FaultCall → Nat
  | FaultCall.raise fault_id => fault_id
  | FaultCall.lower fault_id => fault_id

/-- The effect of a call: `safety_raise_fault` or `safety_lower_fault`. -/
def FaultCall.apply (s : State) : FaultCall → State
  | FaultCall.raise fault_id => safety_raise_fault fault_id s
  | FaultCall.lower fault_id => safety_lower_fault fault_id s

/-! ## `safety.c`: kill switch management -/

/-- The fields of `struct kill_switch_state` that `safety.c` reads and writes
(the declaration is in `safety/safety.h`). -/
structure kill_switch_state where
  enabled : Bool := false
  asserting_kill : Bool := false
  needs_update : Bool := false
  update_timeout : Nat := 0
  deriving DecidableEq, Repr, Inhabited

/-- The two callbacks that `safety.c` declares and leaves to the code using
the library. -/
inductive SafetyCallback
  | safety_kill_robot
  | safety_enable_robot
  deriving DecidableEq, Repr, Inhabited

/-- Lines written by the kill switch management through `LOG_DEBUG`. -/
inductive SafetyLogMsg
  | disabling_robot
  | enabling_robot
  deriving DecidableEq, Repr, Inhabited

/-- The variables of the kill switch management of `safety.c`: the array
`kill_switch_states` (its length is `num_kill_switches`), the two statics, the
clock, and two observation fields: the callbacks invoked and the lines
logged, in order. -/
structure SafetyState where
  kill_switch_states : List kill_switch_state := []
  last_kill_switch_change : Nat := 0
  last_state_asserting_kill : Bool := true
  now : Nat := 0
  callbacks : List SafetyCallback := []
  log : List SafetyLogMsg := []
  deriving DecidableEq, Repr, Inhabited

/-- Embeds `safety_local_kill_robot`. -/
def safety_local_kill_robot (s : SafetyState) : SafetyState :=
  let s := { s with last_state_asserting_kill := true }
  let s := { s with last_kill_switch_change := s.now }
  let s := { s with callbacks := s.callbacks ++ [SafetyCallback.safety_kill_robot] }
  { s with log := s.log ++ [SafetyLogMsg.disabling_robot] }

/-- The test of the loop body of `safety_refresh_kill_switches` on an enabled
switch: `asserting_kill || (needs_update && absolute_time_diff_us(now,
update_timeout) < 0)`. -/
def kill_switch_state.kills (now : Nat) (k : kill_switch_state) : Bool :=
  k.asserting_kill
    || (k.needs_update && decide (absolute_time_diff_us_int64 now k.update_timeout < 0))

/-- The `for` loop of `safety_refresh_kill_switches` from index `i` on, where
the list holds `kill_switch_states[i ..]`; the result is the pair of the
locals `asserting_kill` and `num_switches_enabled` when the loop is left
(through its `break` or at the end of the array). -/
def kill_switch_scan (now : Nat) : List kill_switch_state → Nat → Bool × Nat
  | [], num_switches_enabled => (false, num_switches_enabled)
  | k :: rest, num_switches_enabled =>
    if k.enabled then
      if k.kills now then (true, num_switches_enabled + 1)
      else kill_switch_scan now rest (num_switches_enabled + 1)
    else kill_switch_scan now rest num_switches_enabled

/-- The local `asserting_kill` of `safety_refresh_kill_switches` when the
update of the last state is reached: the result of the loop, forced to true
when no switch is enabled. -/
def kill_switches_asserting (now : Nat) (ks : List kill_switch_state) : Bool :=
  let r := kill_switch_scan now ks 0
  if r.2 = 0 then true else r.1

/-- Embeds `safety_refresh_kill_switches`. -/
def safety_refresh_kill_switches (s : SafetyState) : SafetyState :=
  let now := s.now
  let asserting_kill := kill_switches_asserting now s.kill_switch_states
  if s.last_state_asserting_kill != asserting_kill then
    let s := { s with last_state_asserting_kill := asserting_kill }
    if asserting_kill then safety_local_kill_robot s
    else
      let s := { s with log := s.log ++ [SafetyLogMsg.enabling_robot] }
      let s := { s with last_kill_switch_change := s.now }
      { s with callbacks := s.callbacks ++ [SafetyCallback.safety_enable_robot] }
  else s

/-- A kill switch forces the kill state in the words of the specification: it
is asserting kill, or it requires updates and its update timeout lies strictly
before the current time. -/
def kill_switch_state.triggers (now : Nat) (k : kill_switch_state) : Prop :=
  k.asserting_kill = true ∨ (k.needs_update = true ∧ k.update_timeout < now)

instance (now : Nat) (k : kill_switch_state) : Decidable (k.triggers now) := by
  unfold kill_switch_state.triggers; infer_instance

/-- The asserting-kill state in the words of the specification: no kill
switch is enabled, or some enabled switch forces the kill state. -/
def asserting_kill_spec (now : Nat) (ks : List kill_switch_state) : Prop :=
  (∀ k ∈ ks, k.enabled = false) ∨ ∃ k ∈ ks, k.enabled = true ∧ k.triggers now

/-- A switch array and a clock reading as the timer can give them: the clock
and every update timeout are below 2^63 microseconds, so that the 64-bit
difference of two of them does not wrap. -/
def kill_switch_times_bounded (now : Nat) (ks : List kill_switch_state) : Prop :=
  now < 2 ^ 63 ∧ ∀ k ∈ ks, k.update_timeout < 2 ^ 63

instance (now : Nat) (ks : List kill_switch_state) :
    Decidable (kill_switch_times_bounded now ks) := by
  unfold kill_switch_times_bounded; infer_instance

/-- Three kill switches at clock reading 5 s: one that is not enabled, one
that requires updates and whose timeout is 2 s away, and one that requires
updates and whose timeout passed 1 s ago; the robot was enabled. -/
def example_safety_state : SafetyState :=
  { kill_switch_states :=
      [{ enabled := false, asserting_kill := true },
        { enabled := true, needs_update := true, update_timeout := 7000000 },
        { enabled := true, needs_update := true, update_timeout := 4000000 }]
    last_state_asserting_kill := false
    now := 5000000 }

instance (now : Nat) (ks : List kill_switch_state) : Decidable (asserting_kill_spec now ks) := by
  unfold asserting_kill_spec; infer_instance

/-- The callbacks a change of the kill state from `old` to `new` calls for:
the kill callback when it changed to true, the enable callback when it
changed to false, none when it did not change. -/
def kill_state_callbacks (old new : Bool) : List SafetyCallback :=
  if old = new then []
  else if new then [SafetyCallback.safety_kill_robot]
  else [SafetyCallback.safety_enable_robot]

/-! ## The kill-switch protocol as a sequence of events -/

/-- What happens to the kill-switch protocol after `actuator_init`: a refresh
request, a status response being handled, and the end of the kill-switch
transfer in flight, by completion with the received frame or by failure on
the bus with a diagnostic code. -/
inductive KillSwitchEvent
  | refresh
  | status_response (rx : actuator_i2c_response_t)
  | completed (rx : actuator_i2c_response_t)
  | failed (abort_data : Nat)
  deriving DecidableEq, Repr, Inhabited

/-- The effect of a kill-switch protocol event; a completion or failure is
that of the transfer in flight, so there is none while the slot is free. -/
def KillSwitchEvent.apply (I : Interface) (s : State) : KillSwitchEvent → State
  | KillSwitchEvent.refresh => actuator_kill_report_refresh I s
  | KillSwitchEvent.status_response rx => transfer_completed I CmdRef.status_command rx s
  | KillSwitchEvent.completed rx =>
    if s.kill_switch_update_command.in_use then
      transfer_completed I CmdRef.kill_switch_update_command rx s
    else s
  | KillSwitchEvent.failed abort_data =>
    if s.kill_switch_update_command.in_use then
      transfer_aborted I CmdRef.kill_switch_update_command abort_data s
    else s

/-- The kill-switch transfer ends without success: it fails on the bus, or it
completes with a frame whose checksum is wrong or whose result code is not
the successful one. -/
def KillSwitchEvent.unsuccessful (I : Interface) : KillSwitchEvent → Prop
  | KillSwitchEvent.completed rx => ¬ kill_switch_response_ok I rx
  | KillSwitchEvent.failed _ => True
  | _ => False

instance (I : Interface) (e : KillSwitchEvent) : Decidable (e.unsuccessful I) := by
  cases e <;> simp only [KillSwitchEvent.unsuccessful] <;> infer_instance

/-- The needs-refresh flag is set only while the kill-switch slot is in use. -/
def State.refresh_serviced (s : State) : Prop :=
  s.vars.kill_switch_needs_refresh = true → s.kill_switch_update_command.in_use = true

instance (s : State) : Decidable s.refresh_serviced := by
  unfold State.refresh_serviced; infer_instance

/-! ## The resynchronisation scenario -/

/-- The categories that are both missing on the remote device and locally
configured, in priority order (the claw is one category for its two bits). -/
def pending_categories (v : Vars) : List Category :=
  Category.priority.filter (Category.qualifies v)

/-- The command id of the set-timing command of a category. -/
def Category.cmd_id : Category → actuator_command
  | Category.claw => actuator_command.CLAW_TIMING
  | Category.dropper => actuator_command.DROPPER_TIMING
  | Category.torpedo1 _ => actuator_command.TORPEDO_TIMING
  | Category.torpedo2 _ => actuator_command.TORPEDO_TIMING

/-- A response frame that answers the set-timing command of a category
successfully: its checksum is right for the response length of that command
and its result code is the successful one. -/
def set_timing_response_ok (I : Interface) (cat : Category) (rx : actuator_i2c_response_t) :
    Prop :=
  (I.ACTUATOR_GET_RESPONSE_SIZE cat.cmd_id % 65536 = 0
      ∨ I.actuator_i2c_crc8_calc_response rx
          (I.ACTUATOR_GET_RESPONSE_SIZE cat.cmd_id % 65536) % 256 = rx.crc8)
    ∧ rx.result = I.ACTUATOR_RESULT_SUCCESSFUL

instance (I : Interface) (cat : Category) (rx : actuator_i2c_response_t) :
    Decidable (set_timing_response_ok I cat rx) := by
  unfold set_timing_response_ok; infer_instance

/-- The resynchronisation scenario: `actuator_update_missing_timings` is
invoked, then the set-timing transfers complete one after the other with the
given response frames. -/
def resync (I : Interface) (answers : List actuator_i2c_response_t) (s : State) : State :=
  answers.foldl (fun s rx => transfer_completed I CmdRef.set_timing_command rx s)
    (actuator_update_missing_timings I s)

/-- The timing slot holds the set-timing command of the category and its
transfer is in flight: the slot is in use, its handler is the set-timing
handler, and its request is populated for the command of the category. -/
def set_timing_armed (I : Interface) (cat : Category) (s : State) : Prop :=
  s.set_timing_command.in_use = true
    ∧ s.set_timing_command.response_cb
        = some actuator_cmd_response_cb_t.actuator_set_timing_general_cb
    ∧ s.set_timing_command.i2c_request.user_data = some CmdRef.set_timing_command
    ∧ s.set_timing_command.i2c_request.bytes_to_receive
        = I.ACTUATOR_GET_RESPONSE_SIZE cat.cmd_id % 65536

/-- The claw timing and the first coil timing of torpedo 1 were set while the
set-timing command of `example_dropper_sent` was on the bus, and that command
then failed on the bus: the claw and one torpedo entry are missing and
configured, and the timing slot is free. -/
def example_resync_pending : State :=
  run example_interface
    [Event.parameter_change
        { name := "claw_timing_ms", value_type := rclc_parameter_type.INT,
          integer_value := 4500 },
      Event.parameter_change
        { name := "torpedo1_coil1_on_timing_us", value_type := rclc_parameter_type.INT,
          integer_value := 100 },
      Event.transfer_failed 1]
    example_dropper_sent

/-! ## The checksum engine -/

/-- Modelled from the spec: one shift step of the register of the 8-bit
cyclic redundancy check (the checksum functions are in
`actuator_i2c/interface.h`, which is not among the sources). The register is
shifted left by one bit and the generator polynomial `poly` (its low eight
coefficients) is added when the bit shifted out is set. -/
def crc8_shift (poly crc : Nat) : Nat :=
  if crc.testBit 7 then ((crc <<< 1) % 256) ^^^ poly else (crc <<< 1) % 256

/-- Modelled from the spec: the 8-bit cyclic redundancy check takes in one
byte: the byte is added to the register, which is then shifted eight times. -/
def crc8_byte (poly crc byte : Nat) : Nat :=
  (crc8_shift poly)^[8] (crc ^^^ byte)

/-- Modelled from the spec: the 8-bit cyclic redundancy check of a sequence
of bytes, from the initial register value `init`. -/
def crc8 (poly init : Nat) (bytes : List Nat) : Nat :=
  bytes.foldl (crc8_byte poly) init

/-- Modelled from the spec: the checksum engine of the absent header
`actuator_i2c/interface.h`: the generator polynomial and the initial value of
the 8-bit cyclic redundancy check, and the layout of the two frame
structures. `command_image id payload n` is the sequence of bytes that the
command id and the payload occupy in an outbound frame of `n` bytes, in wire
order; `read w` is the response structure that holds the received bytes `w`;
`image rx n` is the sequence of bytes of the response structure `rx` of `n`
bytes that come before its checksum byte. -/
structure Crc8Engine where
  poly : Nat
  init : Nat
  command_image : actuator_command → cmd_payload → Nat → List Nat
  read : List Nat → actuator_i2c_response_t
  image : actuator_i2c_response_t → Nat → List Nat

/-- Modelled from the spec: the bytes of an outbound frame of `n` bytes on
the wire, `[command_id:1][payload][checksum:1]`. -/
def Crc8Engine.command_frame (E : Crc8Engine) (f : actuator_i2c_cmd_t) (n : Nat) : List Nat :=
  E.command_image f.cmd_id f.data n ++ [f.crc8]

/-- Modelled from the spec: `actuator_i2c_crc8_calc_command`, the check over
the command id and the payload of the frame ("id + payload, excluding the
checksum byte itself"). -/
def Crc8Engine.calc_command (E : Crc8Engine) (f : actuator_i2c_cmd_t) (n : Nat) : Nat :=
  crc8 E.poly E.init (E.command_image f.cmd_id f.data n)

/-- Modelled from the spec: `actuator_i2c_crc8_calc_response`, the check over
the bytes of the response structure before its checksum byte. -/
def Crc8Engine.calc_response (E : Crc8Engine) (rx : actuator_i2c_response_t) (n : Nat) : Nat :=
  crc8 E.poly E.init (E.image rx n)

/-- Modelled from the spec: the interface header whose two checksum functions
are those of the engine ("computed identically for requests and
responses"); sizes, result codes, versions and fault ids are those of `I`. -/
def Interface.with_crc8 (I : Interface) (E : Crc8Engine) : Interface :=
  { I with
    actuator_i2c_crc8_calc_command := E.calc_command
    actuator_i2c_crc8_calc_response := E.calc_response }

/-- The engine is an 8-bit cyclic redundancy check over bytes: the generator
polynomial has degree 8 and a nonzero constant term (as the generator of a
cyclic code has), so its low coefficients are an odd number below 256; the
initial value and every byte of a command image are below 256. -/
def Crc8Engine.wellformed (E : Crc8Engine) : Prop :=
  E.poly < 256 ∧ E.poly % 2 = 1 ∧ E.init < 256
    ∧ ∀ id payload n, ∀ b ∈ E.command_image id payload n, b < 256

/-- The response structure is laid out as the frames of `n` bytes arrive:
for every sequence `w` of `n` bytes received, the structure that holds them
has the last byte in its checksum field, and the bytes before its checksum
byte are the other bytes of `w`, all of them (the result code and the whole
payload), in order. -/
def Crc8Engine.layout (E : Crc8Engine) (n : Nat) : Prop :=
  ∀ w : List Nat, w.length = n → (∀ b ∈ w, b < 256) →
    E.image (E.read w) n = w.dropLast ∧ some (E.read w).crc8 = w.getLast?

/-- A response frame of `n` bytes on the wire,
`[result_code:1][payload][checksum:1]`, whose checksum byte is the check of
the bytes before it. -/
def Crc8Engine.valid_frame (E : Crc8Engine) (n : Nat) (w : List Nat) : Prop :=
  w.length = n ∧ (∀ b ∈ w, b < 256) ∧ w.getLast? = some (crc8 E.poly E.init w.dropLast)

instance (E : Crc8Engine) (n : Nat) (w : List Nat) : Decidable (E.valid_frame n w) := by
  unfold Crc8Engine.valid_frame; infer_instance

/-- Bit `k` of byte `i` of a sequence of bytes is flipped. -/
def flip_bit : List Nat → Nat → Nat → List Nat
  | [], _, _ => []
  | b :: rest, 0, k => (b ^^^ 2 ^ k) :: rest
  | b :: rest, i + 1, k => b :: flip_bit rest i k

/-- The position of a command id in the list of commands, for the example
engine. -/
def example_command_code : actuator_command → Nat
  | actuator_command.GET_STATUS => 0
  | actuator_command.OPEN_CLAW => 1
  | actuator_command.CLOSE_CLAW => 2
  | actuator_command.CLAW_TIMING => 3
  | actuator_command.ARM_TORPEDO => 4
  | actuator_command.DISARM_TORPEDO => 5
  | actuator_command.FIRE_TORPEDO => 6
  | actuator_command.TORPEDO_TIMING => 7
  | actuator_command.DROP_MARKER => 8
  | actuator_command.CLEAR_DROPPER_STATUS => 9
  | actuator_command.DROPPER_TIMING => 10
  | actuator_command.KILL_SWITCH => 11
  | actuator_command.RESET_ACTUATORS => 12

/-- A checksum engine for evaluating the model on examples: generator
polynomial x^8 + x^2 + x + 1, initial value 0; a command frame holds the
command code, two bytes of timing payload and the checksum byte; a response
frame holds the result code, the firmware version bytes and the checksum
byte. -/
def example_crc8_engine : Crc8Engine :=
  { poly := 7
    init := 0
    command_image := fun id d n =>
      [example_command_code id, d.dropper_timing_active_time_ms % 256,
        d.dropper_timing_active_time_ms / 256 % 256].take (n - 1)
    read := fun w =>
      { crc8 := w.getLastD 0
        result := w.dropLast.getD 0 0
        status := { version_major := w.dropLast.getD 1 0, version_minor := w.dropLast.getD 2 0 } }
    image := fun rx n =>
      [rx.result % 256, rx.status.version_major % 256, rx.status.version_minor % 256].take
        (n - 1) }

/-- The example interface with the checksums of `example_crc8_engine`. -/
def example_crc8_interface : Interface :=
  example_interface.with_crc8 example_crc8_engine

/-- A status response frame of 3 bytes on the wire: result code 0, firmware
major version 1, and the checksum of `example_crc8_engine` over these two
bytes. -/
def example_frame_crc8 : List Nat := [0, 1, 7]

/-- The status poll of `example_polling`, made with `example_crc8_interface`. -/
def example_crc8_polling : State :=
  run example_crc8_interface [Event.actuator_init, Event.poll_alarm] (boot 0 0 false)

/-- The parameter `dropper_active_timing_ms` has been set to 250 with
`example_crc8_interface`, and the set-timing command has failed on the bus:
the timing slot is free and holds the frame that was sent. -/
def example_crc8_dropper_failed : State :=
  run example_crc8_interface
    [Event.actuator_init,
      Event.parameter_change
        { name := "dropper_active_timing_ms", value_type := rclc_parameter_type.INT,
          integer_value := 250 },
      Event.transfer_failed 1]
    (boot 0 0 false)

/-! ## The transfer queue -/

/-- Modelled from the spec: the part of a transfer request
(`struct async_i2c_request` of `async_i2c.h`) that decides which handler the
transfer queue invokes: the completion handler and the failure handler, by
their address, `none` for `NULL`. The queue itself (`async_i2c.c`) is not
among the sources. -/
structure QueueLink where
  completed_callback : Option Nat := none
  failed_callback : Option Nat := none
  deriving DecidableEq, Repr, Inhabited

/-- Modelled from the spec: a request passed to `async_i2c_enqueue`, with the
requests reachable from it through `next_req_on_success`, in order. -/
structure QueueRequest where
  head : QueueLink := {}
  chain : List QueueLink := []
  deriving DecidableEq, Repr, Inhabited

/-- Modelled from the spec: a pending transfer. `ticket` numbers the call of
`async_i2c_enqueue` it comes from, `link` is its position in the chain of that
call (0 for the request that was passed), `chain` the links after it, and
`in_progress` the address of the flag that was passed with the request. -/
structure QueueEntry where
  ticket : Nat
  link : Nat
  request : QueueLink
  chain : List QueueLink
  in_progress : Nat
  deriving DecidableEq, Repr, Inhabited

/-- How a transfer ends. -/
inductive Outcome
  | completed
  | failed
  deriving DecidableEq, Repr, Inhabited

/-- Observation: the transfer of link `link` of the call `ticket` has ended
with `outcome`; `handler` is the handler the queue invoked for it, `none` when
the request has no handler for that outcome. -/
structure Fired where
  ticket : Nat
  link : Nat
  outcome : Outcome
  request : QueueLink
  handler : Option Nat
  deriving DecidableEq, Repr, Inhabited

/-- Modelled from the spec: the state of the transfer queue: the pending
transfers, oldest first; the in-progress flags by address; the number of
calls of `async_i2c_enqueue` so far; and the observation field `fired`. -/
structure TransferQueue where
  pending : List QueueEntry := []
  in_progress : Nat → Bool := fun _ => false
  enqueued : Nat := 0
  fired : List Fired := []

/-- Modelled from the spec: `async_i2c_enqueue(request, in_progress)` appends
the request to the pending sequence and sets the flag true before
returning. -/
def TransferQueue.enqueue (q : TransferQueue) (request : QueueRequest) (flag : Nat) :
    TransferQueue :=
  { q with
    pending := q.pending ++ [QueueEntry.mk q.enqueued 0 request.head request.chain flag]
    in_progress := fun f => if f = flag then true else q.in_progress f
    enqueued := q.enqueued + 1 }

/-- What a handler does to the queue while it runs: its calls of
`async_i2c_enqueue`, in order. -/
def TransferQueue.handler_calls (q : TransferQueue) (calls : List (QueueRequest × Nat)) :
    TransferQueue :=
  calls.foldl (fun q c => q.enqueue c.1 c.2) q

/-- Modelled from the spec: the oldest pending transfer succeeds. The
completion handler is invoked if present (`calls` are the calls of
`async_i2c_enqueue` it makes); then a chained next request becomes the next
transfer to execute, under the same flag, and without one the flag is
cleared. -/
def TransferQueue.transfer_done (q : TransferQueue) (calls : List (QueueRequest × Nat)) :
    TransferQueue :=
  match q.pending with
  | [] => q
  | e :: rest =>
    let q := { q with
      pending := rest
      fired := q.fired ++
        [Fired.mk e.ticket e.link Outcome.completed e.request e.request.completed_callback] }
    let q := if e.request.completed_callback.isSome then q.handler_calls calls else q
    match e.chain with
    | next :: chain =>
      { q with
        pending := QueueEntry.mk e.ticket (e.link + 1) next chain e.in_progress :: q.pending }
    | [] => { q with in_progress := fun f => if f = e.in_progress then false else q.in_progress f }

/-- Modelled from the spec: the oldest pending transfer fails (NACK,
arbitration loss, timeout). The failure handler is invoked if present
(`calls` are the calls of `async_i2c_enqueue` it makes), the flag is cleared,
and the queue continues with the next pending request. -/
def TransferQueue.transfer_failed (q : TransferQueue) (calls : List (QueueRequest × Nat)) :
    TransferQueue :=
  match q.pending with
  | [] => q
  | e :: rest =>
    let q := { q with
      pending := rest
      fired := q.fired ++
        [Fired.mk e.ticket e.link Outcome.failed e.request e.request.failed_callback] }
    let q := if e.request.failed_callback.isSome then q.handler_calls calls else q
    { q with in_progress := fun f => if f = e.in_progress then false else q.in_progress f }

/-- What happens to the transfer queue. -/
inductive QueueEvent
  | enqueue (request : QueueRequest) (in_progress : Nat)
  | transfer_done (calls : List (QueueRequest × Nat))
  | transfer_failed (calls : List (QueueRequest × Nat))
  deriving DecidableEq, Repr, Inhabited

/-- The effect of an event on the transfer queue. -/
def TransferQueue.step (q : TransferQueue) : QueueEvent → TransferQueue
  | QueueEvent.enqueue request flag => q.enqueue request flag
  | QueueEvent.transfer_done calls => q.transfer_done calls
  | QueueEvent.transfer_failed calls => q.transfer_failed calls

/-- Run a sequence of events on the transfer queue. -/
def TransferQueue.run (q : TransferQueue) (evs : List QueueEvent) : TransferQueue :=
  evs.foldl TransferQueue.step q

/-- Every call in the sequence that passes the flag `flag` is made while that
flag is false: while no request under it is pending and no handler of a
transfer under it is running. -/
def TransferQueue.calls_fresh (q : TransferQueue) (flag : Nat) :
    List (QueueRequest × Nat) → Bool
  | [] => true
  | c :: rest =>
    (decide (c.2 ≠ flag) || !q.in_progress flag) && (q.enqueue c.1 c.2).calls_fresh flag rest

/-- Every call of `async_i2c_enqueue` the event makes with the flag `flag` (the
call itself, or the calls of the handler that the event invokes) is made while
that flag is false. -/
def TransferQueue.event_fresh (q : TransferQueue) (flag : Nat) : QueueEvent → Bool
  | QueueEvent.enqueue _ f => decide (f ≠ flag) || !q.in_progress flag
  | QueueEvent.transfer_done calls =>
    match q.pending with
    | [] => true
    | e :: _ => if e.request.completed_callback.isSome then q.calls_fresh flag calls else true
  | QueueEvent.transfer_failed calls =>
    match q.pending with
    | [] => true
    | e :: _ => if e.request.failed_callback.isSome then q.calls_fresh flag calls else true

/-- Every call of `async_i2c_enqueue` in the run that passes the flag `flag` is
made while that flag is false. -/
def TransferQueue.run_fresh (q : TransferQueue) (flag : Nat) : List QueueEvent → Bool
  | [] => true
  | e :: rest => q.event_fresh flag e && (q.step e).run_fresh flag rest

/-- The number of times one of the two handlers of the request passed by the
call `ticket` has fired (its completion or its failure). -/
def TransferQueue.fires (q : TransferQueue) (ticket : Nat) : Nat :=
  q.fired.countP fun f => decide (f.ticket = ticket) && decide (f.link = 0)

/-- The handler a transfer that ended must have invoked: the completion
handler of its request on completion, the failure handler on failure, each if
present. -/
def Fired.expected_handler (f : Fired) : Option Nat :=
  match f.outcome with
  | Outcome.completed => f.request.completed_callback
  | Outcome.failed => f.request.failed_callback

/-- The transfer queue with the entry `e` put in front of the pending
transfers. -/
def TransferQueue.push_front (q : TransferQueue) (e : QueueEntry) : TransferQueue :=
  { q with pending := e :: q.pending }

/-- The bookkeeping of the transfer queue is consistent: pending transfers
come from calls that were made, from different calls; the head request of a
pending call has fired if and only if the call is past its first link, and
then once; the head request of every call that is no longer pending has fired
exactly once; and every transfer that ended has invoked the handler its
request has for that outcome. -/
def TransferQueue.consistent (q : TransferQueue) : Prop :=
  (∀ e ∈ q.pending, e.ticket < q.enqueued)
    ∧ (q.pending.map QueueEntry.ticket).Nodup
    ∧ (∀ f ∈ q.fired, f.ticket < q.enqueued)
    ∧ (∀ e ∈ q.pending, q.fires e.ticket = if e.link = 0 then 0 else 1)
    ∧ (∀ t, t < q.enqueued → (∀ e ∈ q.pending, e.ticket ≠ t) → q.fires t = 1)
    ∧ ∀ f ∈ q.fired, f.handler = f.expected_handler

/-- The flag `flag` is in order: at most one pending transfer is under it, and
it is true while one is. -/
def TransferQueue.flag_clean (q : TransferQueue) (flag : Nat) : Prop :=
  (q.pending.map QueueEntry.in_progress).count flag ≤ 1
    ∧ ∀ e ∈ q.pending, e.in_progress = flag → q.in_progress flag = true

/-- A request with both handlers and no chained next request, as
`actuator_populate_command` makes them. -/
def example_request : QueueRequest :=
  { head := { completed_callback := some 1, failed_callback := some 2 } }

/-- A request as the initialiser `ASYNC_I2C_READ_WRITE_REQ` of `async_i2c.h`
makes them: a completion handler, no failure handler, no chained next
request. -/
def example_request_no_failure_handler : QueueRequest :=
  { head := { completed_callback := some 1, failed_callback := none } }

/-- A request with two chained links after it. -/
def example_request_chained : QueueRequest :=
  { head := { completed_callback := some 1, failed_callback := some 2 }
    chain :=
      [{ completed_callback := some 3, failed_callback := some 4 },
        { completed_callback := none, failed_callback := some 5 }] }

/-- The request `example_request` is enqueued with flag 0, its transfer
succeeds, and its completion handler enqueues the request again with the same
flag (as the set-timing handler of `actuator.c` does with its slot). -/
def example_queue_resent : TransferQueue :=
  TransferQueue.run {}
    [QueueEvent.enqueue example_request 0, QueueEvent.transfer_done [(example_request, 0)]]

/-- The request `example_request_no_failure_handler` is enqueued with flag 0
and its transfer fails. -/
def example_queue_failed : TransferQueue :=
  TransferQueue.run {}
    [QueueEvent.enqueue example_request_no_failure_handler 0, QueueEvent.transfer_failed []]

/-- A run in which the handler of a request enqueues with the flag of its own
transfer, next to a chained request under another flag: `example_request` is
enqueued with flag 0 and `example_request_chained` with flag 1; the first
transfer succeeds and its completion handler enqueues `example_request` again
with flag 0; then the first link of the chained request succeeds. -/
def example_queue_events : List QueueEvent :=
  [QueueEvent.enqueue example_request 0, QueueEvent.enqueue example_request_chained 1,
    QueueEvent.transfer_done [(example_request, 0)], QueueEvent.transfer_done []]

/-- The claw timing is set while the set-timing command of
`example_dropper_sent` is on the bus, and that command is then answered
successfully: the set-timing handler sends the claw timing on the same slot. -/
def example_set_timing_resent : State :=
  run example_interface
    [Event.parameter_change
        { name := "claw_timing_ms", value_type := rclc_parameter_type.INT,
          integer_value := 4500 },
      Event.transfer_done example_rx_ok]
    example_dropper_sent

/-! ## Invariants of the executions -/

theorem cmd_setCmd (s : State) (r r' : CmdRef) (c : actuator_cmd_data_t) :
    (s.setCmd r c).cmd r' = if r' = r ∧ s.validRef r then c else s.cmd r' := by
  cases r <;> cases r' <;>
    simp [State.setCmd, State.cmd, State.validRef, List.getD_eq_getElem?_getD, List.getElem?_set]
  rename_i i j
  by_cases hij : i = j
  · subst hij
    by_cases hi : i < s.allocated_commands.length
    · simp [hi]
    · simp [hi, List.getElem?_eq_none (Nat.le_of_not_lt hi)]
  · simp [hij, Ne.symm hij]

theorem cmd_modifyCmd (s : State) (r r' : CmdRef)
    (f : actuator_cmd_data_t → actuator_cmd_data_t) :
    (s.modifyCmd r f).cmd r' = if r' = r ∧ s.validRef r then f (s.cmd r) else s.cmd r' :=
  cmd_setCmd s r r' _

theorem cmd_modifyCmd_same (s : State) (r : CmdRef)
    (f : actuator_cmd_data_t → actuator_cmd_data_t)
    (h : s.validRef r) : (s.modifyCmd r f).cmd r = f (s.cmd r) := by
  simp [cmd_modifyCmd, h]

@[simp] theorem setCmd_vars (s : State) (r : CmdRef) (c : actuator_cmd_data_t) :
    (s.setCmd r c).vars = s.vars := by
  cases r <;> rfl

@[simp] theorem modifyCmd_vars (s : State) (r : CmdRef)
    (f : actuator_cmd_data_t → actuator_cmd_data_t) : (s.modifyCmd r f).vars = s.vars :=
  setCmd_vars s r _

@[simp] theorem setCmd_length (s : State) (r : CmdRef) (c : actuator_cmd_data_t) :
    (s.setCmd r c).allocated_commands.length = s.allocated_commands.length := by
  cases r <;> simp [State.setCmd]

@[simp] theorem modifyCmd_length (s : State) (r : CmdRef)
    (f : actuator_cmd_data_t → actuator_cmd_data_t) :
    (s.modifyCmd r f).allocated_commands.length = s.allocated_commands.length :=
  setCmd_length s r _

theorem validRef_of_length {s s' : State}
    (h : s'.allocated_commands.length = s.allocated_commands.length) (r : CmdRef) :
    s'.validRef r ↔ s.validRef r := by
  cases r <;> simp only [State.validRef, h]

@[simp] theorem validRef_modifyCmd (s : State) (r r' : CmdRef)
    (f : actuator_cmd_data_t → actuator_cmd_data_t) :
    (s.modifyCmd r f).validRef r' ↔ s.validRef r' :=
  validRef_of_length (modifyCmd_length s r f) r'

@[simp] theorem cmd_with_vars (s : State) (v : Vars) (r : CmdRef) :
    ({ s with vars := v } : State).cmd r = s.cmd r := by
  cases r <;> rfl

@[simp] theorem validRef_with_vars (s : State) (v : Vars) (r : CmdRef) :
    ({ s with vars := v } : State).validRef r ↔ s.validRef r := by
  cases r <;> simp [State.validRef]

/-- A slot update that keeps `in_use` keeps every slot's `in_use`. -/
theorem in_use_modifyCmd (s : State) (r r' : CmdRef)
    (f : actuator_cmd_data_t → actuator_cmd_data_t) (hf : ∀ c, (f c).in_use = c.in_use) :
    ((s.modifyCmd r f).cmd r').in_use = (s.cmd r').in_use := by
  rw [cmd_modifyCmd]
  split
  · rename_i h; rw [hf, h.1]
  · rfl

/-! ## Fault list lemmas -/

@[simp] theorem safety_raise_fault_cmd (fault_id : Nat) (s : State) (r : CmdRef) :
    (safety_raise_fault fault_id s).cmd r = s.cmd r := by
  unfold safety_raise_fault; split <;> simp

@[simp] theorem safety_raise_fault_length (fault_id : Nat) (s : State) :
    (safety_raise_fault fault_id s).allocated_commands.length = s.allocated_commands.length := by
  unfold safety_raise_fault; split <;> simp

theorem safety_raise_fault_vars (fault_id : Nat) (s : State) :
    (safety_raise_fault fault_id s).vars =
      if s.vars.fault_list &&& ((1 <<< fault_id) % 2 ^ 32) = 0 then
        { s.vars with
          log := s.vars.log ++ [LogMsg.fault_raised fault_id]
          fault_list := (s.vars.fault_list ||| (1 <<< fault_id)) % 2 ^ 32
          fault_led := true }
      else s.vars := by
  unfold safety_raise_fault; split <;> simp

theorem fault_is_raised_raise (fault_id : Nat) (s : State) (h : fault_id < 32) :
    fault_is_raised fault_id (safety_raise_fault fault_id s) = true := by
  have hm : (1 <<< fault_id) % 2 ^ 32 = 2 ^ fault_id := by
    rw [Nat.one_shiftLeft]
    exact Nat.mod_eq_of_lt (Nat.pow_lt_pow_right (by decide) h)
  unfold safety_raise_fault fault_is_raised
  rw [hm]
  split
  · simp only [bne_iff_ne, ne_eq]
    rw [Nat.and_two_pow, Nat.one_shiftLeft, Nat.testBit_mod_two_pow]
    simp [h]
  · simpa using ‹_›

/-! ## Populate / send lemmas -/

@[simp] theorem async_i2c_enqueue_length (cmd : CmdRef) (s : State) :
    (async_i2c_enqueue cmd s).allocated_commands.length = s.allocated_commands.length := by
  simp [async_i2c_enqueue]

@[simp] theorem async_i2c_enqueue_cmd (cmd r : CmdRef) (s : State) :
    (async_i2c_enqueue cmd s).cmd r
      = (s.modifyCmd cmd fun c => { c with i2c_in_progress := true }).cmd r := by
  simp [async_i2c_enqueue]

@[simp] theorem async_i2c_enqueue_vars (cmd : CmdRef) (s : State) :
    (async_i2c_enqueue cmd s).vars =
      { s.vars with
        i2c_queue := s.vars.i2c_queue ++ [cmd]
        i2c_trace := s.vars.i2c_trace ++
          [⟨cmd, ((async_i2c_enqueue cmd s).cmd cmd).i2c_request,
            ((async_i2c_enqueue cmd s).cmd cmd).request⟩] } := by
  simp [async_i2c_enqueue]

@[simp] theorem actuator_populate_command_vars (I : Interface) (cmd : CmdRef)
    (cmd_id : actuator_command) (cb : Option actuator_cmd_response_cb_t) (imp : Bool)
    (s : State) : (actuator_populate_command I cmd cmd_id cb imp s).vars = s.vars := by
  simp [actuator_populate_command]

@[simp] theorem actuator_populate_command_length (I : Interface) (cmd : CmdRef)
    (cmd_id : actuator_command) (cb : Option actuator_cmd_response_cb_t) (imp : Bool)
    (s : State) :
    (actuator_populate_command I cmd cmd_id cb imp s).allocated_commands.length
      = s.allocated_commands.length := by
  simp [actuator_populate_command]

@[simp] theorem actuator_populate_command_in_use (I : Interface) (cmd r : CmdRef)
    (cmd_id : actuator_command) (cb : Option actuator_cmd_response_cb_t) (imp : Bool)
    (s : State) :
    ((actuator_populate_command I cmd cmd_id cb imp s).cmd r).in_use = (s.cmd r).in_use :=
  in_use_modifyCmd s cmd r _ (by intro c; rfl)

@[simp] theorem actuator_send_command_length (I : Interface) (cmd : CmdRef) (s : State) :
    (actuator_send_command I cmd s).allocated_commands.length = s.allocated_commands.length := by
  simp [actuator_send_command]

@[simp] theorem actuator_send_command_in_use (I : Interface) (cmd r : CmdRef) (s : State) :
    ((actuator_send_command I cmd s).cmd r).in_use = (s.cmd r).in_use := by
  simp only [actuator_send_command, async_i2c_enqueue_cmd]
  exact (in_use_modifyCmd _ cmd r _ (by intro c; rfl)).trans
    (in_use_modifyCmd _ cmd r _ (by intro c; rfl))

@[simp] theorem actuator_send_command_vars (I : Interface) (cmd : CmdRef) (s : State) :
    (actuator_send_command I cmd s).vars =
      { s.vars with
        i2c_queue := s.vars.i2c_queue ++ [cmd]
        i2c_trace := s.vars.i2c_trace ++
          [⟨cmd, ((actuator_send_command I cmd s).cmd cmd).i2c_request,
            ((actuator_send_command I cmd s).cmd cmd).request⟩] } := by
  simp [actuator_send_command]

/-- The slot after `actuator_send_command`: checksum stored, transfer in progress. -/
theorem actuator_send_command_cmd (I : Interface) (cmd : CmdRef) (s : State)
    (h : s.validRef cmd) :
    (actuator_send_command I cmd s).cmd cmd =
      { (s.cmd cmd) with
        request :=
          { (s.cmd cmd).request with
            crc8 := I.actuator_i2c_crc8_calc_command (s.cmd cmd).request
              (s.cmd cmd).i2c_request.bytes_to_send % 256 }
        i2c_in_progress := true } := by
  simp [actuator_send_command, cmd_modifyCmd, h]

@[simp] theorem torpedo_timing_request_vars (I : Interface) (cmd : CmdRef) (n : Nat)
    (ty : torpedo_timing_type) (t : Nat) (s : State) :
    (torpedo_timing_request I cmd n ty t s).vars = s.vars := by
  simp [torpedo_timing_request]

@[simp] theorem torpedo_timing_request_length (I : Interface) (cmd : CmdRef) (n : Nat)
    (ty : torpedo_timing_type) (t : Nat) (s : State) :
    (torpedo_timing_request I cmd n ty t s).allocated_commands.length
      = s.allocated_commands.length := by
  simp [torpedo_timing_request]

@[simp] theorem torpedo_timing_request_in_use (I : Interface) (cmd r : CmdRef) (n : Nat)
    (ty : torpedo_timing_type) (t : Nat) (s : State) :
    ((torpedo_timing_request I cmd n ty t s).cmd r).in_use = (s.cmd r).in_use := by
  simp only [torpedo_timing_request]
  exact (in_use_modifyCmd _ cmd r _ (by intro c; rfl)).trans (actuator_populate_command_in_use ..)

/-! ## The resolver refines its specification -/

theorem resolver_eq_spec (I : Interface) (cmd : CmdRef) (s : State) :
    actuator_update_missing_timings_common I cmd s = resolver_spec I cmd s := by
  unfold resolver_spec actuator_update_missing_timings_common
  by_cases h1 : ((s.vars.missing_timings.claw_open_timing
      || s.vars.missing_timings.claw_close_timing)
      && s.vars.claw_timing.set) = true
  · have hq : first_qualifying s.vars = some (Category.claw) := by
      simp only [first_qualifying, Category.priority, List.find?, Category.qualifies,
        Category.missing, Category.entry, torpedo_timings.get, h1]
    rw [hq, if_pos h1]
    rfl
  rw [if_neg h1]
  by_cases h2 : (s.vars.missing_timings.dropper_active_timing
      && s.vars.dropper_active_timing.set) = true
  · have hq : first_qualifying s.vars = some (Category.dropper) := by
      simp only [first_qualifying, Category.priority, List.find?, Category.qualifies,
        Category.missing, Category.entry, torpedo_timings.get, h1, h2]
    rw [hq, if_pos h2]
    rfl
  rw [if_neg h2]
  by_cases h3 : (s.vars.missing_timings.torpedo1_coil1_on_timing
      && s.vars.torpedo1_timings.coil1_on.set) = true
  · have hq : first_qualifying s.vars = some (Category.torpedo1 torpedo_timing_type.COIL1_ON) := by
      simp only [first_qualifying, Category.priority, List.find?, Category.qualifies,
        Category.missing, Category.entry, torpedo_timings.get, h1, h2, h3]
    rw [hq, if_pos h3]
    rfl
  rw [if_neg h3]
  by_cases h4 : (s.vars.missing_timings.torpedo1_coil1_2_delay_timing
      && s.vars.torpedo1_timings.coil1_2_delay.set) = true
  · have hq : first_qualifying s.vars
        = some (Category.torpedo1 torpedo_timing_type.COIL1_2_DELAY) := by
      simp only [first_qualifying, Category.priority, List.find?, Category.qualifies,
        Category.missing, Category.entry, torpedo_timings.get, h1, h2, h3, h4]
    rw [hq, if_pos h4]
    rfl
  rw [if_neg h4]
  by_cases h5 : (s.vars.missing_timings.torpedo1_coil2_on_timing
      && s.vars.torpedo1_timings.coil2_on.set) = true
  · have hq : first_qualifying s.vars = some (Category.torpedo1 torpedo_timing_type.COIL2_ON) := by
      simp only [first_qualifying, Category.priority, List.find?, Category.qualifies,
        Category.missing, Category.entry, torpedo_timings.get, h1, h2, h3, h4, h5]
    rw [hq, if_pos h5]
    rfl
  rw [if_neg h5]
  by_cases h6 : (s.vars.missing_timings.torpedo1_coil2_3_delay_timing
      && s.vars.torpedo1_timings.coil2_3_delay.set) = true
  · have hq : first_qualifying s.vars
        = some (Category.torpedo1 torpedo_timing_type.COIL2_3_DELAY) := by
      simp only [first_qualifying, Category.priority, List.find?, Category.qualifies,
        Category.missing, Category.entry, torpedo_timings.get, h1, h2, h3, h4, h5, h6]
    rw [hq, if_pos h6]
    rfl
  rw [if_neg h6]
  by_cases h7 : (s.vars.missing_timings.torpedo1_coil3_on_timing
      && s.vars.torpedo1_timings.coil3_on.set) = true
  · have hq : first_qualifying s.vars = some (Category.torpedo1 torpedo_timing_type.COIL3_ON) := by
      simp only [first_qualifying, Category.priority, List.find?, Category.qualifies,
        Category.missing, Category.entry, torpedo_timings.get, h1, h2, h3, h4, h5, h6, h7]
    rw [hq, if_pos h7]
    rfl
  rw [if_neg h7]
  by_cases h8 : (s.vars.missing_timings.torpedo2_coil1_on_timing
      && s.vars.torpedo2_timings.coil1_on.set) = true
  · have hq : first_qualifying s.vars = some (Category.torpedo2 torpedo_timing_type.COIL1_ON) := by
      simp only [first_qualifying, Category.priority, List.find?, Category.qualifies,
        Category.missing, Category.entry, torpedo_timings.get, h1, h2, h3, h4, h5, h6, h7, h8]
    rw [hq, if_pos h8]
    rfl
  rw [if_neg h8]
  by_cases h9 : (s.vars.missing_timings.torpedo2_coil1_2_delay_timing
      && s.vars.torpedo2_timings.coil1_2_delay.set) = true
  · have hq : first_qualifying s.vars
        = some (Category.torpedo2 torpedo_timing_type.COIL1_2_DELAY) := by
      simp only [first_qualifying, Category.priority, List.find?, Category.qualifies,
        Category.missing, Category.entry, torpedo_timings.get, h1, h2, h3, h4, h5, h6, h7, h8, h9]
    rw [hq, if_pos h9]
    rfl
  rw [if_neg h9]
  by_cases h10 : (s.vars.missing_timings.torpedo2_coil2_on_timing
      && s.vars.torpedo2_timings.coil2_on.set) = true
  · have hq : first_qualifying s.vars = some (Category.torpedo2 torpedo_timing_type.COIL2_ON) := by
      simp only [first_qualifying, Category.priority, List.find?, Category.qualifies,
        Category.missing, Category.entry, torpedo_timings.get, h1, h2, h3, h4, h5, h6, h7, h8, h9,
        h10]
    rw [hq, if_pos h10]
    rfl
  rw [if_neg h10]
  by_cases h11 : (s.vars.missing_timings.torpedo2_coil2_3_delay_timing
      && s.vars.torpedo2_timings.coil2_3_delay.set) = true
  · have hq : first_qualifying s.vars
        = some (Category.torpedo2 torpedo_timing_type.COIL2_3_DELAY) := by
      simp only [first_qualifying, Category.priority, List.find?, Category.qualifies,
        Category.missing, Category.entry, torpedo_timings.get, h1, h2, h3, h4, h5, h6, h7, h8, h9,
        h10, h11]
    rw [hq, if_pos h11]
    rfl
  rw [if_neg h11]
  by_cases h12 : (s.vars.missing_timings.torpedo2_coil3_on_timing
      && s.vars.torpedo2_timings.coil3_on.set) = true
  · have hq : first_qualifying s.vars = some (Category.torpedo2 torpedo_timing_type.COIL3_ON) := by
      simp only [first_qualifying, Category.priority, List.find?, Category.qualifies,
        Category.missing, Category.entry, torpedo_timings.get, h1, h2, h3, h4, h5, h6, h7, h8, h9,
        h10, h11, h12]
    rw [hq, if_pos h12]
    rfl
  rw [if_neg h12]
  have hq : first_qualifying s.vars = none := by
    simp only [first_qualifying, Category.priority, List.find?, Category.qualifies,
      Category.missing, Category.entry, torpedo_timings.get, h1, h2, h3, h4, h5, h6, h7, h8, h9,
      h10, h11, h12]
  rw [hq]


@[simp] theorem resolve_category_length (I : Interface) (cmd : CmdRef) (cat : Category)
    (s : State) :
    (resolve_category I cmd cat s).allocated_commands.length = s.allocated_commands.length := by
  cases cat <;> simp [resolve_category]

@[simp] theorem resolve_category_in_use (I : Interface) (cmd r : CmdRef) (cat : Category)
    (s : State) : ((resolve_category I cmd cat s).cmd r).in_use = (s.cmd r).in_use := by
  cases cat <;> simp only [resolve_category, actuator_send_command_in_use, cmd_with_vars,
    torpedo_timing_request_in_use]
  all_goals
    exact (in_use_modifyCmd _ cmd r _ (by intro c; rfl)).trans
      (actuator_populate_command_in_use ..)

/-- What resolving a category does to the variables: the category's missing
bits are cleared and one transfer, the slot's own, is appended. -/
theorem resolve_category_vars (I : Interface) (cmd : CmdRef) (cat : Category) (s : State) :
    (resolve_category I cmd cat s).vars =
      { s.vars with
        missing_timings := cat.clear s.vars.missing_timings
        i2c_queue := s.vars.i2c_queue ++ [cmd]
        i2c_trace := s.vars.i2c_trace ++
          [⟨cmd, ((resolve_category I cmd cat s).cmd cmd).i2c_request,
            ((resolve_category I cmd cat s).cmd cmd).request⟩] } := by
  cases cat <;> simp [resolve_category]

@[simp] theorem resolver_length (I : Interface) (cmd : CmdRef) (s : State) :
    (actuator_update_missing_timings_common I cmd s).2.allocated_commands.length
      = s.allocated_commands.length := by
  rw [resolver_eq_spec]; unfold resolver_spec; split <;> simp

@[simp] theorem resolver_in_use (I : Interface) (cmd r : CmdRef) (s : State) :
    ((actuator_update_missing_timings_common I cmd s).2.cmd r).in_use = (s.cmd r).in_use := by
  rw [resolver_eq_spec]; unfold resolver_spec; split <;> simp

@[simp] theorem resolver_cb_trace (I : Interface) (cmd : CmdRef) (s : State) :
    (actuator_update_missing_timings_common I cmd s).2.vars.cb_trace = s.vars.cb_trace := by
  rw [resolver_eq_spec]; unfold resolver_spec; split <;> simp [resolve_category_vars]

/-! ## The scan loop of the slot pool -/

theorem generate_scan_step_length (acc : Option CmdRef × State) (i : Nat) :
    (generate_scan_step acc i).2.allocated_commands.length = acc.2.allocated_commands.length := by
  unfold generate_scan_step; split <;> simp

theorem generate_scan_length (l : List Nat) (acc : Option CmdRef × State) :
    (l.foldl generate_scan_step acc).2.allocated_commands.length
      = acc.2.allocated_commands.length := by
  induction l generalizing acc with
  | nil => rfl
  | cons i l ih => rw [List.foldl_cons, ih, generate_scan_step_length]

@[simp] theorem generate_scan_step_vars (acc : Option CmdRef × State) (i : Nat) :
    (generate_scan_step acc i).2.vars = acc.2.vars := by
  unfold generate_scan_step; split <;> simp

theorem generate_scan_vars (l : List Nat) (acc : Option CmdRef × State) :
    (l.foldl generate_scan_step acc).2.vars = acc.2.vars := by
  induction l generalizing acc with
  | nil => rfl
  | cons i l ih => rw [List.foldl_cons, ih, generate_scan_step_vars]

/-- Once the scan has picked a slot it ends with a slot. -/
theorem generate_scan_isSome (l : List Nat) (acc : Option CmdRef × State)
    (h : acc.1.isSome = true) : (l.foldl generate_scan_step acc).1.isSome = true := by
  induction l generalizing acc with
  | nil => exact h
  | cons i l ih =>
    rw [List.foldl_cons]
    apply ih
    unfold generate_scan_step
    split
    · rfl
    · exact h

/-- A scan over slots that are all in use changes nothing and picks nothing. -/
theorem generate_scan_all_in_use (l : List Nat) (s : State)
    (h : ∀ i ∈ l, (s.cmd (CmdRef.allocated i)).in_use = true) :
    l.foldl generate_scan_step (none, s) = (none, s) := by
  induction l with
  | nil => rfl
  | cons i l ih =>
    rw [List.foldl_cons]
    have hi : generate_scan_step (none, s) i = (none, s) := by
      simp [generate_scan_step, h i (List.mem_cons_self _ _)]
    rw [hi]
    exact ih (fun j hj => h j (List.mem_cons_of_mem _ hj))

/-- A scan that picks nothing saw only slots in use. -/
theorem generate_scan_none (l : List Nat) (s : State)
    (h : (l.foldl generate_scan_step (none, s)).1 = none) :
    ∀ i ∈ l, (s.cmd (CmdRef.allocated i)).in_use = true := by
  induction l with
  | nil => intro i hi; cases hi
  | cons j l ih =>
    rw [List.foldl_cons] at h
    by_cases hj : (s.cmd (CmdRef.allocated j)).in_use = true
    · have hstep : generate_scan_step (none, s) j = (none, s) := by
        simp [generate_scan_step, hj]
      rw [hstep] at h
      intro i hi
      rcases List.mem_cons.mp hi with rfl | hi
      · exact hj
      · exact ih h i hi
    · exfalso
      have hsome := generate_scan_isSome l (generate_scan_step (none, s) j)
        (by simp [generate_scan_step, hj])
      rw [h] at hsome
      cases hsome

theorem cmd_allocated_of_lt (s : State) (i : Nat) (h : i < s.allocated_commands.length) :
    s.cmd (CmdRef.allocated i) = s.allocated_commands[i] := by
  simp [State.cmd, List.getD_eq_getElem?_getD, h]

theorem all_in_use_iff (s : State) :
    (∀ i ∈ List.range s.num_allocated_commands, (s.cmd (CmdRef.allocated i)).in_use = true)
      ↔ ∀ c ∈ s.allocated_commands, c.in_use = true := by
  constructor
  · intro h c hc
    obtain ⟨i, hi, rfl⟩ := List.getElem_of_mem hc
    have := h i (List.mem_range.mpr hi)
    rwa [cmd_allocated_of_lt s i hi] at this
  · intro h i hi
    have hi' : i < s.allocated_commands.length := List.mem_range.mp hi
    rw [cmd_allocated_of_lt s i hi']
    exact h _ (List.getElem_mem _)

/-! ## `actuator_generate_command` -/

/-- With every constructed slot in use and room left, a new slot is
constructed at the end of the pool, claimed and populated. -/
theorem actuator_generate_command_fresh (I : Interface) (heap : actuator_cmd_data_t)
    (cmd_id : actuator_command) (cb : Option actuator_cmd_response_cb_t) (s : State)
    (hall : ∀ c ∈ s.allocated_commands, c.in_use = true)
    (hlt : s.allocated_commands.length < ACTUATOR_MAX_COMMANDS) :
    actuator_generate_command I heap cmd_id cb s =
      (some (CmdRef.allocated s.allocated_commands.length),
        actuator_populate_command I (CmdRef.allocated s.allocated_commands.length) cmd_id cb true
          { s with allocated_commands := s.allocated_commands ++ [{ heap with in_use := true }] })
    := by
  unfold actuator_generate_command
  rw [generate_scan_all_in_use _ s ((all_in_use_iff s).mpr hall)]
  simp [State.num_allocated_commands, hlt]

/-- With every constructed slot in use and no room left, nothing changes. -/
theorem actuator_generate_command_exhausted (I : Interface) (heap : actuator_cmd_data_t)
    (cmd_id : actuator_command) (cb : Option actuator_cmd_response_cb_t) (s : State)
    (hall : ∀ c ∈ s.allocated_commands, c.in_use = true)
    (hfull : ACTUATOR_MAX_COMMANDS ≤ s.allocated_commands.length) :
    actuator_generate_command I heap cmd_id cb s = (none, s) := by
  unfold actuator_generate_command
  rw [generate_scan_all_in_use _ s ((all_in_use_iff s).mpr hall)]
  simp [State.num_allocated_commands, Nat.not_lt.mpr hfull]

/-- The three outcomes of `actuator_generate_command`, by what the scan
found. -/
theorem actuator_generate_command_eq (I : Interface) (heap : actuator_cmd_data_t)
    (cmd_id : actuator_command) (cb : Option actuator_cmd_response_cb_t) (s : State) :
    actuator_generate_command I heap cmd_id cb s =
      match ((List.range s.num_allocated_commands).foldl generate_scan_step (none, s)).1 with
      | some cmd =>
        (some cmd, actuator_populate_command I cmd cmd_id cb true
          ((List.range s.num_allocated_commands).foldl generate_scan_step (none, s)).2)
      | none =>
        if s.allocated_commands.length < ACTUATOR_MAX_COMMANDS then
          (some (CmdRef.allocated s.allocated_commands.length),
            actuator_populate_command I (CmdRef.allocated s.allocated_commands.length) cmd_id cb
              true
              { ((List.range s.num_allocated_commands).foldl generate_scan_step (none, s)).2 with
                allocated_commands :=
                  ((List.range s.num_allocated_commands).foldl generate_scan_step
                    (none, s)).2.allocated_commands ++ [{ heap with in_use := true }] })
        else (none, ((List.range s.num_allocated_commands).foldl generate_scan_step (none, s)).2)
    := by
  unfold actuator_generate_command
  cases hr : ((List.range s.num_allocated_commands).foldl generate_scan_step (none, s)).1 with
  | some cmd => simp [hr]
  | none =>
    simp only [State.num_allocated_commands] at hr ⊢
    by_cases hlt : s.allocated_commands.length < ACTUATOR_MAX_COMMANDS
    · simp [hr, hlt, generate_scan_length]
    · simp [hr, hlt, generate_scan_length]

/-- A `NULL` result means every constructed slot is in use and the pool is full. -/
theorem actuator_generate_command_none (I : Interface) (heap : actuator_cmd_data_t)
    (cmd_id : actuator_command) (cb : Option actuator_cmd_response_cb_t) (s : State)
    (h : (actuator_generate_command I heap cmd_id cb s).1 = none) :
    (∀ c ∈ s.allocated_commands, c.in_use = true)
      ∧ ACTUATOR_MAX_COMMANDS ≤ s.allocated_commands.length := by
  rw [actuator_generate_command_eq] at h
  cases hr : ((List.range s.num_allocated_commands).foldl generate_scan_step (none, s)).1 with
  | some cmd => rw [hr] at h; cases h
  | none =>
    rw [hr] at h
    by_cases hlt : s.allocated_commands.length < ACTUATOR_MAX_COMMANDS
    · simp [hlt] at h
    · exact ⟨(all_in_use_iff s).mp (generate_scan_none _ s hr), Nat.le_of_not_lt hlt⟩

/-- The pool never shrinks and never grows beyond its capacity. -/
theorem actuator_generate_command_length (I : Interface) (heap : actuator_cmd_data_t)
    (cmd_id : actuator_command) (cb : Option actuator_cmd_response_cb_t) (s : State) :
    s.allocated_commands.length
        ≤ (actuator_generate_command I heap cmd_id cb s).2.allocated_commands.length
      ∧ (s.allocated_commands.length ≤ ACTUATOR_MAX_COMMANDS →
        (actuator_generate_command I heap cmd_id cb s).2.allocated_commands.length
          ≤ ACTUATOR_MAX_COMMANDS) := by
  rw [actuator_generate_command_eq]
  cases hr : ((List.range s.num_allocated_commands).foldl generate_scan_step (none, s)).1 with
  | some cmd =>
    simp only [actuator_populate_command_length, generate_scan_length]
    exact ⟨le_refl _, id⟩
  | none =>
    by_cases hlt : s.allocated_commands.length < ACTUATOR_MAX_COMMANDS
    · simp only [hlt, if_true, actuator_populate_command_length, List.length_append,
        List.length_singleton, generate_scan_length]
      omega
    · simp only [hlt, if_false, generate_scan_length]
      exact ⟨le_refl _, id⟩

/-! ## Filling the pool -/

theorem cmd_allocated_append_lt (s : State) (c : actuator_cmd_data_t) (i : Nat)
    (h : i < s.allocated_commands.length) :
    ({ s with allocated_commands := s.allocated_commands ++ [c] } : State).cmd
      (CmdRef.allocated i) = s.cmd (CmdRef.allocated i) := by
  simp [State.cmd, List.getD_eq_getElem?_getD, List.getElem?_append_left h]

theorem cmd_allocated_append_eq (s : State) (c : actuator_cmd_data_t) :
    ({ s with allocated_commands := s.allocated_commands ++ [c] } : State).cmd
      (CmdRef.allocated s.allocated_commands.length) = c := by
  simp [State.cmd, List.getD_eq_getElem?_getD]

/-- Filling a pool whose slots are all in use: each call constructs the next
slot, and all slots stay in use. -/
theorem generate_commands_fill (I : Interface) (args : List GenerateArgs) (s : State)
    (hall : ∀ c ∈ s.allocated_commands, c.in_use = true)
    (hroom : s.allocated_commands.length + args.length ≤ ACTUATOR_MAX_COMMANDS) :
    (generate_commands I args s).1
        = (List.range args.length).map
            (fun i => some (CmdRef.allocated (s.allocated_commands.length + i)))
      ∧ (generate_commands I args s).2.allocated_commands.length
        = s.allocated_commands.length + args.length
      ∧ ∀ c ∈ (generate_commands I args s).2.allocated_commands, c.in_use = true := by
  induction args generalizing s with
  | nil => exact ⟨rfl, rfl, hall⟩
  | cons a rest ih =>
    have hlt : s.allocated_commands.length < ACTUATOR_MAX_COMMANDS := by
      simp only [List.length_cons] at hroom; omega
    have hgen := actuator_generate_command_fresh I a.heap a.cmd_id a.response_cb s hall hlt
    simp only [generate_commands, hgen]
    have hlen : (actuator_populate_command I (CmdRef.allocated s.allocated_commands.length)
        a.cmd_id a.response_cb true
        { s with allocated_commands := s.allocated_commands ++ [{ a.heap with in_use := true }] }
        ).allocated_commands.length = s.allocated_commands.length + 1 := by
      simp
    have hall' : ∀ c ∈ (actuator_populate_command I
        (CmdRef.allocated s.allocated_commands.length) a.cmd_id a.response_cb true
        { s with allocated_commands := s.allocated_commands ++ [{ a.heap with in_use := true }] }
        ).allocated_commands, c.in_use = true := by
      rw [← all_in_use_iff]
      intro i hi
      rw [State.num_allocated_commands, hlen] at hi
      rw [actuator_populate_command_in_use]
      rcases Nat.lt_succ_iff_lt_or_eq.mp (List.mem_range.mp hi) with h | h
      · rw [cmd_allocated_append_lt s _ i h, cmd_allocated_of_lt s i h]
        exact hall _ (List.getElem_mem _)
      · subst h
        rw [cmd_allocated_append_eq]
    obtain ⟨h1, h2, h3⟩ := ih _ hall'
      (by rw [hlen]; simp only [List.length_cons] at hroom; omega)
    refine ⟨?_, ?_, h3⟩
    · rw [h1, hlen, List.length_cons, List.range_succ_eq_map, List.map_cons, List.map_map]
      simp only [Nat.add_zero, List.cons.injEq, true_and]
      apply List.map_congr_left
      intro i _
      simp only [Function.comp, Nat.succ_eq_add_one]
      congr 2
      omega
    · rw [h2, hlen, List.length_cons]; omega

/-! ## Handler lemmas -/

@[simp] theorem safety_raise_fault_cb_trace (fault_id : Nat) (s : State) :
    (safety_raise_fault fault_id s).vars.cb_trace = s.vars.cb_trace := by
  rw [safety_raise_fault_vars]; split <;> rfl

@[simp] theorem safety_raise_fault_i2c_trace (fault_id : Nat) (s : State) :
    (safety_raise_fault fault_id s).vars.i2c_trace = s.vars.i2c_trace := by
  rw [safety_raise_fault_vars]; split <;> rfl

/-- A kill-switch send with safety initialised: the query returns the last
kill state and the remaining statements run. -/
theorem kill_switch_send_of_init (I : Interface) (s : State)
    (h : s.vars.safety_initialized = true) :
    kill_switch_send I s
      = kill_switch_send_sampled I s.vars.last_state_asserting_kill
          { s with vars.kill_switch_needs_refresh := false } := by
  simp only [kill_switch_send, safety_kill_get_asserting_kill, h, if_true]

/-- A kill-switch send with safety not initialised: the program stops at the
query, after the needs-refresh flag was cleared. -/
theorem kill_switch_send_of_not_init (I : Interface) (s : State)
    (h : s.vars.safety_initialized = false) :
    kill_switch_send I s
      = { s with vars.kill_switch_needs_refresh := false, vars.assert_failed := true } := by
  simp only [kill_switch_send, safety_kill_get_asserting_kill, h, Bool.false_eq_true, if_false]

/-- How to show a property of the state after a kill-switch send: for the
state in which the program stopped, and for the state after the send. -/
theorem kill_switch_send_cases (I : Interface) (s : State) (R : State → Prop)
    (hstop : s.vars.safety_initialized = false →
      R { s with vars.kill_switch_needs_refresh := false, vars.assert_failed := true })
    (hsend : s.vars.safety_initialized = true →
      R (kill_switch_send_sampled I s.vars.last_state_asserting_kill
        { s with vars.kill_switch_needs_refresh := false })) :
    R (kill_switch_send I s) := by
  cases h : s.vars.safety_initialized with
  | false => rw [kill_switch_send_of_not_init I s h]; exact hstop h
  | true => rw [kill_switch_send_of_init I s h]; exact hsend h

@[simp] theorem kill_switch_send_sampled_length (I : Interface) (k : Bool) (s : State) :
    (kill_switch_send_sampled I k s).allocated_commands.length = s.allocated_commands.length := by
  simp [kill_switch_send_sampled]

@[simp] theorem kill_switch_send_sampled_cb_trace (I : Interface) (k : Bool) (s : State) :
    (kill_switch_send_sampled I k s).vars.cb_trace = s.vars.cb_trace := by
  simp [kill_switch_send_sampled]

theorem kill_switch_send_sampled_in_use (I : Interface) (k : Bool) (r : CmdRef) (s : State) :
    ((kill_switch_send_sampled I k s).cmd r).in_use
      = if r = CmdRef.kill_switch_update_command then true else (s.cmd r).in_use := by
  simp only [kill_switch_send_sampled, actuator_send_command_in_use, cmd_modifyCmd,
    validRef_modifyCmd, State.validRef, and_true]
  split <;> simp_all

@[simp] theorem kill_switch_send_length (I : Interface) (s : State) :
    (kill_switch_send I s).allocated_commands.length = s.allocated_commands.length := by
  apply kill_switch_send_cases I s (fun t => t.allocated_commands.length = _)
  · intro _; rfl
  · intro _; simp

@[simp] theorem kill_switch_send_cb_trace (I : Interface) (s : State) :
    (kill_switch_send I s).vars.cb_trace = s.vars.cb_trace := by
  apply kill_switch_send_cases I s (fun t => t.vars.cb_trace = _)
  · intro _; rfl
  · intro _; simp

theorem kill_switch_send_in_use (I : Interface) (r : CmdRef) (s : State)
    (hinit : s.vars.safety_initialized = true) :
    ((kill_switch_send I s).cmd r).in_use
      = if r = CmdRef.kill_switch_update_command then true else (s.cmd r).in_use := by
  rw [kill_switch_send_of_init I s hinit, kill_switch_send_sampled_in_use]
  rfl

/-- A kill-switch send releases no slot. -/
theorem kill_switch_send_in_use_mono (I : Interface) (r : CmdRef) (s : State)
    (h : (s.cmd r).in_use = true) : ((kill_switch_send I s).cmd r).in_use = true := by
  apply kill_switch_send_cases I s (fun t => (t.cmd r).in_use = true)
  · intro _; exact h
  · intro _
    rw [kill_switch_send_sampled_in_use]
    split
    · rfl
    · exact h

@[simp] theorem actuator_update_missing_timings_length (I : Interface) (s : State) :
    (actuator_update_missing_timings I s).allocated_commands.length
      = s.allocated_commands.length := by
  simp only [actuator_update_missing_timings]
  split_ifs <;> simp

@[simp] theorem actuator_update_missing_timings_cb_trace (I : Interface) (s : State) :
    (actuator_update_missing_timings I s).vars.cb_trace = s.vars.cb_trace := by
  simp only [actuator_update_missing_timings]
  split_ifs <;> simp

theorem call_response_cb_length (I : Interface) (cb : actuator_cmd_response_cb_t)
    (cmd : CmdRef) (s : State) :
    (call_response_cb I cb cmd s).2.allocated_commands.length = s.allocated_commands.length := by
  cases cb <;> simp only [call_response_cb]
  · simp only [actuator_set_timing_general_cb, resolver_length]
    split_ifs <;> simp
  · simp only [actuator_kill_switch_update_callback]
    split_ifs <;> simp
  · simp only [actuator_status_callback]
    split_ifs <;> simp
  · simp only [actuator_generic_result_cb]
    split_ifs <;> simp

theorem call_response_cb_cb_trace (I : Interface) (cb : actuator_cmd_response_cb_t)
    (cmd : CmdRef) (s : State) :
    (call_response_cb I cb cmd s).2.vars.cb_trace = s.vars.cb_trace ++ [(cb, cmd)] := by
  cases cb <;> simp only [call_response_cb]
  · simp only [actuator_set_timing_general_cb, resolver_cb_trace]
    split_ifs <;> simp
  · simp only [actuator_kill_switch_update_callback]
    split_ifs <;> simp
  · simp only [actuator_status_callback]
    split_ifs <;> simp
  · simp only [actuator_generic_result_cb]
    split_ifs <;> simp

/-- A handler that asks to keep its slot leaves a slot that was in use in use. -/
theorem call_response_cb_retained (I : Interface) (cb : actuator_cmd_response_cb_t)
    (cmd : CmdRef) (s : State) (huse : (s.cmd cmd).in_use = true)
    (hret : (call_response_cb I cb cmd s).1 = true) :
    ((call_response_cb I cb cmd s).2.cmd cmd).in_use = true := by
  cases cb <;> simp only [call_response_cb] at hret ⊢
  · simp only [actuator_set_timing_general_cb, resolver_in_use]
    split_ifs <;> simpa using huse
  · simp only [actuator_kill_switch_update_callback] at hret ⊢
    split_ifs at hret ⊢
    exact kill_switch_send_in_use_mono I cmd _ (by simpa using huse)
  · simp only [actuator_status_callback] at hret
    split_ifs at hret
  · simp only [actuator_generic_result_cb] at hret
    split_ifs at hret

/-! ## Completion and failure handlers -/

theorem response_crc_mismatch_some (I : Interface) (c : actuator_cmd_data_t)
    (hlen : c.i2c_request.bytes_to_receive > 0)
    (hcrc : I.actuator_i2c_crc8_calc_response c.response c.i2c_request.bytes_to_receive % 256
      ≠ c.response.crc8) :
    response_crc_mismatch I c
      = some (I.actuator_i2c_crc8_calc_response c.response c.i2c_request.bytes_to_receive % 256,
          c.response.crc8) := by
  simp [response_crc_mismatch, hlen, hcrc]

theorem response_crc_mismatch_none (I : Interface) (c : actuator_cmd_data_t)
    (h : c.i2c_request.bytes_to_receive = 0 ∨
      I.actuator_i2c_crc8_calc_response c.response c.i2c_request.bytes_to_receive % 256
        = c.response.crc8) :
    response_crc_mismatch I c = none := by
  unfold response_crc_mismatch
  rcases h with h | h
  · simp [h]
  · simp [h]

theorem safety_raise_fault_fault_list (fault_id : Nat) (s : State) :
    (safety_raise_fault fault_id s).vars.fault_list =
      if s.vars.fault_list &&& ((1 <<< fault_id) % 2 ^ 32) = 0 then
        (s.vars.fault_list ||| (1 <<< fault_id)) % 2 ^ 32
      else s.vars.fault_list := by
  rw [safety_raise_fault_vars]; split <;> rfl

/-- Raising a fault only looks at the fault list. -/
theorem safety_raise_fault_fault_list_congr (fault_id : Nat) (s t : State)
    (h : s.vars.fault_list = t.vars.fault_list) :
    (safety_raise_fault fault_id s).vars.fault_list
      = (safety_raise_fault fault_id t).vars.fault_list := by
  rw [safety_raise_fault_fault_list, safety_raise_fault_fault_list, h]

theorem fault_is_raised_congr (fault_id : Nat) (s t : State)
    (h : s.vars.fault_list = t.vars.fault_list) :
    fault_is_raised fault_id s = fault_is_raised fault_id t := by
  simp only [fault_is_raised, h]

/-- The checksum-mismatch path of `actuator_command_done` in one equation. -/
theorem actuator_command_done_mismatch_eq (I : Interface) (req : async_i2c_request)
    (cmd : CmdRef) (s : State) (hreq : req.user_data = some cmd)
    (hlen : (s.cmd cmd).i2c_request.bytes_to_receive > 0)
    (hcrc : I.actuator_i2c_crc8_calc_response (s.cmd cmd).response
        (s.cmd cmd).i2c_request.bytes_to_receive % 256 ≠ (s.cmd cmd).response.crc8) :
    actuator_command_done I req s =
      (if (s.cmd cmd).important_request = true then
        safety_raise_fault I.FAULT_ACTUATOR_FAIL
          { s with vars.log := s.vars.log ++ [LogMsg.warn_crc_mismatch
            (I.actuator_i2c_crc8_calc_response (s.cmd cmd).response
              (s.cmd cmd).i2c_request.bytes_to_receive % 256) (s.cmd cmd).response.crc8] }
      else
        { s with vars.log := s.vars.log ++ [LogMsg.warn_crc_mismatch
            (I.actuator_i2c_crc8_calc_response (s.cmd cmd).response
              (s.cmd cmd).i2c_request.bytes_to_receive % 256)
            (s.cmd cmd).response.crc8] }).modifyCmd cmd
        fun c => { c with in_use := false } := by
  have hm := response_crc_mismatch_some I (s.cmd cmd) hlen hcrc
  simp only [actuator_command_done, hreq, hm, cmd_with_vars]
  rfl

/-- C1. When the populated command declares a nonzero response length and the
checksum recomputed over the received response differs from the embedded
checksum byte, `actuator_command_done` does not invoke the dispatch handler
(and enqueues nothing), releases the slot, raises `FAULT_ACTUATOR_FAIL` when
the slot is important and leaves the fault list alone when it is not. -/
theorem actuator_command_done_crc_mismatch (I : Interface) (req : async_i2c_request)
    (cmd : CmdRef) (s : State) (hreq : req.user_data = some cmd) (hvalid : s.validRef cmd)
    (hlen : (s.cmd cmd).i2c_request.bytes_to_receive > 0)
    (hcrc : I.actuator_i2c_crc8_calc_response (s.cmd cmd).response
        (s.cmd cmd).i2c_request.bytes_to_receive % 256 ≠ (s.cmd cmd).response.crc8) :
    (actuator_command_done I req s).vars.cb_trace = s.vars.cb_trace
    ∧ (actuator_command_done I req s).vars.i2c_trace = s.vars.i2c_trace
    ∧ ((actuator_command_done I req s).cmd cmd).in_use = false
    ∧ ((s.cmd cmd).important_request = true →
        (actuator_command_done I req s).vars.fault_list
            = (safety_raise_fault I.FAULT_ACTUATOR_FAIL s).vars.fault_list
          ∧ (I.FAULT_ACTUATOR_FAIL < 32 →
              fault_is_raised I.FAULT_ACTUATOR_FAIL (actuator_command_done I req s) = true))
    ∧ ((s.cmd cmd).important_request = false →
        (actuator_command_done I req s).vars.fault_list = s.vars.fault_list
          ∧ (actuator_command_done I req s).vars.fault_led = s.vars.fault_led) := by
  rw [actuator_command_done_mismatch_eq I req cmd s hreq hlen hcrc]
  by_cases himp : (s.cmd cmd).important_request = true
  · rw [if_pos himp]
    refine ⟨by simp, by simp, ?_, fun _ => ⟨?_, fun h32 => ?_⟩, fun h => ?_⟩
    · rw [cmd_modifyCmd_same]
      rw [validRef_of_length (safety_raise_fault_length _ _)]
      simpa using hvalid
    · rw [modifyCmd_vars]
      exact safety_raise_fault_fault_list_congr _ _ _ rfl
    · rw [fault_is_raised_congr _ _ _ (congrArg Vars.fault_list (modifyCmd_vars _ _ _))]
      exact fault_is_raised_raise _ _ h32
    · rw [himp] at h; exact absurd h (by decide)
  · rw [if_neg himp]
    refine ⟨by simp, by simp, ?_, fun h => absurd h himp, fun _ => ⟨by simp, by simp⟩⟩
    rw [cmd_modifyCmd_same]
    simpa using hvalid

/-- The accepting path of `actuator_command_done` in one equation. -/
theorem actuator_command_done_ok_eq (I : Interface) (req : async_i2c_request)
    (cmd : CmdRef) (s : State) (hreq : req.user_data = some cmd)
    (hok : response_crc_mismatch I (s.cmd cmd) = none) :
    actuator_command_done I req s =
      match (s.cmd cmd).response_cb with
      | none => s.modifyCmd cmd fun c => { c with in_use := false }
      | some cb =>
        if (call_response_cb I cb cmd s).1 = true then (call_response_cb I cb cmd s).2
        else (call_response_cb I cb cmd s).2.modifyCmd cmd fun c => { c with in_use := false } := by
  simp only [actuator_command_done, hreq, hok]
  cases hcb : (s.cmd cmd).response_cb with
  | none => rfl
  | some cb =>
    simp only []
    by_cases hr : (call_response_cb I cb cmd s).1 = true
    · simp [hr]
    · simp [hr]

/-- C2. When the response length is zero or the recomputed checksum equals the
embedded checksum byte, `actuator_command_done` invokes the dispatch handler
exactly once if one is present (and none otherwise); afterwards a slot that
was in use is still in use exactly when a handler was present and returned
true. -/
theorem actuator_command_done_dispatch (I : Interface) (req : async_i2c_request)
    (cmd : CmdRef) (s : State) (hreq : req.user_data = some cmd) (hvalid : s.validRef cmd)
    (huse : (s.cmd cmd).in_use = true)
    (hok : (s.cmd cmd).i2c_request.bytes_to_receive = 0 ∨
      I.actuator_i2c_crc8_calc_response (s.cmd cmd).response
        (s.cmd cmd).i2c_request.bytes_to_receive % 256 = (s.cmd cmd).response.crc8) :
    match (s.cmd cmd).response_cb with
    | none =>
      (actuator_command_done I req s).vars.cb_trace = s.vars.cb_trace
        ∧ ((actuator_command_done I req s).cmd cmd).in_use = false
    | some cb =>
      (actuator_command_done I req s).vars.cb_trace = s.vars.cb_trace ++ [(cb, cmd)]
        ∧ ((actuator_command_done I req s).cmd cmd).in_use = (call_response_cb I cb cmd s).1 := by
  rw [actuator_command_done_ok_eq I req cmd s hreq (response_crc_mismatch_none I _ hok)]
  cases hcb : (s.cmd cmd).response_cb with
  | none =>
    refine ⟨by simp, ?_⟩
    simp only []
    rw [cmd_modifyCmd_same _ _ _ hvalid]
  | some cb =>
    simp only []
    by_cases hr : (call_response_cb I cb cmd s).1 = true
    · rw [if_pos hr, hr]
      exact ⟨call_response_cb_cb_trace I cb cmd s, call_response_cb_retained I cb cmd s huse hr⟩
    · rw [if_neg hr]
      refine ⟨by rw [modifyCmd_vars]; exact call_response_cb_cb_trace I cb cmd s, ?_⟩
      rw [cmd_modifyCmd_same]
      · simpa using hr
      · rw [validRef_of_length (call_response_cb_length I cb cmd s)]; exact hvalid

/-- The body of `actuator_command_failed` in one equation. -/
theorem actuator_command_failed_eq (I : Interface) (req : async_i2c_request)
    (abort_data : Nat) (cmd : CmdRef) (s : State) (hreq : req.user_data = some cmd) :
    actuator_command_failed I req abort_data s =
      (if (s.cmd cmd).important_request = true then
        safety_raise_fault I.FAULT_ACTUATOR_FAIL
          { s with vars.log := s.vars.log ++
            [LogMsg.error_failed_important (s.cmd cmd).request.cmd_id abort_data] }
      else
        { s with vars.log := s.vars.log ++
            [LogMsg.warn_failed (s.cmd cmd).request.cmd_id abort_data] }).modifyCmd cmd
        fun c => { c with in_use := false } := by
  simp only [actuator_command_failed, hreq]

/-- C3. For every slot and every abort code, `actuator_command_failed` clears
`in_use`, never invokes the dispatch handler (and enqueues nothing), raises
`FAULT_ACTUATOR_FAIL` when the slot is important and leaves the fault list
unchanged when it is not. -/
theorem actuator_command_failed_releases (I : Interface) (req : async_i2c_request)
    (abort_data : Nat) (cmd : CmdRef) (s : State) (hreq : req.user_data = some cmd)
    (hvalid : s.validRef cmd) :
    ((actuator_command_failed I req abort_data s).cmd cmd).in_use = false
    ∧ (actuator_command_failed I req abort_data s).vars.cb_trace = s.vars.cb_trace
    ∧ (actuator_command_failed I req abort_data s).vars.i2c_trace = s.vars.i2c_trace
    ∧ ((s.cmd cmd).important_request = true →
        (actuator_command_failed I req abort_data s).vars.fault_list
            = (safety_raise_fault I.FAULT_ACTUATOR_FAIL s).vars.fault_list
          ∧ (I.FAULT_ACTUATOR_FAIL < 32 →
              fault_is_raised I.FAULT_ACTUATOR_FAIL
                (actuator_command_failed I req abort_data s) = true))
    ∧ ((s.cmd cmd).important_request = false →
        (actuator_command_failed I req abort_data s).vars.fault_list = s.vars.fault_list
          ∧ (actuator_command_failed I req abort_data s).vars.fault_led = s.vars.fault_led) := by
  rw [actuator_command_failed_eq I req abort_data cmd s hreq]
  by_cases himp : (s.cmd cmd).important_request = true
  · rw [if_pos himp]
    refine ⟨?_, by simp, by simp, fun _ => ⟨?_, fun h32 => ?_⟩, fun h => ?_⟩
    · rw [cmd_modifyCmd_same]
      rw [validRef_of_length (safety_raise_fault_length _ _)]
      simpa using hvalid
    · rw [modifyCmd_vars]
      exact safety_raise_fault_fault_list_congr _ _ _ rfl
    · rw [fault_is_raised_congr _ _ _ (congrArg Vars.fault_list (modifyCmd_vars _ _ _))]
      exact fault_is_raised_raise _ _ h32
    · rw [himp] at h; exact absurd h (by decide)
  · rw [if_neg himp]
    refine ⟨?_, by simp, by simp, fun h => absurd h himp, fun _ => ⟨by simp, by simp⟩⟩
    rw [cmd_modifyCmd_same]
    simpa using hvalid

/-! ## The pool size over whole executions -/

@[simp] theorem safety_lower_fault_length (fault_id : Nat) (s : State) :
    (safety_lower_fault fault_id s).allocated_commands.length = s.allocated_commands.length := by
  simp only [safety_lower_fault]; split_ifs <;> simp

theorem actuator_command_done_length (I : Interface) (req : async_i2c_request) (s : State) :
    (actuator_command_done I req s).allocated_commands.length = s.allocated_commands.length := by
  cases hreq : req.user_data with
  | none => simp [actuator_command_done, hreq]
  | some cmd =>
    cases hm : response_crc_mismatch I (s.cmd cmd) with
    | none =>
      rw [actuator_command_done_ok_eq I req cmd s hreq hm]
      cases (s.cmd cmd).response_cb with
      | none => simp
      | some cb =>
        simp only []
        split_ifs <;> simp [call_response_cb_length]
    | some p =>
      simp only [actuator_command_done, hreq, hm, cmd_with_vars]
      split_ifs <;> simp

theorem actuator_command_failed_length (I : Interface) (req : async_i2c_request)
    (abort_data : Nat) (s : State) :
    (actuator_command_failed I req abort_data s).allocated_commands.length
      = s.allocated_commands.length := by
  cases hreq : req.user_data with
  | none => simp [actuator_command_failed, hreq]
  | some cmd =>
    rw [actuator_command_failed_eq I req abort_data cmd s hreq]
    split_ifs <;> simp

/-- How to show a property of the state after `async_i2c_transfer_done`: `R1`
holds up to the call of the completion handler, `R2` from there on. -/
theorem async_i2c_transfer_done_cases (I : Interface) (rx : actuator_i2c_response_t)
    (s : State) (R1 R2 : State → Prop) (h0 : R1 s)
    (hq1 : ∀ (t : State) (q : List CmdRef), R1 t → R1 { t with vars.i2c_queue := q })
    (hresp : ∀ (t : State) (buf : CmdRef), R1 t →
      R1 (t.modifyCmd buf fun c => { c with response := rx }))
    (hdone : ∀ (t : State) (req : async_i2c_request), R1 t →
      R2 (actuator_command_done I req t))
    (hskip : ∀ t : State, R1 t → R2 t)
    (hq2 : ∀ (t : State) (q : List CmdRef), R2 t → R2 { t with vars.i2c_queue := q })
    (hprog : ∀ (t : State) (cmd : CmdRef), R2 t →
      R2 (t.modifyCmd cmd fun c => { c with i2c_in_progress := false })) :
    R2 (async_i2c_transfer_done I rx s) := by
  unfold async_i2c_transfer_done
  split
  · exact hskip s h0
  · rename_i cmd rest hq
    have h1 := hq1 s rest h0
    simp only []
    cases hrx : (({ s with vars.i2c_queue := rest } : State).cmd cmd).i2c_request.rx_buffer <;>
      cases hcc : (({ s with vars.i2c_queue := rest } : State).cmd
        cmd).i2c_request.completed_callback <;>
      cases hnx : (({ s with vars.i2c_queue := rest } : State).cmd
        cmd).i2c_request.next_req_on_success <;>
      simp only [] <;> (try split_ifs)
    all_goals first
      | exact hskip _ h1
      | exact hdone _ _ h1
      | exact hskip _ (hresp _ _ h1)
      | exact hdone _ _ (hresp _ _ h1)
      | exact hprog _ _ (hskip _ h1)
      | exact hq2 _ _ (hskip _ h1)
      | exact hprog _ _ (hdone _ _ h1)
      | exact hq2 _ _ (hdone _ _ h1)
      | exact hprog _ _ (hskip _ (hresp _ _ h1))
      | exact hq2 _ _ (hskip _ (hresp _ _ h1))
      | exact hprog _ _ (hdone _ _ (hresp _ _ h1))
      | exact hq2 _ _ (hdone _ _ (hresp _ _ h1))
      | exact hq2 s _ (hskip _ h0)

theorem async_i2c_transfer_done_length (I : Interface) (rx : actuator_i2c_response_t)
    (s : State) :
    (async_i2c_transfer_done I rx s).allocated_commands.length = s.allocated_commands.length := by
  apply async_i2c_transfer_done_cases I rx s
    (fun t => t.allocated_commands.length = s.allocated_commands.length)
    (fun t => t.allocated_commands.length = s.allocated_commands.length)
  · rfl
  · intro t q ht; exact ht
  · intro t buf ht; rw [modifyCmd_length]; exact ht
  · intro t req ht; rw [actuator_command_done_length]; exact ht
  · intro t ht; exact ht
  · intro t q ht; exact ht
  · intro t cmd ht; rw [modifyCmd_length]; exact ht

theorem async_i2c_transfer_failed_length (I : Interface) (abort_data : Nat) (s : State) :
    (async_i2c_transfer_failed I abort_data s).allocated_commands.length
      = s.allocated_commands.length := by
  unfold async_i2c_transfer_failed
  split
  · rfl
  · simp only [cmd_with_vars]
    split <;> simp [actuator_command_failed_length]

theorem public_command_length (I : Interface) (r : Option CmdRef × State)
    (fill : cmd_payload → cmd_payload) :
    (public_command I r fill).allocated_commands.length = r.2.allocated_commands.length := by
  unfold public_command
  split <;> simp

theorem torpedo1_parameter_length (I : Interface) (ty : torpedo_timing_type) (v : Int)
    (mark : missing_timings_status → missing_timings_status) (s : State) :
    (torpedo1_parameter I ty v mark s).2.allocated_commands.length
      = s.allocated_commands.length := by
  simp only [torpedo1_parameter]
  split_ifs <;> simp

theorem torpedo2_parameter_length (I : Interface) (ty : torpedo_timing_type) (v : Int)
    (mark : missing_timings_status → missing_timings_status) (s : State) :
    (torpedo2_parameter I ty v mark s).2.allocated_commands.length
      = s.allocated_commands.length := by
  simp only [torpedo2_parameter]
  split_ifs <;> simp

theorem actuator_handle_parameter_change_length (I : Interface) (param : Parameter)
    (s : State) :
    (actuator_handle_parameter_change I param s).2.allocated_commands.length
      = s.allocated_commands.length := by
  unfold actuator_handle_parameter_change
  by_cases h0 : (!s.vars.actuator_initialized) = true
  · rw [if_pos h0]
  rw [if_neg h0]
  by_cases h1 : param.value_type ≠ rclc_parameter_type.INT
  · rw [if_pos h1]
  rw [if_neg h1]
  by_cases hn : param.name = "claw_timing_ms"
  · rw [if_pos hn]
    by_cases hv : IS_VALID_TIMING param.integer_value = true
    · rw [if_pos hv]; simp
    · rw [if_neg hv]
  rw [if_neg hn]
  clear hn
  by_cases hn : param.name = "dropper_active_timing_ms"
  · rw [if_pos hn]
    by_cases hv : IS_VALID_TIMING param.integer_value = true
    · rw [if_pos hv]; simp
    · rw [if_neg hv]
  rw [if_neg hn]
  clear hn
  by_cases hn : param.name = "torpedo1_coil1_on_timing_us"
  · rw [if_pos hn]; exact torpedo1_parameter_length ..
  rw [if_neg hn]
  clear hn
  by_cases hn : param.name = "torpedo1_coil1_2_delay_timing_us"
  · rw [if_pos hn]; exact torpedo1_parameter_length ..
  rw [if_neg hn]
  clear hn
  by_cases hn : param.name = "torpedo1_coil2_on_timing_us"
  · rw [if_pos hn]; exact torpedo1_parameter_length ..
  rw [if_neg hn]
  clear hn
  by_cases hn : param.name = "torpedo1_coil2_3_delay_timing_us"
  · rw [if_pos hn]; exact torpedo1_parameter_length ..
  rw [if_neg hn]
  clear hn
  by_cases hn : param.name = "torpedo1_coil3_on_timing_us"
  · rw [if_pos hn]; exact torpedo1_parameter_length ..
  rw [if_neg hn]
  clear hn
  by_cases hn : param.name = "torpedo2_coil1_on_timing_us"
  · rw [if_pos hn]; exact torpedo2_parameter_length ..
  rw [if_neg hn]
  clear hn
  by_cases hn : param.name = "torpedo2_coil1_2_delay_timing_us"
  · rw [if_pos hn]; exact torpedo2_parameter_length ..
  rw [if_neg hn]
  clear hn
  by_cases hn : param.name = "torpedo2_coil2_on_timing_us"
  · rw [if_pos hn]; exact torpedo2_parameter_length ..
  rw [if_neg hn]
  clear hn
  by_cases hn : param.name = "torpedo2_coil2_3_delay_timing_us"
  · rw [if_pos hn]; exact torpedo2_parameter_length ..
  rw [if_neg hn]
  clear hn
  by_cases hn : param.name = "torpedo2_coil3_on_timing_us"
  · rw [if_pos hn]; exact torpedo2_parameter_length ..
  rw [if_neg hn]

theorem actuator_poll_alarm_callback_length (I : Interface) (s : State) :
    (actuator_poll_alarm_callback I s).2.allocated_commands.length
      = s.allocated_commands.length := by
  simp only [actuator_poll_alarm_callback]
  split_ifs <;> simp

theorem actuator_kill_report_refresh_length (I : Interface) (s : State) :
    (actuator_kill_report_refresh I s).allocated_commands.length
      = s.allocated_commands.length := by
  simp only [actuator_kill_report_refresh]
  split_ifs <;> simp

theorem actuator_init_length (I : Interface) (s : State) :
    (actuator_init I s).allocated_commands.length = s.allocated_commands.length := by
  simp [actuator_init]

/-- A public command function changes the pool size only through
`actuator_generate_command`. -/
theorem public_command_generate_length (I : Interface) (heap : actuator_cmd_data_t)
    (cmd_id : actuator_command) (cb : Option actuator_cmd_response_cb_t)
    (fill : cmd_payload → cmd_payload) (s : State) :
    s.allocated_commands.length
        ≤ (public_command I (actuator_generate_command I heap cmd_id cb s)
            fill).allocated_commands.length
      ∧ (s.allocated_commands.length ≤ ACTUATOR_MAX_COMMANDS →
        (public_command I (actuator_generate_command I heap cmd_id cb s)
            fill).allocated_commands.length ≤ ACTUATOR_MAX_COMMANDS) := by
  rw [public_command_length]
  exact actuator_generate_command_length I heap cmd_id cb s

/-- No event shrinks the pool, and none grows it beyond its capacity. -/
theorem Event.apply_length (I : Interface) (e : Event) (s : State) :
    s.allocated_commands.length ≤ (e.apply I s).allocated_commands.length
      ∧ (s.allocated_commands.length ≤ ACTUATOR_MAX_COMMANDS →
        (e.apply I s).allocated_commands.length ≤ ACTUATOR_MAX_COMMANDS) := by
  have keep : ∀ t : State, t.allocated_commands.length = s.allocated_commands.length →
      s.allocated_commands.length ≤ t.allocated_commands.length
        ∧ (s.allocated_commands.length ≤ ACTUATOR_MAX_COMMANDS →
          t.allocated_commands.length ≤ ACTUATOR_MAX_COMMANDS) := by
    intro t ht; rw [ht]; exact ⟨le_refl _, id⟩
  cases e with
  | actuator_init => exact keep _ (actuator_init_length I s)
  | safety_init => exact keep _ rfl
  | clock dt => exact keep _ rfl
  | kill_state b => exact keep _ rfl
  | raise_fault fault_id => exact keep _ (safety_raise_fault_length _ _)
  | lower_fault fault_id => exact keep _ (safety_lower_fault_length _ _)
  | open_claw heap => exact public_command_generate_length ..
  | close_claw heap => exact public_command_generate_length ..
  | set_claw_timings heap o c => exact public_command_generate_length ..
  | arm_torpedo heap => exact public_command_generate_length ..
  | disarm_torpedo heap => exact public_command_generate_length ..
  | fire_torpedo heap n => exact public_command_generate_length ..
  | set_torpedo_timings heap n ty t => exact public_command_generate_length ..
  | drop_marker heap n => exact public_command_generate_length ..
  | clear_dropper_status heap => exact public_command_generate_length ..
  | set_dropper_timings heap t => exact public_command_generate_length ..
  | reset_actuators heap => exact public_command_generate_length ..
  | parameter_change param => exact keep _ (actuator_handle_parameter_change_length I param s)
  | poll_alarm => exact keep _ (actuator_poll_alarm_callback_length I s)
  | kill_report_refresh => exact keep _ (actuator_kill_report_refresh_length I s)
  | transfer_done rx => exact keep _ (async_i2c_transfer_done_length I rx s)
  | transfer_failed abort_data => exact keep _ (async_i2c_transfer_failed_length I abort_data s)

/-- How to show a property of the state after a step: for the state as it
was, and for the effect of an enabled event on a program that has not
stopped. -/
theorem step_cases (I : Interface) (s : State) (e : Event) (R : State → Prop) (hs : R s)
    (ha : s.vars.assert_failed = false → e.enabled s = true → R (e.apply I s)) :
    R (step I s e) := by
  unfold step
  cases hf : s.vars.assert_failed with
  | true => simpa using hs
  | false =>
    simp only [Bool.false_eq_true, if_false]
    split
    · rename_i he; exact ha hf he
    · exact hs

theorem step_length (I : Interface) (s : State) (e : Event) :
    s.allocated_commands.length ≤ (step I s e).allocated_commands.length
      ∧ (s.allocated_commands.length ≤ ACTUATOR_MAX_COMMANDS →
        (step I s e).allocated_commands.length ≤ ACTUATOR_MAX_COMMANDS) := by
  apply step_cases I s e (fun t => s.allocated_commands.length ≤ t.allocated_commands.length
    ∧ (s.allocated_commands.length ≤ ACTUATOR_MAX_COMMANDS →
      t.allocated_commands.length ≤ ACTUATOR_MAX_COMMANDS))
  · exact ⟨le_refl _, id⟩
  · intro _ _; exact Event.apply_length I e s

theorem run_length (I : Interface) (evs : List Event) (s : State) :
    s.allocated_commands.length ≤ (run I evs s).allocated_commands.length
      ∧ (s.allocated_commands.length ≤ ACTUATOR_MAX_COMMANDS →
        (run I evs s).allocated_commands.length ≤ ACTUATOR_MAX_COMMANDS) := by
  induction evs generalizing s with
  | nil => exact ⟨le_refl _, id⟩
  | cons e evs ih =>
    have h1 := step_length I s e
    have h2 := ih (step I s e)
    simp only [run, List.foldl_cons] at h2 ⊢
    exact ⟨le_trans h1.1 h2.1, fun h => h2.2 (h1.2 h)⟩

theorem Reachable.length_le (I : Interface) (s : State) (h : Reachable I s) :
    s.allocated_commands.length ≤ ACTUATOR_MAX_COMMANDS := by
  obtain ⟨now, fl, led, evs, rfl⟩ := h
  exact (run_length I evs _).2 (by simp [boot])

/-- C5. Starting from an empty pool, eight consecutive calls of
`actuator_generate_command` with no slot released in between return the
pairwise distinct slots 0..7, all in use, and a ninth call returns `NULL`
and changes nothing. -/
theorem pool_capacity_scenario (I : Interface) (s : State) (args : List GenerateArgs)
    (ninth : GenerateArgs) (hempty : s.allocated_commands = []) (hlen : args.length = 8) :
    (generate_commands I args s).1
        = [some (CmdRef.allocated 0), some (CmdRef.allocated 1), some (CmdRef.allocated 2),
            some (CmdRef.allocated 3), some (CmdRef.allocated 4), some (CmdRef.allocated 5),
            some (CmdRef.allocated 6), some (CmdRef.allocated 7)]
      ∧ (generate_commands I args s).1.Nodup
      ∧ (generate_commands I args s).2.allocated_commands.length = 8
      ∧ (∀ c ∈ (generate_commands I args s).2.allocated_commands, c.in_use = true)
      ∧ actuator_generate_command I ninth.heap ninth.cmd_id ninth.response_cb
          (generate_commands I args s).2 = (none, (generate_commands I args s).2) := by
  obtain ⟨h1, h2, h3⟩ := generate_commands_fill I args s (by simp [hempty])
    (by simp [hempty, hlen, ACTUATOR_MAX_COMMANDS])
  rw [hempty, hlen] at h1 h2
  have hres : (generate_commands I args s).1
      = [some (CmdRef.allocated 0), some (CmdRef.allocated 1), some (CmdRef.allocated 2),
          some (CmdRef.allocated 3), some (CmdRef.allocated 4), some (CmdRef.allocated 5),
          some (CmdRef.allocated 6), some (CmdRef.allocated 7)] := by
    rw [h1]; rfl
  refine ⟨hres, ?_, h2, h3, ?_⟩
  · rw [hres]; decide
  · exact actuator_generate_command_exhausted I _ _ _ _ h3 (by rw [h2]; decide)

/-- C6. In every reachable state `actuator_generate_command` returns `NULL`
exactly when 8 slots have been constructed and every one of them is in use;
the number of constructed slots is at most 8 and no event decreases it. -/
theorem actuator_generate_command_null_iff (I : Interface) (s : State) (h : Reachable I s)
    (heap : actuator_cmd_data_t) (cmd_id : actuator_command)
    (cb : Option actuator_cmd_response_cb_t) (e : Event) :
    ((actuator_generate_command I heap cmd_id cb s).1 = none
        ↔ s.num_allocated_commands = 8 ∧ ∀ c ∈ s.allocated_commands, c.in_use = true)
      ∧ s.num_allocated_commands ≤ 8
      ∧ s.num_allocated_commands ≤ (step I s e).num_allocated_commands
      ∧ (step I s e).num_allocated_commands ≤ 8 := by
  have hle := Reachable.length_le I s h
  refine ⟨⟨fun hn => ?_, fun hf => ?_⟩, hle, (step_length I s e).1,
    (step_length I s e).2 hle⟩
  · obtain ⟨hall, hfull⟩ := actuator_generate_command_none I heap cmd_id cb s hn
    exact ⟨le_antisymm hle hfull, hall⟩
  · rw [actuator_generate_command_exhausted I heap cmd_id cb s hf.2 (by
      have := hf.1; simp only [State.num_allocated_commands] at this; rw [this]; decide)]

/-! ## The resolver -/

theorem actuator_populate_command_cmd (I : Interface) (cmd : CmdRef)
    (cmd_id : actuator_command) (cb : Option actuator_cmd_response_cb_t) (imp : Bool)
    (s : State) (h : s.validRef cmd) :
    ((actuator_populate_command I cmd cmd_id cb imp s).cmd cmd).request
        = { (s.cmd cmd).request with cmd_id := cmd_id }
      ∧ ((actuator_populate_command I cmd cmd_id cb imp s).cmd cmd).response_cb = cb
      ∧ ((actuator_populate_command I cmd cmd_id cb imp s).cmd cmd).important_request = imp
      ∧ ((actuator_populate_command I cmd cmd_id cb imp s).cmd cmd).i2c_request.user_data
          = some cmd
      ∧ ((actuator_populate_command I cmd cmd_id cb imp s).cmd cmd).i2c_request.bytes_to_receive
          = I.ACTUATOR_GET_RESPONSE_SIZE cmd_id % 65536
      ∧ ((actuator_populate_command I cmd cmd_id cb imp s).cmd cmd).response
          = (s.cmd cmd).response := by
  simp [actuator_populate_command, cmd_modifyCmd, h]

theorem actuator_populate_command_validRef (I : Interface) (cmd r : CmdRef)
    (cmd_id : actuator_command) (cb : Option actuator_cmd_response_cb_t) (imp : Bool)
    (s : State) :
    (actuator_populate_command I cmd cmd_id cb imp s).validRef r ↔ s.validRef r :=
  validRef_of_length (actuator_populate_command_length ..) r

/-- The slot after resolving a category: the frame carries the category's
command, the handler is the set-timing handler, the slot is important. -/
theorem resolve_category_cmd (I : Interface) (cmd : CmdRef) (cat : Category) (s : State)
    (h : s.validRef cmd) :
    cat.carried s.vars ((resolve_category I cmd cat s).cmd cmd).request
      ∧ ((resolve_category I cmd cat s).cmd cmd).response_cb
          = some actuator_cmd_response_cb_t.actuator_set_timing_general_cb
      ∧ ((resolve_category I cmd cat s).cmd cmd).important_request = true
      ∧ ((resolve_category I cmd cat s).cmd cmd).i2c_request.user_data = some cmd
      ∧ ((resolve_category I cmd cat s).cmd cmd).response = (s.cmd cmd).response := by
  cases cat with
  | claw =>
    have hp := actuator_populate_command_cmd I cmd actuator_command.CLAW_TIMING
      (some actuator_cmd_response_cb_t.actuator_set_timing_general_cb) true s h
    simp only [resolve_category, Category.carried]
    rw [actuator_send_command_cmd _ _ _ (by simpa [actuator_populate_command_validRef] using h)]
    simp only [cmd_with_vars]
    rw [cmd_modifyCmd_same _ _ _ (by simpa [actuator_populate_command_validRef] using h)]
    simp [hp]
  | dropper =>
    have hp := actuator_populate_command_cmd I cmd actuator_command.DROPPER_TIMING
      (some actuator_cmd_response_cb_t.actuator_set_timing_general_cb) true s h
    simp only [resolve_category, Category.carried]
    rw [actuator_send_command_cmd _ _ _ (by simpa [actuator_populate_command_validRef] using h)]
    simp only [cmd_with_vars]
    rw [cmd_modifyCmd_same _ _ _ (by simpa [actuator_populate_command_validRef] using h)]
    simp [hp]
  | torpedo1 ty =>
    have hp := actuator_populate_command_cmd I cmd actuator_command.TORPEDO_TIMING
      (some actuator_cmd_response_cb_t.actuator_set_timing_general_cb) true s h
    simp only [resolve_category, Category.carried, torpedo_timing_request]
    rw [actuator_send_command_cmd _ _ _ (by simpa [actuator_populate_command_validRef] using h)]
    simp only [cmd_with_vars]
    rw [cmd_modifyCmd_same _ _ _ (by simpa [actuator_populate_command_validRef] using h)]
    simp [hp]
  | torpedo2 ty =>
    have hp := actuator_populate_command_cmd I cmd actuator_command.TORPEDO_TIMING
      (some actuator_cmd_response_cb_t.actuator_set_timing_general_cb) true s h
    simp only [resolve_category, Category.carried, torpedo_timing_request]
    rw [actuator_send_command_cmd _ _ _ (by simpa [actuator_populate_command_validRef] using h)]
    simp only [cmd_with_vars]
    rw [cmd_modifyCmd_same _ _ _ (by simpa [actuator_populate_command_validRef] using h)]
    simp [hp]

/-- What one invocation of the resolver sends, by the first qualifying
category. -/
theorem resolver_transfers (I : Interface) (cmd : CmdRef) (s : State)
    (hvalid : s.validRef cmd) :
    match first_qualifying s.vars with
    | none => actuator_update_missing_timings_common I cmd s = (false, s)
    | some cat =>
      (actuator_update_missing_timings_common I cmd s).1 = true
        ∧ ∃ t : Transfer,
          (actuator_update_missing_timings_common I cmd s).2.vars.i2c_trace
              = s.vars.i2c_trace ++ [t]
            ∧ t.cmd = cmd ∧ cat.carried s.vars t.frame := by
  rw [resolver_eq_spec]
  unfold resolver_spec
  cases hq : first_qualifying s.vars with
  | none => rfl
  | some cat =>
    refine ⟨rfl, ⟨cmd, ((resolve_category I cmd cat s).cmd cmd).i2c_request,
      ((resolve_category I cmd cat s).cmd cmd).request⟩, ?_, rfl,
      (resolve_category_cmd I cmd cat s hvalid).1⟩
    simp only []
    rw [resolve_category_vars]

theorem first_qualifying_of_empty (v : Vars) (h : v.missing_timings = {}) :
    first_qualifying v = none := by
  simp [first_qualifying, Category.priority, List.find?, Category.qualifies, Category.missing, h]

/-- Releasing a free static timing slot is the identity. -/
theorem set_timing_release_free (s : State) (h : s.set_timing_command.in_use = false) :
    ({ s with set_timing_command := { s.set_timing_command with in_use := false } } : State)
      = s := by
  rw [← h]

/-- The function `actuator_update_missing_timings` by cases: busy slot, nothing to do, or
one category resolved on the claimed slot. -/
theorem actuator_update_missing_timings_eq (I : Interface) (s : State) :
    actuator_update_missing_timings I s =
      if s.set_timing_command.in_use = true then s
      else
        match first_qualifying s.vars with
        | none => s
        | some cat =>
          resolve_category I CmdRef.set_timing_command cat
            { s with set_timing_command := { s.set_timing_command with in_use := true } } := by
  unfold actuator_update_missing_timings
  by_cases hu : s.set_timing_command.in_use = true
  · rw [if_pos hu, if_pos hu]
  · rw [if_neg hu, if_neg hu]
    simp only [resolver_eq_spec, resolver_spec]
    cases hq : first_qualifying s.vars with
    | none =>
      simp only [Bool.not_false, if_true]
      exact set_timing_release_free s (by simpa using hu)
    | some cat => simp

/-- C9. With an empty missing-timings bitmask the resolver enqueues nothing,
returns false and leaves the whole state (bitmask and timing cache included)
unchanged; entered through `actuator_update_missing_timings` with the timing
slot free, the state is unchanged as well, so the slot is free on return. -/
theorem resolver_idle_on_empty_bitmask (I : Interface) (cmd : CmdRef) (s : State)
    (hempty : s.vars.missing_timings = {}) :
    actuator_update_missing_timings_common I cmd s = (false, s)
      ∧ (s.set_timing_command.in_use = false →
          actuator_update_missing_timings I s = s
            ∧ (actuator_update_missing_timings I s).set_timing_command.in_use = false) := by
  have hq := first_qualifying_of_empty s.vars hempty
  refine ⟨?_, fun hfree => ?_⟩
  · rw [resolver_eq_spec, resolver_spec, hq]
  · have : actuator_update_missing_timings I s = s := by
      rw [actuator_update_missing_timings_eq, hq]; simp
    rw [this]
    exact ⟨rfl, hfree⟩

theorem first_qualifying_qualifies (v : Vars) (cat : Category)
    (h : first_qualifying v = some cat) : cat.qualifies v = true := by
  unfold first_qualifying at h
  exact List.find?_some h

theorem Category.clear_claw_open (m : missing_timings_status) (cat : Category)
    (h : m.claw_open_timing = false) : (cat.clear m).claw_open_timing = false := by
  cases cat with
  | claw => rfl
  | dropper => exact h
  | torpedo1 ty => cases ty <;> exact h
  | torpedo2 ty => cases ty <;> exact h

theorem Category.clear_claw_close (m : missing_timings_status) (cat : Category)
    (h : m.claw_close_timing = false) : (cat.clear m).claw_close_timing = false := by
  cases cat with
  | claw => rfl
  | dropper => exact h
  | torpedo1 ty => cases ty <;> exact h
  | torpedo2 ty => cases ty <;> exact h

theorem Category.carried_cmd_id_ne_claw (v : Vars) (cat : Category) (f : actuator_i2c_cmd_t)
    (hc : cat.carried v f) (hne : cat ≠ Category.claw) :
    f.cmd_id ≠ actuator_command.CLAW_TIMING := by
  cases cat with
  | claw => exact absurd rfl hne
  | dropper => rw [hc.1]; decide
  | torpedo1 ty => rw [hc.1]; decide
  | torpedo2 ty => rw [hc.1]; decide

/-- With the claw bits clear the resolver sends no claw command and leaves
the claw bits clear. -/
theorem resolver_claw_clear (I : Interface) (cmd : CmdRef) (s : State) (hvalid : s.validRef cmd)
    (ho : s.vars.missing_timings.claw_open_timing = false)
    (hc : s.vars.missing_timings.claw_close_timing = false) :
    (actuator_update_missing_timings_common I cmd s).2.vars.missing_timings.claw_open_timing
        = false
      ∧ (actuator_update_missing_timings_common I cmd s).2.vars.missing_timings.claw_close_timing
        = false
      ∧ ∃ extra : List Transfer,
          (actuator_update_missing_timings_common I cmd s).2.vars.i2c_trace
              = s.vars.i2c_trace ++ extra
            ∧ ∀ t ∈ extra, t.frame.cmd_id ≠ actuator_command.CLAW_TIMING := by
  have h7 := resolver_transfers I cmd s hvalid
  cases hq : first_qualifying s.vars with
  | none =>
    rw [hq] at h7
    simp only [] at h7
    rw [h7]
    exact ⟨ho, hc, [], by simp, by simp⟩
  | some cat =>
    rw [hq] at h7
    obtain ⟨-, t, ht, -, hcar⟩ := h7
    have hne : cat ≠ Category.claw := by
      rintro rfl
      have := first_qualifying_qualifies _ _ hq
      simp [Category.qualifies, Category.missing, ho, hc] at this
    have hv : (actuator_update_missing_timings_common I cmd s).2.vars.missing_timings
        = cat.clear s.vars.missing_timings := by
      rw [resolver_eq_spec, resolver_spec, hq]
      simp only []
      rw [resolve_category_vars]
    refine ⟨by rw [hv]; exact Category.clear_claw_open _ _ ho,
      by rw [hv]; exact Category.clear_claw_close _ _ hc, [t], ht, ?_⟩
    intro t' ht'
    rw [List.mem_singleton.mp ht']
    exact Category.carried_cmd_id_ne_claw _ _ _ hcar hne

theorem resolve_category_bytes_to_receive (I : Interface) (cmd : CmdRef) (cat : Category)
    (s : State) (h : s.validRef cmd) :
    ((resolve_category I cmd cat s).cmd cmd).i2c_request.bytes_to_receive
      = I.ACTUATOR_GET_RESPONSE_SIZE ((resolve_category I cmd cat s).cmd cmd).request.cmd_id
          % 65536 := by
  cases cat with
  | claw =>
    have hp := actuator_populate_command_cmd I cmd actuator_command.CLAW_TIMING
      (some actuator_cmd_response_cb_t.actuator_set_timing_general_cb) true s h
    simp only [resolve_category]
    rw [actuator_send_command_cmd _ _ _ (by simpa [actuator_populate_command_validRef] using h)]
    simp only [cmd_with_vars]
    rw [cmd_modifyCmd_same _ _ _ (by simpa [actuator_populate_command_validRef] using h)]
    simp [hp]
  | dropper =>
    have hp := actuator_populate_command_cmd I cmd actuator_command.DROPPER_TIMING
      (some actuator_cmd_response_cb_t.actuator_set_timing_general_cb) true s h
    simp only [resolve_category]
    rw [actuator_send_command_cmd _ _ _ (by simpa [actuator_populate_command_validRef] using h)]
    simp only [cmd_with_vars]
    rw [cmd_modifyCmd_same _ _ _ (by simpa [actuator_populate_command_validRef] using h)]
    simp [hp]
  | torpedo1 ty =>
    have hp := actuator_populate_command_cmd I cmd actuator_command.TORPEDO_TIMING
      (some actuator_cmd_response_cb_t.actuator_set_timing_general_cb) true s h
    simp only [resolve_category, torpedo_timing_request]
    rw [actuator_send_command_cmd _ _ _ (by simpa [actuator_populate_command_validRef] using h)]
    simp only [cmd_with_vars]
    rw [cmd_modifyCmd_same _ _ _ (by simpa [actuator_populate_command_validRef] using h)]
    simp [hp]
  | torpedo2 ty =>
    have hp := actuator_populate_command_cmd I cmd actuator_command.TORPEDO_TIMING
      (some actuator_cmd_response_cb_t.actuator_set_timing_general_cb) true s h
    simp only [resolve_category, torpedo_timing_request]
    rw [actuator_send_command_cmd _ _ _ (by simpa [actuator_populate_command_validRef] using h)]
    simp only [cmd_with_vars]
    rw [cmd_modifyCmd_same _ _ _ (by simpa [actuator_populate_command_validRef] using h)]
    simp [hp]

/-- The set-timing handler on a successful result is exactly the resolver. -/
theorem actuator_set_timing_general_cb_success (I : Interface) (cmd : CmdRef) (s : State)
    (h : (s.cmd cmd).response.result = I.ACTUATOR_RESULT_SUCCESSFUL) :
    actuator_set_timing_general_cb I cmd s = actuator_update_missing_timings_common I cmd s := by
  simp [actuator_set_timing_general_cb, h]

/-- C10. With the claw timing locally configured with value `v` and both claw
bits missing, resolving through `actuator_update_missing_timings` (timing slot
free) sends exactly one combined claw-timing command whose open and close
times both equal `v` and keeps the slot; once that command has completed with
a checksum-valid successful response both claw bits are clear and no further
claw-timing command has been sent. -/
theorem claw_timing_scenario (I : Interface) (s : State) (v : Nat)
    (rx : actuator_i2c_response_t)
    (hset : s.vars.claw_timing.set = true) (hval : s.vars.claw_timing.timing = v)
    (hopen : s.vars.missing_timings.claw_open_timing = true)
    (hclose : s.vars.missing_timings.claw_close_timing = true)
    (hfree : s.set_timing_command.in_use = false)
    (hres : rx.result = I.ACTUATOR_RESULT_SUCCESSFUL)
    (hcrc : I.ACTUATOR_GET_RESPONSE_SIZE actuator_command.CLAW_TIMING % 65536 = 0 ∨
      I.actuator_i2c_crc8_calc_response rx
        (I.ACTUATOR_GET_RESPONSE_SIZE actuator_command.CLAW_TIMING % 65536) % 256 = rx.crc8) :
    (∃ t : Transfer,
        (actuator_update_missing_timings I s).vars.i2c_trace = s.vars.i2c_trace ++ [t]
          ∧ t.cmd = CmdRef.set_timing_command
          ∧ t.frame.cmd_id = actuator_command.CLAW_TIMING
          ∧ t.frame.data.claw_timing_open_time_ms = v
          ∧ t.frame.data.claw_timing_close_time_ms = v)
      ∧ (actuator_update_missing_timings I s).set_timing_command.in_use = true
      ∧ (transfer_completed I CmdRef.set_timing_command rx
            (actuator_update_missing_timings I s)).vars.missing_timings.claw_open_timing = false
      ∧ (transfer_completed I CmdRef.set_timing_command rx
            (actuator_update_missing_timings I s)).vars.missing_timings.claw_close_timing = false
      ∧ ∃ extra : List Transfer,
          (transfer_completed I CmdRef.set_timing_command rx
              (actuator_update_missing_timings I s)).vars.i2c_trace
            = (actuator_update_missing_timings I s).vars.i2c_trace ++ extra
          ∧ ∀ t ∈ extra, t.frame.cmd_id ≠ actuator_command.CLAW_TIMING := by
  have hq : first_qualifying s.vars = some Category.claw := by
    simp [first_qualifying, Category.priority, List.find?, Category.qualifies,
      Category.missing, Category.entry, hset, hopen, hclose]
  have hfree' : ¬ s.set_timing_command.in_use = true := by simp [hfree]
  have hs1 : actuator_update_missing_timings I s
      = resolve_category I CmdRef.set_timing_command Category.claw
          { s with set_timing_command := { s.set_timing_command with in_use := true } } := by
    rw [actuator_update_missing_timings_eq, if_neg hfree', hq]
  have hslot := resolve_category_cmd I CmdRef.set_timing_command Category.claw
    { s with set_timing_command := { s.set_timing_command with in_use := true } } trivial
  have hbytes := resolve_category_bytes_to_receive I CmdRef.set_timing_command Category.claw
    { s with set_timing_command := { s.set_timing_command with in_use := true } } trivial
  have hvars := resolve_category_vars I CmdRef.set_timing_command Category.claw
    { s with set_timing_command := { s.set_timing_command with in_use := true } }
  have huse := resolve_category_in_use I CmdRef.set_timing_command CmdRef.set_timing_command
    Category.claw
    { s with set_timing_command := { s.set_timing_command with in_use := true } }
  rw [← hs1] at hslot hbytes hvars huse
  obtain ⟨⟨hid, hopen_ms, hclose_ms⟩, hcb, -, hud, -⟩ := hslot
  simp only [] at hopen_ms hclose_ms
  rw [hval] at hopen_ms hclose_ms
  rw [hid] at hbytes
  refine ⟨⟨⟨CmdRef.set_timing_command, _, _⟩, congrArg Vars.i2c_trace hvars, rfl, hid,
    hopen_ms, hclose_ms⟩, huse, ?_⟩
  -- the completion
  generalize actuator_update_missing_timings I s = s1 at *
  have ho1 : s1.vars.missing_timings.claw_open_timing = false := by rw [hvars]; rfl
  have hc1 : s1.vars.missing_timings.claw_close_timing = false := by rw [hvars]; rfl
  have hcmd' : (s1.modifyCmd CmdRef.set_timing_command fun c => { c with response := rx }).cmd
      CmdRef.set_timing_command
        = { (s1.cmd CmdRef.set_timing_command) with response := rx } :=
    cmd_modifyCmd_same _ _ _ trivial
  have hok : response_crc_mismatch I
      ((s1.modifyCmd CmdRef.set_timing_command fun c => { c with response := rx }).cmd
        CmdRef.set_timing_command) = none := by
    apply response_crc_mismatch_none
    rw [hcmd']
    simp only [hbytes]
    exact hcrc
  have hdone := actuator_command_done_ok_eq I
    ((s1.modifyCmd CmdRef.set_timing_command fun c => { c with response := rx }).cmd
      CmdRef.set_timing_command).i2c_request CmdRef.set_timing_command
    (s1.modifyCmd CmdRef.set_timing_command fun c => { c with response := rx })
    (by rw [hcmd']; exact hud) hok
  have hcb' : ((s1.modifyCmd CmdRef.set_timing_command fun c => { c with response := rx }).cmd
      CmdRef.set_timing_command).response_cb
        = some actuator_cmd_response_cb_t.actuator_set_timing_general_cb := by
    rw [hcmd']; exact hcb
  rw [hcb'] at hdone
  simp only [call_response_cb] at hdone
  rw [actuator_set_timing_general_cb_success _ _ _ (by
    simp only [cmd_with_vars]; rw [hcmd']; exact hres)] at hdone
  have hres := resolver_claw_clear I CmdRef.set_timing_command
    { (s1.modifyCmd CmdRef.set_timing_command fun c => { c with response := rx }) with
      vars.cb_trace := s1.vars.cb_trace ++
        [(actuator_cmd_response_cb_t.actuator_set_timing_general_cb,
          CmdRef.set_timing_command)] } trivial (by simpa using ho1) (by simpa using hc1)
  simp only [modifyCmd_vars] at hres hdone
  unfold transfer_completed
  simp only []
  rw [hdone]
  split_ifs
  · simpa using hres
  · simpa using hres

/-- C7. One invocation of the resolver sends at most one set-timing command:
none (and it returns false, changing nothing) when no category is both missing
and locally configured, and otherwise exactly one, on the given slot, for the
first qualifying category in the order claw, dropper, torpedo 1 coils,
torpedo 2 coils, carrying that category's cached value (and, for torpedoes,
the torpedo number and timing type). -/
theorem resolver_sends_first_qualifying (I : Interface) (cmd : CmdRef) (s : State)
    (hvalid : s.validRef cmd) :
    match first_qualifying s.vars with
    | none => actuator_update_missing_timings_common I cmd s = (false, s)
    | some cat =>
      (actuator_update_missing_timings_common I cmd s).1 = true
        ∧ ∃ t : Transfer,
          (actuator_update_missing_timings_common I cmd s).2.vars.i2c_trace
              = s.vars.i2c_trace ++ [t]
            ∧ t.cmd = cmd ∧ cat.carried s.vars t.frame :=
  resolver_transfers I cmd s hvalid

/-- Witness for C7: the resolver on the state with the claw timing configured
and both claw bits missing. -/
theorem resolver_sends_first_qualifying_witness :
    example_claw_missing.validRef CmdRef.set_timing_command
      ∧ match first_qualifying example_claw_missing.vars with
        | none =>
          actuator_update_missing_timings_common example_interface CmdRef.set_timing_command
            example_claw_missing = (false, example_claw_missing)
        | some cat =>
          (actuator_update_missing_timings_common example_interface CmdRef.set_timing_command
              example_claw_missing).1 = true
            ∧ ∃ t : Transfer,
              (actuator_update_missing_timings_common example_interface
                  CmdRef.set_timing_command example_claw_missing).2.vars.i2c_trace
                  = example_claw_missing.vars.i2c_trace ++ [t]
                ∧ t.cmd = CmdRef.set_timing_command
                ∧ cat.carried example_claw_missing.vars t.frame :=
  ⟨trivial, resolver_sends_first_qualifying example_interface CmdRef.set_timing_command
    example_claw_missing trivial⟩

/-- C4 (the code claims more than the returned slot). With two constructed
slots both free, one call of `actuator_generate_command` returns slot 1 and
marks slot 0 in use as well: the scan loop has no `break`. -/
theorem actuator_generate_command_claims_all_free :
    example_pool_two_free.allocated_commands.map (fun c => c.in_use) = [false, false]
      ∧ (actuator_generate_command example_interface default actuator_command.OPEN_CLAW
          (some actuator_cmd_response_cb_t.actuator_generic_result_cb)
          example_pool_two_free).1 = some (CmdRef.allocated 1)
      ∧ (actuator_generate_command example_interface default actuator_command.OPEN_CLAW
          (some actuator_cmd_response_cb_t.actuator_generic_result_cb)
          example_pool_two_free).2.allocated_commands.map (fun c => c.in_use)
          = [true, true] := by
  decide

/-- C8 (the code clears the bit when the command is handed to the queue). The
dropper bit, set by the parameter change, is already clear while the
set-timing command is only pending, and it stays clear when that command ends
in a transport failure, in a checksum mismatch, or in a non-successful result
code. -/
theorem missing_bit_cleared_at_enqueue :
    example_dropper_sent.vars.i2c_queue = [CmdRef.set_timing_command]
      ∧ example_dropper_sent.vars.dropper_active_timing = { timing := 250, set := true }
      ∧ example_dropper_sent.vars.missing_timings.dropper_active_timing = false
      ∧ (transfer_aborted example_interface CmdRef.set_timing_command 1
          example_dropper_sent).vars.missing_timings.dropper_active_timing = false
      ∧ (transfer_completed example_interface CmdRef.set_timing_command example_rx_corrupt
          example_dropper_sent).vars.missing_timings.dropper_active_timing = false
      ∧ (transfer_completed example_interface CmdRef.set_timing_command
          { crc8 := 4, result := 1 }
          example_dropper_sent).vars.missing_timings.dropper_active_timing = false := by
  decide

/-! ## Witnesses -/

/-- Witness for C1: the status poll answered with a corrupted frame. -/
theorem actuator_command_done_crc_mismatch_witness :
    example_status_corrupt.status_command.i2c_request.user_data = some CmdRef.status_command
      ∧ example_status_corrupt.validRef CmdRef.status_command
      ∧ (example_status_corrupt.cmd CmdRef.status_command).i2c_request.bytes_to_receive > 0
      ∧ example_interface.actuator_i2c_crc8_calc_response
            (example_status_corrupt.cmd CmdRef.status_command).response
            (example_status_corrupt.cmd CmdRef.status_command).i2c_request.bytes_to_receive % 256
          ≠ (example_status_corrupt.cmd CmdRef.status_command).response.crc8
      ∧ (actuator_command_done example_interface
            example_status_corrupt.status_command.i2c_request example_status_corrupt).vars.cb_trace
          = example_status_corrupt.vars.cb_trace
      ∧ ((actuator_command_done example_interface
            example_status_corrupt.status_command.i2c_request example_status_corrupt).cmd
            CmdRef.status_command).in_use = false :=
  have h := actuator_command_done_crc_mismatch example_interface
    example_status_corrupt.status_command.i2c_request CmdRef.status_command
    example_status_corrupt (by decide) trivial (by decide) (by decide)
  ⟨by decide, trivial, by decide, by decide, h.1, h.2.2.1⟩

/-- Witness for C2: the status poll answered with an intact frame. -/
theorem actuator_command_done_dispatch_witness :
    example_status_answered.status_command.i2c_request.user_data = some CmdRef.status_command
      ∧ example_status_answered.validRef CmdRef.status_command
      ∧ (example_status_answered.cmd CmdRef.status_command).in_use = true
      ∧ ((example_status_answered.cmd CmdRef.status_command).i2c_request.bytes_to_receive = 0
          ∨ example_interface.actuator_i2c_crc8_calc_response
                (example_status_answered.cmd CmdRef.status_command).response
                (example_status_answered.cmd
                  CmdRef.status_command).i2c_request.bytes_to_receive % 256
              = (example_status_answered.cmd CmdRef.status_command).response.crc8)
      ∧ match (example_status_answered.cmd CmdRef.status_command).response_cb with
        | none =>
          (actuator_command_done example_interface
              example_status_answered.status_command.i2c_request
              example_status_answered).vars.cb_trace = example_status_answered.vars.cb_trace
            ∧ ((actuator_command_done example_interface
                example_status_answered.status_command.i2c_request
                example_status_answered).cmd CmdRef.status_command).in_use = false
        | some cb =>
          (actuator_command_done example_interface
              example_status_answered.status_command.i2c_request
              example_status_answered).vars.cb_trace
              = example_status_answered.vars.cb_trace ++ [(cb, CmdRef.status_command)]
            ∧ ((actuator_command_done example_interface
                example_status_answered.status_command.i2c_request
                example_status_answered).cmd CmdRef.status_command).in_use
              = (call_response_cb example_interface cb CmdRef.status_command
                  example_status_answered).1 :=
  ⟨by decide, trivial, by decide, by decide,
    actuator_command_done_dispatch example_interface
      example_status_answered.status_command.i2c_request CmdRef.status_command
      example_status_answered (by decide) trivial (by decide) (by decide)⟩

/-- Witness for C3: the status poll fails on the bus. -/
theorem actuator_command_failed_releases_witness :
    example_polling.status_command.i2c_request.user_data = some CmdRef.status_command
      ∧ example_polling.validRef CmdRef.status_command
      ∧ ((actuator_command_failed example_interface example_polling.status_command.i2c_request
            7 example_polling).cmd CmdRef.status_command).in_use = false
      ∧ (actuator_command_failed example_interface example_polling.status_command.i2c_request
            7 example_polling).vars.cb_trace = example_polling.vars.cb_trace :=
  have h := actuator_command_failed_releases example_interface
    example_polling.status_command.i2c_request 7 CmdRef.status_command example_polling
    (by decide) trivial
  ⟨by decide, trivial, h.1, h.2.1⟩

/-- Witness for C5: eight calls from the power-on state. -/
theorem pool_capacity_scenario_witness :
    (boot 0 0 false).allocated_commands = []
      ∧ (List.replicate 8 (default : GenerateArgs)).length = 8
      ∧ (generate_commands example_interface (List.replicate 8 default) (boot 0 0 false)).1
          = [some (CmdRef.allocated 0), some (CmdRef.allocated 1), some (CmdRef.allocated 2),
              some (CmdRef.allocated 3), some (CmdRef.allocated 4), some (CmdRef.allocated 5),
              some (CmdRef.allocated 6), some (CmdRef.allocated 7)]
      ∧ (actuator_generate_command example_interface (default : GenerateArgs).heap
            (default : GenerateArgs).cmd_id (default : GenerateArgs).response_cb
            (generate_commands example_interface (List.replicate 8 default)
              (boot 0 0 false)).2).1 = none :=
  have h := pool_capacity_scenario example_interface (boot 0 0 false)
    (List.replicate 8 default) default rfl rfl
  ⟨rfl, rfl, h.1, by rw [h.2.2.2.2]⟩

/-- Witness for C6: the reachable state with two free pool slots. -/
theorem actuator_generate_command_null_iff_witness :
    Reachable example_interface example_pool_two_free
      ∧ example_pool_two_free.num_allocated_commands ≤ 8
      ∧ example_pool_two_free.num_allocated_commands
          ≤ (step example_interface example_pool_two_free
              (Event.open_claw default)).num_allocated_commands :=
  have hr : Reachable example_interface example_pool_two_free :=
    ⟨0, 0, false, _, rfl⟩
  have h := actuator_generate_command_null_iff example_interface example_pool_two_free hr
    default actuator_command.OPEN_CLAW none (Event.open_claw default)
  ⟨hr, h.2.1, h.2.2.1⟩

/-- Witness for C9: right after `actuator_init` nothing is missing. -/
theorem resolver_idle_on_empty_bitmask_witness :
    example_booted.vars.missing_timings = {}
      ∧ actuator_update_missing_timings_common example_interface CmdRef.set_timing_command
          example_booted = (false, example_booted) :=
  ⟨by decide,
    (resolver_idle_on_empty_bitmask example_interface CmdRef.set_timing_command example_booted
      (by decide)).1⟩

/-- Witness for C10: claw timing 4500 configured, both claw bits missing. -/
theorem claw_timing_scenario_witness :
    example_claw_missing.vars.claw_timing.set = true
      ∧ example_claw_missing.vars.claw_timing.timing = 4500
      ∧ example_claw_missing.vars.missing_timings.claw_open_timing = true
      ∧ example_claw_missing.vars.missing_timings.claw_close_timing = true
      ∧ example_claw_missing.set_timing_command.in_use = false
      ∧ example_rx_ok.result = example_interface.ACTUATOR_RESULT_SUCCESSFUL
      ∧ (example_interface.ACTUATOR_GET_RESPONSE_SIZE actuator_command.CLAW_TIMING % 65536 = 0
          ∨ example_interface.actuator_i2c_crc8_calc_response example_rx_ok
              (example_interface.ACTUATOR_GET_RESPONSE_SIZE actuator_command.CLAW_TIMING
                % 65536) % 256 = example_rx_ok.crc8)
      ∧ (actuator_update_missing_timings example_interface
          example_claw_missing).set_timing_command.in_use = true
      ∧ (transfer_completed example_interface CmdRef.set_timing_command example_rx_ok
          (actuator_update_missing_timings example_interface
            example_claw_missing)).vars.missing_timings.claw_open_timing = false
      ∧ (transfer_completed example_interface CmdRef.set_timing_command example_rx_ok
          (actuator_update_missing_timings example_interface
            example_claw_missing)).vars.missing_timings.claw_close_timing = false :=
  have h := claw_timing_scenario example_interface example_claw_missing 4500 example_rx_ok
    (by decide) (by decide) (by decide) (by decide) (by decide) (by decide) (by decide)
  ⟨by decide, by decide, by decide, by decide, by decide, by decide, by decide,
    h.2.1, h.2.2.1, h.2.2.2.1⟩

/-! ## Categories that are missing but not configured -/

theorem Category.clear_bits_of_ne (m : missing_timings_status) (cat cat' : Category)
    (h : cat ≠ cat') : cat.bits (cat'.clear m) = cat.bits m := by
  cases cat with
  | claw =>
    cases cat' with
    | claw => exact absurd rfl h
    | dropper => rfl
    | torpedo1 ty => cases ty <;> rfl
    | torpedo2 ty => cases ty <;> rfl
  | dropper =>
    cases cat' with
    | claw => rfl
    | dropper => exact absurd rfl h
    | torpedo1 ty => cases ty <;> rfl
    | torpedo2 ty => cases ty <;> rfl
  | torpedo1 ty =>
    cases cat' with
    | claw => cases ty <;> rfl
    | dropper => cases ty <;> rfl
    | torpedo1 ty' =>
      cases ty <;> cases ty' <;> first | rfl | exact absurd rfl h
    | torpedo2 ty' => cases ty <;> cases ty' <;> rfl
  | torpedo2 ty =>
    cases cat' with
    | claw => cases ty <;> rfl
    | dropper => cases ty <;> rfl
    | torpedo1 ty' => cases ty <;> cases ty' <;> rfl
    | torpedo2 ty' =>
      cases ty <;> cases ty' <;> first | rfl | exact absurd rfl h

theorem Category.not_addressed_of_ne (v : Vars) (cat cat' : Category) (f : actuator_i2c_cmd_t)
    (hc : cat'.carried v f) (h : cat ≠ cat') : ¬ cat.addressed f := by
  intro ha
  cases cat with
  | claw =>
    cases cat' with
    | claw => exact h rfl
    | dropper => simp [Category.addressed, Category.carried] at ha hc; rw [hc.1] at ha; cases ha
    | torpedo1 ty => simp [Category.addressed, Category.carried] at ha hc; rw [hc.1] at ha; cases ha
    | torpedo2 ty => simp [Category.addressed, Category.carried] at ha hc; rw [hc.1] at ha; cases ha
  | dropper =>
    cases cat' with
    | claw => simp [Category.addressed, Category.carried] at ha hc; rw [hc.1] at ha; cases ha
    | dropper => exact h rfl
    | torpedo1 ty => simp [Category.addressed, Category.carried] at ha hc; rw [hc.1] at ha; cases ha
    | torpedo2 ty => simp [Category.addressed, Category.carried] at ha hc; rw [hc.1] at ha; cases ha
  | torpedo1 ty =>
    cases cat' with
    | claw => simp [Category.addressed, Category.carried] at ha hc; rw [hc.1] at ha; cases ha.1
    | dropper => simp [Category.addressed, Category.carried] at ha hc; rw [hc.1] at ha; cases ha.1
    | torpedo1 ty' =>
      simp only [Category.addressed, Category.carried] at ha hc
      apply h
      rw [← ha.2.2, hc.2.2.1]
    | torpedo2 ty' =>
      simp only [Category.addressed, Category.carried] at ha hc
      have := ha.2.1
      rw [hc.2.1] at this
      cases this
  | torpedo2 ty =>
    cases cat' with
    | claw => simp [Category.addressed, Category.carried] at ha hc; rw [hc.1] at ha; cases ha.1
    | dropper => simp [Category.addressed, Category.carried] at ha hc; rw [hc.1] at ha; cases ha.1
    | torpedo1 ty' =>
      simp only [Category.addressed, Category.carried] at ha hc
      have := ha.2.1
      rw [hc.2.1] at this
      cases this
    | torpedo2 ty' =>
      simp only [Category.addressed, Category.carried] at ha hc
      apply h
      rw [← ha.2.2, hc.2.2.1]

/-- What the resolver does when `cat` is the first qualifying category. -/
theorem resolver_of_first_qualifying (I : Interface) (cmd : CmdRef) (s : State)
    (hvalid : s.validRef cmd) (cat : Category) (hq : first_qualifying s.vars = some cat) :
    (actuator_update_missing_timings_common I cmd s).1 = true
      ∧ (actuator_update_missing_timings_common I cmd s).2.vars.missing_timings
          = cat.clear s.vars.missing_timings
      ∧ ∃ t : Transfer,
          (actuator_update_missing_timings_common I cmd s).2.vars.i2c_trace
              = s.vars.i2c_trace ++ [t]
            ∧ t.cmd = cmd ∧ cat.carried s.vars t.frame := by
  have h7 := resolver_transfers I cmd s hvalid
  rw [hq] at h7
  refine ⟨h7.1, ?_, h7.2⟩
  rw [resolver_eq_spec, resolver_spec, hq]
  simp only []
  rw [resolve_category_vars]

theorem first_qualifying_of_split (v : Vars) (higher lower : List Category) (cat : Category)
    (hsplit : Category.priority = higher ++ cat :: lower)
    (hhigher : ∀ c ∈ higher, c.qualifies v = false) (hq : cat.qualifies v = true) :
    first_qualifying v = some cat := by
  unfold first_qualifying
  rw [List.find?_eq_some]
  exact ⟨hq, higher, lower, hsplit, fun a ha => by simp [hhigher a ha]⟩

/-- The resolver leaves alone every category that is missing but not locally
configured, and is not held up by it. -/
theorem resolver_skips (I : Interface) (cmd : CmdRef) (s : State) (cat : Category)
    (hvalid : s.validRef cmd)
    (hunset : (cat.entry s.vars).set = false) :
    cat.bits (actuator_update_missing_timings_common I cmd s).2.vars.missing_timings
        = cat.bits s.vars.missing_timings
      ∧ (∃ extra : List Transfer,
          (actuator_update_missing_timings_common I cmd s).2.vars.i2c_trace
              = s.vars.i2c_trace ++ extra
            ∧ extra.length ≤ 1 ∧ ∀ t ∈ extra, ¬ cat.addressed t.frame)
      ∧ ∀ (higher lower : List Category) (cat2 : Category),
          Category.priority = higher ++ cat2 :: lower →
          (∀ c ∈ higher, c.qualifies s.vars = false) →
          cat2.qualifies s.vars = true →
          (actuator_update_missing_timings_common I cmd s).1 = true
            ∧ (actuator_update_missing_timings_common I cmd s).2.vars.missing_timings
                = cat2.clear s.vars.missing_timings
            ∧ ∃ t : Transfer,
                (actuator_update_missing_timings_common I cmd s).2.vars.i2c_trace
                    = s.vars.i2c_trace ++ [t]
                  ∧ t.cmd = cmd ∧ cat2.carried s.vars t.frame := by
  refine ⟨?_, ?_, ?_⟩
  · cases hq : first_qualifying s.vars with
    | none =>
      have h7 := resolver_transfers I cmd s hvalid
      rw [hq] at h7
      simp only [] at h7
      rw [h7]
    | some cat' =>
      have hne : cat ≠ cat' := by
        rintro rfl
        have := first_qualifying_qualifies _ _ hq
        simp [Category.qualifies, hunset] at this
      rw [(resolver_of_first_qualifying I cmd s hvalid cat' hq).2.1]
      exact Category.clear_bits_of_ne _ _ _ hne
  · cases hq : first_qualifying s.vars with
    | none =>
      have h7 := resolver_transfers I cmd s hvalid
      rw [hq] at h7
      simp only [] at h7
      rw [h7]
      exact ⟨[], by simp, by simp, by simp⟩
    | some cat' =>
      have hne : cat ≠ cat' := by
        rintro rfl
        have := first_qualifying_qualifies _ _ hq
        simp [Category.qualifies, hunset] at this
      obtain ⟨-, -, t, ht, -, hcar⟩ := resolver_of_first_qualifying I cmd s hvalid cat' hq
      refine ⟨[t], ht, by simp, ?_⟩
      intro t' ht'
      rw [List.mem_singleton.mp ht']
      exact Category.not_addressed_of_ne _ _ _ _ hcar hne
  · intro higher lower cat2 hsplit hhigher hq2
    exact resolver_of_first_qualifying I cmd s hvalid cat2
      (first_qualifying_of_split s.vars higher lower cat2 hsplit hhigher hq2)

theorem Category.missing_of_bits (m m' : missing_timings_status) (cat : Category)
    (h : cat.bits m = cat.bits m') : cat.missing m = cat.missing m' := by
  cases cat with
  | claw =>
    simp only [Category.bits, List.cons.injEq, and_true] at h
    simp only [Category.missing, h.1, h.2]
  | dropper => simpa [Category.bits] using h
  | torpedo1 ty => simpa [Category.bits] using h
  | torpedo2 ty => simpa [Category.bits] using h

/-! ## The guard of the shared timing slot -/

/-- With the timing slot free and `cat` the first qualifying category,
`actuator_update_missing_timings` keeps the slot and sends one command. -/
theorem actuator_update_missing_timings_some (I : Interface) (s : State) (cat : Category)
    (hfree : s.set_timing_command.in_use = false) (hq : first_qualifying s.vars = some cat) :
    (actuator_update_missing_timings I s).set_timing_command.in_use = true
      ∧ (actuator_update_missing_timings I s).vars.missing_timings
          = cat.clear s.vars.missing_timings
      ∧ ∃ t : Transfer,
          (actuator_update_missing_timings I s).vars.i2c_trace = s.vars.i2c_trace ++ [t]
            ∧ t.cmd = CmdRef.set_timing_command ∧ cat.carried s.vars t.frame := by
  have hfree' : ¬ s.set_timing_command.in_use = true := by simp [hfree]
  have hs1 : actuator_update_missing_timings I s
      = resolve_category I CmdRef.set_timing_command cat
          { s with set_timing_command := { s.set_timing_command with in_use := true } } := by
    rw [actuator_update_missing_timings_eq, if_neg hfree', hq]
  have hslot := resolve_category_cmd I CmdRef.set_timing_command cat
    { s with set_timing_command := { s.set_timing_command with in_use := true } } trivial
  have hvars := resolve_category_vars I CmdRef.set_timing_command cat
    { s with set_timing_command := { s.set_timing_command with in_use := true } }
  have huse := resolve_category_in_use I CmdRef.set_timing_command CmdRef.set_timing_command
    cat { s with set_timing_command := { s.set_timing_command with in_use := true } }
  rw [← hs1] at hslot hvars huse
  refine ⟨huse, by rw [hvars], ⟨CmdRef.set_timing_command, _, _⟩,
    congrArg Vars.i2c_trace hvars, rfl, hslot.1⟩

/-- With the timing slot free and no qualifying category,
`actuator_update_missing_timings` changes nothing. -/
theorem actuator_update_missing_timings_none (I : Interface) (s : State)
    (hfree : s.set_timing_command.in_use = false) (hq : first_qualifying s.vars = none) :
    actuator_update_missing_timings I s = s := by
  have hfree' : ¬ s.set_timing_command.in_use = true := by simp [hfree]
  rw [actuator_update_missing_timings_eq, if_neg hfree', hq]

theorem actuator_update_missing_timings_busy (I : Interface) (s : State)
    (hbusy : s.set_timing_command.in_use = true) :
    actuator_update_missing_timings I s = s := by
  rw [actuator_update_missing_timings_eq, if_pos hbusy]

/-- The in_use flag of the shared timing slot is the guard:
`actuator_update_missing_timings` called while the slot is in use changes
nothing at all (nothing is enqueued; slot, bitmask and cache are unchanged);
called while the slot is free, either it enqueues exactly one set-timing
command, on the timing slot, and the slot is in use on return, or it enqueues
nothing and the slot is free on return. -/
theorem actuator_update_missing_timings_guard (I : Interface) (s : State) :
    (s.set_timing_command.in_use = true → actuator_update_missing_timings I s = s)
      ∧ (s.set_timing_command.in_use = false →
          ((actuator_update_missing_timings I s).set_timing_command.in_use = true
              ∧ ∃ (t : Transfer) (cat : Category),
                  (actuator_update_missing_timings I s).vars.i2c_trace
                      = s.vars.i2c_trace ++ [t]
                    ∧ t.cmd = CmdRef.set_timing_command ∧ cat.carried s.vars t.frame)
            ∨ ((actuator_update_missing_timings I s).set_timing_command.in_use = false
              ∧ (actuator_update_missing_timings I s).vars.i2c_trace = s.vars.i2c_trace)) := by
  refine ⟨actuator_update_missing_timings_busy I s, fun hfree => ?_⟩
  cases hq : first_qualifying s.vars with
  | none =>
    right
    rw [actuator_update_missing_timings_none I s hfree hq]
    exact ⟨hfree, rfl⟩
  | some cat =>
    left
    obtain ⟨h1, -, t, ht⟩ := actuator_update_missing_timings_some I s cat hfree hq
    exact ⟨h1, t, cat, ht⟩

/-! ## Chaining of set-timing commands -/

theorem Category.qualifies_congr (v v' : Vars) (hm : v'.missing_timings = v.missing_timings)
    (hc : v'.claw_timing = v.claw_timing)
    (hd : v'.dropper_active_timing = v.dropper_active_timing)
    (h1 : v'.torpedo1_timings = v.torpedo1_timings)
    (h2 : v'.torpedo2_timings = v.torpedo2_timings) (cat : Category) :
    cat.qualifies v' = cat.qualifies v := by
  cases cat <;> simp [Category.qualifies, Category.entry, hm, hc, hd, h1, h2]

theorem Category.carried_congr (v v' : Vars)
    (hc : v'.claw_timing = v.claw_timing)
    (hd : v'.dropper_active_timing = v.dropper_active_timing)
    (h1 : v'.torpedo1_timings = v.torpedo1_timings)
    (h2 : v'.torpedo2_timings = v.torpedo2_timings) (cat : Category)
    (f : actuator_i2c_cmd_t) : cat.carried v' f ↔ cat.carried v f := by
  cases cat <;> simp [Category.carried, hc, hd, h1, h2]

theorem first_qualifying_congr (v v' : Vars) (hm : v'.missing_timings = v.missing_timings)
    (hc : v'.claw_timing = v.claw_timing)
    (hd : v'.dropper_active_timing = v.dropper_active_timing)
    (h1 : v'.torpedo1_timings = v.torpedo1_timings)
    (h2 : v'.torpedo2_timings = v.torpedo2_timings) :
    first_qualifying v' = first_qualifying v := by
  unfold first_qualifying
  congr 1
  funext cat
  exact Category.qualifies_congr v v' hm hc hd h1 h2 cat

theorem first_qualifying_isSome_iff (v : Vars) :
    (∃ cat, first_qualifying v = some cat) ↔ ∃ cat : Category, cat.qualifies v = true := by
  constructor
  · rintro ⟨cat, h⟩
    exact ⟨cat, first_qualifying_qualifies v cat h⟩
  · rintro ⟨cat, h⟩
    cases hq : first_qualifying v with
    | some c => exact ⟨c, rfl⟩
    | none =>
      exfalso
      unfold first_qualifying at hq
      rw [List.find?_eq_none] at hq
      have hmem : cat ∈ Category.priority := by
        cases cat with
        | claw => simp [Category.priority]
        | dropper => simp [Category.priority]
        | torpedo1 ty => cases ty <;> simp [Category.priority]
        | torpedo2 ty => cases ty <;> simp [Category.priority]
      exact hq cat hmem h

/-- The accepting path of `actuator_command_done` for a slot with a handler. -/
theorem actuator_command_done_some_cb (I : Interface) (req : async_i2c_request)
    (cmd : CmdRef) (s : State) (cb : actuator_cmd_response_cb_t)
    (hreq : req.user_data = some cmd)
    (hok : (s.cmd cmd).i2c_request.bytes_to_receive = 0 ∨
      I.actuator_i2c_crc8_calc_response (s.cmd cmd).response
        (s.cmd cmd).i2c_request.bytes_to_receive % 256 = (s.cmd cmd).response.crc8)
    (hcb : (s.cmd cmd).response_cb = some cb) :
    actuator_command_done I req s =
      if (call_response_cb I cb cmd s).1 = true then (call_response_cb I cb cmd s).2
      else (call_response_cb I cb cmd s).2.modifyCmd cmd fun c => { c with in_use := false } := by
  rw [actuator_command_done_ok_eq I req cmd s hreq (response_crc_mismatch_none I _ hok), hcb]

/-- A handler that returns false has its slot released by the completion
handler, and the completion handler changes no variable after it. -/
theorem actuator_command_done_released (I : Interface) (req : async_i2c_request)
    (cmd : CmdRef) (s : State) (cb : actuator_cmd_response_cb_t)
    (hreq : req.user_data = some cmd) (hvalid : s.validRef cmd)
    (hok : (s.cmd cmd).i2c_request.bytes_to_receive = 0 ∨
      I.actuator_i2c_crc8_calc_response (s.cmd cmd).response
        (s.cmd cmd).i2c_request.bytes_to_receive % 256 = (s.cmd cmd).response.crc8)
    (hcb : (s.cmd cmd).response_cb = some cb)
    (hret : (call_response_cb I cb cmd s).1 = false) :
    ((actuator_command_done I req s).cmd cmd).in_use = false
      ∧ (actuator_command_done I req s).vars = (call_response_cb I cb cmd s).2.vars := by
  rw [actuator_command_done_some_cb I req cmd s cb hreq hok hcb]
  have hne : ¬ (call_response_cb I cb cmd s).1 = true := by simp [hret]
  rw [if_neg hne]
  refine ⟨?_, modifyCmd_vars _ _ _⟩
  rw [cmd_modifyCmd_same]
  rw [validRef_of_length (call_response_cb_length I cb cmd s)]
  exact hvalid

/-- A handler that returns true leaves the state as the completion handler's
result. -/
theorem actuator_command_done_retained (I : Interface) (req : async_i2c_request)
    (cmd : CmdRef) (s : State) (cb : actuator_cmd_response_cb_t)
    (hreq : req.user_data = some cmd)
    (hok : (s.cmd cmd).i2c_request.bytes_to_receive = 0 ∨
      I.actuator_i2c_crc8_calc_response (s.cmd cmd).response
        (s.cmd cmd).i2c_request.bytes_to_receive % 256 = (s.cmd cmd).response.crc8)
    (hcb : (s.cmd cmd).response_cb = some cb)
    (hret : (call_response_cb I cb cmd s).1 = true) :
    actuator_command_done I req s = (call_response_cb I cb cmd s).2 := by
  rw [actuator_command_done_some_cb I req cmd s cb hreq hok hcb, if_pos hret]

/-- The set-timing handler, called through the slot's function pointer on a
successful result, is the resolver run on the state with the call recorded. -/
theorem call_set_timing_cb_success (I : Interface) (cmd : CmdRef) (s : State)
    (hres : (s.cmd cmd).response.result = I.ACTUATOR_RESULT_SUCCESSFUL) :
    call_response_cb I actuator_cmd_response_cb_t.actuator_set_timing_general_cb cmd s
      = actuator_update_missing_timings_common I cmd
          { s with vars.cb_trace := s.vars.cb_trace ++
            [(actuator_cmd_response_cb_t.actuator_set_timing_general_cb, cmd)] } := by
  simp only [call_response_cb]
  rw [actuator_set_timing_general_cb_success]
  simpa using hres

/-- C13. For a checksum-valid set-timing response with a successful result
code, `actuator_set_timing_general_cb` returns true exactly when some category
is both missing and locally configured; then `actuator_command_done` leaves
the slot in use with exactly one follow-up set-timing command enqueued on the
same slot, for the first qualifying category; otherwise nothing is enqueued,
the bitmask is unchanged and the completion handler releases the slot. -/
theorem set_timing_response_chains (I : Interface) (req : async_i2c_request) (cmd : CmdRef)
    (s : State) (hreq : req.user_data = some cmd) (hvalid : s.validRef cmd)
    (huse : (s.cmd cmd).in_use = true)
    (hcb : (s.cmd cmd).response_cb
      = some actuator_cmd_response_cb_t.actuator_set_timing_general_cb)
    (hok : (s.cmd cmd).i2c_request.bytes_to_receive = 0 ∨
      I.actuator_i2c_crc8_calc_response (s.cmd cmd).response
        (s.cmd cmd).i2c_request.bytes_to_receive % 256 = (s.cmd cmd).response.crc8)
    (hres : (s.cmd cmd).response.result = I.ACTUATOR_RESULT_SUCCESSFUL) :
    ((actuator_set_timing_general_cb I cmd s).1 = true
        ↔ ∃ cat : Category, cat.qualifies s.vars = true)
      ∧ match first_qualifying s.vars with
        | some cat =>
          (actuator_set_timing_general_cb I cmd s).1 = true
            ∧ ((actuator_command_done I req s).cmd cmd).in_use = true
            ∧ (actuator_command_done I req s).vars.missing_timings
                = cat.clear s.vars.missing_timings
            ∧ ∃ t : Transfer,
                (actuator_command_done I req s).vars.i2c_trace = s.vars.i2c_trace ++ [t]
                  ∧ t.cmd = cmd ∧ cat.carried s.vars t.frame
        | none =>
          (actuator_set_timing_general_cb I cmd s).1 = false
            ∧ ((actuator_command_done I req s).cmd cmd).in_use = false
            ∧ (actuator_command_done I req s).vars.missing_timings = s.vars.missing_timings
            ∧ (actuator_command_done I req s).vars.i2c_trace = s.vars.i2c_trace := by
  have hcall := call_set_timing_cb_success I cmd s hres
  have hdirect := actuator_set_timing_general_cb_success I cmd s hres
  have hfq : first_qualifying
      ({ s with vars.cb_trace := s.vars.cb_trace ++
        [(actuator_cmd_response_cb_t.actuator_set_timing_general_cb, cmd)] } : State).vars
      = first_qualifying s.vars := rfl
  refine ⟨?_, ?_⟩
  · rw [hdirect, ← first_qualifying_isSome_iff]
    cases hq : first_qualifying s.vars with
    | none =>
      have h7 := resolver_transfers I cmd s hvalid
      rw [hq] at h7
      simp only [] at h7
      rw [h7]
      simp
    | some cat =>
      rw [(resolver_of_first_qualifying I cmd s hvalid cat hq).1]
      simp
  · cases hq : first_qualifying s.vars with
    | some cat =>
      simp only []
      have hr := resolver_of_first_qualifying I cmd
        { s with vars.cb_trace := s.vars.cb_trace ++
          [(actuator_cmd_response_cb_t.actuator_set_timing_general_cb, cmd)] }
        (by simpa using hvalid) cat (by rw [hfq, hq])
      rw [← hcall] at hr
      rw [actuator_command_done_retained I req cmd s _ hreq hok hcb hr.1]
      refine ⟨?_, ?_, hr.2.1, hr.2.2⟩
      · rw [hdirect]
        exact (resolver_of_first_qualifying I cmd s hvalid cat hq).1
      · exact call_response_cb_retained I _ cmd s huse hr.1
    | none =>
      simp only []
      have h7 := resolver_transfers I cmd
        { s with vars.cb_trace := s.vars.cb_trace ++
          [(actuator_cmd_response_cb_t.actuator_set_timing_general_cb, cmd)] }
        (by simpa using hvalid)
      rw [hfq, hq] at h7
      simp only [] at h7
      rw [← hcall] at h7
      have hrel := actuator_command_done_released I req cmd s _ hreq hvalid hok hcb
        (by rw [h7])
      refine ⟨?_, hrel.1, ?_, ?_⟩
      · rw [hdirect]
        have h7' := resolver_transfers I cmd s hvalid
        rw [hq] at h7'
        simp only [] at h7'
        rw [h7']
      · rw [hrel.2, h7]
      · rw [hrel.2, h7]

/-! ## The status handler -/

theorem actuator_send_command_cmd_ne (I : Interface) (cmd r : CmdRef) (s : State)
    (h : r ≠ cmd) : (actuator_send_command I cmd s).cmd r = s.cmd r := by
  simp [actuator_send_command, cmd_modifyCmd, h]

theorem kill_switch_send_sampled_cmd_ne (I : Interface) (k : Bool) (r : CmdRef) (s : State)
    (h : r ≠ CmdRef.kill_switch_update_command) :
    (kill_switch_send_sampled I k s).cmd r = s.cmd r := by
  simp only [kill_switch_send_sampled]
  rw [actuator_send_command_cmd_ne _ _ _ _ h]
  simp [cmd_modifyCmd, h]

theorem kill_switch_send_cmd_ne (I : Interface) (r : CmdRef) (s : State)
    (h : r ≠ CmdRef.kill_switch_update_command) : (kill_switch_send I s).cmd r = s.cmd r := by
  apply kill_switch_send_cases I s (fun t => t.cmd r = s.cmd r)
  · intro _; rfl
  · intro _; rw [kill_switch_send_sampled_cmd_ne _ _ _ _ h]; rfl

theorem kill_switch_send_sampled_vars (I : Interface) (k : Bool) (s : State) :
    (kill_switch_send_sampled I k s).vars =
      { s.vars with
        i2c_queue := s.vars.i2c_queue ++ [CmdRef.kill_switch_update_command]
        i2c_trace := s.vars.i2c_trace ++
          [⟨CmdRef.kill_switch_update_command,
            ((kill_switch_send_sampled I k s).cmd
              CmdRef.kill_switch_update_command).i2c_request,
            ((kill_switch_send_sampled I k s).cmd
              CmdRef.kill_switch_update_command).request⟩] } := by
  simp only [kill_switch_send_sampled, actuator_send_command_vars, modifyCmd_vars]

theorem kill_switch_send_vars (I : Interface) (s : State)
    (hinit : s.vars.safety_initialized = true) :
    (kill_switch_send I s).vars =
      { s.vars with
        kill_switch_needs_refresh := false
        i2c_queue := s.vars.i2c_queue ++ [CmdRef.kill_switch_update_command]
        i2c_trace := s.vars.i2c_trace ++
          [⟨CmdRef.kill_switch_update_command,
            ((kill_switch_send I s).cmd CmdRef.kill_switch_update_command).i2c_request,
            ((kill_switch_send I s).cmd CmdRef.kill_switch_update_command).request⟩] } := by
  rw [kill_switch_send_of_init I s hinit, kill_switch_send_sampled_vars]

/-- The variables a kill-switch send can change, whether it stops at the kill
state query or not. -/
theorem kill_switch_send_vars_frame (I : Interface) (s : State) :
    (kill_switch_send I s).vars =
      { s.vars with
        kill_switch_needs_refresh := false
        assert_failed := (kill_switch_send I s).vars.assert_failed
        i2c_queue := (kill_switch_send I s).vars.i2c_queue
        i2c_trace := (kill_switch_send I s).vars.i2c_trace } := by
  cases h : s.vars.safety_initialized with
  | false => rw [kill_switch_send_of_not_init I s h]
  | true => rw [kill_switch_send_of_init I s h, kill_switch_send_sampled_vars]

/-- The needs-refresh flag is clear after a kill-switch send, whether it stops
at the kill state query or not. -/
theorem kill_switch_send_needs_refresh (I : Interface) (s : State) :
    (kill_switch_send I s).vars.kill_switch_needs_refresh = false := by
  rw [kill_switch_send_vars_frame]

/-- The rejecting branch of `actuator_status_callback`. -/
theorem actuator_status_callback_reject_eq (I : Interface) (cmd : CmdRef) (s : State)
    (hrej : status_version_rejected I (s.cmd cmd).response.status) :
    actuator_status_callback I cmd s =
      if s.vars.version_warning_printed = true then (false, s)
      else
        (false,
          { safety_raise_fault I.FAULT_ACTUATOR_FAIL
              { s with
                vars.log := s.vars.log ++
                  [LogMsg.error_invalid_firmware (s.cmd cmd).response.status.version_major
                    (s.cmd cmd).response.status.version_minor] } with
            vars.version_warning_printed := true }) := by
  unfold status_version_rejected at hrej
  simp only [actuator_status_callback]
  rw [if_pos hrej]
  by_cases hp : s.vars.version_warning_printed = true
  · simp [hp]
  · simp [hp]

/-- The accepting branch of `actuator_status_callback`. -/
theorem actuator_status_callback_accept_eq (I : Interface) (cmd : CmdRef) (s : State)
    (hacc : ¬ status_version_rejected I (s.cmd cmd).response.status) :
    actuator_status_callback I cmd s =
      (false,
        if (s.cmd cmd).response.status.missing_timings.any = true then
          actuator_update_missing_timings I
            { status_accept_head I cmd s with
              vars.missing_timings :=
                (status_accept_head I cmd s).vars.missing_timings.or
                  (s.cmd cmd).response.status.missing_timings }
        else status_accept_head I cmd s) := by
  unfold status_version_rejected at hacc
  simp only [actuator_status_callback]
  rw [if_neg hacc]
  by_cases hany : (s.cmd cmd).response.status.missing_timings.any = true
  · simp only [hany, if_true, status_accept_head]
  · simp only [hany, if_false, status_accept_head]
    rfl

/-- The variables `actuator_update_missing_timings` can change: the missing
bitmask and the pending transfers. -/
theorem actuator_update_missing_timings_vars (I : Interface) (s : State) :
    (actuator_update_missing_timings I s).vars =
      { s.vars with
        missing_timings := (actuator_update_missing_timings I s).vars.missing_timings
        i2c_queue := (actuator_update_missing_timings I s).vars.i2c_queue
        i2c_trace := (actuator_update_missing_timings I s).vars.i2c_trace } := by
  rw [actuator_update_missing_timings_eq]
  by_cases hu : s.set_timing_command.in_use = true
  · rw [if_pos hu]
  · rw [if_neg hu]
    cases first_qualifying s.vars with
    | none => rfl
    | some cat =>
      simp only []
      rw [resolve_category_vars]

/-- The variables the head of the accepting branch can change. -/
theorem status_accept_head_vars (I : Interface) (cmd : CmdRef) (s : State) :
    (status_accept_head I cmd s).vars =
      { s.vars with
        actuator_last_status := (s.cmd cmd).response.status
        status_valid_timeout := s.vars.now + ACTUATOR_MAX_STATUS_AGE_MS * 1000
        kill_switch_needs_refresh := (status_accept_head I cmd s).vars.kill_switch_needs_refresh
        assert_failed := (status_accept_head I cmd s).vars.assert_failed
        i2c_queue := (status_accept_head I cmd s).vars.i2c_queue
        i2c_trace := (status_accept_head I cmd s).vars.i2c_trace } := by
  simp only [status_accept_head, make_timeout_time_ms]
  split_ifs
  · rw [kill_switch_send_vars_frame]
  · rfl
  · rfl

theorem status_accept_head_cmd_ne (I : Interface) (cmd r : CmdRef) (s : State)
    (h : r ≠ CmdRef.kill_switch_update_command) :
    (status_accept_head I cmd s).cmd r = s.cmd r := by
  simp only [status_accept_head]
  split_ifs
  · rw [kill_switch_send_cmd_ne _ _ _ h]; rfl
  · rfl
  · rfl

/-- The head of the accepting branch enqueues at most one transfer, and only
on the kill-switch slot. -/
theorem status_accept_head_trace (I : Interface) (cmd : CmdRef) (s : State) :
    ∃ pre : List Transfer,
      (status_accept_head I cmd s).vars.i2c_trace = s.vars.i2c_trace ++ pre
        ∧ pre.length ≤ 1 ∧ ∀ u ∈ pre, u.cmd = CmdRef.kill_switch_update_command := by
  simp only [status_accept_head]
  split_ifs
  · rename_i hinit _
    rw [kill_switch_send_vars]
    · exact ⟨[_], rfl, by simp, by simp⟩
    · exact hinit
  · exact ⟨[], by simp, by simp, by simp⟩
  · exact ⟨[], by simp, by simp, by simp⟩

/-! ## Fault bits -/

theorem fault_mask_of_lt (fault_id : Nat) (h : fault_id < 32) :
    (1 <<< fault_id) % 2 ^ 32 = 2 ^ fault_id := by
  rw [Nat.one_shiftLeft]
  exact Nat.mod_eq_of_lt (Nat.pow_lt_pow_right (by decide) h)

theorem fault_is_raised_eq_testBit (fault_id : Nat) (s : State) (h : fault_id < 32) :
    fault_is_raised fault_id s = s.vars.fault_list.testBit fault_id := by
  unfold fault_is_raised
  rw [fault_mask_of_lt fault_id h, Nat.and_two_pow]
  cases s.vars.fault_list.testBit fault_id <;> simp

theorem safety_raise_fault_testBit (a b : Nat) (s : State) (ha : a < 32) (hb : b < 32) :
    (safety_raise_fault b s).vars.fault_list.testBit a
      = (s.vars.fault_list.testBit a || decide (b = a)) := by
  rw [safety_raise_fault_fault_list, fault_mask_of_lt b hb]
  split
  · rw [Nat.one_shiftLeft, Nat.testBit_mod_two_pow, Nat.testBit_or, Nat.testBit_two_pow]
    simp [ha]
  · rename_i hset
    by_cases hab : b = a
    · subst hab
      rw [Nat.and_two_pow] at hset
      cases hbit : s.vars.fault_list.testBit b
      · simp [hbit] at hset
      · simp
    · simp [hab]

theorem safety_lower_fault_fault_list (fault_id : Nat) (s : State) :
    (safety_lower_fault fault_id s).vars.fault_list =
      if s.vars.fault_list &&& ((1 <<< fault_id) % 2 ^ 32) ≠ 0 then
        s.vars.fault_list &&& (2 ^ 32 - 1 - (1 <<< fault_id) % 2 ^ 32)
      else s.vars.fault_list := by
  simp only [safety_lower_fault]
  split <;> rfl

theorem safety_lower_fault_testBit (a b : Nat) (s : State) (ha : a < 32) (hb : b < 32) :
    (safety_lower_fault b s).vars.fault_list.testBit a
      = (s.vars.fault_list.testBit a && decide (b ≠ a)) := by
  rw [safety_lower_fault_fault_list, fault_mask_of_lt b hb]
  have hlt : 2 ^ b < 2 ^ 32 := Nat.pow_lt_pow_right (by decide) hb
  have hmask : (2 ^ 32 - 1 - 2 ^ b).testBit a = (decide (a < 32) && !(2 ^ b).testBit a) := by
    rw [Nat.sub_sub, Nat.add_comm 1, Nat.testBit_two_pow_sub_succ hlt]
  split
  · rw [Nat.testBit_and, hmask, Nat.testBit_two_pow]
    simp [ha]
  · rename_i hclear
    by_cases hab : b = a
    · subst hab
      have : s.vars.fault_list &&& 2 ^ b = 0 := by simpa using hclear
      rw [Nat.and_two_pow] at this
      cases hbit : s.vars.fault_list.testBit b
      · simp
      · simp [hbit] at this
    · simp [hab]

theorem fault_is_raised_raise_ne (a b : Nat) (s : State) (ha : a < 32) (hb : b < 32)
    (hne : b ≠ a) :
    fault_is_raised a (safety_raise_fault b s) = fault_is_raised a s := by
  rw [fault_is_raised_eq_testBit a _ ha, fault_is_raised_eq_testBit a _ ha,
    safety_raise_fault_testBit a b s ha hb]
  simp [hne]

theorem fault_is_raised_lower (a : Nat) (s : State) (ha : a < 32) :
    fault_is_raised a (safety_lower_fault a s) = false := by
  rw [fault_is_raised_eq_testBit a _ ha, safety_lower_fault_testBit a a s ha ha]
  simp

/-! ## Status responses -/

theorem actuator_status_callback_false (I : Interface) (cmd : CmdRef) (s : State) :
    (actuator_status_callback I cmd s).1 = false := by
  by_cases h : status_version_rejected I (s.cmd cmd).response.status
  · rw [actuator_status_callback_reject_eq I cmd s h]
    split <;> rfl
  · rw [actuator_status_callback_accept_eq I cmd s h]

/-- The status slot is released by the completion handler whenever the status
handler was run. -/
theorem status_slot_released (I : Interface) (req : async_i2c_request) (cmd : CmdRef)
    (s : State) (hreq : req.user_data = some cmd) (hvalid : s.validRef cmd)
    (hok : (s.cmd cmd).i2c_request.bytes_to_receive = 0 ∨
      I.actuator_i2c_crc8_calc_response (s.cmd cmd).response
        (s.cmd cmd).i2c_request.bytes_to_receive % 256 = (s.cmd cmd).response.crc8)
    (hcb : (s.cmd cmd).response_cb = some actuator_cmd_response_cb_t.actuator_status_callback) :
    ((actuator_command_done I req s).cmd cmd).in_use = false :=
  (actuator_command_done_released I req cmd s _ hreq hvalid hok hcb
    (by simp only [call_response_cb]; exact actuator_status_callback_false ..)).1

/-- The snapshot and the deadline after an accepted status response. -/
theorem actuator_status_callback_accept_snapshot (I : Interface) (cmd : CmdRef) (s : State)
    (hacc : ¬ status_version_rejected I (s.cmd cmd).response.status) :
    (actuator_status_callback I cmd s).2.vars.actuator_last_status
        = (s.cmd cmd).response.status
      ∧ (actuator_status_callback I cmd s).2.vars.status_valid_timeout
        = s.vars.now + ACTUATOR_MAX_STATUS_AGE_MS * 1000
      ∧ (actuator_status_callback I cmd s).2.vars.actuator_initialized
        = s.vars.actuator_initialized := by
  rw [actuator_status_callback_accept_eq I cmd s hacc]
  simp only []
  split
  · rw [actuator_update_missing_timings_vars]
    simp only []
    rw [status_accept_head_vars]
    exact ⟨rfl, rfl, rfl⟩
  · rw [status_accept_head_vars]
    exact ⟨rfl, rfl, rfl⟩

/-- C14 (the code never reads `version_minor`). A status response whose major
version is the expected one and whose minor version is not is accepted: the
snapshot takes it over and the deadline is extended. So is a response whose
major version equals the expected minor version. -/
theorem actuator_status_callback_ignores_minor (I : Interface) (s : State)
    (st : actuator_i2c_status) (rx : actuator_i2c_response_t) :
    (actuator_status_callback I CmdRef.status_command
        { s with status_command :=
          { s.status_command with
            response :=
              { rx with
                status :=
                  { st with
                    version_major := I.ACTUATOR_EXPECTED_FIRMWARE_MAJOR
                    version_minor := I.ACTUATOR_EXPECTED_FIRMWARE_MINOR + 1 } } } }
        ).2.vars.actuator_last_status.version_minor
        = I.ACTUATOR_EXPECTED_FIRMWARE_MINOR + 1
      ∧ (actuator_status_callback I CmdRef.status_command
        { s with status_command :=
          { s.status_command with
            response :=
              { rx with
                status :=
                  { st with
                    version_major := I.ACTUATOR_EXPECTED_FIRMWARE_MAJOR
                    version_minor := I.ACTUATOR_EXPECTED_FIRMWARE_MINOR + 1 } } } }
        ).2.vars.status_valid_timeout = s.vars.now + ACTUATOR_MAX_STATUS_AGE_MS * 1000
      ∧ (actuator_status_callback I CmdRef.status_command
        { s with status_command :=
          { s.status_command with
            response :=
              { rx with
                status :=
                  { st with version_major := I.ACTUATOR_EXPECTED_FIRMWARE_MINOR } } } }
        ).2.vars.actuator_last_status.version_major
        = I.ACTUATOR_EXPECTED_FIRMWARE_MINOR := by
  refine ⟨?_, ?_, ?_⟩
  · rw [(actuator_status_callback_accept_snapshot I CmdRef.status_command _
      (by simp [status_version_rejected, State.cmd])).1]
    rfl
  · rw [(actuator_status_callback_accept_snapshot I CmdRef.status_command _
      (by simp [status_version_rejected, State.cmd])).2.1]
  · rw [(actuator_status_callback_accept_snapshot I CmdRef.status_command _
      (by simp [status_version_rejected, State.cmd])).1]
    rfl

/-- C15. A status response rejected for its firmware version leaves the
snapshot, the staleness deadline, the missing-timings bitmask, the timing
cache, the kill-switch flag and every slot unchanged, enqueues nothing, and
the handler returns false, so the completion handler releases the status
slot. -/
theorem actuator_status_callback_reject_frame (I : Interface) (cmd : CmdRef) (s : State)
    (hrej : status_version_rejected I (s.cmd cmd).response.status) :
    (actuator_status_callback I cmd s).1 = false
      ∧ (actuator_status_callback I cmd s).2.vars.actuator_last_status
          = s.vars.actuator_last_status
      ∧ (actuator_status_callback I cmd s).2.vars.status_valid_timeout
          = s.vars.status_valid_timeout
      ∧ (actuator_status_callback I cmd s).2.vars.missing_timings = s.vars.missing_timings
      ∧ (actuator_status_callback I cmd s).2.vars.claw_timing = s.vars.claw_timing
      ∧ (actuator_status_callback I cmd s).2.vars.dropper_active_timing
          = s.vars.dropper_active_timing
      ∧ (actuator_status_callback I cmd s).2.vars.torpedo1_timings = s.vars.torpedo1_timings
      ∧ (actuator_status_callback I cmd s).2.vars.torpedo2_timings = s.vars.torpedo2_timings
      ∧ (actuator_status_callback I cmd s).2.vars.kill_switch_needs_refresh
          = s.vars.kill_switch_needs_refresh
      ∧ (actuator_status_callback I cmd s).2.vars.i2c_queue = s.vars.i2c_queue
      ∧ (actuator_status_callback I cmd s).2.vars.i2c_trace = s.vars.i2c_trace
      ∧ (actuator_status_callback I cmd s).2.set_timing_command = s.set_timing_command
      ∧ (actuator_status_callback I cmd s).2.kill_switch_update_command
          = s.kill_switch_update_command
      ∧ (actuator_status_callback I cmd s).2.status_command = s.status_command
      ∧ (actuator_status_callback I cmd s).2.allocated_commands = s.allocated_commands
      ∧ ∀ req : async_i2c_request, req.user_data = some cmd → s.validRef cmd →
          ((s.cmd cmd).i2c_request.bytes_to_receive = 0 ∨
            I.actuator_i2c_crc8_calc_response (s.cmd cmd).response
              (s.cmd cmd).i2c_request.bytes_to_receive % 256 = (s.cmd cmd).response.crc8) →
          (s.cmd cmd).response_cb = some actuator_cmd_response_cb_t.actuator_status_callback →
          ((actuator_command_done I req s).cmd cmd).in_use = false := by
  refine ⟨actuator_status_callback_false I cmd s, ?_⟩
  rw [actuator_status_callback_reject_eq I cmd s hrej]
  by_cases hp : s.vars.version_warning_printed = true
  · rw [if_pos hp]
    exact ⟨rfl, rfl, rfl, rfl, rfl, rfl, rfl, rfl, rfl, rfl, rfl, rfl, rfl, rfl,
      fun req hreq hvalid hok hcb => status_slot_released I req cmd s hreq hvalid hok hcb⟩
  · rw [if_neg hp]
    simp only []
    rw [safety_raise_fault_vars]
    refine ⟨?_, ?_, ?_, ?_, ?_, ?_, ?_, ?_, ?_, ?_, ?_, ?_, ?_, ?_,
      fun req hreq hvalid hok hcb => status_slot_released I req cmd s hreq hvalid hok hcb⟩
    all_goals first
      | (split <;> rfl)
      | (unfold safety_raise_fault; split <;> rfl)

/-- C16 (as stated, refuted). In `example_rejected_once` the version warning
is already latched and `FAULT_ACTUATOR_FAIL` has been lowered; the second
response rejected for its version leaves the fault lowered. -/
theorem second_rejection_does_not_raise :
    status_version_rejected example_interface example_rx_version7.status
      ∧ example_rejected_once.vars.version_warning_printed = true
      ∧ fault_is_raised example_interface.FAULT_ACTUATOR_FAIL example_rejected_once = false
      ∧ fault_is_raised example_interface.FAULT_ACTUATOR_FAIL example_rejected_twice
          = false := by
  decide

/-- C16 (amended). Only the first status response rejected for its firmware
version raises `FAULT_ACTUATOR_FAIL`: while the warning latch is clear the
handler logs the version, raises the fault and sets the latch; once the latch
is set a rejected response changes nothing, so the fault list is what it was
(a fault lowered in between stays lowered). -/
theorem actuator_status_callback_reject_latched (I : Interface) (cmd : CmdRef) (s : State)
    (hrej : status_version_rejected I (s.cmd cmd).response.status)
    (hlt : I.FAULT_ACTUATOR_FAIL < 32) :
    (s.vars.version_warning_printed = false →
        fault_is_raised I.FAULT_ACTUATOR_FAIL (actuator_status_callback I cmd s).2 = true
          ∧ (actuator_status_callback I cmd s).2.vars.version_warning_printed = true
          ∧ (actuator_status_callback I cmd s).2.vars.log
              = s.vars.log
                ++ [LogMsg.error_invalid_firmware (s.cmd cmd).response.status.version_major
                      (s.cmd cmd).response.status.version_minor]
                ++ (if fault_is_raised I.FAULT_ACTUATOR_FAIL s then []
                    else [LogMsg.fault_raised I.FAULT_ACTUATOR_FAIL]))
      ∧ (s.vars.version_warning_printed = true →
          (actuator_status_callback I cmd s).2 = s) := by
  rw [actuator_status_callback_reject_eq I cmd s hrej]
  constructor
  · intro hp
    rw [if_neg (by simp [hp])]
    refine ⟨?_, rfl, ?_⟩
    · rw [fault_is_raised_congr _ _ _ (by rfl)]
      exact fault_is_raised_raise _ _ hlt
    · simp only []
      rw [safety_raise_fault_vars]
      by_cases h : s.vars.fault_list &&& ((1 <<< I.FAULT_ACTUATOR_FAIL) % 2 ^ 32) = 0
      · have hr : fault_is_raised I.FAULT_ACTUATOR_FAIL s = false := by
          unfold fault_is_raised; rw [h]; rfl
        rw [if_pos h, hr]
        simp
      · have hr : fault_is_raised I.FAULT_ACTUATOR_FAIL s = true := by
          unfold fault_is_raised; exact bne_iff_ne.mpr h
        rw [if_neg h, hr]
        simp
  · intro hp
    rw [if_pos hp]

theorem and_or_self_left (a b : Nat) : a &&& (a ||| b) = a := by
  apply Nat.eq_of_testBit_eq
  intro i
  rw [Nat.testBit_and, Nat.testBit_or]
  cases a.testBit i <;> cases b.testBit i <;> rfl

theorem and_or_self_right (a b : Nat) : b &&& (a ||| b) = b := by
  apply Nat.eq_of_testBit_eq
  intro i
  rw [Nat.testBit_and, Nat.testBit_or]
  cases a.testBit i <;> cases b.testBit i <;> rfl

theorem missing_timings_status.le_or_left (a b : missing_timings_status) :
    a.le (a.or b) := by
  unfold missing_timings_status.le missing_timings_status.or
  simp only [Bool.or_eq_true]
  exact ⟨Or.inl, Or.inl, Or.inl, Or.inl, Or.inl, Or.inl, Or.inl, Or.inl, Or.inl, Or.inl,
    Or.inl, Or.inl, Or.inl, and_or_self_left _ _⟩

theorem missing_timings_status.le_or_right (a b : missing_timings_status) :
    b.le (a.or b) := by
  unfold missing_timings_status.le missing_timings_status.or
  simp only [Bool.or_eq_true]
  exact ⟨Or.inr, Or.inr, Or.inr, Or.inr, Or.inr, Or.inr, Or.inr, Or.inr, Or.inr, Or.inr,
    Or.inr, Or.inr, Or.inr, and_or_self_right _ _⟩

theorem status_accept_head_set_timing (I : Interface) (cmd : CmdRef) (s : State) :
    (status_accept_head I cmd s).set_timing_command = s.set_timing_command :=
  status_accept_head_cmd_ne I cmd CmdRef.set_timing_command s (by decide)

/-- C17. An accepted status response handled at time `now` makes the snapshot
equal to the status payload of the response and sets the staleness deadline to
`now + 1000 ms` (in microseconds), so that with the clock at `t` the interface
is connected exactly when `t` is strictly before that deadline; the handler
returns false, upon which the completion handler releases the status slot. -/
theorem actuator_status_callback_accept_deadline (I : Interface) (cmd : CmdRef) (s : State)
    (hacc : ¬ status_version_rejected I (s.cmd cmd).response.status)
    (hinit : s.vars.actuator_initialized = true) :
    (actuator_status_callback I cmd s).1 = false
      ∧ (actuator_status_callback I cmd s).2.vars.actuator_last_status
          = (s.cmd cmd).response.status
      ∧ (actuator_status_callback I cmd s).2.vars.status_valid_timeout
          = s.vars.now + 1000 * 1000
      ∧ ACTUATOR_MAX_STATUS_AGE_MS = 1000
      ∧ (∀ t : Nat, t < s.vars.now + 1000 * 1000 →
          actuator_is_connected { (actuator_status_callback I cmd s).2 with vars.now := t }
            = true)
      ∧ (∀ t : Nat, s.vars.now + 1000 * 1000 ≤ t →
          actuator_is_connected { (actuator_status_callback I cmd s).2 with vars.now := t }
            = false)
      ∧ ∀ req : async_i2c_request, req.user_data = some cmd → s.validRef cmd →
          ((s.cmd cmd).i2c_request.bytes_to_receive = 0 ∨
            I.actuator_i2c_crc8_calc_response (s.cmd cmd).response
              (s.cmd cmd).i2c_request.bytes_to_receive % 256 = (s.cmd cmd).response.crc8) →
          (s.cmd cmd).response_cb = some actuator_cmd_response_cb_t.actuator_status_callback →
          ((actuator_command_done I req s).cmd cmd).in_use = false := by
  have h := actuator_status_callback_accept_snapshot I cmd s hacc
  have hd : (actuator_status_callback I cmd s).2.vars.status_valid_timeout
      = s.vars.now + 1000 * 1000 := h.2.1
  refine ⟨actuator_status_callback_false I cmd s, h.1, hd, rfl, ?_, ?_,
    fun req hreq hvalid hok hcb => status_slot_released I req cmd s hreq hvalid hok hcb⟩
  · intro t ht
    simp only [actuator_is_connected, absolute_time_diff_us]
    rw [h.2.2, hinit, hd, if_pos rfl, decide_eq_true_eq]
    omega
  · intro t ht
    simp only [actuator_is_connected, absolute_time_diff_us]
    rw [h.2.2, hinit, hd, if_pos rfl, decide_eq_false_iff_not]
    omega

/-- The accepting branch of the status handler when the response reports no
missing timing: the resolver is not invoked. -/
theorem actuator_status_callback_accept_quiet (I : Interface) (cmd : CmdRef) (s : State)
    (hacc : ¬ status_version_rejected I (s.cmd cmd).response.status)
    (hany : (s.cmd cmd).response.status.missing_timings.any = false) :
    (actuator_status_callback I cmd s).2 = status_accept_head I cmd s := by
  rw [actuator_status_callback_accept_eq I cmd s hacc]
  simp only [hany]
  rfl

/-- The accepting branch of the status handler when the response reports a
missing timing: merge, then the resolver. -/
theorem actuator_status_callback_accept_merge (I : Interface) (cmd : CmdRef) (s : State)
    (hacc : ¬ status_version_rejected I (s.cmd cmd).response.status)
    (hany : (s.cmd cmd).response.status.missing_timings.any = true) :
    (actuator_status_callback I cmd s).2
      = actuator_update_missing_timings I
          { status_accept_head I cmd s with
            vars.missing_timings :=
              (status_accept_head I cmd s).vars.missing_timings.or
                (s.cmd cmd).response.status.missing_timings } := by
  rw [actuator_status_callback_accept_eq I cmd s hacc]
  simp only [hany]
  rfl

theorem status_accept_head_missing (I : Interface) (cmd : CmdRef) (s : State) :
    (status_accept_head I cmd s).vars.missing_timings = s.vars.missing_timings := by
  rw [status_accept_head_vars]

/-- C18 (as stated, refuted). In `example_claw_missing_answered` the timing
slot is free and the claw entry is both missing and locally configured, also
after OR-ing in the reported bitmask (which is zero); the accepted status
response is handled without any set-timing command being enqueued, and the
claw entry is still missing afterwards. -/
theorem quiet_status_skips_resolver :
    ¬ status_version_rejected example_interface
        (example_claw_missing_answered.cmd CmdRef.status_command).response.status
      ∧ example_claw_missing_answered.set_timing_command.in_use = false
      ∧ first_qualifying
          { example_claw_missing_answered.vars with
            missing_timings := example_claw_missing_answered.vars.missing_timings.or
              (example_claw_missing_answered.cmd
                CmdRef.status_command).response.status.missing_timings }
          = some Category.claw
      ∧ (actuator_status_callback example_interface CmdRef.status_command
          example_claw_missing_answered).2.vars.i2c_trace
          = example_claw_missing_answered.vars.i2c_trace
      ∧ (actuator_status_callback example_interface CmdRef.status_command
          example_claw_missing_answered).2.set_timing_command.in_use = false
      ∧ first_qualifying (actuator_status_callback example_interface CmdRef.status_command
          example_claw_missing_answered).2.vars = some Category.claw := by
  decide

/-- C18 (amended). An accepted status response invokes the resolver only when
the 16-bit word of missing timings it reports is not zero (`any`: one of the
named bits or one of the others is set). In that case the reported word is
OR-ed into the local one (no local and no reported bit is dropped) and, if the
timing slot is free and some entry is both missing after the merge and locally
configured, exactly one set-timing command is enqueued, for the first such
entry, preceded by at most one kill-switch transfer. When the reported word is
zero, the local bitmask and the timing slot are left as they are and no
set-timing command is enqueued. -/
theorem actuator_status_callback_merges_reported (I : Interface) (cmd : CmdRef) (s : State)
    (hacc : ¬ status_version_rejected I (s.cmd cmd).response.status) :
    ((s.cmd cmd).response.status.missing_timings.any = true →
        s.vars.missing_timings.le
            (s.vars.missing_timings.or (s.cmd cmd).response.status.missing_timings)
          ∧ (s.cmd cmd).response.status.missing_timings.le
              (s.vars.missing_timings.or (s.cmd cmd).response.status.missing_timings)
          ∧ ∀ cat : Category, s.set_timing_command.in_use = false →
              first_qualifying
                { s.vars with
                  missing_timings := s.vars.missing_timings.or
                    (s.cmd cmd).response.status.missing_timings } = some cat →
              (actuator_status_callback I cmd s).2.set_timing_command.in_use = true
                ∧ (actuator_status_callback I cmd s).2.vars.missing_timings
                    = cat.clear (s.vars.missing_timings.or
                        (s.cmd cmd).response.status.missing_timings)
                ∧ ∃ (pre : List Transfer) (t : Transfer),
                    (actuator_status_callback I cmd s).2.vars.i2c_trace
                        = s.vars.i2c_trace ++ pre ++ [t]
                      ∧ pre.length ≤ 1
                      ∧ (∀ u ∈ pre, u.cmd = CmdRef.kill_switch_update_command)
                      ∧ t.cmd = CmdRef.set_timing_command
                      ∧ cat.carried s.vars t.frame)
      ∧ ((s.cmd cmd).response.status.missing_timings.any = false →
          (actuator_status_callback I cmd s).2.vars.missing_timings = s.vars.missing_timings
            ∧ (actuator_status_callback I cmd s).2.set_timing_command = s.set_timing_command
            ∧ ∃ pre : List Transfer,
                (actuator_status_callback I cmd s).2.vars.i2c_trace = s.vars.i2c_trace ++ pre
                  ∧ pre.length ≤ 1
                  ∧ ∀ u ∈ pre, u.cmd = CmdRef.kill_switch_update_command) := by
  constructor
  · intro hany
    refine ⟨missing_timings_status.le_or_left _ _, missing_timings_status.le_or_right _ _, ?_⟩
    intro cat hfree hq
    rw [actuator_status_callback_accept_merge I cmd s hacc hany]
    have hv := status_accept_head_vars I cmd s
    have hfq : first_qualifying
        ({ status_accept_head I cmd s with
            vars.missing_timings :=
              (status_accept_head I cmd s).vars.missing_timings.or
                (s.cmd cmd).response.status.missing_timings } : State).vars = some cat := by
      rw [← hq]
      apply first_qualifying_congr
      · show (status_accept_head I cmd s).vars.missing_timings.or _ = _
        rw [status_accept_head_missing]
      · show (status_accept_head I cmd s).vars.claw_timing = _
        rw [hv]
      · show (status_accept_head I cmd s).vars.dropper_active_timing = _
        rw [hv]
      · show (status_accept_head I cmd s).vars.torpedo1_timings = _
        rw [hv]
      · show (status_accept_head I cmd s).vars.torpedo2_timings = _
        rw [hv]
    obtain ⟨h1, h2, t, h3, h4, h5⟩ := actuator_update_missing_timings_some I _ cat
      (by show (status_accept_head I cmd s).set_timing_command.in_use = false
          rw [status_accept_head_set_timing]; exact hfree) hfq
    obtain ⟨pre, hp1, hp2, hp3⟩ := status_accept_head_trace I cmd s
    refine ⟨h1, ?_, pre, t, ?_, hp2, hp3, h4, ?_⟩
    · rw [h2]
      show Category.clear ((status_accept_head I cmd s).vars.missing_timings.or _) cat = _
      rw [status_accept_head_missing]
    · rw [h3]
      show (status_accept_head I cmd s).vars.i2c_trace ++ [t] = _
      rw [hp1]
    · refine (Category.carried_congr s.vars _ ?_ ?_ ?_ ?_ cat t.frame).mp h5
      · show (status_accept_head I cmd s).vars.claw_timing = _
        rw [hv]
      · show (status_accept_head I cmd s).vars.dropper_active_timing = _
        rw [hv]
      · show (status_accept_head I cmd s).vars.torpedo1_timings = _
        rw [hv]
      · show (status_accept_head I cmd s).vars.torpedo2_timings = _
        rw [hv]
  · intro hany
    rw [actuator_status_callback_accept_quiet I cmd s hacc hany]
    exact ⟨status_accept_head_missing I cmd s, status_accept_head_set_timing I cmd s,
      status_accept_head_trace I cmd s⟩

/-! ## The poll alarm -/

theorem actuator_poll_alarm_callback_eq (I : Interface) (s : State) :
    actuator_poll_alarm_callback I s =
      ((ACTUATOR_POLLING_RATE_MS : Int) * 1000,
        if (poll_connectivity I s).status_command.in_use = true then
          safety_raise_fault I.FAULT_ACTUATOR_FAIL
            { poll_connectivity I s with
              vars.log := (poll_connectivity I s).vars.log ++ [LogMsg.error_poll_in_progress] }
        else
          actuator_send_command I CmdRef.status_command
            { poll_connectivity I s with
              status_command := { (poll_connectivity I s).status_command with in_use := true } }) :=
  rfl

theorem safety_lower_fault_slots (fault_id : Nat) (s : State) :
    (safety_lower_fault fault_id s).status_command = s.status_command
      ∧ (safety_lower_fault fault_id s).set_timing_command = s.set_timing_command
      ∧ (safety_lower_fault fault_id s).kill_switch_update_command
          = s.kill_switch_update_command
      ∧ (safety_lower_fault fault_id s).allocated_commands = s.allocated_commands
      ∧ (safety_lower_fault fault_id s).vars.i2c_trace = s.vars.i2c_trace
      ∧ (safety_lower_fault fault_id s).vars.i2c_queue = s.vars.i2c_queue
      ∧ (safety_lower_fault fault_id s).vars.actuator_has_been_polled
          = s.vars.actuator_has_been_polled := by
  simp only [safety_lower_fault]
  split <;> exact ⟨rfl, rfl, rfl, rfl, rfl, rfl, rfl⟩

theorem safety_raise_fault_slots (fault_id : Nat) (s : State) :
    (safety_raise_fault fault_id s).status_command = s.status_command
      ∧ (safety_raise_fault fault_id s).set_timing_command = s.set_timing_command
      ∧ (safety_raise_fault fault_id s).kill_switch_update_command
          = s.kill_switch_update_command
      ∧ (safety_raise_fault fault_id s).allocated_commands = s.allocated_commands
      ∧ (safety_raise_fault fault_id s).vars.i2c_trace = s.vars.i2c_trace
      ∧ (safety_raise_fault fault_id s).vars.i2c_queue = s.vars.i2c_queue
      ∧ (safety_raise_fault fault_id s).vars.actuator_has_been_polled
          = s.vars.actuator_has_been_polled := by
  simp only [safety_raise_fault]
  split <;> exact ⟨rfl, rfl, rfl, rfl, rfl, rfl, rfl⟩

theorem poll_connectivity_slots (I : Interface) (s : State) :
    (poll_connectivity I s).status_command = s.status_command
      ∧ (poll_connectivity I s).set_timing_command = s.set_timing_command
      ∧ (poll_connectivity I s).kill_switch_update_command = s.kill_switch_update_command
      ∧ (poll_connectivity I s).allocated_commands = s.allocated_commands
      ∧ (poll_connectivity I s).vars.i2c_trace = s.vars.i2c_trace
      ∧ (poll_connectivity I s).vars.i2c_queue = s.vars.i2c_queue := by
  simp only [poll_connectivity]
  split_ifs
  · have h := safety_raise_fault_slots I.FAULT_NO_ACTUATOR s
    exact ⟨h.1, h.2.1, h.2.2.1, h.2.2.2.1, h.2.2.2.2.1, h.2.2.2.2.2.1⟩
  · have h := safety_lower_fault_slots I.FAULT_NO_ACTUATOR s
    exact ⟨h.1, h.2.1, h.2.2.1, h.2.2.2.1, h.2.2.2.2.1, h.2.2.2.2.2.1⟩
  · exact ⟨rfl, rfl, rfl, rfl, rfl, rfl⟩

/-- The second statement of the poll alarm does not touch the bit of a fault
other than `FAULT_ACTUATOR_FAIL`. -/
theorem actuator_poll_alarm_callback_other_fault (I : Interface) (s : State) (a : Nat)
    (ha : a < 32) (hfail : I.FAULT_ACTUATOR_FAIL < 32) (hne : I.FAULT_ACTUATOR_FAIL ≠ a) :
    fault_is_raised a (actuator_poll_alarm_callback I s).2
      = fault_is_raised a (poll_connectivity I s) := by
  rw [actuator_poll_alarm_callback_eq]
  simp only []
  split
  · rw [fault_is_raised_raise_ne a _ _ ha hfail hne]
    exact fault_is_raised_congr _ _ _ rfl
  · apply fault_is_raised_congr
    rw [actuator_send_command_vars]

theorem actuator_is_connected_iff (s : State) (hinit : s.vars.actuator_initialized = true) :
    actuator_is_connected s = decide (s.vars.now < s.vars.status_valid_timeout) := by
  simp only [actuator_is_connected, absolute_time_diff_us, hinit, if_pos]
  rw [decide_eq_decide]
  omega

/-- The one transfer that `actuator_send_command` enqueues. -/
theorem actuator_send_command_transfer (I : Interface) (cmd : CmdRef) (s : State)
    (h : s.validRef cmd) :
    ∃ t : Transfer,
      (actuator_send_command I cmd s).vars.i2c_trace = s.vars.i2c_trace ++ [t]
        ∧ t.cmd = cmd ∧ t.frame.cmd_id = (s.cmd cmd).request.cmd_id := by
  refine ⟨⟨cmd, ((actuator_send_command I cmd s).cmd cmd).i2c_request,
    ((actuator_send_command I cmd s).cmd cmd).request⟩, ?_, rfl, ?_⟩
  · rw [actuator_send_command_vars]
  · simp only []
    rw [actuator_send_command_cmd _ _ _ h]

/-- C19. Every poll alarm returns 300000 µs (the 300 ms polling period). If
the status slot is still in use, `FAULT_ACTUATOR_FAIL` is raised, nothing is
enqueued and the status slot is unchanged; otherwise the status slot becomes
in use and exactly one transfer, of the status slot's get-status command, is
enqueued. -/
theorem actuator_poll_alarm_callback_status (I : Interface) (s : State)
    (hfail : I.FAULT_ACTUATOR_FAIL < 32)
    (hid : s.status_command.request.cmd_id = actuator_command.GET_STATUS) :
    (actuator_poll_alarm_callback I s).1 = 300000
      ∧ (s.status_command.in_use = true →
          fault_is_raised I.FAULT_ACTUATOR_FAIL (actuator_poll_alarm_callback I s).2 = true
            ∧ (actuator_poll_alarm_callback I s).2.status_command = s.status_command
            ∧ (actuator_poll_alarm_callback I s).2.vars.i2c_trace = s.vars.i2c_trace
            ∧ (actuator_poll_alarm_callback I s).2.vars.i2c_queue = s.vars.i2c_queue)
      ∧ (s.status_command.in_use = false →
          (actuator_poll_alarm_callback I s).2.status_command.in_use = true
            ∧ (∃ t : Transfer,
                (actuator_poll_alarm_callback I s).2.vars.i2c_trace = s.vars.i2c_trace ++ [t]
                  ∧ t.cmd = CmdRef.status_command
                  ∧ t.frame.cmd_id = actuator_command.GET_STATUS)
            ∧ (actuator_poll_alarm_callback I s).2.vars.i2c_queue
                = s.vars.i2c_queue ++ [CmdRef.status_command]) := by
  have hs := poll_connectivity_slots I s
  rw [actuator_poll_alarm_callback_eq]
  refine ⟨by simp [ACTUATOR_POLLING_RATE_MS], ?_, ?_⟩
  · intro hu
    simp only []
    rw [if_pos (by rw [hs.1]; exact hu)]
    have h := safety_raise_fault_slots I.FAULT_ACTUATOR_FAIL
      { poll_connectivity I s with
        vars.log := (poll_connectivity I s).vars.log ++ [LogMsg.error_poll_in_progress] }
    exact ⟨fault_is_raised_raise _ _ hfail, h.1.trans hs.1, h.2.2.2.2.1.trans hs.2.2.2.2.1,
      h.2.2.2.2.2.1.trans hs.2.2.2.2.2⟩
  · intro hu
    simp only []
    rw [if_neg (by rw [hs.1, hu]; simp)]
    refine ⟨?_, ?_, ?_⟩
    · exact actuator_send_command_in_use I CmdRef.status_command CmdRef.status_command _
    · obtain ⟨t, h1, h2, h3⟩ := actuator_send_command_transfer I CmdRef.status_command
        { poll_connectivity I s with
          status_command := { (poll_connectivity I s).status_command with in_use := true } }
        trivial
      refine ⟨t, ?_, h2, ?_⟩
      · rw [h1]
        show (poll_connectivity I s).vars.i2c_trace ++ [t] = _
        rw [hs.2.2.2.2.1]
      · rw [h3]
        show (poll_connectivity I s).status_command.request.cmd_id = _
        rw [hs.1, hid]
    · rw [actuator_send_command_vars]
      show (poll_connectivity I s).vars.i2c_queue ++ _ = _
      rw [hs.2.2.2.2.2]

/-- C20. `actuator_init` sets the staleness deadline to the time of the call
and leaves the polled flag clear. The first poll alarm (polled flag clear)
leaves `FAULT_NO_ACTUATOR` as it is and sets the polled flag; every later
poll alarm raises `FAULT_NO_ACTUATOR` when the clock is at or after the
staleness deadline and lowers it when the clock is strictly before it. -/
theorem actuator_poll_alarm_callback_connectivity (I : Interface) (s : State)
    (hinit : s.vars.actuator_initialized = true)
    (hno : I.FAULT_NO_ACTUATOR < 32) (hfail : I.FAULT_ACTUATOR_FAIL < 32)
    (hne : I.FAULT_ACTUATOR_FAIL ≠ I.FAULT_NO_ACTUATOR) :
    (∀ now fault_list fault_led,
        (actuator_init I (boot now fault_list fault_led)).vars.status_valid_timeout = now
          ∧ (actuator_init I (boot now fault_list fault_led)).vars.actuator_has_been_polled
              = false)
      ∧ (s.vars.actuator_has_been_polled = false →
          fault_is_raised I.FAULT_NO_ACTUATOR (actuator_poll_alarm_callback I s).2
              = fault_is_raised I.FAULT_NO_ACTUATOR s
            ∧ (actuator_poll_alarm_callback I s).2.vars.actuator_has_been_polled = true)
      ∧ (s.vars.actuator_has_been_polled = true →
          (s.vars.status_valid_timeout ≤ s.vars.now →
              fault_is_raised I.FAULT_NO_ACTUATOR (actuator_poll_alarm_callback I s).2 = true)
            ∧ (s.vars.now < s.vars.status_valid_timeout →
              fault_is_raised I.FAULT_NO_ACTUATOR (actuator_poll_alarm_callback I s).2
                = false)
            ∧ (actuator_poll_alarm_callback I s).2.vars.actuator_has_been_polled = true) := by
  have hpolled : (actuator_poll_alarm_callback I s).2.vars.actuator_has_been_polled
      = (poll_connectivity I s).vars.actuator_has_been_polled := by
    rw [actuator_poll_alarm_callback_eq]
    simp only []
    split
    · exact (safety_raise_fault_slots _ _).2.2.2.2.2.2
    · rw [actuator_send_command_vars]
  refine ⟨?_, ?_, ?_⟩
  · intro now fault_list fault_led
    simp only [actuator_init, actuator_populate_command_vars]
    exact ⟨rfl, rfl⟩
  · intro hp
    rw [actuator_poll_alarm_callback_other_fault I s _ hno hfail hne, hpolled]
    have hpc : poll_connectivity I s = { s with vars.actuator_has_been_polled := true } := by
      simp [poll_connectivity, hp]
    rw [hpc]
    exact ⟨fault_is_raised_congr _ _ _ rfl, rfl⟩
  · intro hp
    rw [actuator_poll_alarm_callback_other_fault I s _ hno hfail hne, hpolled]
    refine ⟨?_, ?_, ?_⟩
    · intro hle
      have hc : actuator_is_connected s = false := by
        rw [actuator_is_connected_iff s hinit, decide_eq_false_iff_not]
        omega
      have hpc : poll_connectivity I s = safety_raise_fault I.FAULT_NO_ACTUATOR s := by
        simp [poll_connectivity, hp, hc]
      rw [hpc]
      exact fault_is_raised_raise _ _ hno
    · intro hlt
      have hc : actuator_is_connected s = true := by
        rw [actuator_is_connected_iff s hinit, decide_eq_true_eq]
        exact hlt
      have hpc : poll_connectivity I s = safety_lower_fault I.FAULT_NO_ACTUATOR s := by
        simp [poll_connectivity, hp, hc]
      rw [hpc]
      exact fault_is_raised_lower _ _ hno
    · simp only [poll_connectivity, hp, if_true]
      split
      · rw [(safety_raise_fault_slots _ _).2.2.2.2.2.2]; exact hp
      · rw [(safety_lower_fault_slots _ _).2.2.2.2.2.2]; exact hp

/-- C11. A category that is missing but not locally configured is skipped by
the resolver: its missing bit(s) are left as they are, so it is still missing
afterwards; the at most one command the resolver sends is not addressed to it;
and it does not block lower-priority work: the first category in priority
order that is both missing and configured is resolved in the same
invocation. -/
theorem resolver_skips_unconfigured (I : Interface) (cmd : CmdRef) (s : State)
    (cat : Category) (hvalid : s.validRef cmd)
    (hmiss : cat.missing s.vars.missing_timings = true)
    (hunset : (cat.entry s.vars).set = false) :
    cat.bits (actuator_update_missing_timings_common I cmd s).2.vars.missing_timings
        = cat.bits s.vars.missing_timings
      ∧ cat.missing (actuator_update_missing_timings_common I cmd s).2.vars.missing_timings
          = true
      ∧ (∃ extra : List Transfer,
          (actuator_update_missing_timings_common I cmd s).2.vars.i2c_trace
              = s.vars.i2c_trace ++ extra
            ∧ extra.length ≤ 1 ∧ ∀ t ∈ extra, ¬ cat.addressed t.frame)
      ∧ ∀ (higher lower : List Category) (cat2 : Category),
          Category.priority = higher ++ cat2 :: lower →
          (∀ c ∈ higher, c.qualifies s.vars = false) →
          cat2.qualifies s.vars = true →
          (actuator_update_missing_timings_common I cmd s).1 = true
            ∧ (actuator_update_missing_timings_common I cmd s).2.vars.missing_timings
                = cat2.clear s.vars.missing_timings
            ∧ ∃ t : Transfer,
                (actuator_update_missing_timings_common I cmd s).2.vars.i2c_trace
                    = s.vars.i2c_trace ++ [t]
                  ∧ t.cmd = cmd ∧ cat2.carried s.vars t.frame :=
  have h := resolver_skips I cmd s cat hvalid hunset
  ⟨h.1, (Category.missing_of_bits _ _ cat h.1).trans hmiss, h.2.1, h.2.2⟩

/-! ## Witnesses for the status, resolver and poll theorems -/

/-- Witness for C11: the claw entry is reported missing and not configured, the
torpedo 1 coil 1 entry is resolved instead. -/
theorem resolver_skips_unconfigured_witness :
    Category.claw.missing example_claw_unconfigured.vars.missing_timings = true
      ∧ (Category.claw.entry example_claw_unconfigured.vars).set = false
      ∧ Category.claw.missing
          (actuator_update_missing_timings_common example_interface CmdRef.set_timing_command
            example_claw_unconfigured).2.vars.missing_timings = true
      ∧ (actuator_update_missing_timings_common example_interface CmdRef.set_timing_command
            example_claw_unconfigured).2.vars.missing_timings
          = (Category.torpedo1 torpedo_timing_type.COIL1_ON).clear
              example_claw_unconfigured.vars.missing_timings :=
  have h := resolver_skips_unconfigured example_interface CmdRef.set_timing_command
    example_claw_unconfigured Category.claw (by decide) (by decide) (by decide)
  ⟨by decide, by decide, h.2.1,
    (h.2.2.2 [Category.claw, Category.dropper] _
      (Category.torpedo1 torpedo_timing_type.COIL1_ON) rfl (by decide) (by decide)).2.1⟩

/-- Witness for C13: the dropper command is answered while the claw timing waits. -/
theorem set_timing_response_chains_witness :
    first_qualifying example_dropper_answered.vars = some Category.claw
      ∧ ((actuator_set_timing_general_cb example_interface CmdRef.set_timing_command
            example_dropper_answered).1 = true
          ↔ ∃ cat : Category, cat.qualifies example_dropper_answered.vars = true) :=
  ⟨by decide,
    (set_timing_response_chains example_interface
      example_dropper_answered.set_timing_command.i2c_request CmdRef.set_timing_command
      example_dropper_answered (by decide) (by decide) (by decide) (by decide) (by decide)
      (by decide)).1⟩

/-- Witness for C15: the first status poll answered with firmware version 7.0. -/
theorem actuator_status_callback_reject_frame_witness :
    status_version_rejected example_interface
        (example_status_version7.cmd CmdRef.status_command).response.status
      ∧ (actuator_status_callback example_interface CmdRef.status_command
          example_status_version7).2.vars.actuator_last_status
          = example_status_version7.vars.actuator_last_status
      ∧ (actuator_status_callback example_interface CmdRef.status_command
          example_status_version7).2.vars.status_valid_timeout
          = example_status_version7.vars.status_valid_timeout :=
  have h := actuator_status_callback_reject_frame example_interface CmdRef.status_command
    example_status_version7 (by decide)
  ⟨by decide, h.2.1, h.2.2.1⟩

/-- Witness for C16: the first rejected response raises the fault. -/
theorem actuator_status_callback_reject_latched_witness :
    example_status_version7.vars.version_warning_printed = false
      ∧ fault_is_raised example_interface.FAULT_ACTUATOR_FAIL
          (actuator_status_callback example_interface CmdRef.status_command
            example_status_version7).2 = true :=
  ⟨by decide,
    ((actuator_status_callback_reject_latched example_interface CmdRef.status_command
      example_status_version7 (by decide) (by decide)).1 (by decide)).1⟩

/-- Witness for C17: the first status poll answered with the expected version. -/
theorem actuator_status_callback_accept_deadline_witness :
    ¬ status_version_rejected example_interface
        (example_status_accepted.cmd CmdRef.status_command).response.status
      ∧ (actuator_status_callback example_interface CmdRef.status_command
          example_status_accepted).2.vars.status_valid_timeout
          = example_status_accepted.vars.now + 1000 * 1000 :=
  ⟨by decide,
    (actuator_status_callback_accept_deadline example_interface CmdRef.status_command
      example_status_accepted (by decide) (by decide)).2.2.1⟩

/-- Witness for C18: the device reports the claw open timing as missing while
the claw timing is configured and the timing slot is free. -/
theorem actuator_status_callback_merges_reported_witness :
    (example_claw_missing_reported.cmd
        CmdRef.status_command).response.status.missing_timings.any = true
      ∧ (actuator_status_callback example_interface CmdRef.status_command
          example_claw_missing_reported).2.set_timing_command.in_use = true :=
  ⟨by decide,
    (((actuator_status_callback_merges_reported example_interface CmdRef.status_command
      example_claw_missing_reported (by decide)).1 (by decide)).2.2 Category.claw
        (by decide) (by decide)).1⟩

/-- Witness for C19: the first poll alarm after `actuator_init`. -/
theorem actuator_poll_alarm_callback_status_witness :
    example_booted.status_command.request.cmd_id = actuator_command.GET_STATUS
      ∧ (actuator_poll_alarm_callback example_interface example_booted).1 = 300000 :=
  ⟨by decide,
    (actuator_poll_alarm_callback_status example_interface example_booted (by decide)
      (by decide)).1⟩

/-- Witness for C20: the second poll alarm, 2 s after the first, with no status
response in between. -/
theorem actuator_poll_alarm_callback_connectivity_witness :
    example_poll_stalled.vars.actuator_has_been_polled = true
      ∧ example_poll_stalled.vars.status_valid_timeout ≤ example_poll_stalled.vars.now
      ∧ fault_is_raised example_interface.FAULT_NO_ACTUATOR
          (actuator_poll_alarm_callback example_interface example_poll_stalled).2 = true :=
  ⟨by decide, by decide,
    ((actuator_poll_alarm_callback_connectivity example_interface example_poll_stalled
      (by decide) (by decide) (by decide) (by decide)).2.2 (by decide)).1 (by decide)⟩

/-! ## What the handlers only read -/

theorem safety_raise_fault_config (fault_id : Nat) (s : State) :
    (safety_raise_fault fault_id s).vars.config = s.vars.config := by
  rw [safety_raise_fault_vars]; split <;> rfl

theorem safety_lower_fault_config (fault_id : Nat) (s : State) :
    (safety_lower_fault fault_id s).vars.config = s.vars.config := by
  simp only [safety_lower_fault]; split <;> rfl

theorem actuator_send_command_config (I : Interface) (cmd : CmdRef) (s : State) :
    (actuator_send_command I cmd s).vars.config = s.vars.config := by
  rw [actuator_send_command_vars]; rfl

theorem resolver_config (I : Interface) (cmd : CmdRef) (s : State) :
    (actuator_update_missing_timings_common I cmd s).2.vars.config = s.vars.config := by
  rw [resolver_eq_spec]; unfold resolver_spec
  split
  · rfl
  · simp only []; rw [resolve_category_vars]; rfl

theorem actuator_update_missing_timings_config (I : Interface) (s : State) :
    (actuator_update_missing_timings I s).vars.config = s.vars.config := by
  rw [actuator_update_missing_timings_vars]; rfl

theorem kill_switch_send_config (I : Interface) (s : State) :
    (kill_switch_send I s).vars.config = s.vars.config := by
  rw [kill_switch_send_vars_frame]; rfl

theorem actuator_set_timing_general_cb_config (I : Interface) (cmd : CmdRef) (s : State) :
    (actuator_set_timing_general_cb I cmd s).2.vars.config = s.vars.config := by
  simp only [actuator_set_timing_general_cb]
  rw [resolver_config]
  split
  · rw [safety_raise_fault_config]; rfl
  · rfl

theorem actuator_kill_switch_update_callback_config (I : Interface) (cmd : CmdRef)
    (s : State) :
    (actuator_kill_switch_update_callback I cmd s).2.vars.config = s.vars.config := by
  simp only [actuator_kill_switch_update_callback]
  split_ifs
  · simp only []; rw [safety_raise_fault_config]; rfl
  · simp only []; rw [kill_switch_send_config]; rfl
  · rfl

theorem status_accept_head_config (I : Interface) (cmd : CmdRef) (s : State) :
    (status_accept_head I cmd s).vars.config = s.vars.config := by
  rw [status_accept_head_vars]; rfl

theorem actuator_status_callback_config (I : Interface) (cmd : CmdRef) (s : State) :
    (actuator_status_callback I cmd s).2.vars.config = s.vars.config := by
  by_cases h : status_version_rejected I (s.cmd cmd).response.status
  · rw [actuator_status_callback_reject_eq I cmd s h]
    split
    · rfl
    · simp only []
      exact (safety_raise_fault_config _ _).trans rfl
  · rw [actuator_status_callback_accept_eq I cmd s h]
    simp only []
    split
    · rw [actuator_update_missing_timings_config]
      exact status_accept_head_config I cmd s
    · exact status_accept_head_config I cmd s

theorem actuator_generic_result_cb_config (I : Interface) (cmd : CmdRef) (s : State) :
    (actuator_generic_result_cb I cmd s).2.vars.config = s.vars.config := by
  simp only [actuator_generic_result_cb]
  split_ifs
  · simp only []; rw [safety_raise_fault_config]; rfl
  · rfl
  · rfl

theorem call_response_cb_config (I : Interface) (cb : actuator_cmd_response_cb_t)
    (cmd : CmdRef) (s : State) :
    (call_response_cb I cb cmd s).2.vars.config = s.vars.config := by
  cases cb <;> simp only [call_response_cb]
  · rw [actuator_set_timing_general_cb_config]; rfl
  · rw [actuator_kill_switch_update_callback_config]; rfl
  · rw [actuator_status_callback_config]; rfl
  · rw [actuator_generic_result_cb_config]; rfl

/-- The checksum-mismatch path of `actuator_command_done`, by the result of the
checksum test. -/
theorem actuator_command_done_mismatch_of (I : Interface) (req : async_i2c_request)
    (cmd : CmdRef) (s : State) (p : Nat × Nat) (hreq : req.user_data = some cmd)
    (hm : response_crc_mismatch I (s.cmd cmd) = some p) :
    actuator_command_done I req s =
      (if (s.cmd cmd).important_request = true then
        safety_raise_fault I.FAULT_ACTUATOR_FAIL
          { s with vars.log := s.vars.log ++ [LogMsg.warn_crc_mismatch p.1 p.2] }
      else
        { s with vars.log := s.vars.log ++ [LogMsg.warn_crc_mismatch p.1 p.2] }).modifyCmd cmd
        fun c => { c with in_use := false } := by
  simp only [actuator_command_done, hreq, hm, cmd_with_vars]
  split_ifs <;> rfl

theorem actuator_command_done_config (I : Interface) (req : async_i2c_request) (s : State) :
    (actuator_command_done I req s).vars.config = s.vars.config := by
  cases hreq : req.user_data with
  | none => simp [actuator_command_done, hreq]
  | some cmd =>
    cases hm : response_crc_mismatch I (s.cmd cmd) with
    | none =>
      rw [actuator_command_done_ok_eq I req cmd s hreq hm]
      cases (s.cmd cmd).response_cb with
      | none => simp only [modifyCmd_vars]
      | some cb =>
        simp only []
        split_ifs
        · exact call_response_cb_config I cb cmd s
        · rw [modifyCmd_vars]; exact call_response_cb_config I cb cmd s
    | some p =>
      rw [actuator_command_done_mismatch_of I req cmd s p hreq hm, modifyCmd_vars]
      split_ifs
      · rw [safety_raise_fault_config]; rfl
      · rfl

theorem actuator_command_failed_config (I : Interface) (req : async_i2c_request)
    (abort_data : Nat) (s : State) :
    (actuator_command_failed I req abort_data s).vars.config = s.vars.config := by
  cases hreq : req.user_data with
  | none => simp [actuator_command_failed, hreq]
  | some cmd =>
    rw [actuator_command_failed_eq I req abort_data cmd s hreq, modifyCmd_vars]
    split_ifs
    · rw [safety_raise_fault_config]; rfl
    · rfl

theorem actuator_generate_command_vars (I : Interface) (heap : actuator_cmd_data_t)
    (cmd_id : actuator_command) (cb : Option actuator_cmd_response_cb_t) (s : State) :
    (actuator_generate_command I heap cmd_id cb s).2.vars = s.vars := by
  rw [actuator_generate_command_eq]
  split
  · simp only [actuator_populate_command_vars]
    exact generate_scan_vars _ _
  · split
    · simp only [actuator_populate_command_vars]
      exact generate_scan_vars _ _
    · exact generate_scan_vars _ _

theorem public_command_generate_config (I : Interface) (heap : actuator_cmd_data_t)
    (cmd_id : actuator_command) (cb : Option actuator_cmd_response_cb_t)
    (fill : cmd_payload → cmd_payload) (s : State) :
    (public_command I (actuator_generate_command I heap cmd_id cb s) fill).vars.config
      = s.vars.config := by
  have hv := actuator_generate_command_vars I heap cmd_id cb s
  unfold public_command
  split
  · rw [safety_raise_fault_config]
    show (actuator_generate_command I heap cmd_id cb s).2.vars.config = _
    rw [hv]
  · rw [actuator_send_command_config, modifyCmd_vars, hv]

theorem poll_connectivity_config (I : Interface) (s : State) :
    (poll_connectivity I s).vars.config = s.vars.config := by
  simp only [poll_connectivity]
  split_ifs
  · exact safety_raise_fault_config _ _
  · exact safety_lower_fault_config _ _
  · rfl

theorem actuator_poll_alarm_callback_config (I : Interface) (s : State) :
    (actuator_poll_alarm_callback I s).2.vars.config = s.vars.config := by
  rw [actuator_poll_alarm_callback_eq]
  simp only []
  split
  · rw [safety_raise_fault_config]; exact poll_connectivity_config I s
  · rw [actuator_send_command_config]; exact poll_connectivity_config I s

theorem actuator_kill_report_refresh_config (I : Interface) (s : State) :
    (actuator_kill_report_refresh I s).vars.config = s.vars.config := by
  simp only [actuator_kill_report_refresh]
  split_ifs
  · rfl
  · rfl
  · exact kill_switch_send_config I s

theorem async_i2c_transfer_done_config (I : Interface) (rx : actuator_i2c_response_t)
    (s : State) : (async_i2c_transfer_done I rx s).vars.config = s.vars.config := by
  apply async_i2c_transfer_done_cases I rx s
    (fun t => t.vars.config = s.vars.config) (fun t => t.vars.config = s.vars.config)
  · rfl
  · intro t q ht; exact ht
  · intro t buf ht; rw [modifyCmd_vars]; exact ht
  · intro t req ht; rw [actuator_command_done_config]; exact ht
  · intro t ht; exact ht
  · intro t q ht; exact ht
  · intro t cmd ht; rw [modifyCmd_vars]; exact ht

theorem async_i2c_transfer_failed_config (I : Interface) (abort_data : Nat) (s : State) :
    (async_i2c_transfer_failed I abort_data s).vars.config = s.vars.config := by
  unfold async_i2c_transfer_failed
  split
  · rfl
  · simp only [cmd_with_vars]
    split
    · rw [modifyCmd_vars, actuator_command_failed_config]; rfl
    · rw [modifyCmd_vars]; rfl

/-! ## What only `actuator_populate_command` writes -/

theorem cmd_modifyCmd_ne (s : State) (r r' : CmdRef)
    (f : actuator_cmd_data_t → actuator_cmd_data_t) (h : r' ≠ r) :
    (s.modifyCmd r f).cmd r' = s.cmd r' := by
  rw [cmd_modifyCmd, if_neg (fun hh => h hh.1)]

/-- A slot update that keeps the wiring keeps every slot's wiring. -/
theorem wiring_modifyCmd (s : State) (r r' : CmdRef)
    (f : actuator_cmd_data_t → actuator_cmd_data_t) (hf : ∀ c, (f c).wiring = c.wiring) :
    ((s.modifyCmd r f).cmd r').wiring = (s.cmd r').wiring := by
  rw [cmd_modifyCmd]
  split
  · rename_i h; rw [hf, h.1]
  · rfl

theorem safety_lower_fault_cmd (fault_id : Nat) (s : State) (r : CmdRef) :
    (safety_lower_fault fault_id s).cmd r = s.cmd r := by
  simp only [safety_lower_fault]
  split
  · exact cmd_with_vars _ _ _
  · rfl

theorem actuator_send_command_wiring (I : Interface) (cmd r : CmdRef) (s : State) :
    ((actuator_send_command I cmd s).cmd r).wiring = (s.cmd r).wiring := by
  simp only [actuator_send_command, async_i2c_enqueue_cmd]
  exact (wiring_modifyCmd _ cmd r _ (by intro c; rfl)).trans
    (wiring_modifyCmd _ cmd r _ (by intro c; rfl))

theorem actuator_populate_command_cmd_ne (I : Interface) (cmd r : CmdRef)
    (cmd_id : actuator_command) (cb : Option actuator_cmd_response_cb_t) (imp : Bool)
    (s : State) (h : r ≠ cmd) :
    (actuator_populate_command I cmd cmd_id cb imp s).cmd r = s.cmd r :=
  cmd_modifyCmd_ne s cmd r _ h

/-- The wiring that `actuator_populate_command` leaves in the slot it is given. -/
theorem actuator_populate_command_wiring (I : Interface) (cmd : CmdRef)
    (cmd_id : actuator_command) (cb : Option actuator_cmd_response_cb_t) (imp : Bool)
    (s : State) (h : s.validRef cmd) :
    ((actuator_populate_command I cmd cmd_id cb imp s).cmd cmd).wiring
      = (cmd_id, cb, imp, populated_request I cmd cmd_id) := by
  unfold actuator_populate_command
  rw [cmd_modifyCmd_same _ _ _ h]
  rfl

theorem torpedo_timing_request_cmd_ne (I : Interface) (cmd r : CmdRef) (n : Nat)
    (ty : torpedo_timing_type) (t : Nat) (s : State) (h : r ≠ cmd) :
    (torpedo_timing_request I cmd n ty t s).cmd r = s.cmd r := by
  simp only [torpedo_timing_request]
  rw [cmd_modifyCmd_ne _ _ _ _ h, actuator_populate_command_cmd_ne _ _ _ _ _ _ _ h]

theorem resolve_category_wiring_ne (I : Interface) (cmd r : CmdRef) (cat : Category)
    (s : State) (h : r ≠ cmd) :
    ((resolve_category I cmd cat s).cmd r).wiring = (s.cmd r).wiring := by
  cases cat <;> simp only [resolve_category] <;> rw [actuator_send_command_wiring, cmd_with_vars]
  · rw [cmd_modifyCmd_ne _ _ _ _ h, actuator_populate_command_cmd_ne _ _ _ _ _ _ _ h]
  · rw [cmd_modifyCmd_ne _ _ _ _ h, actuator_populate_command_cmd_ne _ _ _ _ _ _ _ h]
  · rw [torpedo_timing_request_cmd_ne _ _ _ _ _ _ _ h]
  · rw [torpedo_timing_request_cmd_ne _ _ _ _ _ _ _ h]

theorem resolver_wiring_ne (I : Interface) (cmd r : CmdRef) (s : State) (h : r ≠ cmd) :
    ((actuator_update_missing_timings_common I cmd s).2.cmd r).wiring = (s.cmd r).wiring := by
  rw [resolver_eq_spec]; unfold resolver_spec
  split
  · rfl
  · exact resolve_category_wiring_ne I cmd r _ s h

theorem actuator_update_missing_timings_wiring_ne (I : Interface) (r : CmdRef) (s : State)
    (h : r ≠ CmdRef.set_timing_command) :
    ((actuator_update_missing_timings I s).cmd r).wiring = (s.cmd r).wiring := by
  rw [actuator_update_missing_timings_eq]
  split
  · rfl
  · split
    · rfl
    · rw [resolve_category_wiring_ne I _ r _ _ h]
      cases r <;> rfl

theorem kill_switch_send_wiring (I : Interface) (r : CmdRef) (s : State) :
    ((kill_switch_send I s).cmd r).wiring = (s.cmd r).wiring := by
  apply kill_switch_send_cases I s (fun t => (t.cmd r).wiring = (s.cmd r).wiring)
  · intro _; rw [cmd_with_vars]
  · intro _
    simp only [kill_switch_send_sampled]
    rw [actuator_send_command_wiring, wiring_modifyCmd _ _ _ _ (by intro c; rfl),
      wiring_modifyCmd _ _ _ _ (by intro c; rfl), cmd_with_vars]

theorem actuator_set_timing_general_cb_wiring_ne (I : Interface) (cmd r : CmdRef) (s : State)
    (h : r ≠ cmd) :
    ((actuator_set_timing_general_cb I cmd s).2.cmd r).wiring = (s.cmd r).wiring := by
  simp only [actuator_set_timing_general_cb]
  rw [resolver_wiring_ne _ _ _ _ h]
  split
  · rw [safety_raise_fault_cmd, cmd_with_vars]
  · rfl

theorem actuator_kill_switch_update_callback_wiring (I : Interface) (cmd r : CmdRef)
    (s : State) :
    ((actuator_kill_switch_update_callback I cmd s).2.cmd r).wiring = (s.cmd r).wiring := by
  simp only [actuator_kill_switch_update_callback]
  split_ifs
  · simp only []; rw [safety_raise_fault_cmd, cmd_with_vars]
  · simp only []; rw [kill_switch_send_wiring, cmd_with_vars]
  · simp only []; rw [cmd_with_vars]

theorem status_accept_head_wiring (I : Interface) (cmd r : CmdRef) (s : State) :
    ((status_accept_head I cmd s).cmd r).wiring = (s.cmd r).wiring := by
  simp only [status_accept_head]
  split_ifs
  · rw [kill_switch_send_wiring]; rfl
  · rfl
  · rfl

theorem actuator_status_callback_wiring_ne (I : Interface) (cmd r : CmdRef) (s : State)
    (h : r ≠ CmdRef.set_timing_command) :
    ((actuator_status_callback I cmd s).2.cmd r).wiring = (s.cmd r).wiring := by
  by_cases hrej : status_version_rejected I (s.cmd cmd).response.status
  · rw [actuator_status_callback_reject_eq I cmd s hrej]
    split
    · rfl
    · simp only []
      rw [cmd_with_vars, safety_raise_fault_cmd, cmd_with_vars]
  · rw [actuator_status_callback_accept_eq I cmd s hrej]
    simp only []
    split
    · rw [actuator_update_missing_timings_wiring_ne _ _ _ h, cmd_with_vars]
      exact status_accept_head_wiring I cmd r s
    · exact status_accept_head_wiring I cmd r s

theorem actuator_generic_result_cb_cmd (I : Interface) (cmd r : CmdRef) (s : State) :
    (actuator_generic_result_cb I cmd s).2.cmd r = s.cmd r := by
  simp only [actuator_generic_result_cb]
  split_ifs
  · simp only []; rw [safety_raise_fault_cmd, cmd_with_vars]
  · simp only []; rw [cmd_with_vars]
  · rfl

theorem call_response_cb_wiring (I : Interface) (cb : actuator_cmd_response_cb_t)
    (cmd r : CmdRef) (s : State) (h : r ≠ CmdRef.set_timing_command)
    (hcb : cb = actuator_cmd_response_cb_t.actuator_set_timing_general_cb → r ≠ cmd) :
    ((call_response_cb I cb cmd s).2.cmd r).wiring = (s.cmd r).wiring := by
  cases cb <;> simp only [call_response_cb]
  · rw [actuator_set_timing_general_cb_wiring_ne _ _ _ _ (hcb rfl), cmd_with_vars]
  · rw [actuator_kill_switch_update_callback_wiring, cmd_with_vars]
  · rw [actuator_status_callback_wiring_ne _ _ _ _ h, cmd_with_vars]
  · rw [actuator_generic_result_cb_cmd, cmd_with_vars]

theorem actuator_command_done_wiring (I : Interface) (req : async_i2c_request) (r : CmdRef)
    (s : State) (h : r ≠ CmdRef.set_timing_command)
    (hcb : ∀ cmd, req.user_data = some cmd →
      (s.cmd cmd).response_cb = some actuator_cmd_response_cb_t.actuator_set_timing_general_cb →
      r ≠ cmd) :
    ((actuator_command_done I req s).cmd r).wiring = (s.cmd r).wiring := by
  cases hreq : req.user_data with
  | none => simp [actuator_command_done, hreq]
  | some cmd =>
    cases hm : response_crc_mismatch I (s.cmd cmd) with
    | none =>
      rw [actuator_command_done_ok_eq I req cmd s hreq hm]
      cases hc : (s.cmd cmd).response_cb with
      | none => exact wiring_modifyCmd _ _ _ _ (by intro c; rfl)
      | some cb =>
        have hw := call_response_cb_wiring I cb cmd r s h
          (by intro he; subst he; exact hcb cmd hreq hc)
        simp only []
        split_ifs
        · exact hw
        · rw [wiring_modifyCmd _ _ _ _ (by intro c; rfl)]; exact hw
    | some p =>
      rw [actuator_command_done_mismatch_of I req cmd s p hreq hm,
        wiring_modifyCmd _ _ _ _ (by intro c; rfl)]
      split_ifs
      · rw [safety_raise_fault_cmd, cmd_with_vars]
      · rw [cmd_with_vars]

theorem actuator_command_failed_wiring (I : Interface) (req : async_i2c_request)
    (abort_data : Nat) (r : CmdRef) (s : State) :
    ((actuator_command_failed I req abort_data s).cmd r).wiring = (s.cmd r).wiring := by
  cases hreq : req.user_data with
  | none => simp [actuator_command_failed, hreq]
  | some cmd =>
    rw [actuator_command_failed_eq I req abort_data cmd s hreq,
      wiring_modifyCmd _ _ _ _ (by intro c; rfl)]
    split_ifs
    · rw [safety_raise_fault_cmd, cmd_with_vars]
    · rw [cmd_with_vars]

theorem generate_scan_step_cmd_static (acc : Option CmdRef × State) (i : Nat) (r : CmdRef)
    (hr : ∀ j, r ≠ CmdRef.allocated j) :
    (generate_scan_step acc i).2.cmd r = acc.2.cmd r := by
  unfold generate_scan_step
  split
  · exact cmd_modifyCmd_ne _ _ _ _ (hr i)
  · rfl

theorem generate_scan_cmd_static (l : List Nat) (acc : Option CmdRef × State) (r : CmdRef)
    (hr : ∀ j, r ≠ CmdRef.allocated j) :
    (l.foldl generate_scan_step acc).2.cmd r = acc.2.cmd r := by
  induction l generalizing acc with
  | nil => rfl
  | cons i l ih => rw [List.foldl_cons, ih, generate_scan_step_cmd_static _ _ _ hr]

/-- The scan picks nothing or a pool slot. -/
theorem generate_scan_step_allocated (acc : Option CmdRef × State) (i : Nat)
    (h : ∀ c, acc.1 = some c → ∃ j, c = CmdRef.allocated j) :
    ∀ c, (generate_scan_step acc i).1 = some c → ∃ j, c = CmdRef.allocated j := by
  unfold generate_scan_step
  split
  · intro c hc
    exact ⟨i, (Option.some.inj hc).symm⟩
  · exact h

theorem generate_scan_allocated (l : List Nat) (acc : Option CmdRef × State)
    (h : ∀ c, acc.1 = some c → ∃ j, c = CmdRef.allocated j) :
    ∀ c, (l.foldl generate_scan_step acc).1 = some c → ∃ j, c = CmdRef.allocated j := by
  induction l generalizing acc with
  | nil => exact h
  | cons i l ih =>
    rw [List.foldl_cons]
    exact ih _ (generate_scan_step_allocated acc i h)

/-- The slot `actuator_generate_command` returns is a pool slot. -/
theorem actuator_generate_command_allocated (I : Interface) (heap : actuator_cmd_data_t)
    (cmd_id : actuator_command) (cb : Option actuator_cmd_response_cb_t) (s : State)
    (c : CmdRef) (h : (actuator_generate_command I heap cmd_id cb s).1 = some c) :
    ∃ j, c = CmdRef.allocated j := by
  rw [actuator_generate_command_eq] at h
  cases hr : ((List.range s.num_allocated_commands).foldl generate_scan_step (none, s)).1 with
  | some cmd =>
    rw [hr] at h
    obtain ⟨j, hj⟩ := generate_scan_allocated _ (none, s) (by intro c hc; cases hc) cmd hr
    exact ⟨j, by rw [← hj]; exact (Option.some.inj h).symm⟩
  | none =>
    rw [hr] at h
    by_cases hlt : s.allocated_commands.length < ACTUATOR_MAX_COMMANDS
    · simp only [hlt, if_true] at h
      exact ⟨_, (Option.some.inj h).symm⟩
    · simp [hlt] at h

/-- The static slots are not touched by `actuator_generate_command`. -/
theorem actuator_generate_command_cmd_static (I : Interface) (heap : actuator_cmd_data_t)
    (cmd_id : actuator_command) (cb : Option actuator_cmd_response_cb_t) (s : State)
    (r : CmdRef) (hr : ∀ j, r ≠ CmdRef.allocated j) :
    (actuator_generate_command I heap cmd_id cb s).2.cmd r = s.cmd r := by
  have hscan := generate_scan_cmd_static (List.range s.num_allocated_commands) (none, s) r hr
  rw [actuator_generate_command_eq]
  split
  · simp only []
    rw [actuator_populate_command_cmd_ne _ _ _ _ _ _ _ (by
      rename_i cmd hc
      obtain ⟨j, hj⟩ := generate_scan_allocated _ (none, s) (by intro c hc; cases hc) cmd hc
      rw [hj]; exact hr j)]
    exact hscan
  · split
    · simp only []
      rw [actuator_populate_command_cmd_ne _ _ _ _ _ _ _ (hr _)]
      rw [← hscan]
      cases r <;> first | rfl | exact absurd rfl (hr _)
    · exact hscan

theorem public_command_wiring (I : Interface) (r : CmdRef) (g : Option CmdRef × State)
    (fill : cmd_payload → cmd_payload) :
    ((public_command I g fill).cmd r).wiring = (g.2.cmd r).wiring := by
  unfold public_command
  split
  · rw [safety_raise_fault_cmd, cmd_with_vars]
  · rw [actuator_send_command_wiring, wiring_modifyCmd _ _ _ _ (by intro c; rfl)]

theorem public_command_generate_wiring (I : Interface) (heap : actuator_cmd_data_t)
    (cmd_id : actuator_command) (cb : Option actuator_cmd_response_cb_t)
    (fill : cmd_payload → cmd_payload) (s : State) (r : CmdRef)
    (hr : ∀ j, r ≠ CmdRef.allocated j) :
    ((public_command I (actuator_generate_command I heap cmd_id cb s) fill).cmd r).wiring
      = (s.cmd r).wiring := by
  rw [public_command_wiring, actuator_generate_command_cmd_static _ _ _ _ _ _ hr]

theorem poll_connectivity_cmd (I : Interface) (s : State) (r : CmdRef) :
    (poll_connectivity I s).cmd r = s.cmd r := by
  simp only [poll_connectivity]
  split_ifs
  · exact safety_raise_fault_cmd _ _ _
  · exact safety_lower_fault_cmd _ _ _
  · exact cmd_with_vars _ _ _

theorem actuator_poll_alarm_callback_wiring (I : Interface) (s : State) (r : CmdRef) :
    ((actuator_poll_alarm_callback I s).2.cmd r).wiring = (s.cmd r).wiring := by
  rw [actuator_poll_alarm_callback_eq]
  simp only []
  split
  · rw [safety_raise_fault_cmd, cmd_with_vars, poll_connectivity_cmd]
  · rw [actuator_send_command_wiring, ← poll_connectivity_cmd I s r]
    cases r <;> rfl

theorem actuator_kill_report_refresh_wiring (I : Interface) (s : State) (r : CmdRef) :
    ((actuator_kill_report_refresh I s).cmd r).wiring = (s.cmd r).wiring := by
  simp only [actuator_kill_report_refresh]
  split_ifs
  · rfl
  · rw [cmd_with_vars]
  · exact kill_switch_send_wiring I r s

theorem async_i2c_transfer_failed_wiring (I : Interface) (abort_data : Nat) (s : State)
    (r : CmdRef) :
    ((async_i2c_transfer_failed I abort_data s).cmd r).wiring = (s.cmd r).wiring := by
  unfold async_i2c_transfer_failed
  split
  · rfl
  · simp only [cmd_with_vars]
    split
    · rw [wiring_modifyCmd _ _ _ _ (by intro c; rfl), actuator_command_failed_wiring,
        cmd_with_vars]
    · rw [wiring_modifyCmd _ _ _ _ (by intro c; rfl), cmd_with_vars]

theorem response_cb_of_wiring (c c' : actuator_cmd_data_t) (h : c.wiring = c'.wiring) :
    c.response_cb = c'.response_cb :=
  congrArg (fun w => w.2.1) h

theorem async_i2c_transfer_done_wiring (I : Interface) (rx : actuator_i2c_response_t)
    (s : State) (r : CmdRef) (h : r ≠ CmdRef.set_timing_command)
    (hcb : ∀ cmd, (s.cmd cmd).response_cb
      = some actuator_cmd_response_cb_t.actuator_set_timing_general_cb → r ≠ cmd) :
    ((async_i2c_transfer_done I rx s).cmd r).wiring = (s.cmd r).wiring := by
  apply async_i2c_transfer_done_cases I rx s
    (fun t => ∀ x, (t.cmd x).wiring = (s.cmd x).wiring)
    (fun t => (t.cmd r).wiring = (s.cmd r).wiring)
  · intro x; rfl
  · intro t q ht x; rw [cmd_with_vars]; exact ht x
  · intro t buf ht x; rw [wiring_modifyCmd _ _ _ _ (by intro c; rfl)]; exact ht x
  · intro t req ht
    rw [actuator_command_done_wiring I req r t h
      (by intro c _ hc; exact hcb c ((response_cb_of_wiring _ _ (ht c)).symm.trans hc)), ht]
  · intro t ht; exact ht r
  · intro t q ht; rw [cmd_with_vars]; exact ht
  · intro t cmd ht; rw [wiring_modifyCmd _ _ _ _ (by intro c; rfl)]; exact ht

/-! ## Parameter changes refine their specification -/

theorem IS_VALID_TIMING_iff (v : Int) : IS_VALID_TIMING v = true ↔ 0 < v ∧ v < 65536 := by
  simp [IS_VALID_TIMING]

theorem to_uint16_of_valid (v : Int) (h : 0 < v ∧ v < 65536) : to_uint16 v = v.toNat := by
  unfold to_uint16
  rw [Int.emod_eq_of_lt (le_of_lt h.1) h.2]

theorem torpedo1_parameter_eq (I : Interface) (ty : torpedo_timing_type) (v : Int)
    (s : State) :
    torpedo1_parameter I ty v (fun m => (Category.torpedo1 ty).mark m) s
      = if 0 < v ∧ v < 65536 then
          (true, actuator_update_missing_timings I
            ((Category.torpedo1 ty).configure v.toNat s))
        else (false, s) := by
  unfold torpedo1_parameter
  by_cases hv : 0 < v ∧ v < 65536
  · rw [if_pos ((IS_VALID_TIMING_iff v).mpr hv), if_pos hv, to_uint16_of_valid v hv]
    cases ty <;> rfl
  · rw [if_neg (fun h => hv ((IS_VALID_TIMING_iff v).mp h)), if_neg hv]

theorem torpedo2_parameter_eq (I : Interface) (ty : torpedo_timing_type) (v : Int)
    (s : State) :
    torpedo2_parameter I ty v (fun m => (Category.torpedo2 ty).mark m) s
      = if 0 < v ∧ v < 65536 then
          (true, actuator_update_missing_timings I
            ((Category.torpedo2 ty).configure v.toNat s))
        else (false, s) := by
  unfold torpedo2_parameter
  by_cases hv : 0 < v ∧ v < 65536
  · rw [if_pos ((IS_VALID_TIMING_iff v).mpr hv), if_pos hv, to_uint16_of_valid v hv]
    cases ty <;> rfl
  · rw [if_neg (fun h => hv ((IS_VALID_TIMING_iff v).mp h)), if_neg hv]

/-- The function `actuator_handle_parameter_change` computes what the
specification says. -/
theorem actuator_handle_parameter_change_eq (I : Interface) (param : Parameter) (s : State) :
    actuator_handle_parameter_change I param s = parameter_change_spec I param s := by
  unfold actuator_handle_parameter_change parameter_change_spec
  by_cases h0 : (!s.vars.actuator_initialized) = true
  · rw [if_pos h0, if_neg (by intro h; rw [h.1] at h0; cases h0)]
  rw [if_neg h0]
  by_cases h1 : param.value_type ≠ rclc_parameter_type.INT
  · rw [if_pos h1, if_neg (fun h => h1 h.2)]
  have hinit : s.vars.actuator_initialized = true
      ∧ param.value_type = rclc_parameter_type.INT := ⟨by simpa using h0, not_not.mp h1⟩
  rw [if_neg h1, if_pos hinit]
  by_cases n1 : param.name = "claw_timing_ms"
  · rw [if_pos n1]
    have hof : Category.of_parameter_name param.name = some Category.claw := by
      rw [n1]; decide
    rw [hof]
    simp only []
    by_cases hv : 0 < param.integer_value ∧ param.integer_value < 65536
    · rw [if_pos ((IS_VALID_TIMING_iff _).mpr hv), if_pos hv, to_uint16_of_valid _ hv]
      rfl
    · rw [if_neg (fun h => hv ((IS_VALID_TIMING_iff _).mp h)), if_neg hv]
  rw [if_neg n1]
  by_cases n2 : param.name = "dropper_active_timing_ms"
  · rw [if_pos n2]
    have hof : Category.of_parameter_name param.name = some Category.dropper := by
      rw [n2]; decide
    rw [hof]
    simp only []
    by_cases hv : 0 < param.integer_value ∧ param.integer_value < 65536
    · rw [if_pos ((IS_VALID_TIMING_iff _).mpr hv), if_pos hv, to_uint16_of_valid _ hv]
      rfl
    · rw [if_neg (fun h => hv ((IS_VALID_TIMING_iff _).mp h)), if_neg hv]
  rw [if_neg n2]
  by_cases n3 : param.name = "torpedo1_coil1_on_timing_us"
  · rw [if_pos n3]
    have hof : Category.of_parameter_name param.name
        = some (Category.torpedo1 torpedo_timing_type.COIL1_ON) := by
      rw [n3]; decide
    rw [hof]
    exact torpedo1_parameter_eq I torpedo_timing_type.COIL1_ON param.integer_value s
  rw [if_neg n3]
  by_cases n4 : param.name = "torpedo1_coil1_2_delay_timing_us"
  · rw [if_pos n4]
    have hof : Category.of_parameter_name param.name
        = some (Category.torpedo1 torpedo_timing_type.COIL1_2_DELAY) := by
      rw [n4]; decide
    rw [hof]
    exact torpedo1_parameter_eq I torpedo_timing_type.COIL1_2_DELAY param.integer_value s
  rw [if_neg n4]
  by_cases n5 : param.name = "torpedo1_coil2_on_timing_us"
  · rw [if_pos n5]
    have hof : Category.of_parameter_name param.name
        = some (Category.torpedo1 torpedo_timing_type.COIL2_ON) := by
      rw [n5]; decide
    rw [hof]
    exact torpedo1_parameter_eq I torpedo_timing_type.COIL2_ON param.integer_value s
  rw [if_neg n5]
  by_cases n6 : param.name = "torpedo1_coil2_3_delay_timing_us"
  · rw [if_pos n6]
    have hof : Category.of_parameter_name param.name
        = some (Category.torpedo1 torpedo_timing_type.COIL2_3_DELAY) := by
      rw [n6]; decide
    rw [hof]
    exact torpedo1_parameter_eq I torpedo_timing_type.COIL2_3_DELAY param.integer_value s
  rw [if_neg n6]
  by_cases n7 : param.name = "torpedo1_coil3_on_timing_us"
  · rw [if_pos n7]
    have hof : Category.of_parameter_name param.name
        = some (Category.torpedo1 torpedo_timing_type.COIL3_ON) := by
      rw [n7]; decide
    rw [hof]
    exact torpedo1_parameter_eq I torpedo_timing_type.COIL3_ON param.integer_value s
  rw [if_neg n7]
  by_cases n8 : param.name = "torpedo2_coil1_on_timing_us"
  · rw [if_pos n8]
    have hof : Category.of_parameter_name param.name
        = some (Category.torpedo2 torpedo_timing_type.COIL1_ON) := by
      rw [n8]; decide
    rw [hof]
    exact torpedo2_parameter_eq I torpedo_timing_type.COIL1_ON param.integer_value s
  rw [if_neg n8]
  by_cases n9 : param.name = "torpedo2_coil1_2_delay_timing_us"
  · rw [if_pos n9]
    have hof : Category.of_parameter_name param.name
        = some (Category.torpedo2 torpedo_timing_type.COIL1_2_DELAY) := by
      rw [n9]; decide
    rw [hof]
    exact torpedo2_parameter_eq I torpedo_timing_type.COIL1_2_DELAY param.integer_value s
  rw [if_neg n9]
  by_cases n10 : param.name = "torpedo2_coil2_on_timing_us"
  · rw [if_pos n10]
    have hof : Category.of_parameter_name param.name
        = some (Category.torpedo2 torpedo_timing_type.COIL2_ON) := by
      rw [n10]; decide
    rw [hof]
    exact torpedo2_parameter_eq I torpedo_timing_type.COIL2_ON param.integer_value s
  rw [if_neg n10]
  by_cases n11 : param.name = "torpedo2_coil2_3_delay_timing_us"
  · rw [if_pos n11]
    have hof : Category.of_parameter_name param.name
        = some (Category.torpedo2 torpedo_timing_type.COIL2_3_DELAY) := by
      rw [n11]; decide
    rw [hof]
    exact torpedo2_parameter_eq I torpedo_timing_type.COIL2_3_DELAY param.integer_value s
  rw [if_neg n11]
  by_cases n12 : param.name = "torpedo2_coil3_on_timing_us"
  · rw [if_pos n12]
    have hof : Category.of_parameter_name param.name
        = some (Category.torpedo2 torpedo_timing_type.COIL3_ON) := by
      rw [n12]; decide
    rw [hof]
    exact torpedo2_parameter_eq I torpedo_timing_type.COIL3_ON param.integer_value s
  rw [if_neg n12]
  have hof : Category.of_parameter_name param.name = none := by
    simp only [Category.of_parameter_name, Category.priority, List.find?,
      Category.parameter_name, n1, n2, n3, n4, n5, n6, n7, n8, n9, n10, n11, n12,
      decide_False]
  rw [hof]

theorem Category.mem_priority (cat : Category) : cat ∈ Category.priority := by
  cases cat with
  | claw => simp [Category.priority]
  | dropper => simp [Category.priority]
  | torpedo1 ty => cases ty <;> simp [Category.priority]
  | torpedo2 ty => cases ty <;> simp [Category.priority]

theorem Category.of_parameter_name_some (name : String) (cat : Category)
    (h : Category.of_parameter_name name = some cat) : name = cat.parameter_name := by
  unfold Category.of_parameter_name at h
  simpa using List.find?_some h

theorem Category.parameter_name_injective (a b : Category)
    (h : a.parameter_name = b.parameter_name) : a = b := by
  cases a with
  | claw =>
    cases b with
    | claw => rfl
    | dropper => revert h; decide
    | torpedo1 ty => cases ty <;> revert h <;> decide
    | torpedo2 ty => cases ty <;> revert h <;> decide
  | dropper =>
    cases b with
    | claw => revert h; decide
    | dropper => rfl
    | torpedo1 ty => cases ty <;> revert h <;> decide
    | torpedo2 ty => cases ty <;> revert h <;> decide
  | torpedo1 ty =>
    cases b with
    | claw => cases ty <;> revert h <;> decide
    | dropper => cases ty <;> revert h <;> decide
    | torpedo1 ty' => cases ty <;> cases ty' <;> revert h <;> decide
    | torpedo2 ty' => cases ty <;> cases ty' <;> revert h <;> decide
  | torpedo2 ty =>
    cases b with
    | claw => cases ty <;> revert h <;> decide
    | dropper => cases ty <;> revert h <;> decide
    | torpedo1 ty' => cases ty <;> cases ty' <;> revert h <;> decide
    | torpedo2 ty' => cases ty <;> cases ty' <;> revert h <;> decide

theorem Category.of_parameter_name_eq (cat : Category) :
    Category.of_parameter_name cat.parameter_name = some cat := by
  cases h : Category.of_parameter_name cat.parameter_name with
  | none =>
    unfold Category.of_parameter_name at h
    rw [List.find?_eq_none] at h
    have := h cat cat.mem_priority
    simp at this
  | some c =>
    rw [Category.parameter_name_injective _ _ (Category.of_parameter_name_some _ _ h)]

/-- The 12 names are the parameter names of the categories. -/
theorem Category.parameter_names :
    Category.priority.map Category.parameter_name
      = ["claw_timing_ms", "dropper_active_timing_ms", "torpedo1_coil1_on_timing_us",
          "torpedo1_coil1_2_delay_timing_us", "torpedo1_coil2_on_timing_us",
          "torpedo1_coil2_3_delay_timing_us", "torpedo1_coil3_on_timing_us",
          "torpedo2_coil1_on_timing_us", "torpedo2_coil1_2_delay_timing_us",
          "torpedo2_coil2_on_timing_us", "torpedo2_coil2_3_delay_timing_us",
          "torpedo2_coil3_on_timing_us"] := rfl

theorem Category.of_parameter_name_isSome_iff (name : String) :
    (∃ cat, Category.of_parameter_name name = some cat)
      ↔ name ∈ Category.priority.map Category.parameter_name := by
  constructor
  · rintro ⟨cat, h⟩
    rw [Category.of_parameter_name_some name cat h]
    exact List.mem_map_of_mem _ cat.mem_priority
  · intro h
    obtain ⟨cat, -, rfl⟩ := List.mem_map.mp h
    exact ⟨cat, Category.of_parameter_name_eq cat⟩

theorem Category.entry_put_entry_same (v : Vars) (cat : Category) (e : timing_entry) :
    cat.entry (cat.put_entry v e) = e := by
  cases cat with
  | claw => rfl
  | dropper => rfl
  | torpedo1 ty => cases ty <;> rfl
  | torpedo2 ty => cases ty <;> rfl

theorem Category.entry_put_entry_ne (v : Vars) (cat cat' : Category) (e : timing_entry)
    (h : cat' ≠ cat) : cat'.entry (cat.put_entry v e) = cat'.entry v := by
  cases cat with
  | claw =>
    cases cat' with
    | claw => exact absurd rfl h
    | dropper => rfl
    | torpedo1 ty => rfl
    | torpedo2 ty => rfl
  | dropper =>
    cases cat' with
    | claw => rfl
    | dropper => exact absurd rfl h
    | torpedo1 ty => rfl
    | torpedo2 ty => rfl
  | torpedo1 ty =>
    cases cat' with
    | claw => rfl
    | dropper => rfl
    | torpedo1 ty' => cases ty <;> cases ty' <;> first | rfl | exact absurd rfl h
    | torpedo2 ty' => rfl
  | torpedo2 ty =>
    cases cat' with
    | claw => rfl
    | dropper => rfl
    | torpedo1 ty' => rfl
    | torpedo2 ty' => cases ty <;> cases ty' <;> first | rfl | exact absurd rfl h

theorem Category.bits_mark (m : missing_timings_status) (cat : Category) :
    ∀ b ∈ cat.bits (cat.mark m), b = true := by
  cases cat with
  | claw => simp [Category.bits, Category.mark]
  | dropper => simp [Category.bits, Category.mark, Category.missing]
  | torpedo1 ty => cases ty <;> simp [Category.bits, Category.mark, Category.missing]
  | torpedo2 ty => cases ty <;> simp [Category.bits, Category.mark, Category.missing]

theorem Category.missing_mark (m : missing_timings_status) (cat : Category) :
    cat.missing (cat.mark m) = true := by
  cases cat with
  | claw => rfl
  | dropper => rfl
  | torpedo1 ty => cases ty <;> rfl
  | torpedo2 ty => cases ty <;> rfl

/-- Marking a category keeps every bit that was set. -/
theorem Category.le_mark (m : missing_timings_status) (cat : Category) :
    m.le (cat.mark m) := by
  unfold missing_timings_status.le
  cases cat with
  | claw => simp [Category.mark]
  | dropper => simp [Category.mark]
  | torpedo1 ty => cases ty <;> simp [Category.mark]
  | torpedo2 ty => cases ty <;> simp [Category.mark]

theorem Category.configure_vars (cat : Category) (t : Nat) (s : State) :
    (cat.configure t s).vars
      = { (cat.put_entry s.vars { timing := t, set := true }) with
          missing_timings := cat.mark s.vars.missing_timings } := rfl

theorem Category.configure_cmd (cat : Category) (t : Nat) (s : State) (r : CmdRef) :
    (cat.configure t s).cmd r = s.cmd r := by
  cases r <;> rfl

theorem Category.entry_configure_same (cat : Category) (t : Nat) (s : State) :
    cat.entry (cat.configure t s).vars = { timing := t, set := true } := by
  rw [← Category.entry_put_entry_same s.vars cat { timing := t, set := true }]
  cases cat with
  | claw => rfl
  | dropper => rfl
  | torpedo1 ty => rfl
  | torpedo2 ty => rfl

theorem Category.entry_configure_ne (cat cat' : Category) (t : Nat) (s : State)
    (h : cat' ≠ cat) : cat'.entry (cat.configure t s).vars = cat'.entry s.vars := by
  rw [← Category.entry_put_entry_ne s.vars cat cat' { timing := t, set := true } h]
  cases cat' with
  | claw => rfl
  | dropper => rfl
  | torpedo1 ty => rfl
  | torpedo2 ty => rfl

theorem Category.qualifies_configure (cat : Category) (t : Nat) (s : State) :
    cat.qualifies (cat.configure t s).vars = true := by
  unfold Category.qualifies
  rw [Category.entry_configure_same]
  show (cat.missing (cat.mark s.vars.missing_timings) && true) = true
  rw [Category.missing_mark]
  rfl

/-- The entries of the timing cache are the entries of the categories. -/
theorem timing_cache_eq_of_entries (v v' : Vars)
    (h : ∀ cat : Category, cat.entry v' = cat.entry v) : v'.timing_cache = v.timing_cache := by
  have hc := h Category.claw
  have hd := h Category.dropper
  have h1 : v'.torpedo1_timings = v.torpedo1_timings := by
    have a := h (Category.torpedo1 torpedo_timing_type.COIL1_ON)
    have b := h (Category.torpedo1 torpedo_timing_type.COIL1_2_DELAY)
    have c := h (Category.torpedo1 torpedo_timing_type.COIL2_ON)
    have d := h (Category.torpedo1 torpedo_timing_type.COIL2_3_DELAY)
    have e := h (Category.torpedo1 torpedo_timing_type.COIL3_ON)
    simp only [Category.entry, torpedo_timings.get] at a b c d e
    cases h1 : v'.torpedo1_timings; cases h2 : v.torpedo1_timings
    simp_all
  have h2 : v'.torpedo2_timings = v.torpedo2_timings := by
    have a := h (Category.torpedo2 torpedo_timing_type.COIL1_ON)
    have b := h (Category.torpedo2 torpedo_timing_type.COIL1_2_DELAY)
    have c := h (Category.torpedo2 torpedo_timing_type.COIL2_ON)
    have d := h (Category.torpedo2 torpedo_timing_type.COIL2_3_DELAY)
    have e := h (Category.torpedo2 torpedo_timing_type.COIL3_ON)
    simp only [Category.entry, torpedo_timings.get] at a b c d e
    cases h1 : v'.torpedo2_timings; cases h2 : v.torpedo2_timings
    simp_all
  simp only [Category.entry] at hc hd
  simp only [Vars.timing_cache, hc, hd, h1, h2]

theorem Category.entry_of_timing_cache (v v' : Vars) (h : v'.timing_cache = v.timing_cache)
    (cat : Category) : cat.entry v' = cat.entry v := by
  simp only [Vars.timing_cache, Prod.mk.injEq] at h
  cases cat <;> simp only [Category.entry, h.1, h.2.1, h.2.2.1, h.2.2.2]

theorem timing_cache_of_config (v v' : Vars) (h : v'.config = v.config) :
    v'.timing_cache = v.timing_cache :=
  congrArg Prod.fst h

theorem initialized_of_config (v v' : Vars) (h : v'.config = v.config) :
    v'.actuator_initialized = v.actuator_initialized :=
  congrArg (fun c => c.2.1) h

/-! ## Validation and effect of parameter changes -/

theorem parameter_change_spec_accepted (I : Interface) (param : Parameter) (s : State)
    (cat : Category) (hinit : s.vars.actuator_initialized = true)
    (htype : param.value_type = rclc_parameter_type.INT)
    (hname : param.name = cat.parameter_name)
    (hv : 0 < param.integer_value ∧ param.integer_value < 65536) :
    actuator_handle_parameter_change I param s
      = (true, actuator_update_missing_timings I (cat.configure param.integer_value.toNat s))
    := by
  rw [actuator_handle_parameter_change_eq]
  unfold parameter_change_spec
  rw [if_pos ⟨hinit, htype⟩, hname, Category.of_parameter_name_eq]
  simp only []
  rw [if_pos hv]

theorem parameter_change_spec_true_iff (I : Interface) (param : Parameter) (s : State) :
    (parameter_change_spec I param s).1 = true
      ↔ s.vars.actuator_initialized = true ∧ param.value_type = rclc_parameter_type.INT
        ∧ (∃ cat, Category.of_parameter_name param.name = some cat)
        ∧ 0 < param.integer_value ∧ param.integer_value < 65536 := by
  unfold parameter_change_spec
  by_cases h : s.vars.actuator_initialized = true ∧ param.value_type = rclc_parameter_type.INT
  · rw [if_pos h]
    cases hof : Category.of_parameter_name param.name with
    | none => simp
    | some cat =>
      simp only []
      by_cases hv : 0 < param.integer_value ∧ param.integer_value < 65536
      · rw [if_pos hv]
        simp [h.1, h.2, hv.1, hv.2]
      · rw [if_neg hv]
        constructor
        · intro hh; cases hh
        · intro hh; exact absurd hh.2.2.2 hv
  · rw [if_neg h]
    constructor
    · intro hh; cases hh
    · intro hh; exact absurd ⟨hh.1, hh.2.1⟩ h

theorem parameter_change_spec_false (I : Interface) (param : Parameter) (s : State)
    (h : (parameter_change_spec I param s).1 = false) :
    (parameter_change_spec I param s).2 = s := by
  unfold parameter_change_spec at h ⊢
  split
  · rename_i hi
    rw [if_pos hi] at h
    split
    · rfl
    · rename_i cat hof
      rw [hof] at h
      simp only [] at h
      split
      · rename_i hv; rw [if_pos hv] at h; cases h
      · rfl
  · rfl

theorem Category.configure_i2c_trace (cat : Category) (t : Nat) (s : State) :
    (cat.configure t s).vars.i2c_trace = s.vars.i2c_trace := by
  cases cat <;> rfl

/-- C25. The function `actuator_handle_parameter_change` returns true exactly
when the interface is initialised, the parameter has integer type, its name is
one of the 12 timing names and its value `v` satisfies `0 < v < 65536`;
whenever it returns false the whole state (timing cache, missing-timings
bitmask, timing slot, pending transfers) is unchanged. -/
theorem actuator_handle_parameter_change_validates (I : Interface) (param : Parameter)
    (s : State) :
    ((actuator_handle_parameter_change I param s).1 = true
        ↔ s.vars.actuator_initialized = true
          ∧ param.value_type = rclc_parameter_type.INT
          ∧ param.name ∈
              ["claw_timing_ms", "dropper_active_timing_ms", "torpedo1_coil1_on_timing_us",
                "torpedo1_coil1_2_delay_timing_us", "torpedo1_coil2_on_timing_us",
                "torpedo1_coil2_3_delay_timing_us", "torpedo1_coil3_on_timing_us",
                "torpedo2_coil1_on_timing_us", "torpedo2_coil1_2_delay_timing_us",
                "torpedo2_coil2_on_timing_us", "torpedo2_coil2_3_delay_timing_us",
                "torpedo2_coil3_on_timing_us"]
          ∧ 0 < param.integer_value ∧ param.integer_value < 65536)
      ∧ ((actuator_handle_parameter_change I param s).1 = false →
          (actuator_handle_parameter_change I param s).2 = s) := by
  rw [actuator_handle_parameter_change_eq, parameter_change_spec_true_iff,
    Category.of_parameter_name_isSome_iff, Category.parameter_names]
  exact ⟨Iff.rfl, parameter_change_spec_false I param s⟩

/-- C26. An accepted parameter change with value `v` for the timing entry
`cat`: the cached value of the entry is exactly `v`, the entry is configured,
no other cache entry is modified, the missing bit(s) of the entry are set (and
no other bit is dropped) in the state the resolver is invoked on, and the call
enqueues exactly one set-timing command if the timing slot was free and none
if it was in use. -/
theorem actuator_handle_parameter_change_stores (I : Interface) (param : Parameter)
    (s : State) (cat : Category) (hinit : s.vars.actuator_initialized = true)
    (htype : param.value_type = rclc_parameter_type.INT)
    (hname : param.name = cat.parameter_name)
    (hv : 0 < param.integer_value ∧ param.integer_value < 65536) :
    (actuator_handle_parameter_change I param s).1 = true
      ∧ (actuator_handle_parameter_change I param s).2
          = actuator_update_missing_timings I (cat.configure param.integer_value.toNat s)
      ∧ ((cat.entry (actuator_handle_parameter_change I param s).2.vars).timing : Int)
          = param.integer_value
      ∧ (cat.entry (actuator_handle_parameter_change I param s).2.vars).set = true
      ∧ (∀ cat' : Category, cat' ≠ cat →
          cat'.entry (actuator_handle_parameter_change I param s).2.vars = cat'.entry s.vars)
      ∧ (∀ b ∈ cat.bits (cat.configure param.integer_value.toNat s).vars.missing_timings,
          b = true)
      ∧ s.vars.missing_timings.le
          (cat.configure param.integer_value.toNat s).vars.missing_timings
      ∧ (s.set_timing_command.in_use = false →
          (actuator_handle_parameter_change I param s).2.set_timing_command.in_use = true
            ∧ ∃ (t : Transfer) (sent : Category),
                (actuator_handle_parameter_change I param s).2.vars.i2c_trace
                    = s.vars.i2c_trace ++ [t]
                  ∧ t.cmd = CmdRef.set_timing_command
                  ∧ sent.carried (actuator_handle_parameter_change I param s).2.vars t.frame)
      ∧ (s.set_timing_command.in_use = true →
          (actuator_handle_parameter_change I param s).2.vars.i2c_trace = s.vars.i2c_trace
            ∧ (actuator_handle_parameter_change I param s).2.set_timing_command
                = s.set_timing_command) := by
  rw [parameter_change_spec_accepted I param s cat hinit htype hname hv]
  have hcache : ∀ c : Category,
      c.entry (actuator_update_missing_timings I
        (cat.configure param.integer_value.toNat s)).vars
        = c.entry (cat.configure param.integer_value.toNat s).vars :=
    Category.entry_of_timing_cache _ _
      (timing_cache_of_config _ _ (actuator_update_missing_timings_config I _))
  refine ⟨rfl, rfl, ?_, ?_, ?_, Category.bits_mark _ cat, Category.le_mark _ cat, ?_, ?_⟩
  · simp only []
    rw [hcache, Category.entry_configure_same]
    exact Int.toNat_of_nonneg (le_of_lt hv.1)
  · simp only []
    rw [hcache, Category.entry_configure_same]
  · intro cat' hne
    simp only []
    rw [hcache, Category.entry_configure_ne _ _ _ _ hne]
  · intro hfree
    simp only []
    obtain ⟨sent, hsent⟩ := (first_qualifying_isSome_iff
      (cat.configure param.integer_value.toNat s).vars).mpr
        ⟨cat, Category.qualifies_configure cat _ s⟩
    obtain ⟨h1, -, t, h3, h4, h5⟩ := actuator_update_missing_timings_some I
      (cat.configure param.integer_value.toNat s) sent hfree hsent
    refine ⟨h1, t, sent, h3.trans (by rw [Category.configure_i2c_trace]), h4, ?_⟩
    refine (Category.carried_congr _ _ ?_ ?_ ?_ ?_ sent t.frame).mpr h5
    all_goals rw [actuator_update_missing_timings_vars]
  · intro hbusy
    simp only []
    rw [actuator_update_missing_timings_busy I (cat.configure param.integer_value.toNat s)
      hbusy]
    exact ⟨Category.configure_i2c_trace cat _ s, rfl⟩

/-! ## The timing cache and the wiring over whole executions -/

theorem actuator_handle_parameter_change_cases (I : Interface) (param : Parameter)
    (s : State) :
    (actuator_handle_parameter_change I param s).2 = s
      ∨ ∃ (cat : Category) (t : Nat),
          (actuator_handle_parameter_change I param s).2
            = actuator_update_missing_timings I (cat.configure t s) := by
  rw [actuator_handle_parameter_change_eq]
  unfold parameter_change_spec
  split
  · split
    · exact Or.inl rfl
    · split
      · exact Or.inr ⟨_, _, rfl⟩
      · exact Or.inl rfl
  · exact Or.inl rfl

theorem Category.configure_initialized (cat : Category) (t : Nat) (s : State) :
    (cat.configure t s).vars.actuator_initialized = s.vars.actuator_initialized := by
  cases cat <;> rfl

theorem actuator_handle_parameter_change_initialized (I : Interface) (param : Parameter)
    (s : State) :
    (actuator_handle_parameter_change I param s).2.vars.actuator_initialized
      = s.vars.actuator_initialized := by
  rcases actuator_handle_parameter_change_cases I param s with h | ⟨cat, t, h⟩
  · rw [h]
  · rw [h, initialized_of_config _ _ (actuator_update_missing_timings_config I _),
      Category.configure_initialized]

theorem actuator_handle_parameter_change_wiring_ne (I : Interface) (param : Parameter)
    (s : State) (r : CmdRef) (hr : r ≠ CmdRef.set_timing_command) :
    ((actuator_handle_parameter_change I param s).2.cmd r).wiring = (s.cmd r).wiring := by
  rcases actuator_handle_parameter_change_cases I param s with h | ⟨cat, t, h⟩
  · rw [h]
  · rw [h, actuator_update_missing_timings_wiring_ne I r _ hr, Category.configure_cmd]

/-- A parameter change never clears a configured flag. -/
theorem actuator_handle_parameter_change_set (I : Interface) (param : Parameter)
    (s : State) (c : Category) (h : (c.entry s.vars).set = true) :
    (c.entry (actuator_handle_parameter_change I param s).2.vars).set = true := by
  rcases actuator_handle_parameter_change_cases I param s with he | ⟨cat, t, he⟩
  · rw [he]; exact h
  · rw [he, Category.entry_of_timing_cache _ _
      (timing_cache_of_config _ _ (actuator_update_missing_timings_config I _))]
    by_cases hc : c = cat
    · subst hc
      rw [Category.entry_configure_same]
    · rw [Category.entry_configure_ne _ _ _ _ hc]
      exact h

theorem actuator_init_vars (I : Interface) (s : State) :
    (actuator_init I s).vars =
      { s.vars with
        assert_failed := s.vars.assert_failed || s.vars.actuator_initialized
        status_valid_timeout := s.vars.now
        actuator_initialized := true } := by
  simp only [actuator_init, actuator_populate_command_vars]

theorem actuator_init_wired (I : Interface) (s : State) : (actuator_init I s).wired I := by
  unfold State.wired
  simp only [actuator_init]
  constructor
  · have h := actuator_populate_command_cmd_ne I CmdRef.kill_switch_update_command
      CmdRef.status_command actuator_command.KILL_SWITCH
      (some actuator_cmd_response_cb_t.actuator_kill_switch_update_callback) true
      (actuator_populate_command I CmdRef.status_command actuator_command.GET_STATUS
        (some actuator_cmd_response_cb_t.actuator_status_callback) false
        { s with
          vars :=
            { s.vars with
              assert_failed := s.vars.assert_failed || s.vars.actuator_initialized
              status_valid_timeout := s.vars.now
              actuator_initialized := true } }) (by decide)
    have h2 := actuator_populate_command_wiring I CmdRef.status_command
      actuator_command.GET_STATUS (some actuator_cmd_response_cb_t.actuator_status_callback)
      false
      { s with
        vars :=
          { s.vars with
            assert_failed := s.vars.assert_failed || s.vars.actuator_initialized
            status_valid_timeout := s.vars.now
            actuator_initialized := true } } trivial
    exact (congrArg actuator_cmd_data_t.wiring h).trans h2
  · exact actuator_populate_command_wiring I CmdRef.kill_switch_update_command
      actuator_command.KILL_SWITCH
      (some actuator_cmd_response_cb_t.actuator_kill_switch_update_callback) true _ trivial

/-- Every event other than a parameter change leaves the timing cache as it
is. -/
theorem Event.apply_timing_cache (I : Interface) (e : Event) (s : State)
    (he : ∀ param, e ≠ Event.parameter_change param) :
    (e.apply I s).vars.timing_cache = s.vars.timing_cache := by
  cases e with
  | actuator_init =>
    show (Titan.actuator_init I s).vars.timing_cache = _
    rw [actuator_init_vars]; rfl
  | safety_init => rfl
  | clock dt => rfl
  | kill_state b => rfl
  | raise_fault fault_id => exact timing_cache_of_config _ _ (safety_raise_fault_config _ _)
  | lower_fault fault_id => exact timing_cache_of_config _ _ (safety_lower_fault_config _ _)
  | open_claw heap => exact timing_cache_of_config _ _ (public_command_generate_config ..)
  | close_claw heap => exact timing_cache_of_config _ _ (public_command_generate_config ..)
  | set_claw_timings heap o c =>
    exact timing_cache_of_config _ _ (public_command_generate_config ..)
  | arm_torpedo heap => exact timing_cache_of_config _ _ (public_command_generate_config ..)
  | disarm_torpedo heap => exact timing_cache_of_config _ _ (public_command_generate_config ..)
  | fire_torpedo heap n => exact timing_cache_of_config _ _ (public_command_generate_config ..)
  | set_torpedo_timings heap n ty t =>
    exact timing_cache_of_config _ _ (public_command_generate_config ..)
  | drop_marker heap n => exact timing_cache_of_config _ _ (public_command_generate_config ..)
  | clear_dropper_status heap =>
    exact timing_cache_of_config _ _ (public_command_generate_config ..)
  | set_dropper_timings heap t =>
    exact timing_cache_of_config _ _ (public_command_generate_config ..)
  | reset_actuators heap => exact timing_cache_of_config _ _ (public_command_generate_config ..)
  | parameter_change param => exact absurd rfl (he param)
  | poll_alarm => exact timing_cache_of_config _ _ (actuator_poll_alarm_callback_config I s)
  | kill_report_refresh =>
    exact timing_cache_of_config _ _ (actuator_kill_report_refresh_config I s)
  | transfer_done rx => exact timing_cache_of_config _ _ (async_i2c_transfer_done_config I rx s)
  | transfer_failed abort_data =>
    exact timing_cache_of_config _ _ (async_i2c_transfer_failed_config I abort_data s)

/-- No event clears a configured flag. -/
theorem Event.apply_set (I : Interface) (e : Event) (s : State) (c : Category)
    (h : (c.entry s.vars).set = true) : (c.entry (e.apply I s).vars).set = true := by
  by_cases he : ∃ param, e = Event.parameter_change param
  · obtain ⟨param, rfl⟩ := he
    exact actuator_handle_parameter_change_set I param s c h
  · rw [Category.entry_of_timing_cache _ _
      (Event.apply_timing_cache I e s (fun param hp => he ⟨param, hp⟩))]
    exact h

theorem step_set (I : Interface) (s : State) (e : Event) (c : Category)
    (h : (c.entry s.vars).set = true) : (c.entry (step I s e).vars).set = true := by
  apply step_cases I s e (fun t => (c.entry t.vars).set = true) h
  intro _ _
  exact Event.apply_set I e s c h

theorem run_set (I : Interface) (evs : List Event) (s : State) (c : Category)
    (h : (c.entry s.vars).set = true) : (c.entry (run I evs s).vars).set = true := by
  induction evs generalizing s with
  | nil => exact h
  | cons e evs ih =>
    simp only [run, List.foldl_cons]
    exact ih (step I s e) (step_set I s e c h)

theorem run_timing_cache (I : Interface) (evs : List Event) (s : State)
    (he : ∀ e ∈ evs, ∀ param, e ≠ Event.parameter_change param) :
    (run I evs s).vars.timing_cache = s.vars.timing_cache := by
  induction evs generalizing s with
  | nil => rfl
  | cons e evs ih =>
    simp only [run, List.foldl_cons]
    have h1 : (step I s e).vars.timing_cache = s.vars.timing_cache := by
      apply step_cases I s e (fun t => t.vars.timing_cache = s.vars.timing_cache) rfl
      intro _ _
      exact Event.apply_timing_cache I e s (he e (List.mem_cons_self _ _))
    have h2 := ih (step I s e) (fun e' he' => he e' (List.mem_cons_of_mem _ he'))
    simp only [run] at h2
    rw [h2, h1]

theorem State.wired_of_wiring (I : Interface) (s t : State)
    (hs : (t.cmd CmdRef.status_command).wiring = (s.cmd CmdRef.status_command).wiring)
    (hk : (t.cmd CmdRef.kill_switch_update_command).wiring
      = (s.cmd CmdRef.kill_switch_update_command).wiring)
    (h : s.wired I) : t.wired I :=
  ⟨hs.trans h.1, hk.trans h.2⟩

/-- Every event other than `actuator_init` leaves the initialised flag as it
is. -/
theorem Event.apply_initialized (I : Interface) (e : Event) (s : State)
    (he : e ≠ Event.actuator_init) :
    (e.apply I s).vars.actuator_initialized = s.vars.actuator_initialized := by
  cases e with
  | actuator_init => exact absurd rfl he
  | safety_init => rfl
  | clock dt => rfl
  | kill_state b => rfl
  | raise_fault fault_id => exact initialized_of_config _ _ (safety_raise_fault_config _ _)
  | lower_fault fault_id => exact initialized_of_config _ _ (safety_lower_fault_config _ _)
  | open_claw heap => exact initialized_of_config _ _ (public_command_generate_config ..)
  | close_claw heap => exact initialized_of_config _ _ (public_command_generate_config ..)
  | set_claw_timings heap o c =>
    exact initialized_of_config _ _ (public_command_generate_config ..)
  | arm_torpedo heap => exact initialized_of_config _ _ (public_command_generate_config ..)
  | disarm_torpedo heap => exact initialized_of_config _ _ (public_command_generate_config ..)
  | fire_torpedo heap n => exact initialized_of_config _ _ (public_command_generate_config ..)
  | set_torpedo_timings heap n ty t =>
    exact initialized_of_config _ _ (public_command_generate_config ..)
  | drop_marker heap n => exact initialized_of_config _ _ (public_command_generate_config ..)
  | clear_dropper_status heap =>
    exact initialized_of_config _ _ (public_command_generate_config ..)
  | set_dropper_timings heap t =>
    exact initialized_of_config _ _ (public_command_generate_config ..)
  | reset_actuators heap => exact initialized_of_config _ _ (public_command_generate_config ..)
  | parameter_change param => exact actuator_handle_parameter_change_initialized I param s
  | poll_alarm => exact initialized_of_config _ _ (actuator_poll_alarm_callback_config I s)
  | kill_report_refresh =>
    exact initialized_of_config _ _ (actuator_kill_report_refresh_config I s)
  | transfer_done rx => exact initialized_of_config _ _ (async_i2c_transfer_done_config I rx s)
  | transfer_failed abort_data =>
    exact initialized_of_config _ _ (async_i2c_transfer_failed_config I abort_data s)

/-- The fields of the status slot in a wired state. -/
theorem State.wired_status (I : Interface) (s : State) (h : s.wired I) :
    s.status_command.request.cmd_id = actuator_command.GET_STATUS
      ∧ s.status_command.response_cb
          = some actuator_cmd_response_cb_t.actuator_status_callback
      ∧ s.status_command.important_request = false
      ∧ s.status_command.i2c_request
          = populated_request I CmdRef.status_command actuator_command.GET_STATUS := by
  have h1 := h.1
  simp only [actuator_cmd_data_t.wiring, Prod.mk.injEq] at h1
  exact h1

/-- The fields of the kill-switch slot in a wired state. -/
theorem State.wired_kill_switch (I : Interface) (s : State) (h : s.wired I) :
    s.kill_switch_update_command.request.cmd_id = actuator_command.KILL_SWITCH
      ∧ s.kill_switch_update_command.response_cb
          = some actuator_cmd_response_cb_t.actuator_kill_switch_update_callback
      ∧ s.kill_switch_update_command.important_request = true
      ∧ s.kill_switch_update_command.i2c_request
          = populated_request I CmdRef.kill_switch_update_command
              actuator_command.KILL_SWITCH := by
  have h2 := h.2
  simp only [actuator_cmd_data_t.wiring, Prod.mk.injEq] at h2
  exact h2

/-- In a wired state the set-timing handler is on neither of the two slots
that `actuator_init` populates. -/
theorem State.wired_cb (I : Interface) (s : State) (h : s.wired I) (r cmd : CmdRef)
    (hr : r = CmdRef.status_command ∨ r = CmdRef.kill_switch_update_command)
    (hcb : (s.cmd cmd).response_cb
      = some actuator_cmd_response_cb_t.actuator_set_timing_general_cb) : r ≠ cmd := by
  rintro rfl
  rcases hr with rfl | rfl
  · have := (State.wired_status I s h).2.1
    rw [show (s.cmd CmdRef.status_command) = s.status_command from rfl, this] at hcb
    cases hcb
  · have := (State.wired_kill_switch I s h).2.1
    rw [show (s.cmd CmdRef.kill_switch_update_command) = s.kill_switch_update_command
      from rfl, this] at hcb
    cases hcb

/-- The wiring of the two slots that `actuator_init` populates is left alone
by every other event. -/
theorem Event.apply_wiring (I : Interface) (e : Event) (s : State) (r : CmdRef)
    (hr : r = CmdRef.status_command ∨ r = CmdRef.kill_switch_update_command)
    (he : e ≠ Event.actuator_init) (hw : s.wired I) :
    ((e.apply I s).cmd r).wiring = (s.cmd r).wiring := by
  have hst : r ≠ CmdRef.set_timing_command := by rcases hr with rfl | rfl <;> decide
  have hal : ∀ j, r ≠ CmdRef.allocated j := by
    intro j; rcases hr with rfl | rfl <;> simp
  cases e with
  | actuator_init => exact absurd rfl he
  | safety_init => exact congrArg _ (cmd_with_vars _ _ _)
  | clock dt => exact congrArg _ (cmd_with_vars _ _ _)
  | kill_state b => exact congrArg _ (cmd_with_vars _ _ _)
  | raise_fault fault_id => exact congrArg _ (safety_raise_fault_cmd _ _ _)
  | lower_fault fault_id => exact congrArg _ (safety_lower_fault_cmd _ _ _)
  | open_claw heap => exact public_command_generate_wiring _ _ _ _ _ _ _ hal
  | close_claw heap => exact public_command_generate_wiring _ _ _ _ _ _ _ hal
  | set_claw_timings heap o c => exact public_command_generate_wiring _ _ _ _ _ _ _ hal
  | arm_torpedo heap => exact public_command_generate_wiring _ _ _ _ _ _ _ hal
  | disarm_torpedo heap => exact public_command_generate_wiring _ _ _ _ _ _ _ hal
  | fire_torpedo heap n => exact public_command_generate_wiring _ _ _ _ _ _ _ hal
  | set_torpedo_timings heap n ty t => exact public_command_generate_wiring _ _ _ _ _ _ _ hal
  | drop_marker heap n => exact public_command_generate_wiring _ _ _ _ _ _ _ hal
  | clear_dropper_status heap => exact public_command_generate_wiring _ _ _ _ _ _ _ hal
  | set_dropper_timings heap t => exact public_command_generate_wiring _ _ _ _ _ _ _ hal
  | reset_actuators heap => exact public_command_generate_wiring _ _ _ _ _ _ _ hal
  | parameter_change param => exact actuator_handle_parameter_change_wiring_ne I param s r hst
  | poll_alarm => exact actuator_poll_alarm_callback_wiring I s r
  | kill_report_refresh => exact actuator_kill_report_refresh_wiring I s r
  | transfer_done rx =>
    exact async_i2c_transfer_done_wiring I rx s r hst
      (fun cmd hcb => State.wired_cb I s hw r cmd hr hcb)
  | transfer_failed abort_data => exact async_i2c_transfer_failed_wiring I abort_data s r

theorem step_wired (I : Interface) (s : State) (e : Event)
    (h : s.vars.actuator_initialized = true → s.wired I) :
    (step I s e).vars.actuator_initialized = true → (step I s e).wired I := by
  apply step_cases I s e (fun t => t.vars.actuator_initialized = true → t.wired I) h
  intro _ hen
  by_cases he : e = Event.actuator_init
  · subst he
    intro _
    exact actuator_init_wired I s
  · intro hi
    rw [Event.apply_initialized I e s he] at hi
    exact State.wired_of_wiring I s _
      (Event.apply_wiring I e s _ (Or.inl rfl) he (h hi))
      (Event.apply_wiring I e s _ (Or.inr rfl) he (h hi)) (h hi)

theorem run_wired (I : Interface) (evs : List Event) (s : State)
    (h : s.vars.actuator_initialized = true → s.wired I) :
    (run I evs s).vars.actuator_initialized = true → (run I evs s).wired I := by
  induction evs generalizing s with
  | nil => exact h
  | cons e evs ih =>
    simp only [run, List.foldl_cons]
    exact ih (step I s e) (step_wired I s e h)

/-- In every reachable state in which the interface is initialised, the status
slot and the kill-switch slot are as `actuator_init` populated them. -/
theorem Reachable.wired (I : Interface) (s : State) (h : Reachable I s)
    (hinit : s.vars.actuator_initialized = true) : s.wired I := by
  obtain ⟨now, fl, led, evs, rfl⟩ := h
  exact run_wired I evs _ (by intro hi; cases hi) hinit

/-! ## The kill-switch slot -/

/-- The kill-switch slot after `kill_switch_send`: the sampled kill state is in
the payload, the checksum is stored, the slot is in use and its transfer in
progress. -/
theorem kill_switch_send_slot (I : Interface) (s : State)
    (hinit : s.vars.safety_initialized = true) :
    (kill_switch_send I s).kill_switch_update_command =
      { s.kill_switch_update_command with
        request :=
          { s.kill_switch_update_command.request with
            data :=
              { s.kill_switch_update_command.request.data with
                kill_switch_asserting_kill := s.vars.last_state_asserting_kill }
            crc8 :=
              I.actuator_i2c_crc8_calc_command
                { s.kill_switch_update_command.request with
                  data :=
                    { s.kill_switch_update_command.request.data with
                      kill_switch_asserting_kill := s.vars.last_state_asserting_kill } }
                s.kill_switch_update_command.i2c_request.bytes_to_send % 256 }
        in_use := true
        i2c_in_progress := true } := by
  rw [kill_switch_send_of_init I s hinit]
  rfl

/-- The kill state query with safety initialised. -/
theorem safety_kill_get_asserting_kill_of_init (s : State)
    (hinit : s.vars.safety_initialized = true) :
    safety_kill_get_asserting_kill s = some s.vars.last_state_asserting_kill := by
  simp only [safety_kill_get_asserting_kill, hinit, if_true]

/-- The one transfer that `kill_switch_send` enqueues. -/
theorem kill_switch_send_transfer (I : Interface) (s : State)
    (hinit : s.vars.safety_initialized = true) :
    ∃ t : Transfer,
      (kill_switch_send I s).vars.i2c_trace = s.vars.i2c_trace ++ [t]
        ∧ t.cmd = CmdRef.kill_switch_update_command
        ∧ t.frame.cmd_id = s.kill_switch_update_command.request.cmd_id
        ∧ t.frame.data.kill_switch_asserting_kill = s.vars.last_state_asserting_kill
        ∧ t.i2c_request = s.kill_switch_update_command.i2c_request :=
  ⟨⟨CmdRef.kill_switch_update_command,
      ((kill_switch_send I s).cmd CmdRef.kill_switch_update_command).i2c_request,
      ((kill_switch_send I s).cmd CmdRef.kill_switch_update_command).request⟩,
    by rw [kill_switch_send_vars I s hinit], rfl,
    by show (kill_switch_send I s).kill_switch_update_command.request.cmd_id = _
       rw [kill_switch_send_slot I s hinit],
    by show (kill_switch_send I s).kill_switch_update_command.request.data.kill_switch_asserting_kill
         = _
       rw [kill_switch_send_slot I s hinit],
    by show (kill_switch_send I s).kill_switch_update_command.i2c_request = _
       rw [kill_switch_send_slot I s hinit]⟩

/-- C21. The function `actuator_kill_report_refresh`: when the interface is
not initialised it changes nothing. When it is initialised and the kill-switch
slot is in use, it sets the needs-refresh flag and changes nothing else.
Otherwise, with safety initialised (so that the lifetime assertion of the kill
state query holds), it clears the flag, marks the slot in use and enqueues
exactly one transfer, the kill-switch slot's set-kill-switch command, whose
payload is the value `safety_kill_get_asserting_kill` returns at that moment;
no other slot is touched. With safety not initialised the program stops at
the query, after the flag was cleared: nothing is enqueued and no slot is
touched. -/
theorem actuator_kill_report_refresh_contract (I : Interface) (s : State)
    (hw : s.vars.actuator_initialized = true → s.wired I) :
    (s.vars.actuator_initialized = false → actuator_kill_report_refresh I s = s)
      ∧ (s.vars.actuator_initialized = true →
          s.kill_switch_update_command.in_use = true →
          actuator_kill_report_refresh I s
            = { s with vars.kill_switch_needs_refresh := true })
      ∧ (s.vars.actuator_initialized = true →
          s.kill_switch_update_command.in_use = false →
          s.vars.safety_initialized = true →
          (actuator_kill_report_refresh I s).vars.kill_switch_needs_refresh = false
            ∧ (actuator_kill_report_refresh I s).kill_switch_update_command.in_use = true
            ∧ (∃ t : Transfer,
                (actuator_kill_report_refresh I s).vars.i2c_trace = s.vars.i2c_trace ++ [t]
                  ∧ t.cmd = CmdRef.kill_switch_update_command
                  ∧ t.frame.cmd_id = actuator_command.KILL_SWITCH
                  ∧ safety_kill_get_asserting_kill s
                      = some t.frame.data.kill_switch_asserting_kill)
            ∧ (actuator_kill_report_refresh I s).vars.i2c_queue
                = s.vars.i2c_queue ++ [CmdRef.kill_switch_update_command]
            ∧ (actuator_kill_report_refresh I s).vars.assert_failed = s.vars.assert_failed
            ∧ ∀ r : CmdRef, r ≠ CmdRef.kill_switch_update_command →
                (actuator_kill_report_refresh I s).cmd r = s.cmd r)
      ∧ (s.vars.actuator_initialized = true →
          s.kill_switch_update_command.in_use = false →
          s.vars.safety_initialized = false →
          safety_kill_get_asserting_kill s = none
            ∧ actuator_kill_report_refresh I s
                = { s with
                    vars.kill_switch_needs_refresh := false
                    vars.assert_failed := true }) := by
  refine ⟨?_, ?_, ?_, ?_⟩
  · intro hi
    simp [actuator_kill_report_refresh, hi]
  · intro hi hu
    simp [actuator_kill_report_refresh, hi, hu]
  · intro hi hu hsafe
    have he : actuator_kill_report_refresh I s = kill_switch_send I s := by
      simp [actuator_kill_report_refresh, hi, hu]
    rw [he]
    obtain ⟨t, h1, h2, h3, h4, -⟩ := kill_switch_send_transfer I s hsafe
    refine ⟨?_, ?_, ⟨t, h1, h2, ?_, ?_⟩, ?_, ?_,
      fun r hr => kill_switch_send_cmd_ne I r s hr⟩
    · rw [kill_switch_send_vars I s hsafe]
    · rw [kill_switch_send_slot I s hsafe]
    · rw [h3]; exact (State.wired_kill_switch I s (hw hi)).1
    · rw [h4]; exact safety_kill_get_asserting_kill_of_init s hsafe
    · rw [kill_switch_send_vars I s hsafe]
    · rw [kill_switch_send_vars I s hsafe]
  · intro hi hu hsafe
    have he : actuator_kill_report_refresh I s = kill_switch_send I s := by
      simp [actuator_kill_report_refresh, hi, hu]
    rw [he]
    refine ⟨?_, kill_switch_send_of_not_init I s hsafe⟩
    simp only [safety_kill_get_asserting_kill, hsafe, Bool.false_eq_true, if_false]

/-- The kill-switch handler on its own slot (the assertion on `cmd` holds). -/
theorem actuator_kill_switch_update_callback_eq (I : Interface) (s : State) :
    actuator_kill_switch_update_callback I CmdRef.kill_switch_update_command s =
      if s.kill_switch_update_command.response.result ≠ I.ACTUATOR_RESULT_SUCCESSFUL then
        (false, safety_raise_fault I.FAULT_ACTUATOR_FAIL
          { s with
            vars.log := s.vars.log ++
              [LogMsg.error_kill_switch_result s.kill_switch_update_command.response.result] })
      else if s.vars.kill_switch_needs_refresh = true then (true, kill_switch_send I s)
      else (false, s) := by
  have hd : decide (CmdRef.kill_switch_update_command ≠ CmdRef.kill_switch_update_command)
      = false := by decide
  simp only [actuator_kill_switch_update_callback, hd, Bool.or_false]
  rfl

/-- The completion handler on the kill-switch slot of a wired state, when the
checksum test passes. -/
theorem actuator_command_done_kill_switch (I : Interface) (s : State) (hw : s.wired I)
    (hok : s.kill_switch_update_command.i2c_request.bytes_to_receive = 0 ∨
      I.actuator_i2c_crc8_calc_response s.kill_switch_update_command.response
        s.kill_switch_update_command.i2c_request.bytes_to_receive % 256
          = s.kill_switch_update_command.response.crc8) :
    actuator_command_done I s.kill_switch_update_command.i2c_request s =
      if (actuator_kill_switch_update_callback I CmdRef.kill_switch_update_command
          { s with
            vars.cb_trace := s.vars.cb_trace ++
              [(actuator_cmd_response_cb_t.actuator_kill_switch_update_callback,
                CmdRef.kill_switch_update_command)] }).1 = true then
        (actuator_kill_switch_update_callback I CmdRef.kill_switch_update_command
          { s with
            vars.cb_trace := s.vars.cb_trace ++
              [(actuator_cmd_response_cb_t.actuator_kill_switch_update_callback,
                CmdRef.kill_switch_update_command)] }).2
      else
        (actuator_kill_switch_update_callback I CmdRef.kill_switch_update_command
          { s with
            vars.cb_trace := s.vars.cb_trace ++
              [(actuator_cmd_response_cb_t.actuator_kill_switch_update_callback,
                CmdRef.kill_switch_update_command)] }).2.modifyCmd
          CmdRef.kill_switch_update_command fun c => { c with in_use := false } := by
  have hk := State.wired_kill_switch I s hw
  rw [actuator_command_done_some_cb I _ CmdRef.kill_switch_update_command s
    actuator_cmd_response_cb_t.actuator_kill_switch_update_callback
    (by rw [hk.2.2.2]; rfl) hok hk.2.1]
  rfl

/-- The completion handler on a checksum-valid kill-switch response with a
successful result code, by the needs-refresh flag. -/
theorem actuator_command_done_kill_switch_ok (I : Interface) (s : State) (hw : s.wired I)
    (hok : s.kill_switch_update_command.i2c_request.bytes_to_receive = 0 ∨
      I.actuator_i2c_crc8_calc_response s.kill_switch_update_command.response
        s.kill_switch_update_command.i2c_request.bytes_to_receive % 256
          = s.kill_switch_update_command.response.crc8)
    (hres : s.kill_switch_update_command.response.result = I.ACTUATOR_RESULT_SUCCESSFUL) :
    (s.vars.kill_switch_needs_refresh = true → s.vars.safety_initialized = true →
        (actuator_kill_switch_update_callback I CmdRef.kill_switch_update_command s).1 = true
          ∧ (actuator_command_done I s.kill_switch_update_command.i2c_request
              s).vars.kill_switch_needs_refresh = false
          ∧ (actuator_command_done I s.kill_switch_update_command.i2c_request
              s).kill_switch_update_command.in_use = true
          ∧ safety_kill_get_asserting_kill s
              = some (actuator_command_done I s.kill_switch_update_command.i2c_request
                  s).kill_switch_update_command.request.data.kill_switch_asserting_kill
          ∧ (∃ t : Transfer,
              (actuator_command_done I s.kill_switch_update_command.i2c_request
                  s).vars.i2c_trace = s.vars.i2c_trace ++ [t]
                ∧ t.cmd = CmdRef.kill_switch_update_command
                ∧ t.frame.cmd_id = actuator_command.KILL_SWITCH
                ∧ safety_kill_get_asserting_kill s
                    = some t.frame.data.kill_switch_asserting_kill)
          ∧ (actuator_command_done I s.kill_switch_update_command.i2c_request
              s).vars.i2c_queue = s.vars.i2c_queue ++ [CmdRef.kill_switch_update_command]
          ∧ (actuator_command_done I s.kill_switch_update_command.i2c_request
              s).vars.assert_failed = s.vars.assert_failed)
      ∧ (s.vars.kill_switch_needs_refresh = false →
          (actuator_kill_switch_update_callback I CmdRef.kill_switch_update_command s).1
              = false
            ∧ (actuator_command_done I s.kill_switch_update_command.i2c_request
                s).kill_switch_update_command.in_use = false
            ∧ (actuator_command_done I s.kill_switch_update_command.i2c_request
                s).vars.i2c_trace = s.vars.i2c_trace
            ∧ (actuator_command_done I s.kill_switch_update_command.i2c_request
                s).vars.i2c_queue = s.vars.i2c_queue
            ∧ (actuator_command_done I s.kill_switch_update_command.i2c_request
                s).vars.kill_switch_needs_refresh = false) := by
  have hres2 : ¬ s.kill_switch_update_command.response.result
      ≠ I.ACTUATOR_RESULT_SUCCESSFUL := fun h => h hres
  rw [actuator_command_done_kill_switch I s hw hok, actuator_kill_switch_update_callback_eq,
    actuator_kill_switch_update_callback_eq]
  constructor
  · intro hn hsafe
    rw [if_neg hres2, if_pos hn, if_neg hres2, if_pos hn]
    simp only [if_true]
    have hsafe' : ({ s with
        vars.cb_trace := s.vars.cb_trace ++
          [(actuator_cmd_response_cb_t.actuator_kill_switch_update_callback,
            CmdRef.kill_switch_update_command)] } : State).vars.safety_initialized = true :=
      hsafe
    obtain ⟨t, h1, h2, h3, h4, -⟩ := kill_switch_send_transfer I _ hsafe'
    refine ⟨trivial, ?_, ?_, ?_, ⟨t, h1, h2, ?_, ?_⟩, ?_, ?_⟩
    · rw [kill_switch_send_vars _ _ hsafe']
    · rw [kill_switch_send_slot _ _ hsafe']
    · rw [kill_switch_send_slot _ _ hsafe']
      exact safety_kill_get_asserting_kill_of_init s hsafe
    · rw [h3]; exact (State.wired_kill_switch I s hw).1
    · rw [h4]; exact safety_kill_get_asserting_kill_of_init s hsafe
    · rw [kill_switch_send_vars _ _ hsafe']
    · rw [kill_switch_send_vars _ _ hsafe']
  · intro hn
    have hn2 : ¬ s.vars.kill_switch_needs_refresh = true := by simp [hn]
    rw [if_neg hres2, if_neg hn2, if_neg hres2, if_neg hn2]
    simp only []
    exact ⟨trivial, rfl, rfl, rfl, hn⟩

/-- C22. A checksum-valid kill-switch response with a successful result code:
if the needs-refresh flag is set (and safety is initialised, so that the
lifetime assertion of the kill state query holds), the handler returns true,
the flag is cleared, the value `safety_kill_get_asserting_kill` returns at
that moment is stored in the payload, exactly one further set-kill-switch
command is enqueued, the slot stays in use and no assertion fails; if the flag
is not set, the handler returns false, nothing is enqueued and the slot is
released. -/
theorem kill_switch_response_refreshes (I : Interface) (s : State) (hw : s.wired I)
    (hok : s.kill_switch_update_command.i2c_request.bytes_to_receive = 0 ∨
      I.actuator_i2c_crc8_calc_response s.kill_switch_update_command.response
        s.kill_switch_update_command.i2c_request.bytes_to_receive % 256
          = s.kill_switch_update_command.response.crc8)
    (hres : s.kill_switch_update_command.response.result = I.ACTUATOR_RESULT_SUCCESSFUL) :
    (s.vars.kill_switch_needs_refresh = true → s.vars.safety_initialized = true →
        (actuator_kill_switch_update_callback I CmdRef.kill_switch_update_command s).1 = true
          ∧ (actuator_command_done I s.kill_switch_update_command.i2c_request
              s).vars.kill_switch_needs_refresh = false
          ∧ (actuator_command_done I s.kill_switch_update_command.i2c_request
              s).kill_switch_update_command.in_use = true
          ∧ safety_kill_get_asserting_kill s
              = some (actuator_command_done I s.kill_switch_update_command.i2c_request
                  s).kill_switch_update_command.request.data.kill_switch_asserting_kill
          ∧ (∃ t : Transfer,
              (actuator_command_done I s.kill_switch_update_command.i2c_request
                  s).vars.i2c_trace = s.vars.i2c_trace ++ [t]
                ∧ t.cmd = CmdRef.kill_switch_update_command
                ∧ t.frame.cmd_id = actuator_command.KILL_SWITCH
                ∧ safety_kill_get_asserting_kill s
                    = some t.frame.data.kill_switch_asserting_kill)
          ∧ (actuator_command_done I s.kill_switch_update_command.i2c_request
              s).vars.i2c_queue = s.vars.i2c_queue ++ [CmdRef.kill_switch_update_command]
          ∧ (actuator_command_done I s.kill_switch_update_command.i2c_request
              s).vars.assert_failed = s.vars.assert_failed)
      ∧ (s.vars.kill_switch_needs_refresh = false →
          (actuator_kill_switch_update_callback I CmdRef.kill_switch_update_command s).1
              = false
            ∧ (actuator_command_done I s.kill_switch_update_command.i2c_request
                s).kill_switch_update_command.in_use = false
            ∧ (actuator_command_done I s.kill_switch_update_command.i2c_request
                s).vars.i2c_trace = s.vars.i2c_trace
            ∧ (actuator_command_done I s.kill_switch_update_command.i2c_request
                s).vars.i2c_queue = s.vars.i2c_queue
            ∧ (actuator_command_done I s.kill_switch_update_command.i2c_request
                s).vars.kill_switch_needs_refresh = false) :=
  actuator_command_done_kill_switch_ok I s hw hok hres

/-- C24. On the kill-switch slot as `actuator_init` populated it, every failed
exchange (a transport failure with any abort code, a response whose checksum
does not match, a checksum-valid response whose result code is not the
successful one) leaves the slot released, `FAULT_ACTUATOR_FAIL` raised and
nothing enqueued, whatever the rest of the state. -/
theorem kill_switch_failure_escalates (I : Interface) (s : State) (hw : s.wired I)
    (hfail : I.FAULT_ACTUATOR_FAIL < 32) :
    (∀ abort_data : Nat,
        (actuator_command_failed I s.kill_switch_update_command.i2c_request abort_data
            s).kill_switch_update_command.in_use = false
          ∧ fault_is_raised I.FAULT_ACTUATOR_FAIL
              (actuator_command_failed I s.kill_switch_update_command.i2c_request abort_data s)
              = true
          ∧ (actuator_command_failed I s.kill_switch_update_command.i2c_request abort_data
              s).vars.i2c_trace = s.vars.i2c_trace
          ∧ (actuator_command_failed I s.kill_switch_update_command.i2c_request abort_data
              s).vars.i2c_queue = s.vars.i2c_queue)
      ∧ ((s.kill_switch_update_command.i2c_request.bytes_to_receive > 0
            ∧ I.actuator_i2c_crc8_calc_response s.kill_switch_update_command.response
                s.kill_switch_update_command.i2c_request.bytes_to_receive % 256
              ≠ s.kill_switch_update_command.response.crc8)
          ∨ ((s.kill_switch_update_command.i2c_request.bytes_to_receive = 0
              ∨ I.actuator_i2c_crc8_calc_response s.kill_switch_update_command.response
                  s.kill_switch_update_command.i2c_request.bytes_to_receive % 256
                = s.kill_switch_update_command.response.crc8)
            ∧ s.kill_switch_update_command.response.result
              ≠ I.ACTUATOR_RESULT_SUCCESSFUL) →
        (actuator_command_done I s.kill_switch_update_command.i2c_request
            s).kill_switch_update_command.in_use = false
          ∧ fault_is_raised I.FAULT_ACTUATOR_FAIL
              (actuator_command_done I s.kill_switch_update_command.i2c_request s) = true
          ∧ (actuator_command_done I s.kill_switch_update_command.i2c_request
              s).vars.i2c_trace = s.vars.i2c_trace
          ∧ (actuator_command_done I s.kill_switch_update_command.i2c_request
              s).vars.i2c_queue = s.vars.i2c_queue) := by
  have hk := State.wired_kill_switch I s hw
  have hreq : s.kill_switch_update_command.i2c_request.user_data
      = some CmdRef.kill_switch_update_command := by rw [hk.2.2.2]; rfl
  have himp : (s.cmd CmdRef.kill_switch_update_command).important_request = true := hk.2.2.1
  have hraised : ∀ (l : List LogMsg) (t : State),
      t.vars = (safety_raise_fault I.FAULT_ACTUATOR_FAIL
        { s with vars.log := s.vars.log ++ l }).vars →
      fault_is_raised I.FAULT_ACTUATOR_FAIL t = true
        ∧ t.vars.i2c_trace = s.vars.i2c_trace ∧ t.vars.i2c_queue = s.vars.i2c_queue := by
    intro l t ht
    refine ⟨?_, ?_, ?_⟩
    · rw [fault_is_raised_congr _ t _ (congrArg Vars.fault_list ht)]
      exact fault_is_raised_raise _ _ hfail
    · rw [ht]; exact (safety_raise_fault_slots _ _).2.2.2.2.1
    · rw [ht]; exact (safety_raise_fault_slots _ _).2.2.2.2.2.1
  constructor
  · intro abort_data
    rw [actuator_command_failed_eq I _ abort_data CmdRef.kill_switch_update_command s hreq,
      if_pos himp]
    exact ⟨rfl, hraised _ _ (modifyCmd_vars _ _ _)⟩
  · rintro (⟨hlen, hcrc⟩ | ⟨hok, hres⟩)
    · rw [actuator_command_done_mismatch_eq I _ CmdRef.kill_switch_update_command s hreq hlen
        hcrc, if_pos himp]
      exact ⟨rfl, hraised _ _ (modifyCmd_vars _ _ _)⟩
    · rw [actuator_command_done_kill_switch I s hw hok,
        actuator_kill_switch_update_callback_eq, if_pos hres]
      simp only []
      rw [if_neg (by simp)]
      refine ⟨rfl, ?_⟩
      have h := hraised
        [LogMsg.error_kill_switch_result s.kill_switch_update_command.response.result]
        (safety_raise_fault I.FAULT_ACTUATOR_FAIL
          { s with
            vars.log := s.vars.log ++
              [LogMsg.error_kill_switch_result s.kill_switch_update_command.response.result] })
        rfl
      refine ⟨?_, ?_, ?_⟩
      · rw [fault_is_raised_congr _ _ (safety_raise_fault I.FAULT_ACTUATOR_FAIL
          { s with
            vars.log := s.vars.log ++
              [LogMsg.error_kill_switch_result
                s.kill_switch_update_command.response.result] })]
        · exact h.1
        · rw [modifyCmd_vars]
          exact safety_raise_fault_fault_list_congr _ _ _ rfl
      · rw [modifyCmd_vars, safety_raise_fault_i2c_trace]
      · rw [modifyCmd_vars, (safety_raise_fault_slots _ _).2.2.2.2.2.1]

/-! ## Kill-switch coalescing -/

theorem kill_switch_transfers_of_trace (s t : State)
    (h : t.vars.i2c_trace = s.vars.i2c_trace) :
    kill_switch_transfers t = kill_switch_transfers s := by
  unfold kill_switch_transfers; rw [h]

theorem kill_switch_transfers_append (s t : State) (u : Transfer)
    (h : t.vars.i2c_trace = s.vars.i2c_trace ++ [u]) :
    kill_switch_transfers t
      = kill_switch_transfers s
        + if u.cmd = CmdRef.kill_switch_update_command then 1 else 0 := by
  unfold kill_switch_transfers
  rw [h, List.filter_append, List.length_append]
  by_cases hu : u.cmd = CmdRef.kill_switch_update_command
  · simp [hu]
  · simp [hu]

theorem kill_switch_quiet_refl (s : State) : kill_switch_quiet s s := ⟨rfl, rfl, rfl⟩

theorem kill_switch_quiet_trans {s t u : State} (h1 : kill_switch_quiet s t)
    (h2 : kill_switch_quiet t u) : kill_switch_quiet s u :=
  ⟨h2.1.trans h1.1, h2.2.1.trans h1.2.1, h2.2.2.trans h1.2.2⟩

/-- A state that differs only in variables other than the flag and the trace
is quiet. -/
theorem kill_switch_quiet_of_vars (s t : State)
    (hk : t.kill_switch_update_command = s.kill_switch_update_command)
    (hn : t.vars.kill_switch_needs_refresh = s.vars.kill_switch_needs_refresh)
    (ht : t.vars.i2c_trace = s.vars.i2c_trace) : kill_switch_quiet s t :=
  ⟨hk, hn, kill_switch_transfers_of_trace s t ht⟩

theorem kill_switch_quiet_modifyCmd (s : State) (r : CmdRef)
    (f : actuator_cmd_data_t → actuator_cmd_data_t)
    (hr : r ≠ CmdRef.kill_switch_update_command) : kill_switch_quiet s (s.modifyCmd r f) :=
  kill_switch_quiet_of_vars s _ (cmd_modifyCmd_ne s r CmdRef.kill_switch_update_command f hr.symm)
    (by rw [modifyCmd_vars]) (by rw [modifyCmd_vars])

theorem kill_switch_quiet_raise (fault_id : Nat) (s : State) :
    kill_switch_quiet s (safety_raise_fault fault_id s) :=
  kill_switch_quiet_of_vars s _ (safety_raise_fault_slots _ _).2.2.1
    (by rw [safety_raise_fault_vars]; split <;> rfl) (safety_raise_fault_i2c_trace _ _)

theorem resolve_category_cmd_ne (I : Interface) (cmd r : CmdRef) (cat : Category)
    (s : State) (h : r ≠ cmd) : (resolve_category I cmd cat s).cmd r = s.cmd r := by
  cases cat <;> simp only [resolve_category] <;>
    rw [actuator_send_command_cmd_ne _ _ _ _ h, cmd_with_vars]
  · rw [cmd_modifyCmd_ne _ _ _ _ h, actuator_populate_command_cmd_ne _ _ _ _ _ _ _ h]
  · rw [cmd_modifyCmd_ne _ _ _ _ h, actuator_populate_command_cmd_ne _ _ _ _ _ _ _ h]
  · rw [torpedo_timing_request_cmd_ne _ _ _ _ _ _ _ h]
  · rw [torpedo_timing_request_cmd_ne _ _ _ _ _ _ _ h]

theorem actuator_update_missing_timings_quiet (I : Interface) (s : State) :
    kill_switch_quiet s (actuator_update_missing_timings I s) := by
  by_cases hu : s.set_timing_command.in_use = true
  · rw [actuator_update_missing_timings_busy I s hu]; exact kill_switch_quiet_refl s
  · have hfree : s.set_timing_command.in_use = false := by simpa using hu
    cases hq : first_qualifying s.vars with
    | none =>
      rw [actuator_update_missing_timings_none I s hfree hq]; exact kill_switch_quiet_refl s
    | some cat =>
      obtain ⟨-, -, t, h3, h4, -⟩ := actuator_update_missing_timings_some I s cat hfree hq
      refine ⟨?_, ?_, ?_⟩
      · rw [actuator_update_missing_timings_eq, if_neg hu, hq]
        exact resolve_category_cmd_ne I _ CmdRef.kill_switch_update_command cat _ (by decide)
      · rw [actuator_update_missing_timings_vars]
      · rw [kill_switch_transfers_append _ _ t h3, h4]
        rfl

/-- While the kill-switch slot is in use, the accepting branch of the status
handler only takes the snapshot and extends the deadline before the merge. -/
theorem status_accept_head_busy (I : Interface) (cmd : CmdRef) (s : State)
    (hbusy : s.kill_switch_update_command.in_use = true) :
    status_accept_head I cmd s =
      { s with
        vars :=
          { s.vars with
            actuator_last_status := (s.cmd cmd).response.status
            status_valid_timeout := s.vars.now + ACTUATOR_MAX_STATUS_AGE_MS * 1000 } } := by
  simp only [status_accept_head]
  split_ifs with h1 h2
  · exfalso
    have h2' : s.kill_switch_update_command.in_use = false := by simpa using h2
    rw [hbusy] at h2'
    cases h2'
  · rfl
  · rfl

theorem actuator_status_callback_quiet (I : Interface) (cmd : CmdRef) (s : State)
    (hbusy : s.kill_switch_update_command.in_use = true) :
    kill_switch_quiet s (actuator_status_callback I cmd s).2 := by
  by_cases h : status_version_rejected I (s.cmd cmd).response.status
  · rw [actuator_status_callback_reject_eq I cmd s h]
    split
    · exact kill_switch_quiet_refl s
    · simp only []
      have hq := kill_switch_quiet_raise I.FAULT_ACTUATOR_FAIL
        { s with
          vars.log := s.vars.log ++
            [LogMsg.error_invalid_firmware (s.cmd cmd).response.status.version_major
              (s.cmd cmd).response.status.version_minor] }
      exact ⟨hq.1, hq.2.1, hq.2.2⟩
  · rw [actuator_status_callback_accept_eq I cmd s h, status_accept_head_busy I cmd s hbusy]
    simp only []
    split
    · have hq := actuator_update_missing_timings_quiet I
        { s with
          vars :=
            { s.vars with
              actuator_last_status := (s.cmd cmd).response.status
              status_valid_timeout := s.vars.now + ACTUATOR_MAX_STATUS_AGE_MS * 1000
              missing_timings :=
                s.vars.missing_timings.or (s.cmd cmd).response.status.missing_timings } }
      exact ⟨hq.1, hq.2.1, hq.2.2⟩
    · exact ⟨rfl, rfl, rfl⟩

theorem State.wired_modifyCmd (I : Interface) (s : State) (r : CmdRef)
    (f : actuator_cmd_data_t → actuator_cmd_data_t) (hf : ∀ c, (f c).wiring = c.wiring)
    (h : s.wired I) : (s.modifyCmd r f).wired I :=
  State.wired_of_wiring I s _ (wiring_modifyCmd s r _ f hf) (wiring_modifyCmd s r _ f hf) h

/-- The completion handler keeps a wired state wired. -/
theorem actuator_command_done_wired (I : Interface) (req : async_i2c_request) (s : State)
    (h : s.wired I) : (actuator_command_done I req s).wired I :=
  State.wired_of_wiring I s _
    (actuator_command_done_wiring I req _ s (by decide)
      (fun cmd _ hcb => State.wired_cb I s h _ cmd (Or.inl rfl) hcb))
    (actuator_command_done_wiring I req _ s (by decide)
      (fun cmd _ hcb => State.wired_cb I s h _ cmd (Or.inr rfl) hcb)) h

theorem transfer_completed_wired (I : Interface) (cmd : CmdRef)
    (rx : actuator_i2c_response_t) (s : State) (h : s.wired I) :
    (transfer_completed I cmd rx s).wired I := by
  unfold transfer_completed
  exact actuator_command_done_wired I _ _
    (State.wired_modifyCmd I s cmd _ (by intro c; rfl) h)

theorem transfer_completed_initialized (I : Interface) (cmd : CmdRef)
    (rx : actuator_i2c_response_t) (s : State) :
    (transfer_completed I cmd rx s).vars.actuator_initialized
      = s.vars.actuator_initialized := by
  unfold transfer_completed
  simp only []
  rw [initialized_of_config _ _ (actuator_command_done_config I _ _), modifyCmd_vars]

theorem safety_initialized_of_config (v v' : Vars) (h : v'.config = v.config) :
    v'.safety_initialized = v.safety_initialized :=
  congrArg (fun c => c.2.2.1) h

theorem transfer_completed_safety_initialized (I : Interface) (cmd : CmdRef)
    (rx : actuator_i2c_response_t) (s : State) :
    (transfer_completed I cmd rx s).vars.safety_initialized
      = s.vars.safety_initialized := by
  unfold transfer_completed
  simp only []
  rw [safety_initialized_of_config _ _ (actuator_command_done_config I _ _), modifyCmd_vars]

/-- A status response handled while the kill-switch slot is in use does
nothing to the kill-switch protocol. -/
theorem transfer_completed_status_quiet (I : Interface) (rx : actuator_i2c_response_t)
    (s : State) (hw : s.wired I) (hbusy : s.kill_switch_update_command.in_use = true) :
    kill_switch_quiet s (transfer_completed I CmdRef.status_command rx s) := by
  have hw2 : (s.modifyCmd CmdRef.status_command fun c => { c with response := rx }).wired I :=
    State.wired_modifyCmd I s _ _ (by intro c; rfl) hw
  have hst := State.wired_status I _ hw2
  have hq1 : kill_switch_quiet s
      (s.modifyCmd CmdRef.status_command fun c => { c with response := rx }) :=
    kill_switch_quiet_modifyCmd s _ _ (by decide)
  refine kill_switch_quiet_trans hq1 ?_
  unfold transfer_completed
  simp only []
  generalize (s.modifyCmd CmdRef.status_command fun c => { c with response := rx }) = t
    at hw2 hst hq1 ⊢
  have hbusy2 : t.kill_switch_update_command.in_use = true := by rw [hq1.1]; exact hbusy
  have hreq : (t.cmd CmdRef.status_command).i2c_request.user_data
      = some CmdRef.status_command := by
    show t.status_command.i2c_request.user_data = _
    rw [hst.2.2.2]; rfl
  cases hm : response_crc_mismatch I (t.cmd CmdRef.status_command) with
  | some p =>
    rw [actuator_command_done_mismatch_of I _ CmdRef.status_command t p hreq hm]
    refine kill_switch_quiet_trans ?_ (kill_switch_quiet_modifyCmd _ _ _ (by decide))
    split
    · exact kill_switch_quiet_trans ⟨rfl, rfl, rfl⟩ (kill_switch_quiet_raise _ _)
    · exact ⟨rfl, rfl, rfl⟩
  | none =>
    rw [actuator_command_done_ok_eq I _ CmdRef.status_command t hreq hm]
    have hcb : (t.cmd CmdRef.status_command).response_cb
        = some actuator_cmd_response_cb_t.actuator_status_callback := hst.2.1
    rw [hcb]
    simp only []
    have hcall : kill_switch_quiet t
        (call_response_cb I actuator_cmd_response_cb_t.actuator_status_callback
          CmdRef.status_command t).2 := by
      simp only [call_response_cb]
      exact kill_switch_quiet_trans ⟨rfl, rfl, rfl⟩
        (actuator_status_callback_quiet I CmdRef.status_command
          { t with
            vars.cb_trace := t.vars.cb_trace ++
              [(actuator_cmd_response_cb_t.actuator_status_callback,
                CmdRef.status_command)] } hbusy2)
    split
    · exact hcall
    · exact kill_switch_quiet_trans hcall (kill_switch_quiet_modifyCmd _ _ _ (by decide))

/-- One window event while the kill-switch slot is in use: the slot stays in
use, no kill-switch transfer is started, and the needs-refresh flag is set by
a refresh request and left alone by a status response. -/
theorem WindowEvent.apply_busy (I : Interface) (e : WindowEvent) (s : State)
    (hw : s.wired I) (hinit : s.vars.actuator_initialized = true)
    (hbusy : s.kill_switch_update_command.in_use = true) :
    (e.apply I s).wired I
      ∧ (e.apply I s).vars.actuator_initialized = true
      ∧ (e.apply I s).vars.safety_initialized = s.vars.safety_initialized
      ∧ (e.apply I s).kill_switch_update_command.in_use = true
      ∧ kill_switch_transfers (e.apply I s) = kill_switch_transfers s
      ∧ (e.apply I s).vars.kill_switch_needs_refresh
          = (s.vars.kill_switch_needs_refresh || decide (e = WindowEvent.refresh)) := by
  cases e with
  | refresh =>
    have he : actuator_kill_report_refresh I s
        = { s with vars.kill_switch_needs_refresh := true } := by
      simp [actuator_kill_report_refresh, hinit, hbusy]
    simp only [WindowEvent.apply]
    rw [he]
    exact ⟨hw, hinit, rfl, hbusy, rfl, by simp⟩
  | status_response rx =>
    have hq := transfer_completed_status_quiet I rx s hw hbusy
    simp only [WindowEvent.apply]
    refine ⟨transfer_completed_wired I _ rx s hw, ?_,
      transfer_completed_safety_initialized I _ rx s, ?_, hq.2.2, ?_⟩
    · rw [transfer_completed_initialized]; exact hinit
    · rw [hq.1]; exact hbusy
    · rw [hq.2.1]; simp

theorem window_busy (I : Interface) (window : List WindowEvent) (s : State)
    (hw : s.wired I) (hinit : s.vars.actuator_initialized = true)
    (hbusy : s.kill_switch_update_command.in_use = true) :
    (window.foldl (fun s e => e.apply I s) s).wired I
      ∧ (window.foldl (fun s e => e.apply I s) s).vars.safety_initialized
          = s.vars.safety_initialized
      ∧ (window.foldl (fun s e => e.apply I s) s).kill_switch_update_command.in_use = true
      ∧ kill_switch_transfers (window.foldl (fun s e => e.apply I s) s)
          = kill_switch_transfers s
      ∧ (window.foldl (fun s e => e.apply I s) s).vars.kill_switch_needs_refresh
          = (s.vars.kill_switch_needs_refresh || decide (WindowEvent.refresh ∈ window)) := by
  induction window generalizing s with
  | nil => exact ⟨hw, rfl, hbusy, rfl, by simp⟩
  | cons e window ih =>
    obtain ⟨h1, h2, hs, h3, h4, h5⟩ := WindowEvent.apply_busy I e s hw hinit hbusy
    obtain ⟨i1, is, i2, i3, i4⟩ := ih (e.apply I s) h1 h2 h3
    rw [List.foldl_cons]
    refine ⟨i1, is.trans hs, i2, i3.trans h4, ?_⟩
    rw [i4, h5]
    by_cases he : e = WindowEvent.refresh
    · simp [he]
    · have he2 : ¬ WindowEvent.refresh = e := fun h => he h.symm
      simp [he, he2]

/-- The completion of a kill-switch transfer with a good response, by the
needs-refresh flag: a set flag yields exactly one follow-up transfer and keeps
the slot; a clear flag releases the slot and starts nothing. -/
theorem transfer_completed_kill_switch (I : Interface) (rx : actuator_i2c_response_t)
    (s : State) (hw : s.wired I) (hsafe : s.vars.safety_initialized = true)
    (hrx : kill_switch_response_ok I rx) :
    (transfer_completed I CmdRef.kill_switch_update_command rx s).wired I
      ∧ (transfer_completed I CmdRef.kill_switch_update_command
          rx s).vars.kill_switch_needs_refresh = false
      ∧ (transfer_completed I CmdRef.kill_switch_update_command
          rx s).kill_switch_update_command.in_use = s.vars.kill_switch_needs_refresh
      ∧ kill_switch_transfers (transfer_completed I CmdRef.kill_switch_update_command rx s)
          = kill_switch_transfers s + if s.vars.kill_switch_needs_refresh = true then 1 else 0
    := by
  refine ⟨transfer_completed_wired I _ rx s hw, ?_⟩
  have hw2 : (s.modifyCmd CmdRef.kill_switch_update_command
      fun c => { c with response := rx }).wired I :=
    State.wired_modifyCmd I s _ _ (by intro c; rfl) hw
  have hk := State.wired_kill_switch I _ hw2
  have hbytes : (s.modifyCmd CmdRef.kill_switch_update_command
      fun c => { c with response := rx }).kill_switch_update_command.i2c_request.bytes_to_receive
      = I.ACTUATOR_GET_RESPONSE_SIZE actuator_command.KILL_SWITCH % 65536 := by
    rw [hk.2.2.2]; rfl
  have hresp : (s.modifyCmd CmdRef.kill_switch_update_command
      fun c => { c with response := rx }).kill_switch_update_command.response = rx := rfl
  have h := actuator_command_done_kill_switch_ok I
    (s.modifyCmd CmdRef.kill_switch_update_command fun c => { c with response := rx }) hw2
    (by rw [hbytes, hresp]; exact hrx.1) (by rw [hresp]; exact hrx.2)
  have hn : (s.modifyCmd CmdRef.kill_switch_update_command
      fun c => { c with response := rx }).vars.kill_switch_needs_refresh
      = s.vars.kill_switch_needs_refresh := rfl
  have htr : (s.modifyCmd CmdRef.kill_switch_update_command
      fun c => { c with response := rx }).vars.i2c_trace = s.vars.i2c_trace := rfl
  have hunf : transfer_completed I CmdRef.kill_switch_update_command rx s
      = actuator_command_done I
          (s.modifyCmd CmdRef.kill_switch_update_command
            fun c => { c with response := rx }).kill_switch_update_command.i2c_request
          (s.modifyCmd CmdRef.kill_switch_update_command
            fun c => { c with response := rx }) := rfl
  rw [hunf]
  cases hb : s.vars.kill_switch_needs_refresh with
  | true =>
    obtain ⟨-, h2, h3, -, ⟨t, h5, h6, -⟩, -⟩ := h.1 (hn.trans hb) hsafe
    refine ⟨h2, h3, ?_⟩
    rw [kill_switch_transfers_append _ _ t h5, h6]
    simp only [if_true]
    rw [kill_switch_transfers_of_trace s _ htr]
  | false =>
    obtain ⟨-, h2, h3, -, h5⟩ := h.2 (hn.trans hb)
    refine ⟨h5, h2, ?_⟩
    rw [kill_switch_transfers_of_trace _ _ h3, kill_switch_transfers_of_trace s _ htr]
    simp

/-- The coalescing scenario, counted. -/
theorem coalescing_scenario_count (I : Interface) (s : State)
    (window : List WindowEvent) (rx1 rx2 : actuator_i2c_response_t)
    (hinit : s.vars.actuator_initialized = true) (hsafe : s.vars.safety_initialized = true)
    (hw : s.wired I)
    (hfree : s.kill_switch_update_command.in_use = false)
    (h1 : kill_switch_response_ok I rx1) (h2 : kill_switch_response_ok I rx2) :
    (coalescing_scenario I window rx1 rx2 s).kill_switch_update_command.in_use = false
      ∧ kill_switch_transfers (coalescing_scenario I window rx1 rx2 s)
          = kill_switch_transfers s + if WindowEvent.refresh ∈ window then 2 else 1 := by
  have he : actuator_kill_report_refresh I s = kill_switch_send I s := by
    simp [actuator_kill_report_refresh, hinit, hfree]
  have r1 : (actuator_kill_report_refresh I s).vars.kill_switch_needs_refresh = false := by
    rw [he, kill_switch_send_vars I s hsafe]
  have r2 : (actuator_kill_report_refresh I s).kill_switch_update_command.in_use = true := by
    rw [he, kill_switch_send_slot I s hsafe]
  have hs1 : (actuator_kill_report_refresh I s).vars.safety_initialized = true := by
    rw [safety_initialized_of_config _ _ (actuator_kill_report_refresh_config I s)]
    exact hsafe
  obtain ⟨t, r3, r4, -⟩ := kill_switch_send_transfer I s hsafe
  rw [← he] at r3
  have hw1 : (actuator_kill_report_refresh I s).wired I :=
    State.wired_of_wiring I s _ (actuator_kill_report_refresh_wiring I s _)
      (actuator_kill_report_refresh_wiring I s _) hw
  have hi1 : (actuator_kill_report_refresh I s).vars.actuator_initialized = true := by
    rw [initialized_of_config _ _ (actuator_kill_report_refresh_config I s)]; exact hinit
  have hc1 : kill_switch_transfers (actuator_kill_report_refresh I s)
      = kill_switch_transfers s + 1 := by
    rw [kill_switch_transfers_append _ _ t r3, r4]; rfl
  obtain ⟨w1, ws, w2, w3, w4⟩ := window_busy I window _ hw1 hi1 r2
  rw [r1, Bool.false_or] at w4
  rw [hs1] at ws
  obtain ⟨c1, c2, c3, c4⟩ := transfer_completed_kill_switch I rx1 _ w1 ws h1
  have cs : (transfer_completed I CmdRef.kill_switch_update_command rx1
      (window.foldl (fun s e => e.apply I s)
        (actuator_kill_report_refresh I s))).vars.safety_initialized = true := by
    rw [transfer_completed_safety_initialized]; exact ws
  rw [w4] at c3 c4
  rw [w3, hc1] at c4
  unfold coalescing_scenario
  simp only []
  by_cases hr : WindowEvent.refresh ∈ window
  · simp only [hr, decide_True, if_true] at c3 c4 ⊢
    rw [if_pos c3]
    obtain ⟨-, -, d3, d4⟩ := transfer_completed_kill_switch I rx2 _ c1 cs h2
    rw [c2] at d3 d4
    refine ⟨d3, ?_⟩
    rw [d4, c4]
    simp
  · simp only [hr, decide_False, if_false] at c3 c4 ⊢
    rw [if_neg (by rw [c3]; simp)]
    exact ⟨c3, by simpa using c4⟩

/-- C23. Kill-switch coalescing: with the actuator interface and safety
initialised and starting with the kill-switch slot free, one
refresh request (which starts a transfer) followed by any window of further
refresh requests and status responses before that transfer completes, with
every kill-switch transfer then completing successfully, ends with the slot
released after exactly 1 kill-switch transfer when the window holds no
refresh request and exactly 2 when it holds one or more; so at most 2,
whatever the number of requests. -/
theorem kill_switch_coalescing (I : Interface) (s : State) (window : List WindowEvent)
    (rx1 rx2 : actuator_i2c_response_t)
    (hinit : s.vars.actuator_initialized = true) (hsafe : s.vars.safety_initialized = true)
    (hw : s.wired I)
    (hfree : s.kill_switch_update_command.in_use = false)
    (h1 : kill_switch_response_ok I rx1) (h2 : kill_switch_response_ok I rx2) :
    (coalescing_scenario I window rx1 rx2 s).kill_switch_update_command.in_use = false
      ∧ kill_switch_transfers (coalescing_scenario I window rx1 rx2 s)
          = kill_switch_transfers s + (if WindowEvent.refresh ∈ window then 2 else 1)
      ∧ kill_switch_transfers (coalescing_scenario I window rx1 rx2 s)
          ≤ kill_switch_transfers s + 2 := by
  obtain ⟨ha, hb⟩ :=
    coalescing_scenario_count I s window rx1 rx2 hinit hsafe hw hfree h1 h2
  refine ⟨ha, hb, ?_⟩
  rw [hb]
  split <;> omega

/-! ## Sending a command -/

/-- For a populated slot `actuator_send_command` stores in the checksum byte
of the outbound frame the checksum that the interface computes over the frame
and its length, changes nothing else in the slot but the in-progress flag,
touches no other slot, and enqueues exactly one transfer, of the slot's
embedded request. -/
theorem actuator_send_command_stores (I : Interface) (cmd : CmdRef) (s : State)
    (hvalid : s.validRef cmd) :
    (actuator_send_command I cmd s).cmd cmd =
        { (s.cmd cmd) with
          request :=
            { (s.cmd cmd).request with
              crc8 := I.actuator_i2c_crc8_calc_command (s.cmd cmd).request
                (s.cmd cmd).i2c_request.bytes_to_send % 256 }
          i2c_in_progress := true }
      ∧ (∀ r : CmdRef, r ≠ cmd → (actuator_send_command I cmd s).cmd r = s.cmd r)
      ∧ (actuator_send_command I cmd s).vars =
          { s.vars with
            i2c_queue := s.vars.i2c_queue ++ [cmd]
            i2c_trace := s.vars.i2c_trace ++
              [⟨cmd, (s.cmd cmd).i2c_request,
                { (s.cmd cmd).request with
                  crc8 := I.actuator_i2c_crc8_calc_command (s.cmd cmd).request
                    (s.cmd cmd).i2c_request.bytes_to_send % 256 }⟩] } := by
  have h1 := actuator_send_command_cmd I cmd s hvalid
  refine ⟨h1, fun r hr => actuator_send_command_cmd_ne I cmd r s hr, ?_⟩
  rw [actuator_send_command_vars, h1]

/-! ## The public command functions -/

theorem generate_scan_valid (l : List Nat) (acc : Option CmdRef × State) (c : CmdRef)
    (h : (l.foldl generate_scan_step acc).1 = some c) :
    acc.1 = some c ∨ ∃ j ∈ l, c = CmdRef.allocated j := by
  induction l generalizing acc with
  | nil => exact Or.inl h
  | cons i l ih =>
    rw [List.foldl_cons] at h
    rcases ih _ h with h1 | ⟨j, hj, hc⟩
    · unfold generate_scan_step at h1
      split at h1
      · exact Or.inr ⟨i, List.mem_cons_self _ _, (Option.some.inj h1).symm⟩
      · exact Or.inl h1
    · exact Or.inr ⟨j, List.mem_cons_of_mem _ hj, hc⟩

/-- The slot `actuator_generate_command` returns exists, is a pool slot and is
populated for the command, marked important. -/
theorem actuator_generate_command_some (I : Interface) (heap : actuator_cmd_data_t)
    (cmd_id : actuator_command) (cb : Option actuator_cmd_response_cb_t) (s : State)
    (cmd : CmdRef) (h : (actuator_generate_command I heap cmd_id cb s).1 = some cmd) :
    (∃ j, cmd = CmdRef.allocated j)
      ∧ (actuator_generate_command I heap cmd_id cb s).2.validRef cmd
      ∧ ((actuator_generate_command I heap cmd_id cb s).2.cmd cmd).wiring
          = (cmd_id, cb, true, populated_request I cmd cmd_id) := by
  refine ⟨actuator_generate_command_allocated I heap cmd_id cb s cmd h, ?_⟩
  rw [actuator_generate_command_eq] at h ⊢
  cases hr : ((List.range s.num_allocated_commands).foldl generate_scan_step (none, s)).1 with
  | some c =>
    rw [hr] at h
    have hc : c = cmd := Option.some.inj h
    subst hc
    simp only []
    have hv : ((List.range s.num_allocated_commands).foldl generate_scan_step
        (none, s)).2.validRef c := by
      rcases generate_scan_valid _ _ c hr with h0 | ⟨j, hj, rfl⟩
      · cases h0
      · show j < _
        rw [generate_scan_length]
        exact List.mem_range.mp hj
    exact ⟨(validRef_of_length (actuator_populate_command_length ..) c).mpr hv,
      actuator_populate_command_wiring I c cmd_id cb true _ hv⟩
  | none =>
    rw [hr] at h
    by_cases hlt : s.allocated_commands.length < ACTUATOR_MAX_COMMANDS
    · simp only [hlt, if_true] at h ⊢
      have hc : CmdRef.allocated s.allocated_commands.length = cmd := Option.some.inj h
      subst hc
      have hv : ({ ((List.range s.num_allocated_commands).foldl generate_scan_step
          (none, s)).2 with
          allocated_commands :=
            ((List.range s.num_allocated_commands).foldl generate_scan_step
              (none, s)).2.allocated_commands ++ [{ heap with in_use := true }] }
          : State).validRef (CmdRef.allocated s.allocated_commands.length) := by
        show _ < _
        simp [generate_scan_length]
      exact ⟨(validRef_of_length (actuator_populate_command_length ..) _).mpr hv,
        actuator_populate_command_wiring I _ cmd_id cb true _ hv⟩
    · simp [hlt] at h

/-- The one transfer that `actuator_send_command` enqueues, with its frame. -/
theorem actuator_send_command_frame (I : Interface) (cmd : CmdRef) (s : State)
    (h : s.validRef cmd) :
    ∃ t : Transfer,
      (actuator_send_command I cmd s).vars.i2c_trace = s.vars.i2c_trace ++ [t]
        ∧ t.cmd = cmd ∧ t.frame.cmd_id = (s.cmd cmd).request.cmd_id
        ∧ t.frame.data = (s.cmd cmd).request.data := by
  refine ⟨⟨cmd, ((actuator_send_command I cmd s).cmd cmd).i2c_request,
    ((actuator_send_command I cmd s).cmd cmd).request⟩, ?_, rfl, ?_, ?_⟩
  · rw [actuator_send_command_vars]
  · simp only []
    rw [actuator_send_command_cmd _ _ _ h]
  · simp only []
    rw [actuator_send_command_cmd _ _ _ h]

/-- What a public command function does when the pool is exhausted. -/
theorem public_command_generate_exhausted (I : Interface) (heap : actuator_cmd_data_t)
    (cmd_id : actuator_command) (cb : Option actuator_cmd_response_cb_t)
    (fill : cmd_payload → cmd_payload) (s : State) (h : s.pool_exhausted) :
    public_command I (actuator_generate_command I heap cmd_id cb s) fill
      = safety_raise_fault I.FAULT_ACTUATOR_FAIL
          { s with vars.log := s.vars.log ++ [LogMsg.error_create_request] } := by
  rw [actuator_generate_command_exhausted I heap cmd_id cb s h.1 h.2]
  rfl

/-- What a public command function does when a slot is to be had. -/
theorem public_command_generate_sent (I : Interface) (heap : actuator_cmd_data_t)
    (cmd_id : actuator_command) (cb : Option actuator_cmd_response_cb_t)
    (fill : cmd_payload → cmd_payload) (s : State) (h : ¬ s.pool_exhausted) :
    ∃ (j : Nat) (t : Transfer) (d : cmd_payload),
      (public_command I (actuator_generate_command I heap cmd_id cb s) fill).vars.i2c_trace
          = s.vars.i2c_trace ++ [t]
        ∧ (public_command I (actuator_generate_command I heap cmd_id cb s) fill).vars.i2c_queue
          = s.vars.i2c_queue ++ [CmdRef.allocated j]
        ∧ t.cmd = CmdRef.allocated j
        ∧ ((public_command I (actuator_generate_command I heap cmd_id cb s) fill).cmd
            (CmdRef.allocated j)).important_request = true
        ∧ t.frame.cmd_id = cmd_id
        ∧ t.frame.data = fill d := by
  cases hg : (actuator_generate_command I heap cmd_id cb s).1 with
  | none => exact absurd (actuator_generate_command_none I heap cmd_id cb s hg) h
  | some cmd =>
    obtain ⟨⟨j, hj⟩, hv, hwir⟩ := actuator_generate_command_some I heap cmd_id cb s cmd hg
    have hvars := actuator_generate_command_vars I heap cmd_id cb s
    simp only [actuator_cmd_data_t.wiring, Prod.mk.injEq] at hwir
    subst hj
    unfold public_command
    rw [hg]
    simp only []
    have hv2 : ((actuator_generate_command I heap cmd_id cb s).2.modifyCmd
        (CmdRef.allocated j) fun c =>
          { c with request := { c.request with data := fill c.request.data } }).validRef
        (CmdRef.allocated j) := (validRef_modifyCmd _ _ _ _).mpr hv
    have hslot := actuator_send_command_cmd I (CmdRef.allocated j) _ hv2
    obtain ⟨t, h1, h2, h3, h4⟩ := actuator_send_command_frame I (CmdRef.allocated j) _ hv2
    rw [cmd_modifyCmd_same _ _ _ hv] at hslot h3 h4
    refine ⟨j, t, ((actuator_generate_command I heap cmd_id cb s).2.cmd
        (CmdRef.allocated j)).request.data, ?_, ?_, h2, ?_, ?_, h4⟩
    · rw [h1, modifyCmd_vars, hvars]
    · rw [actuator_send_command_vars, modifyCmd_vars, hvars]
    · rw [hslot]; exact hwir.2.2.1
    · rw [h3]; exact hwir.1

/-- The two outcomes of a public command function, for any command id, handler
and payload writer. -/
theorem public_command_generate_outcomes (I : Interface) (heap : actuator_cmd_data_t)
    (cmd_id : actuator_command) (cb : Option actuator_cmd_response_cb_t)
    (fill : cmd_payload → cmd_payload) (P : cmd_payload → Prop) (hP : ∀ d, P (fill d))
    (s : State) (hfail : I.FAULT_ACTUATOR_FAIL < 32) :
    (s.pool_exhausted →
        fault_is_raised I.FAULT_ACTUATOR_FAIL
            (public_command I (actuator_generate_command I heap cmd_id cb s) fill) = true
          ∧ (public_command I (actuator_generate_command I heap cmd_id cb s)
              fill).vars.i2c_trace = s.vars.i2c_trace
          ∧ (public_command I (actuator_generate_command I heap cmd_id cb s)
              fill).vars.i2c_queue = s.vars.i2c_queue
          ∧ (public_command I (actuator_generate_command I heap cmd_id cb s)
              fill).allocated_commands = s.allocated_commands
          ∧ ∀ r : CmdRef,
              (public_command I (actuator_generate_command I heap cmd_id cb s) fill).cmd r
                = s.cmd r)
      ∧ (¬ s.pool_exhausted →
          ∃ (j : Nat) (t : Transfer),
            (public_command I (actuator_generate_command I heap cmd_id cb s)
                fill).vars.i2c_trace = s.vars.i2c_trace ++ [t]
              ∧ (public_command I (actuator_generate_command I heap cmd_id cb s)
                  fill).vars.i2c_queue = s.vars.i2c_queue ++ [CmdRef.allocated j]
              ∧ t.cmd = CmdRef.allocated j
              ∧ ((public_command I (actuator_generate_command I heap cmd_id cb s) fill).cmd
                  (CmdRef.allocated j)).important_request = true
              ∧ t.frame.cmd_id = cmd_id
              ∧ P t.frame.data) := by
  constructor
  · intro hex
    rw [public_command_generate_exhausted I heap cmd_id cb fill s hex]
    have hs := safety_raise_fault_slots I.FAULT_ACTUATOR_FAIL
      { s with vars.log := s.vars.log ++ [LogMsg.error_create_request] }
    exact ⟨fault_is_raised_raise _ _ hfail, hs.2.2.2.2.1, hs.2.2.2.2.2.1, hs.2.2.2.1,
      fun r => (safety_raise_fault_cmd _ _ r).trans (cmd_with_vars _ _ r)⟩
  · intro hne
    obtain ⟨j, t, d, h1, h2, h3, h4, h5, h6⟩ :=
      public_command_generate_sent I heap cmd_id cb fill s hne
    exact ⟨j, t, h1, h2, h3, h4, h5, by rw [h6]; exact hP d⟩

/-- C28. Each public command function (an event with a request): if the slot
pool is exhausted, the call raises `FAULT_ACTUATOR_FAIL`, enqueues nothing and
modifies no slot; otherwise it enqueues exactly one transfer, on a pool slot
that is marked important, whose frame carries the command id of the function
and its arguments as payload. -/
theorem public_command_contract (I : Interface) (e : Event) (s : State)
    (cmd_id : actuator_command) (P : cmd_payload → Prop)
    (he : e.request = some (cmd_id, P)) (hfail : I.FAULT_ACTUATOR_FAIL < 32) :
    (s.pool_exhausted →
        fault_is_raised I.FAULT_ACTUATOR_FAIL (e.apply I s) = true
          ∧ (e.apply I s).vars.i2c_trace = s.vars.i2c_trace
          ∧ (e.apply I s).vars.i2c_queue = s.vars.i2c_queue
          ∧ (e.apply I s).allocated_commands = s.allocated_commands
          ∧ ∀ r : CmdRef, (e.apply I s).cmd r = s.cmd r)
      ∧ (¬ s.pool_exhausted →
          ∃ (j : Nat) (t : Transfer),
            (e.apply I s).vars.i2c_trace = s.vars.i2c_trace ++ [t]
              ∧ (e.apply I s).vars.i2c_queue = s.vars.i2c_queue ++ [CmdRef.allocated j]
              ∧ t.cmd = CmdRef.allocated j
              ∧ ((e.apply I s).cmd (CmdRef.allocated j)).important_request = true
              ∧ t.frame.cmd_id = cmd_id
              ∧ P t.frame.data) := by
  cases e with
  | open_claw heap =>
    obtain ⟨rfl, rfl⟩ := Prod.mk.inj (Option.some.inj he)
    exact public_command_generate_outcomes I heap actuator_command.OPEN_CLAW
      (some actuator_cmd_response_cb_t.actuator_generic_result_cb)
      id
      (fun _ => True)
      (fun _ => trivial) s hfail
  | close_claw heap =>
    obtain ⟨rfl, rfl⟩ := Prod.mk.inj (Option.some.inj he)
    exact public_command_generate_outcomes I heap actuator_command.CLOSE_CLAW
      (some actuator_cmd_response_cb_t.actuator_generic_result_cb)
      id
      (fun _ => True)
      (fun _ => trivial) s hfail
  | set_claw_timings heap o c =>
    obtain ⟨rfl, rfl⟩ := Prod.mk.inj (Option.some.inj he)
    exact public_command_generate_outcomes I heap actuator_command.CLAW_TIMING
      (some actuator_cmd_response_cb_t.actuator_generic_result_cb)
      (fun d =>
        { d with
          claw_timing_open_time_ms := o % 65536
          claw_timing_close_time_ms := c % 65536 })
      (fun d =>
        d.claw_timing_open_time_ms = o % 65536 ∧ d.claw_timing_close_time_ms = c % 65536)
      (fun _ => ⟨rfl, rfl⟩) s hfail
  | arm_torpedo heap =>
    obtain ⟨rfl, rfl⟩ := Prod.mk.inj (Option.some.inj he)
    exact public_command_generate_outcomes I heap actuator_command.ARM_TORPEDO
      (some actuator_cmd_response_cb_t.actuator_generic_result_cb)
      id
      (fun _ => True)
      (fun _ => trivial) s hfail
  | disarm_torpedo heap =>
    obtain ⟨rfl, rfl⟩ := Prod.mk.inj (Option.some.inj he)
    exact public_command_generate_outcomes I heap actuator_command.DISARM_TORPEDO
      (some actuator_cmd_response_cb_t.actuator_generic_result_cb)
      id
      (fun _ => True)
      (fun _ => trivial) s hfail
  | fire_torpedo heap n =>
    obtain ⟨rfl, rfl⟩ := Prod.mk.inj (Option.some.inj he)
    exact public_command_generate_outcomes I heap actuator_command.FIRE_TORPEDO
      (some actuator_cmd_response_cb_t.actuator_generic_result_cb)
      (fun d => { d with fire_torpedo_torpedo_num := n % 256 })
      (fun d => d.fire_torpedo_torpedo_num = n % 256)
      (fun _ => rfl) s hfail
  | set_torpedo_timings heap n ty t =>
    obtain ⟨rfl, rfl⟩ := Prod.mk.inj (Option.some.inj he)
    exact public_command_generate_outcomes I heap actuator_command.TORPEDO_TIMING
      (some actuator_cmd_response_cb_t.actuator_generic_result_cb)
      (fun d =>
        { d with
          torpedo_timing_torpedo_num := n % 256
          torpedo_timing_timing_type := ty
          torpedo_timing_time_us := t % 65536 })
      (fun d =>
        d.torpedo_timing_torpedo_num = n % 256 ∧ d.torpedo_timing_timing_type = ty
          ∧ d.torpedo_timing_time_us = t % 65536)
      (fun _ => ⟨rfl, rfl, rfl⟩) s hfail
  | drop_marker heap n =>
    obtain ⟨rfl, rfl⟩ := Prod.mk.inj (Option.some.inj he)
    exact public_command_generate_outcomes I heap actuator_command.DROP_MARKER
      (some actuator_cmd_response_cb_t.actuator_generic_result_cb)
      (fun d => { d with drop_marker_dropper_num := n % 256 })
      (fun d => d.drop_marker_dropper_num = n % 256)
      (fun _ => rfl) s hfail
  | clear_dropper_status heap =>
    obtain ⟨rfl, rfl⟩ := Prod.mk.inj (Option.some.inj he)
    exact public_command_generate_outcomes I heap actuator_command.CLEAR_DROPPER_STATUS
      (some actuator_cmd_response_cb_t.actuator_generic_result_cb)
      id
      (fun _ => True)
      (fun _ => trivial) s hfail
  | set_dropper_timings heap t =>
    obtain ⟨rfl, rfl⟩ := Prod.mk.inj (Option.some.inj he)
    exact public_command_generate_outcomes I heap actuator_command.DROPPER_TIMING
      (some actuator_cmd_response_cb_t.actuator_generic_result_cb)
      (fun d => { d with dropper_timing_active_time_ms := t % 65536 })
      (fun d => d.dropper_timing_active_time_ms = t % 65536)
      (fun _ => rfl) s hfail
  | reset_actuators heap =>
    obtain ⟨rfl, rfl⟩ := Prod.mk.inj (Option.some.inj he)
    exact public_command_generate_outcomes I heap actuator_command.RESET_ACTUATORS
      none
      id
      (fun _ => True)
      (fun _ => trivial) s hfail
  | actuator_init => cases he
  | safety_init => cases he
  | clock dt => cases he
  | kill_state b => cases he
  | raise_fault fault_id => cases he
  | lower_fault fault_id => cases he
  | parameter_change param => cases he
  | poll_alarm => cases he
  | kill_report_refresh => cases he
  | transfer_done rx => cases he
  | transfer_failed abort_data => cases he

/-! ## Results reported by the device -/

/-- C29 (as stated, refuted). The pool slot of `example_claw_sent` is
important and dispatches through `actuator_generic_result_cb`; its response
`example_rx_result2` is checksum-valid and carries a result code that is not
the successful one; the handler is invoked and the fault is not raised. -/
theorem unknown_result_code_raises_nothing :
    (example_claw_sent.cmd (CmdRef.allocated 0)).important_request = true
      ∧ (example_claw_sent.cmd (CmdRef.allocated 0)).response_cb
          = some actuator_cmd_response_cb_t.actuator_generic_result_cb
      ∧ example_rx_result2.result ≠ example_interface.ACTUATOR_RESULT_SUCCESSFUL
      ∧ example_interface.actuator_i2c_crc8_calc_response example_rx_result2
            (example_claw_sent.cmd (CmdRef.allocated 0)).i2c_request.bytes_to_receive % 256
          = example_rx_result2.crc8
      ∧ (transfer_completed example_interface (CmdRef.allocated 0) example_rx_result2
          example_claw_sent).vars.cb_trace
          = example_claw_sent.vars.cb_trace
            ++ [(actuator_cmd_response_cb_t.actuator_generic_result_cb, CmdRef.allocated 0)]
      ∧ fault_is_raised example_interface.FAULT_ACTUATOR_FAIL
          (transfer_completed example_interface (CmdRef.allocated 0) example_rx_result2
            example_claw_sent) = false := by
  decide

/-- C29 (amended). The handler `actuator_generic_result_cb` always returns
false (so the completion handler releases the slot). A result code equal to
`ACTUATOR_RESULT_FAILED` raises `FAULT_ACTUATOR_FAIL` when the slot is
important and leaves the fault list unchanged when it is not; any other result
code, successful or not, changes nothing. -/
theorem actuator_generic_result_cb_escalates (I : Interface) (cmd : CmdRef) (s : State)
    (hfail : I.FAULT_ACTUATOR_FAIL < 32) :
    (actuator_generic_result_cb I cmd s).1 = false
      ∧ ((s.cmd cmd).response.result = I.ACTUATOR_RESULT_FAILED →
          (s.cmd cmd).important_request = true →
          fault_is_raised I.FAULT_ACTUATOR_FAIL (actuator_generic_result_cb I cmd s).2 = true)
      ∧ ((s.cmd cmd).response.result = I.ACTUATOR_RESULT_FAILED →
          (s.cmd cmd).important_request = false →
          (actuator_generic_result_cb I cmd s).2.vars.fault_list = s.vars.fault_list
            ∧ (actuator_generic_result_cb I cmd s).2.vars.fault_led = s.vars.fault_led)
      ∧ ((s.cmd cmd).response.result ≠ I.ACTUATOR_RESULT_FAILED →
          (actuator_generic_result_cb I cmd s).2 = s)
      ∧ (actuator_generic_result_cb I cmd s).2.vars.i2c_trace = s.vars.i2c_trace
      ∧ ∀ req : async_i2c_request, req.user_data = some cmd → s.validRef cmd →
          ((s.cmd cmd).i2c_request.bytes_to_receive = 0 ∨
            I.actuator_i2c_crc8_calc_response (s.cmd cmd).response
              (s.cmd cmd).i2c_request.bytes_to_receive % 256 = (s.cmd cmd).response.crc8) →
          (s.cmd cmd).response_cb
            = some actuator_cmd_response_cb_t.actuator_generic_result_cb →
          ((actuator_command_done I req s).cmd cmd).in_use = false := by
  have hret : ∀ t : State, (actuator_generic_result_cb I cmd t).1 = false := by
    intro t
    simp only [actuator_generic_result_cb]
    split_ifs <;> rfl
  refine ⟨hret s, ?_, ?_, ?_, ?_, ?_⟩
  · intro hr hi
    simp only [actuator_generic_result_cb, hr, hi, if_true]
    exact fault_is_raised_raise _ _ hfail
  · intro hr hi
    simp only [actuator_generic_result_cb, hr, hi, if_true]
    exact ⟨rfl, rfl⟩
  · intro hr
    simp only [actuator_generic_result_cb, hr, if_false]
  · simp only [actuator_generic_result_cb]
    split_ifs
    · exact safety_raise_fault_i2c_trace _ _
    · rfl
    · rfl
  · intro req hreq hvalid hok hcb
    exact (actuator_command_done_released I req cmd s _ hreq hvalid hok hcb
      (by simp only [call_response_cb]; exact hret _)).1

/-! ## The timing cache -/

/-- C30. The timing cache is mutated only by configuration changes: the
resolver (entered either way), the completion and failure handlers, the four
response handlers, the poll alarm, the kill-switch refresh and every event
other than a parameter change leave every cache entry as it is, and no event
(parameter changes included) ever clears a configured flag, over any
execution. -/
theorem timing_cache_frame (I : Interface) :
    (∀ (cmd : CmdRef) (s : State),
        (actuator_update_missing_timings_common I cmd s).2.vars.timing_cache
          = s.vars.timing_cache)
      ∧ (∀ s : State,
          (actuator_update_missing_timings I s).vars.timing_cache = s.vars.timing_cache)
      ∧ (∀ (req : async_i2c_request) (s : State),
          (actuator_command_done I req s).vars.timing_cache = s.vars.timing_cache)
      ∧ (∀ (req : async_i2c_request) (abort_data : Nat) (s : State),
          (actuator_command_failed I req abort_data s).vars.timing_cache
            = s.vars.timing_cache)
      ∧ (∀ (cmd : CmdRef) (s : State),
          (actuator_status_callback I cmd s).2.vars.timing_cache = s.vars.timing_cache)
      ∧ (∀ (cmd : CmdRef) (s : State),
          (actuator_kill_switch_update_callback I cmd s).2.vars.timing_cache
            = s.vars.timing_cache)
      ∧ (∀ (cmd : CmdRef) (s : State),
          (actuator_set_timing_general_cb I cmd s).2.vars.timing_cache = s.vars.timing_cache)
      ∧ (∀ (cmd : CmdRef) (s : State),
          (actuator_generic_result_cb I cmd s).2.vars.timing_cache = s.vars.timing_cache)
      ∧ (∀ s : State,
          (actuator_poll_alarm_callback I s).2.vars.timing_cache = s.vars.timing_cache)
      ∧ (∀ s : State,
          (actuator_kill_report_refresh I s).vars.timing_cache = s.vars.timing_cache)
      ∧ (∀ (evs : List Event) (s : State),
          (∀ e ∈ evs, ∀ param, e ≠ Event.parameter_change param) →
          (run I evs s).vars.timing_cache = s.vars.timing_cache)
      ∧ (∀ (evs : List Event) (s : State) (cat : Category),
          (cat.entry s.vars).set = true → (cat.entry (run I evs s).vars).set = true) :=
  ⟨fun cmd s => timing_cache_of_config _ _ (resolver_config I cmd s),
    fun s => timing_cache_of_config _ _ (actuator_update_missing_timings_config I s),
    fun req s => timing_cache_of_config _ _ (actuator_command_done_config I req s),
    fun req a s => timing_cache_of_config _ _ (actuator_command_failed_config I req a s),
    fun cmd s => timing_cache_of_config _ _ (actuator_status_callback_config I cmd s),
    fun cmd s =>
      timing_cache_of_config _ _ (actuator_kill_switch_update_callback_config I cmd s),
    fun cmd s => timing_cache_of_config _ _ (actuator_set_timing_general_cb_config I cmd s),
    fun cmd s => timing_cache_of_config _ _ (actuator_generic_result_cb_config I cmd s),
    fun s => timing_cache_of_config _ _ (actuator_poll_alarm_callback_config I s),
    fun s => timing_cache_of_config _ _ (actuator_kill_report_refresh_config I s),
    fun evs s he => run_timing_cache I evs s he,
    fun evs s cat h => run_set I evs s cat h⟩

/-! ## Witnesses for the kill-switch, parameter and command theorems -/

/-- Witness for C21: the first refresh request after `actuator_init` and
`safety_init`. -/
theorem actuator_kill_report_refresh_contract_witness :
    example_safety_booted.vars.actuator_initialized = true
      ∧ example_safety_booted.kill_switch_update_command.in_use = false
      ∧ example_safety_booted.vars.safety_initialized = true
      ∧ (actuator_kill_report_refresh example_interface
          example_safety_booted).kill_switch_update_command.in_use = true :=
  ⟨by decide, by decide, by decide,
    ((actuator_kill_report_refresh_contract example_interface example_safety_booted
      (fun hi => Reachable.wired example_interface example_safety_booted
        ⟨0, 0, false, [Event.actuator_init, Event.safety_init], rfl⟩ hi)).2.2.1
      (by decide) (by decide) (by decide)).2.1⟩

/-- Witness for C22: a kill-switch response arrives while a second refresh
request is pending. -/
theorem kill_switch_response_refreshes_witness :
    example_kill_answered.vars.kill_switch_needs_refresh = true
      ∧ example_kill_answered.vars.safety_initialized = true
      ∧ (actuator_command_done example_interface
          example_kill_answered.kill_switch_update_command.i2c_request
          example_kill_answered).kill_switch_update_command.in_use = true :=
  ⟨by decide, by decide,
    ((kill_switch_response_refreshes example_interface example_kill_answered (by decide)
      (by decide) (by decide)).1 (by decide) (by decide)).2.2.1⟩

/-- Witness for C23: after `actuator_init` and `safety_init`, two refresh
requests and a status response arrive while the first kill-switch transfer is
in flight. -/
theorem kill_switch_coalescing_witness :
    example_safety_booted.vars.safety_initialized = true
      ∧ kill_switch_transfers
          (coalescing_scenario example_interface
            [WindowEvent.refresh, WindowEvent.status_response example_rx_status,
              WindowEvent.refresh]
            example_rx_ok example_rx_ok example_safety_booted)
        ≤ kill_switch_transfers example_safety_booted + 2 :=
  ⟨by decide,
    (kill_switch_coalescing example_interface example_safety_booted
      [WindowEvent.refresh, WindowEvent.status_response example_rx_status,
        WindowEvent.refresh]
      example_rx_ok example_rx_ok (by decide) (by decide) (by decide) (by decide) (by decide)
      (by decide)).2.2⟩

/-- Witness for C24: the kill-switch transfer fails on the bus with abort code
7 while a second refresh request is pending. -/
theorem kill_switch_failure_escalates_witness :
    example_kill_answered.vars.kill_switch_needs_refresh = true
      ∧ (actuator_command_failed example_interface
          example_kill_answered.kill_switch_update_command.i2c_request 7
          example_kill_answered).kill_switch_update_command.in_use = false
      ∧ fault_is_raised example_interface.FAULT_ACTUATOR_FAIL
          (actuator_command_failed example_interface
            example_kill_answered.kill_switch_update_command.i2c_request 7
            example_kill_answered) = true :=
  have h := (kill_switch_failure_escalates example_interface example_kill_answered
    (by decide) (by decide)).1 7
  ⟨by decide, h.1, h.2.1⟩

/-- Witness for C26: the dropper timing is set to 250 after `actuator_init`. -/
theorem actuator_handle_parameter_change_stores_witness :
    ((Category.dropper.entry
        (actuator_handle_parameter_change example_interface
          { name := "dropper_active_timing_ms", value_type := rclc_parameter_type.INT,
            integer_value := 250 } example_booted).2.vars).timing : Int) = 250 :=
  (actuator_handle_parameter_change_stores example_interface
    { name := "dropper_active_timing_ms", value_type := rclc_parameter_type.INT,
      integer_value := 250 } example_booted Category.dropper (by decide) (by decide)
    (by decide) (by decide)).2.2.1

/-- Witness for C28: the first open-claw request after `actuator_init`. -/
theorem public_command_contract_witness :
    ¬ example_booted.pool_exhausted
      ∧ ∃ (j : Nat) (t : Transfer),
          ((Event.open_claw default).apply example_interface example_booted).vars.i2c_trace
              = example_booted.vars.i2c_trace ++ [t]
            ∧ ((Event.open_claw default).apply example_interface example_booted).vars.i2c_queue
              = example_booted.vars.i2c_queue ++ [CmdRef.allocated j]
            ∧ t.cmd = CmdRef.allocated j
            ∧ (((Event.open_claw default).apply example_interface example_booted).cmd
                (CmdRef.allocated j)).important_request = true
            ∧ t.frame.cmd_id = actuator_command.OPEN_CLAW
            ∧ True :=
  ⟨by decide,
    (public_command_contract example_interface (Event.open_claw default) example_booted
      actuator_command.OPEN_CLAW (fun _ => True) rfl (by decide)).2 (by decide)⟩

/-- Witness for C29: the open-claw command is answered with the failed result
code. -/
theorem actuator_generic_result_cb_escalates_witness :
    (example_claw_failed.cmd (CmdRef.allocated 0)).response.result
        = example_interface.ACTUATOR_RESULT_FAILED
      ∧ (example_claw_failed.cmd (CmdRef.allocated 0)).important_request = true
      ∧ fault_is_raised example_interface.FAULT_ACTUATOR_FAIL
          (actuator_generic_result_cb example_interface (CmdRef.allocated 0)
            example_claw_failed).2 = true :=
  ⟨by decide, by decide,
    (actuator_generic_result_cb_escalates example_interface (CmdRef.allocated 0)
      example_claw_failed (by decide)).2.1 (by decide) (by decide)⟩

/-! ## The fault list as a set of bits -/

theorem safety_raise_fault_idem (fault_id : Nat) (s : State) (h : fault_id < 32) :
    safety_raise_fault fault_id (safety_raise_fault fault_id s)
      = safety_raise_fault fault_id s := by
  have hr := fault_is_raised_raise fault_id s h
  unfold fault_is_raised at hr
  have hne : ¬ (safety_raise_fault fault_id s).vars.fault_list
      &&& ((1 <<< fault_id) % 2 ^ 32) = 0 := bne_iff_ne.mp hr
  generalize safety_raise_fault fault_id s = t at hne
  unfold safety_raise_fault
  rw [if_neg hne]

theorem safety_lower_fault_idem (fault_id : Nat) (s : State) (h : fault_id < 32) :
    safety_lower_fault fault_id (safety_lower_fault fault_id s)
      = safety_lower_fault fault_id s := by
  have hr := fault_is_raised_lower fault_id s h
  unfold fault_is_raised at hr
  have hz : ¬ (safety_lower_fault fault_id s).vars.fault_list
      &&& ((1 <<< fault_id) % 2 ^ 32) ≠ 0 := by
    intro hne
    have := bne_iff_ne.mpr hne
    rw [hr] at this
    exact Bool.false_ne_true this
  generalize safety_lower_fault fault_id s = t at hz
  unfold safety_lower_fault
  rw [if_neg hz]

theorem safety_raise_fault_lt (fault_id : Nat) (s : State) (h : s.vars.fault_list < 2 ^ 32) :
    (safety_raise_fault fault_id s).vars.fault_list < 2 ^ 32 := by
  rw [safety_raise_fault_fault_list]
  split
  · exact Nat.mod_lt _ (by decide)
  · exact h

theorem safety_lower_fault_lt (fault_id : Nat) (s : State) (h : s.vars.fault_list < 2 ^ 32) :
    (safety_lower_fault fault_id s).vars.fault_list < 2 ^ 32 := by
  rw [safety_lower_fault_fault_list]
  split
  · exact lt_of_le_of_lt Nat.and_le_left h
  · exact h

theorem testBit_of_lt_two_pow_32 (n a : Nat) (h : n < 2 ^ 32) (ha : 32 ≤ a) :
    n.testBit a = false :=
  Nat.testBit_eq_false_of_lt (lt_of_lt_of_le h (Nat.pow_le_pow_right (by decide) ha))

theorem safety_raise_fault_testBit_ne (a b : Nat) (s : State) (hb : b < 32)
    (hfl : s.vars.fault_list < 2 ^ 32) (hne : a ≠ b) :
    (safety_raise_fault b s).vars.fault_list.testBit a = s.vars.fault_list.testBit a := by
  by_cases ha : a < 32
  · rw [safety_raise_fault_testBit a b s ha hb]
    simp [Ne.symm hne]
  · rw [testBit_of_lt_two_pow_32 _ a (safety_raise_fault_lt b s hfl) (by omega),
      testBit_of_lt_two_pow_32 _ a hfl (by omega)]

theorem safety_lower_fault_testBit_ne (a b : Nat) (s : State) (hb : b < 32)
    (hfl : s.vars.fault_list < 2 ^ 32) (hne : a ≠ b) :
    (safety_lower_fault b s).vars.fault_list.testBit a = s.vars.fault_list.testBit a := by
  by_cases ha : a < 32
  · rw [safety_lower_fault_testBit a b s ha hb]
    simp [Ne.symm hne]
  · rw [testBit_of_lt_two_pow_32 _ a (safety_lower_fault_lt b s hfl) (by omega),
      testBit_of_lt_two_pow_32 _ a hfl (by omega)]

theorem FaultCall.apply_testBit (c : FaultCall) (a : Nat) (s : State) (ha : a < 32)
    (hc : c.fault_id < 32) (hne : c.fault_id ≠ a) :
    (c.apply s).vars.fault_list.testBit a = s.vars.fault_list.testBit a := by
  cases c with
  | raise b =>
    show (safety_raise_fault b s).vars.fault_list.testBit a = _
    rw [safety_raise_fault_testBit a b s ha hc]
    simp [show ¬ b = a from hne]
  | lower b =>
    show (safety_lower_fault b s).vars.fault_list.testBit a = _
    rw [safety_lower_fault_testBit a b s ha hc]
    simp [show ¬ b = a from hne]

theorem fault_calls_testBit (calls : List FaultCall) (a : Nat) (ha : a < 32) :
    ∀ s : State, (∀ c ∈ calls, c.fault_id < 32 ∧ c.fault_id ≠ a) →
      (calls.foldl FaultCall.apply s).vars.fault_list.testBit a
        = s.vars.fault_list.testBit a := by
  induction calls with
  | nil => intro s _; rfl
  | cons c rest ih =>
    intro s h
    rw [List.foldl_cons, ih _ (fun c hc => h c (List.mem_cons_of_mem _ hc))]
    exact FaultCall.apply_testBit c a s ha (h c (List.mem_cons_self _ _)).1
      (h c (List.mem_cons_self _ _)).2

/-- C31. On a 32-bit fault list and for a fault id in range (at most
`MAX_FAULT_ID`, which is a bit position of the register):
`safety_raise_fault` sets bit `fault_id`, leaves every other bit as it was and
is idempotent; `safety_lower_fault` clears bit `fault_id`, leaves every other
bit as it was and is idempotent; and a raised fault stays set under every
sequence of raise / lower calls on other ids in range, until
`safety_lower_fault` is called on its own id, which clears it. -/
theorem fault_list_contract (MAX_FAULT_ID fault_id : Nat) (s : State)
    (hmax : MAX_FAULT_ID < 32) (hid : fault_id ≤ MAX_FAULT_ID)
    (hfl : s.vars.fault_list < 2 ^ 32) :
    ((safety_raise_fault fault_id s).vars.fault_list.testBit fault_id = true
      ∧ (∀ a, a ≠ fault_id →
          (safety_raise_fault fault_id s).vars.fault_list.testBit a
            = s.vars.fault_list.testBit a)
      ∧ safety_raise_fault fault_id (safety_raise_fault fault_id s)
          = safety_raise_fault fault_id s)
    ∧ ((safety_lower_fault fault_id s).vars.fault_list.testBit fault_id = false
      ∧ (∀ a, a ≠ fault_id →
          (safety_lower_fault fault_id s).vars.fault_list.testBit a
            = s.vars.fault_list.testBit a)
      ∧ safety_lower_fault fault_id (safety_lower_fault fault_id s)
          = safety_lower_fault fault_id s)
    ∧ ∀ calls : List FaultCall,
        (∀ c ∈ calls, c.fault_id ≤ MAX_FAULT_ID ∧ c.fault_id ≠ fault_id) →
        (calls.foldl FaultCall.apply (safety_raise_fault fault_id s)).vars.fault_list.testBit
            fault_id = true
          ∧ (safety_lower_fault fault_id
              (calls.foldl FaultCall.apply (safety_raise_fault fault_id s))).vars.fault_list.testBit
                fault_id = false := by
  have h32 : fault_id < 32 := by omega
  have hset : (safety_raise_fault fault_id s).vars.fault_list.testBit fault_id = true := by
    rw [safety_raise_fault_testBit fault_id fault_id s h32 h32]; simp
  refine ⟨⟨hset, fun a ha => safety_raise_fault_testBit_ne a fault_id s h32 hfl ha,
      safety_raise_fault_idem fault_id s h32⟩,
    ⟨?_, fun a ha => safety_lower_fault_testBit_ne a fault_id s h32 hfl ha,
      safety_lower_fault_idem fault_id s h32⟩, ?_⟩
  · rw [safety_lower_fault_testBit fault_id fault_id s h32 h32]; simp
  · intro calls hcalls
    refine ⟨?_, ?_⟩
    · rw [fault_calls_testBit calls fault_id h32 _
        (fun c hc => ⟨by have := (hcalls c hc).1; omega, (hcalls c hc).2⟩)]
      exact hset
    · rw [safety_lower_fault_testBit fault_id fault_id _ h32 h32]; simp

/-! ## The kill switch scan -/

theorem absolute_time_diff_us_neg (t_from t_to : Nat) :
    absolute_time_diff_us t_from t_to < 0 ↔ t_to < t_from := by
  unfold absolute_time_diff_us; omega

/-- On clock readings below 2^63 the 64-bit difference of the SDK is the
difference of the two numbers. -/
theorem absolute_time_diff_us_int64_eq (t_from t_to : Nat) (hf : t_from < 2 ^ 63)
    (ht : t_to < 2 ^ 63) :
    absolute_time_diff_us_int64 t_from t_to = absolute_time_diff_us t_from t_to := by
  unfold absolute_time_diff_us_int64 absolute_time_diff_us
  have e63 : (2 : Nat) ^ 63 = 9223372036854775808 := by norm_num
  have e64 : (2 : Nat) ^ 64 = 18446744073709551616 := by norm_num
  rw [e63] at hf ht
  simp only [e63, e64]
  have hf' : t_from % 18446744073709551616 = t_from := Nat.mod_eq_of_lt (by omega)
  have ht' : t_to % 18446744073709551616 = t_to := Nat.mod_eq_of_lt (by omega)
  rw [hf', ht']
  by_cases hle : t_from ≤ t_to
  · have hd : (t_to + (18446744073709551616 - t_from)) % 18446744073709551616
        = t_to - t_from := by
      have : t_to + (18446744073709551616 - t_from)
          = (t_to - t_from) + 18446744073709551616 := by omega
      rw [this, Nat.add_mod_right]
      exact Nat.mod_eq_of_lt (by omega)
    rw [hd, if_pos (by omega)]
    omega
  · have hd : (t_to + (18446744073709551616 - t_from)) % 18446744073709551616
        = t_to + (18446744073709551616 - t_from) := Nat.mod_eq_of_lt (by omega)
    rw [hd, if_neg (by omega)]
    omega

/-- The wrap of the 64-bit difference: a timeout 2^63 + 100 microseconds
after a clock reading of 0 reads as lying before it. -/
theorem absolute_time_diff_us_int64_wraps :
    absolute_time_diff_us_int64 0 (2 ^ 63 + 100) < 0 := by
  decide

theorem kill_switch_state.kills_iff (now : Nat) (k : kill_switch_state)
    (hnow : now < 2 ^ 63) (hk : k.update_timeout < 2 ^ 63) :
    k.kills now = true ↔ k.triggers now := by
  simp [kill_switch_state.kills, kill_switch_state.triggers,
    absolute_time_diff_us_int64_eq now k.update_timeout hnow hk, absolute_time_diff_us_neg]

theorem kill_switch_scan_fst (now : Nat) (ks : List kill_switch_state) :
    ∀ n, (kill_switch_scan now ks n).1 = true
      ↔ ∃ k ∈ ks, k.enabled = true ∧ k.kills now = true := by
  induction ks with
  | nil => intro n; simp [kill_switch_scan]
  | cons k rest ih =>
    intro n
    simp only [kill_switch_scan]
    by_cases he : k.enabled = true
    · rw [if_pos he]
      by_cases ht : k.kills now = true
      · rw [if_pos ht]
        simp only [true_iff]
        exact ⟨k, List.mem_cons_self _ _, he, ht⟩
      · rw [if_neg ht, ih]
        constructor
        · rintro ⟨k', hk', h⟩
          exact ⟨k', List.mem_cons_of_mem _ hk', h⟩
        · rintro ⟨k', hk', h⟩
          rcases List.mem_cons.mp hk' with rfl | hk'
          · exact absurd h.2 ht
          · exact ⟨k', hk', h⟩
    · rw [if_neg he, ih]
      constructor
      · rintro ⟨k', hk', h⟩
        exact ⟨k', List.mem_cons_of_mem _ hk', h⟩
      · rintro ⟨k', hk', h⟩
        rcases List.mem_cons.mp hk' with rfl | hk'
        · exact absurd h.1 he
        · exact ⟨k', hk', h⟩

theorem kill_switch_scan_snd_ge (now : Nat) (ks : List kill_switch_state) :
    ∀ n, n ≤ (kill_switch_scan now ks n).2 := by
  induction ks with
  | nil => intro n; simp [kill_switch_scan]
  | cons k rest ih =>
    intro n
    simp only [kill_switch_scan]
    split_ifs
    · exact Nat.le_succ n
    · exact le_trans (Nat.le_succ n) (ih (n + 1))
    · exact ih n

theorem kill_switch_scan_snd (now : Nat) (ks : List kill_switch_state) :
    ∀ n, (kill_switch_scan now ks n).2 = n ↔ ∀ k ∈ ks, k.enabled = false := by
  induction ks with
  | nil => intro n; simp [kill_switch_scan]
  | cons k rest ih =>
    intro n
    simp only [kill_switch_scan]
    by_cases he : k.enabled = true
    · rw [if_pos he]
      have hne : ¬ ∀ k' ∈ k :: rest, k'.enabled = false := by
        intro h
        have := h k (List.mem_cons_self _ _)
        rw [he] at this
        exact Bool.noConfusion this
      split_ifs
      · simp only [hne, iff_false]
        show ¬ n + 1 = n
        omega
      · simp only [hne, iff_false]
        have := kill_switch_scan_snd_ge now rest (n + 1)
        omega
    · rw [if_neg he, ih]
      have he' : k.enabled = false := by simpa using he
      constructor
      · intro h k' hk'
        rcases List.mem_cons.mp hk' with rfl | hk'
        · exact he'
        · exact h k' hk'
      · intro h k' hk'
        exact h k' (List.mem_cons_of_mem _ hk')

/-- The value computed by the loop and the test after it, as the code
computes it. -/
theorem kill_switches_asserting_iff_kills (now : Nat) (ks : List kill_switch_state) :
    kill_switches_asserting now ks = true
      ↔ ((∀ k ∈ ks, k.enabled = false) ∨ ∃ k ∈ ks, k.enabled = true ∧ k.kills now = true) := by
  unfold kill_switches_asserting
  simp only
  by_cases h0 : (kill_switch_scan now ks 0).2 = 0
  · rw [if_pos h0]
    simp only [true_iff]
    exact Or.inl ((kill_switch_scan_snd now ks 0).mp h0)
  · rw [if_neg h0, kill_switch_scan_fst]
    constructor
    · exact Or.inr
    · rintro (h | h)
      · exact absurd ((kill_switch_scan_snd now ks 0).mpr h) h0
      · exact h

theorem kill_switches_asserting_iff (now : Nat) (ks : List kill_switch_state)
    (hb : kill_switch_times_bounded now ks) :
    kill_switches_asserting now ks = true ↔ asserting_kill_spec now ks := by
  rw [kill_switches_asserting_iff_kills]
  unfold asserting_kill_spec
  constructor
  · rintro (h | ⟨k, hk, he, ht⟩)
    · exact Or.inl h
    · exact Or.inr ⟨k, hk, he, (kill_switch_state.kills_iff now k hb.1 (hb.2 k hk)).mp ht⟩
  · rintro (h | ⟨k, hk, he, ht⟩)
    · exact Or.inl h
    · exact Or.inr ⟨k, hk, he, (kill_switch_state.kills_iff now k hb.1 (hb.2 k hk)).mpr ht⟩

theorem safety_refresh_kill_switches_last (s : SafetyState) :
    (safety_refresh_kill_switches s).last_state_asserting_kill
      = kill_switches_asserting s.now s.kill_switch_states := by
  simp only [safety_refresh_kill_switches, safety_local_kill_robot]
  split_ifs with h1 h2
  · exact h2.symm
  · rfl
  · simpa using h1

theorem safety_refresh_kill_switches_callbacks (s : SafetyState) :
    (safety_refresh_kill_switches s).callbacks
      = s.callbacks ++ kill_state_callbacks s.last_state_asserting_kill
          (kill_switches_asserting s.now s.kill_switch_states) := by
  simp only [safety_refresh_kill_switches, safety_local_kill_robot, kill_state_callbacks]
  by_cases h1 : s.last_state_asserting_kill = kill_switches_asserting s.now s.kill_switch_states
  · simp [h1]
  · have hb : (s.last_state_asserting_kill
        != kill_switches_asserting s.now s.kill_switch_states) = true := bne_iff_ne.mpr h1
    rw [if_pos hb, if_neg h1]
    split_ifs <;> rfl

/-- C37. For a clock and update timeouts as the timer can give them (below
2^63 microseconds, so that the 64-bit time difference does not wrap): the
value `safety_refresh_kill_switches` computes is true if and only if no kill
switch is enabled, or some enabled switch is asserting kill, or some enabled
switch requires updates and its update timeout lies strictly before the
current time. For every state: the value is true if and only if no kill
switch is enabled or some enabled switch passes the test of the loop body
(asserting kill, or requiring updates with a negative 64-bit difference from
the clock to its timeout); afterwards `last_state_asserting_kill` is that
value; the kill callback is invoked (once) exactly when the value changed to
true, the enable callback (once) exactly when it changed to false, and no
callback when it did not change; the switches and the clock are left as they
were. -/
theorem safety_refresh_kill_switches_contract (s : SafetyState) :
    (kill_switch_times_bounded s.now s.kill_switch_states →
        (kill_switches_asserting s.now s.kill_switch_states = true
          ↔ ((∀ k ∈ s.kill_switch_states, k.enabled = false)
            ∨ ∃ k ∈ s.kill_switch_states, k.enabled = true
                ∧ (k.asserting_kill = true
                  ∨ (k.needs_update = true ∧ k.update_timeout < s.now)))))
      ∧ (kill_switches_asserting s.now s.kill_switch_states = true
          ↔ ((∀ k ∈ s.kill_switch_states, k.enabled = false)
            ∨ ∃ k ∈ s.kill_switch_states, k.enabled = true
                ∧ (k.asserting_kill = true
                  ∨ (k.needs_update = true
                    ∧ absolute_time_diff_us_int64 s.now k.update_timeout < 0))))
      ∧ (safety_refresh_kill_switches s).last_state_asserting_kill
          = kill_switches_asserting s.now s.kill_switch_states
      ∧ (safety_refresh_kill_switches s).callbacks
          = s.callbacks ++
              (if s.last_state_asserting_kill
                  = kill_switches_asserting s.now s.kill_switch_states then []
                else if kill_switches_asserting s.now s.kill_switch_states = true then
                  [SafetyCallback.safety_kill_robot]
                else [SafetyCallback.safety_enable_robot])
      ∧ (safety_refresh_kill_switches s).kill_switch_states = s.kill_switch_states
      ∧ (safety_refresh_kill_switches s).now = s.now := by
  refine ⟨fun hb => kill_switches_asserting_iff s.now s.kill_switch_states hb, ?_,
    safety_refresh_kill_switches_last s, ?_, ?_, ?_⟩
  · rw [kill_switches_asserting_iff_kills]
    simp [kill_switch_state.kills]
  · rw [safety_refresh_kill_switches_callbacks]; rfl
  · simp only [safety_refresh_kill_switches, safety_local_kill_robot]
    split_ifs <;> rfl
  · simp only [safety_refresh_kill_switches, safety_local_kill_robot]
    split_ifs <;> rfl

/-- Witness for C37: of three switches the one that is not enabled is passed
over, the one whose timeout lies ahead does not kill, and the one whose
timeout has passed does: the kill callback is invoked. -/
theorem safety_refresh_kill_switches_contract_witness :
    kill_switch_times_bounded example_safety_state.now example_safety_state.kill_switch_states
      ∧ kill_switches_asserting example_safety_state.now
          example_safety_state.kill_switch_states = true
      ∧ (safety_refresh_kill_switches example_safety_state).callbacks
          = [SafetyCallback.safety_kill_robot] :=
  ⟨by decide,
    ((safety_refresh_kill_switches_contract example_safety_state).1 (by decide)).mpr
      (by decide),
    by decide⟩

/-! ## The lifetime assertion of the kill state query -/

/-- Whether a kill-switch send stops the program at the kill state query. -/
theorem kill_switch_send_assert_failed (I : Interface) (s : State) :
    (kill_switch_send I s).vars.assert_failed
      = (s.vars.assert_failed || !s.vars.safety_initialized) := by
  cases h : s.vars.safety_initialized with
  | false => rw [kill_switch_send_of_not_init I s h]; simp
  | true => rw [kill_switch_send_vars I s h]; simp

theorem actuator_kill_report_refresh_assert_failed (I : Interface) (s : State) :
    (actuator_kill_report_refresh I s).vars.assert_failed
      = (s.vars.assert_failed
          || (s.vars.actuator_initialized && !s.kill_switch_update_command.in_use
                && !s.vars.safety_initialized)) := by
  unfold actuator_kill_report_refresh
  split_ifs with h1 h2
  · have h1' : s.vars.actuator_initialized = false := by simpa using h1
    simp [h1']
  · simp [h2]
  · have h1' : s.vars.actuator_initialized = true := by simpa using h1
    have h2' : s.kill_switch_update_command.in_use = false := by simpa using h2
    rw [kill_switch_send_assert_failed]
    simp [h1', h2']

theorem status_accept_head_assert_failed (I : Interface) (cmd : CmdRef) (s : State) :
    (status_accept_head I cmd s).vars.assert_failed = s.vars.assert_failed := by
  simp only [status_accept_head]
  split_ifs with h1 h2
  · rw [kill_switch_send_assert_failed]
    have : s.vars.safety_initialized = true := h1
    simp [this]
  · rfl
  · rfl

theorem actuator_status_callback_assert_failed (I : Interface) (cmd : CmdRef) (s : State) :
    (actuator_status_callback I cmd s).2.vars.assert_failed = s.vars.assert_failed := by
  by_cases h : status_version_rejected I (s.cmd cmd).response.status
  · rw [actuator_status_callback_reject_eq I cmd s h]
    split
    · rfl
    · simp only []
      rw [safety_raise_fault_vars]
      split <;> rfl
  · rw [actuator_status_callback_accept_eq I cmd s h]
    simp only []
    split
    · rw [actuator_update_missing_timings_vars]
      exact status_accept_head_assert_failed I cmd s
    · exact status_accept_head_assert_failed I cmd s

theorem actuator_kill_switch_update_callback_assert_failed (I : Interface) (s : State) :
    (actuator_kill_switch_update_callback I CmdRef.kill_switch_update_command
        s).2.vars.assert_failed
      = (s.vars.assert_failed
          || (decide (s.kill_switch_update_command.response.result
                = I.ACTUATOR_RESULT_SUCCESSFUL)
              && s.vars.kill_switch_needs_refresh && !s.vars.safety_initialized)) := by
  rw [actuator_kill_switch_update_callback_eq]
  split_ifs with h1 h2
  · simp only []
    rw [safety_raise_fault_vars]
    have : ¬ s.kill_switch_update_command.response.result = I.ACTUATOR_RESULT_SUCCESSFUL := h1
    split <;> simp [this]
  · have h1' : s.kill_switch_update_command.response.result = I.ACTUATOR_RESULT_SUCCESSFUL := by
      simpa using h1
    simp only []
    rw [kill_switch_send_assert_failed]
    simp [h1', h2]
  · have h2' : s.vars.kill_switch_needs_refresh = false := by simpa using h2
    simp [h2']

/-! ## A pending refresh and the slot that services it -/

theorem State.refresh_serviced_of_quiet (s t : State) (hq : kill_switch_quiet s t)
    (h : s.refresh_serviced) : t.refresh_serviced := by
  unfold State.refresh_serviced at *
  rw [hq.1, hq.2.1]
  exact h

theorem State.refresh_serviced_of_clear (s : State)
    (h : s.vars.kill_switch_needs_refresh = false) : s.refresh_serviced := by
  unfold State.refresh_serviced
  rw [h]
  intro hh
  cases hh

theorem actuator_kill_report_refresh_serviced (I : Interface) (s : State)
    (h : s.refresh_serviced) : (actuator_kill_report_refresh I s).refresh_serviced := by
  unfold actuator_kill_report_refresh
  split_ifs with h1 h2
  · exact h
  · intro _
    exact h2
  · exact State.refresh_serviced_of_clear _ (kill_switch_send_needs_refresh I s)

theorem status_accept_head_serviced (I : Interface) (cmd : CmdRef) (s : State)
    (h : s.refresh_serviced) : (status_accept_head I cmd s).refresh_serviced := by
  simp only [status_accept_head]
  split_ifs
  · exact State.refresh_serviced_of_clear _ (kill_switch_send_needs_refresh I _)
  · exact h
  · exact h

theorem actuator_status_callback_serviced (I : Interface) (cmd : CmdRef) (s : State)
    (h : s.refresh_serviced) : (actuator_status_callback I cmd s).2.refresh_serviced := by
  by_cases hr : status_version_rejected I (s.cmd cmd).response.status
  · rw [actuator_status_callback_reject_eq I cmd s hr]
    split
    · exact h
    · simp only []
      have hq := kill_switch_quiet_raise I.FAULT_ACTUATOR_FAIL
        { s with
          vars.log := s.vars.log ++
            [LogMsg.error_invalid_firmware (s.cmd cmd).response.status.version_major
              (s.cmd cmd).response.status.version_minor] }
      have hs : ({ s with
          vars.log := s.vars.log ++
            [LogMsg.error_invalid_firmware (s.cmd cmd).response.status.version_major
              (s.cmd cmd).response.status.version_minor] } : State).refresh_serviced := h
      have := State.refresh_serviced_of_quiet _ _ hq hs
      exact this
  · rw [actuator_status_callback_accept_eq I cmd s hr]
    simp only []
    have hh := status_accept_head_serviced I cmd s h
    split
    · exact State.refresh_serviced_of_quiet _ _
        (actuator_update_missing_timings_quiet I _) hh
    · exact hh

theorem unimportant_mismatch_serviced (s : State) (cmd : CmdRef) (l : LogMsg) (fault_id : Nat)
    (hne : cmd ≠ CmdRef.kill_switch_update_command) (h : s.refresh_serviced) :
    ((if (s.cmd cmd).important_request = true then
        safety_raise_fault fault_id { s with vars.log := s.vars.log ++ [l] }
      else { s with vars.log := s.vars.log ++ [l] }).modifyCmd cmd
        fun c => { c with in_use := false }).refresh_serviced := by
  refine State.refresh_serviced_of_quiet _ _ (kill_switch_quiet_modifyCmd _ _ _ hne) ?_
  split
  · exact State.refresh_serviced_of_quiet _ _ (kill_switch_quiet_raise _ _) h
  · exact h

/-- Handling a status response keeps a pending refresh serviced. -/
theorem transfer_completed_status_serviced (I : Interface) (rx : actuator_i2c_response_t)
    (s : State) (hw : s.wired I) (h : s.refresh_serviced) :
    (transfer_completed I CmdRef.status_command rx s).refresh_serviced := by
  have hw2 : (s.modifyCmd CmdRef.status_command fun c => { c with response := rx }).wired I :=
    State.wired_modifyCmd I s _ _ (by intro c; rfl) hw
  have hst := State.wired_status I _ hw2
  have h2 : (s.modifyCmd CmdRef.status_command
      fun c => { c with response := rx }).refresh_serviced :=
    State.refresh_serviced_of_quiet _ _ (kill_switch_quiet_modifyCmd s _ _ (by decide)) h
  unfold transfer_completed
  simp only []
  generalize (s.modifyCmd CmdRef.status_command fun c => { c with response := rx }) = t
    at hw2 hst h2 ⊢
  have hreq : (t.cmd CmdRef.status_command).i2c_request.user_data
      = some CmdRef.status_command := by
    show t.status_command.i2c_request.user_data = _
    rw [hst.2.2.2]; rfl
  cases hm : response_crc_mismatch I (t.cmd CmdRef.status_command) with
  | some p =>
    rw [actuator_command_done_mismatch_of I _ CmdRef.status_command t p hreq hm]
    exact unimportant_mismatch_serviced t _ _ _ (by decide) h2
  | none =>
    rw [actuator_command_done_ok_eq I _ CmdRef.status_command t hreq hm]
    have hcb : (t.cmd CmdRef.status_command).response_cb
        = some actuator_cmd_response_cb_t.actuator_status_callback := hst.2.1
    rw [hcb]
    simp only [call_response_cb]
    have hs := actuator_status_callback_serviced I CmdRef.status_command
      { t with
        vars.cb_trace := t.vars.cb_trace ++
          [(actuator_cmd_response_cb_t.actuator_status_callback, CmdRef.status_command)] } h2
    split
    · exact hs
    · exact State.refresh_serviced_of_quiet _ _
        (kill_switch_quiet_modifyCmd _ _ _ (by decide)) hs

/-- A kill-switch transfer that fails on the bus releases the slot and leaves
the needs-refresh flag as it is. -/
theorem transfer_aborted_kill_switch (I : Interface) (abort_data : Nat) (s : State)
    (hw : s.wired I) :
    (transfer_aborted I CmdRef.kill_switch_update_command abort_data
        s).kill_switch_update_command.in_use = false
      ∧ (transfer_aborted I CmdRef.kill_switch_update_command abort_data
          s).vars.kill_switch_needs_refresh = s.vars.kill_switch_needs_refresh
      ∧ (transfer_aborted I CmdRef.kill_switch_update_command abort_data s).wired I := by
  have hk := State.wired_kill_switch I s hw
  have hreq : (s.cmd CmdRef.kill_switch_update_command).i2c_request.user_data
      = some CmdRef.kill_switch_update_command := by
    show s.kill_switch_update_command.i2c_request.user_data = _
    rw [hk.2.2.2]; rfl
  refine ⟨?_, ?_, ?_⟩
  · unfold transfer_aborted
    rw [actuator_command_failed_eq I _ abort_data CmdRef.kill_switch_update_command s hreq]
    rfl
  · unfold transfer_aborted
    rw [actuator_command_failed_eq I _ abort_data CmdRef.kill_switch_update_command s hreq,
      modifyCmd_vars]
    split
    · rw [safety_raise_fault_vars]; split <;> rfl
    · rfl
  · unfold transfer_aborted
    exact State.wired_of_wiring I s _ (actuator_command_failed_wiring I _ _ _ s)
      (actuator_command_failed_wiring I _ _ _ s) hw

/-- A kill-switch transfer that completes with a bad frame (wrong checksum or
a result code other than the successful one) releases the slot and leaves the
needs-refresh flag as it is. -/
theorem transfer_completed_kill_switch_bad (I : Interface) (rx : actuator_i2c_response_t)
    (s : State) (hw : s.wired I) (hrx : ¬ kill_switch_response_ok I rx) :
    (transfer_completed I CmdRef.kill_switch_update_command rx
        s).kill_switch_update_command.in_use = false
      ∧ (transfer_completed I CmdRef.kill_switch_update_command rx
          s).vars.kill_switch_needs_refresh = s.vars.kill_switch_needs_refresh := by
  have hw2 : (s.modifyCmd CmdRef.kill_switch_update_command
      fun c => { c with response := rx }).wired I :=
    State.wired_modifyCmd I s _ _ (by intro c; rfl) hw
  have hk := State.wired_kill_switch I _ hw2
  have hbytes : (s.modifyCmd CmdRef.kill_switch_update_command
      fun c => { c with response := rx }).kill_switch_update_command.i2c_request.bytes_to_receive
      = I.ACTUATOR_GET_RESPONSE_SIZE actuator_command.KILL_SWITCH % 65536 := by
    rw [hk.2.2.2]; rfl
  have hresp : (s.modifyCmd CmdRef.kill_switch_update_command
      fun c => { c with response := rx }).kill_switch_update_command.response = rx := rfl
  have hn : (s.modifyCmd CmdRef.kill_switch_update_command
      fun c => { c with response := rx }).vars.kill_switch_needs_refresh
      = s.vars.kill_switch_needs_refresh := rfl
  unfold transfer_completed
  simp only []
  rw [← hn]
  generalize (s.modifyCmd CmdRef.kill_switch_update_command
    fun c => { c with response := rx }) = t at hw2 hk hbytes hresp ⊢
  have hreq : (t.cmd CmdRef.kill_switch_update_command).i2c_request.user_data
      = some CmdRef.kill_switch_update_command := by
    show t.kill_switch_update_command.i2c_request.user_data = _
    rw [hk.2.2.2]; rfl
  cases hm : response_crc_mismatch I (t.cmd CmdRef.kill_switch_update_command) with
  | some p =>
    rw [actuator_command_done_mismatch_of I _ CmdRef.kill_switch_update_command t p hreq hm]
    refine ⟨rfl, ?_⟩
    rw [modifyCmd_vars]
    split
    · rw [safety_raise_fault_vars]; split <;> rfl
    · rfl
  | none =>
    have hok : t.kill_switch_update_command.i2c_request.bytes_to_receive = 0 ∨
        I.actuator_i2c_crc8_calc_response t.kill_switch_update_command.response
          t.kill_switch_update_command.i2c_request.bytes_to_receive % 256
            = t.kill_switch_update_command.response.crc8 := by
      by_contra hcon
      rw [not_or] at hcon
      have := response_crc_mismatch_some I (t.cmd CmdRef.kill_switch_update_command)
        (Nat.pos_of_ne_zero hcon.1) hcon.2
      rw [hm] at this
      cases this
    have hbad : t.kill_switch_update_command.response.result ≠ I.ACTUATOR_RESULT_SUCCESSFUL := by
      intro hres
      apply hrx
      refine ⟨?_, by rw [← hresp]; exact hres⟩
      rw [hbytes, hresp] at hok
      exact hok
    show (actuator_command_done I t.kill_switch_update_command.i2c_request
        t).kill_switch_update_command.in_use = false
      ∧ (actuator_command_done I t.kill_switch_update_command.i2c_request
          t).vars.kill_switch_needs_refresh = t.vars.kill_switch_needs_refresh
    rw [actuator_command_done_kill_switch I t hw2 hok, actuator_kill_switch_update_callback_eq]
    have hbad2 : ({ t with
        vars.cb_trace := t.vars.cb_trace ++
          [(actuator_cmd_response_cb_t.actuator_kill_switch_update_callback,
            CmdRef.kill_switch_update_command)] } : State).kill_switch_update_command.response.result
        ≠ I.ACTUATOR_RESULT_SUCCESSFUL := hbad
    rw [if_pos hbad2]
    simp only [Bool.false_eq_true, if_false]
    refine ⟨rfl, ?_⟩
    rw [modifyCmd_vars, safety_raise_fault_vars]
    split <;> rfl

theorem KillSwitchEvent.apply_wired (I : Interface) (e : KillSwitchEvent) (s : State)
    (hw : s.wired I) : (e.apply I s).wired I := by
  cases e with
  | refresh =>
    exact State.wired_of_wiring I s _ (actuator_kill_report_refresh_wiring I s _)
      (actuator_kill_report_refresh_wiring I s _) hw
  | status_response rx => exact transfer_completed_wired I _ rx s hw
  | completed rx =>
    simp only [KillSwitchEvent.apply]
    split
    · exact transfer_completed_wired I _ rx s hw
    · exact hw
  | failed abort_data =>
    simp only [KillSwitchEvent.apply]
    split
    · exact (transfer_aborted_kill_switch I abort_data s hw).2.2
    · exact hw

/-- After the completion of a kill-switch transfer with a good response the
needs-refresh flag is clear, whether the follow-up send stops at the kill
state query or not. -/
theorem transfer_completed_kill_switch_clear (I : Interface) (rx : actuator_i2c_response_t)
    (s : State) (hw : s.wired I) (hrx : kill_switch_response_ok I rx) :
    (transfer_completed I CmdRef.kill_switch_update_command
      rx s).vars.kill_switch_needs_refresh = false := by
  have hw2 : (s.modifyCmd CmdRef.kill_switch_update_command
      fun c => { c with response := rx }).wired I :=
    State.wired_modifyCmd I s _ _ (by intro c; rfl) hw
  have hk := State.wired_kill_switch I _ hw2
  have hbytes : (s.modifyCmd CmdRef.kill_switch_update_command
      fun c => { c with response := rx }).kill_switch_update_command.i2c_request.bytes_to_receive
      = I.ACTUATOR_GET_RESPONSE_SIZE actuator_command.KILL_SWITCH % 65536 := by
    rw [hk.2.2.2]; rfl
  have hresp : (s.modifyCmd CmdRef.kill_switch_update_command
      fun c => { c with response := rx }).kill_switch_update_command.response = rx := rfl
  have hunf : transfer_completed I CmdRef.kill_switch_update_command rx s
      = actuator_command_done I
          (s.modifyCmd CmdRef.kill_switch_update_command
            fun c => { c with response := rx }).kill_switch_update_command.i2c_request
          (s.modifyCmd CmdRef.kill_switch_update_command
            fun c => { c with response := rx }) := rfl
  have hres2 : ¬ (s.modifyCmd CmdRef.kill_switch_update_command
      fun c => { c with response := rx }).kill_switch_update_command.response.result
      ≠ I.ACTUATOR_RESULT_SUCCESSFUL := by
    rw [hresp]; exact fun h => h hrx.2
  rw [hunf, actuator_command_done_kill_switch I _ hw2 (by rw [hbytes, hresp]; exact hrx.1),
    actuator_kill_switch_update_callback_eq]
  rw [if_neg hres2]
  split
  · rename_i hn
    simp only [if_true]
    exact kill_switch_send_needs_refresh I _
  · rename_i hn
    simp only [Bool.false_eq_true, if_false]
    rw [modifyCmd_vars]
    simpa using hn

/-- Every event other than an unsuccessful end of the kill-switch transfer
keeps a pending refresh serviced. -/
theorem KillSwitchEvent.apply_serviced (I : Interface) (e : KillSwitchEvent) (s : State)
    (hw : s.wired I) (h : s.refresh_serviced) (he : ¬ e.unsuccessful I) :
    (e.apply I s).refresh_serviced := by
  cases e with
  | refresh => exact actuator_kill_report_refresh_serviced I s h
  | status_response rx => exact transfer_completed_status_serviced I rx s hw h
  | completed rx =>
    have hrx : kill_switch_response_ok I rx := by
      by_contra hcon
      exact he hcon
    simp only [KillSwitchEvent.apply]
    split
    · exact State.refresh_serviced_of_clear _ (transfer_completed_kill_switch_clear I rx s hw hrx)
    · exact h
  | failed abort_data => exact absurd trivial he

theorem kill_switch_events_serviced (I : Interface) (evs : List KillSwitchEvent) :
    ∀ s : State, s.wired I → s.refresh_serviced → (∀ e ∈ evs, ¬ e.unsuccessful I) →
      (evs.foldl (KillSwitchEvent.apply I) s).refresh_serviced := by
  induction evs with
  | nil => intro s _ h _; exact h
  | cons e rest ih =>
    intro s hw h hall
    rw [List.foldl_cons]
    exact ih _ (KillSwitchEvent.apply_wired I e s hw)
      (KillSwitchEvent.apply_serviced I e s hw h (hall e (List.mem_cons_self _ _)))
      (fun e' he' => hall e' (List.mem_cons_of_mem _ he'))

/-- C35 (as stated, refuted). After `actuator_init` and `safety_init`, a
refresh request (its transfer goes on the bus), a second refresh request (the
needs-refresh flag is set) and the failure of the transfer on the bus, the
flag is set, the kill-switch slot is free, no transfer is pending and no
assertion has failed. -/
theorem refresh_left_pending_after_failure :
    (run example_interface
        [Event.actuator_init, Event.safety_init, Event.kill_report_refresh,
          Event.kill_report_refresh, Event.transfer_failed 1]
        (boot 0 0 false)).vars.kill_switch_needs_refresh = true
      ∧ (run example_interface
          [Event.actuator_init, Event.safety_init, Event.kill_report_refresh,
            Event.kill_report_refresh, Event.transfer_failed 1]
          (boot 0 0 false)).kill_switch_update_command.in_use = false
      ∧ (run example_interface
          [Event.actuator_init, Event.safety_init, Event.kill_report_refresh,
            Event.kill_report_refresh, Event.transfer_failed 1]
          (boot 0 0 false)).vars.i2c_queue = []
      ∧ (run example_interface
          [Event.actuator_init, Event.safety_init, Event.kill_report_refresh,
            Event.kill_report_refresh, Event.transfer_failed 1]
          (boot 0 0 false)).vars.assert_failed = false :=
  ⟨by decide, by decide, by decide, by decide⟩

/-- C35 (amended). From a state in which the kill-switch slot is as
`actuator_init` populated it and the needs-refresh flag is set only while the
slot is in use: after every sequence of refresh requests, status responses and
completions of the kill-switch transfer with a checksum-valid successful
response, the flag is still set only while the slot is in use; an unsuccessful
end of the kill-switch transfer in flight (a failure on the bus, a wrong
checksum or a result code other than the successful one) releases the slot
and leaves the flag as it was, so a refresh that was pending then stays
pending with no transfer in flight; the next refresh request finds the slot
free and clears the flag. -/
theorem needs_refresh_only_while_in_use (I : Interface) (s : State) (hw : s.wired I)
    (h : s.refresh_serviced) :
    (∀ evs : List KillSwitchEvent, (∀ e ∈ evs, ¬ e.unsuccessful I) →
        (evs.foldl (KillSwitchEvent.apply I) s).refresh_serviced)
      ∧ (∀ e : KillSwitchEvent, e.unsuccessful I →
          s.kill_switch_update_command.in_use = true →
          (e.apply I s).kill_switch_update_command.in_use = false
            ∧ (e.apply I s).vars.kill_switch_needs_refresh = s.vars.kill_switch_needs_refresh
            ∧ (s.vars.actuator_initialized = true →
                (actuator_kill_report_refresh I
                  (e.apply I s)).vars.kill_switch_needs_refresh = false)) := by
  refine ⟨fun evs hall => kill_switch_events_serviced I evs s hw h hall, ?_⟩
  intro e he huse
  have hkey : (e.apply I s).kill_switch_update_command.in_use = false
      ∧ (e.apply I s).vars.kill_switch_needs_refresh = s.vars.kill_switch_needs_refresh
      ∧ (e.apply I s).vars.actuator_initialized = s.vars.actuator_initialized := by
    cases e with
    | refresh => exact absurd he (by simp [KillSwitchEvent.unsuccessful])
    | status_response rx => exact absurd he (by simp [KillSwitchEvent.unsuccessful])
    | completed rx =>
      simp only [KillSwitchEvent.apply, huse, if_true]
      exact ⟨(transfer_completed_kill_switch_bad I rx s hw he).1,
        (transfer_completed_kill_switch_bad I rx s hw he).2,
        transfer_completed_initialized I _ rx s⟩
    | failed abort_data =>
      simp only [KillSwitchEvent.apply, huse, if_true]
      refine ⟨(transfer_aborted_kill_switch I abort_data s hw).1,
        (transfer_aborted_kill_switch I abort_data s hw).2.1, ?_⟩
      unfold transfer_aborted
      exact initialized_of_config _ _ (actuator_command_failed_config I _ _ _)
  refine ⟨hkey.1, hkey.2.1, fun hinit => ?_⟩
  unfold actuator_kill_report_refresh
  rw [hkey.2.2, hinit, hkey.1]
  simp only [Bool.not_true, Bool.false_eq_true, if_false]
  exact kill_switch_send_needs_refresh I _

/-- Witness for C35: two refresh requests after `actuator_init`, then the
transfer completes with a good response while a status response is handled in
between. -/
theorem needs_refresh_only_while_in_use_witness :
    example_kill_answered.wired example_interface
      ∧ example_kill_answered.refresh_serviced
      ∧ ([KillSwitchEvent.status_response example_rx_status,
            KillSwitchEvent.completed example_rx_ok, KillSwitchEvent.refresh].foldl
          (KillSwitchEvent.apply example_interface) example_kill_answered).refresh_serviced :=
  ⟨by decide, by decide,
    (needs_refresh_only_while_in_use example_interface example_kill_answered (by decide)
      (by decide)).1
      [KillSwitchEvent.status_response example_rx_status,
        KillSwitchEvent.completed example_rx_ok, KillSwitchEvent.refresh]
      (by decide)⟩

/-! ## Resynchronisation -/

theorem find?_eq_head?_filter {α : Type} (p : α → Bool) (l : List α) :
    l.find? p = (l.filter p).head? := by
  induction l with
  | nil => rfl
  | cons a l ih =>
    cases h : p a
    · rw [List.find?_cons_of_neg _ (by simp [h]), List.filter_cons_of_neg (by simp [h]), ih]
    · rw [List.find?_cons_of_pos _ h, List.filter_cons_of_pos h]; rfl

theorem first_qualifying_eq_head (v : Vars) :
    first_qualifying v = (pending_categories v).head? :=
  find?_eq_head?_filter _ _

theorem Category.priority_nodup : Category.priority.Nodup := by decide

theorem Category.missing_clear_same (m : missing_timings_status) (cat : Category) :
    cat.missing (cat.clear m) = false := by
  cases cat with
  | claw => rfl
  | dropper => rfl
  | torpedo1 ty => cases ty <;> rfl
  | torpedo2 ty => cases ty <;> rfl

/-- Clearing the bits of a category takes exactly that category out of the
qualifying ones. -/
theorem Category.qualifies_clear (v v' : Vars) (cat c : Category)
    (hm : v'.missing_timings = cat.clear v.missing_timings)
    (hc : v'.timing_cache = v.timing_cache) :
    c.qualifies v' = (decide (c ≠ cat) && c.qualifies v) := by
  unfold Category.qualifies
  rw [Category.entry_of_timing_cache v v' hc c, hm]
  by_cases h : c = cat
  · subst h
    rw [Category.missing_clear_same]
    simp
  · rw [Category.missing_of_bits _ _ c (Category.clear_bits_of_ne v.missing_timings c cat h)]
    simp [h]

/-- After the first qualifying category has been resolved the remaining ones
are pending, in the same order. -/
theorem pending_categories_clear (v v' : Vars) (cat : Category)
    (hq : first_qualifying v = some cat)
    (hm : v'.missing_timings = cat.clear v.missing_timings)
    (hc : v'.timing_cache = v.timing_cache) :
    pending_categories v' = (pending_categories v).tail := by
  have hfun : Category.qualifies v' = fun c => decide (c ≠ cat) && Category.qualifies v c := by
    funext c
    exact Category.qualifies_clear v v' cat c hm hc
  have hnd : (pending_categories v).Nodup := Category.priority_nodup.filter _
  rw [first_qualifying_eq_head] at hq
  unfold pending_categories at *
  rw [hfun, ← List.filter_filter]
  cases hl : List.filter (Category.qualifies v) Category.priority with
  | nil => rw [hl] at hq; cases hq
  | cons a rest =>
    rw [hl] at hq hnd
    have ha : a = cat := by simpa using hq
    subst ha
    have hnot : a ∉ rest := (List.nodup_cons.mp hnd).1
    simp only [List.tail_cons]
    rw [List.filter_cons_of_neg (by simp)]
    rw [List.filter_eq_self]
    intro c hcmem
    have : c ≠ a := fun h => hnot (h ▸ hcmem)
    simpa using this

theorem pending_categories_congr (v v' : Vars)
    (hm : v'.missing_timings = v.missing_timings)
    (hc : v'.timing_cache = v.timing_cache) :
    pending_categories v' = pending_categories v := by
  unfold pending_categories
  congr 1
  funext c
  unfold Category.qualifies
  rw [Category.entry_of_timing_cache v v' hc c, hm]

theorem Category.carried_of_timing_cache (v v' : Vars) (h : v'.timing_cache = v.timing_cache)
    (cat : Category) (f : actuator_i2c_cmd_t) : cat.carried v' f ↔ cat.carried v f := by
  simp only [Vars.timing_cache, Prod.mk.injEq] at h
  exact Category.carried_congr v v' h.2.2.1 h.2.2.2 h.1 h.2.1 cat f

theorem Category.carried_cmd_id (v : Vars) (cat : Category) (f : actuator_i2c_cmd_t)
    (h : cat.carried v f) : f.cmd_id = cat.cmd_id := by
  cases cat with
  | claw => exact h.1
  | dropper => exact h.1
  | torpedo1 ty => exact h.1
  | torpedo2 ty => exact h.1

/-- Resolving a category on the claimed timing slot arms the slot for it. -/
theorem resolve_category_armed (I : Interface) (cat : Category) (s : State)
    (huse : s.set_timing_command.in_use = true) :
    set_timing_armed I cat (resolve_category I CmdRef.set_timing_command cat s) := by
  have hslot := resolve_category_cmd I CmdRef.set_timing_command cat s trivial
  have hbytes := resolve_category_bytes_to_receive I CmdRef.set_timing_command cat s trivial
  have hin := resolve_category_in_use I CmdRef.set_timing_command CmdRef.set_timing_command
    cat s
  rw [Category.carried_cmd_id _ _ _ hslot.1] at hbytes
  exact ⟨hin.trans huse, hslot.2.1, hslot.2.2.2.1, hbytes⟩

/-- The completion of the set-timing transfer in flight with a good response:
the resolver runs again on the same slot, and the slot is released when no
category qualifies. -/
theorem transfer_completed_set_timing (I : Interface) (cat : Category)
    (rx : actuator_i2c_response_t) (s : State) (ha : set_timing_armed I cat s)
    (hrx : set_timing_response_ok I cat rx) :
    transfer_completed I CmdRef.set_timing_command rx s =
      match first_qualifying s.vars with
      | none =>
        ({ (s.modifyCmd CmdRef.set_timing_command fun c => { c with response := rx }) with
          vars.cb_trace := s.vars.cb_trace ++
            [(actuator_cmd_response_cb_t.actuator_set_timing_general_cb,
              CmdRef.set_timing_command)] } : State).modifyCmd CmdRef.set_timing_command
          fun c => { c with in_use := false }
      | some c =>
        resolve_category I CmdRef.set_timing_command c
          { (s.modifyCmd CmdRef.set_timing_command fun c => { c with response := rx }) with
            vars.cb_trace := s.vars.cb_trace ++
              [(actuator_cmd_response_cb_t.actuator_set_timing_general_cb,
                CmdRef.set_timing_command)] } := by
  obtain ⟨-, hcb, hud, hbytes⟩ := ha
  have hcmd : (s.modifyCmd CmdRef.set_timing_command fun c => { c with response := rx }).cmd
      CmdRef.set_timing_command = { s.set_timing_command with response := rx } := rfl
  unfold transfer_completed
  simp only []
  rw [actuator_command_done_some_cb I _ CmdRef.set_timing_command _
    actuator_cmd_response_cb_t.actuator_set_timing_general_cb
    (by rw [hcmd]; exact hud)
    (by rw [hcmd]; simp only [hbytes]; exact hrx.1)
    (by rw [hcmd]; exact hcb),
    call_set_timing_cb_success I _ _ (by rw [hcmd]; exact hrx.2),
    resolver_eq_spec, resolver_spec]
  have hfq : first_qualifying
      ({ (s.modifyCmd CmdRef.set_timing_command fun c => { c with response := rx }) with
        vars.cb_trace :=
          (s.modifyCmd CmdRef.set_timing_command fun c => { c with response := rx }).vars.cb_trace
            ++ [(actuator_cmd_response_cb_t.actuator_set_timing_general_cb,
              CmdRef.set_timing_command)] } : State).vars = first_qualifying s.vars := rfl
  rw [hfq]
  cases first_qualifying s.vars with
  | none => simp only [Bool.false_eq_true, if_false]; rfl
  | some c => simp only [if_true]; rfl

/-- The rounds of the resynchronisation scenario, from a state in which the
set-timing command of `c` is in flight and `rest` are the categories still
pending. -/
theorem resync_rounds (I : Interface) :
    ∀ (rest : List Category) (c : Category) (s : State) (rx : actuator_i2c_response_t)
      (answers : List actuator_i2c_response_t),
      set_timing_armed I c s → pending_categories s.vars = rest →
      set_timing_response_ok I c rx →
      List.Forall₂ (set_timing_response_ok I) rest answers →
      (∃ ts : List Transfer,
          ((rx :: answers).foldl
              (fun s rx => transfer_completed I CmdRef.set_timing_command rx s) s).vars.i2c_trace
            = s.vars.i2c_trace ++ ts
          ∧ List.Forall₂
              (fun cat t => t.cmd = CmdRef.set_timing_command ∧ cat.carried s.vars t.frame)
              rest ts)
        ∧ (∀ k, k ≤ answers.length + 1 →
            (((rx :: answers).take k).foldl
                (fun s rx => transfer_completed I CmdRef.set_timing_command rx s)
                s).vars.i2c_trace.length
              = s.vars.i2c_trace.length + min k rest.length)
        ∧ pending_categories ((rx :: answers).foldl
            (fun s rx => transfer_completed I CmdRef.set_timing_command rx s) s).vars = []
        ∧ ((rx :: answers).foldl
            (fun s rx => transfer_completed I CmdRef.set_timing_command rx s)
            s).set_timing_command.in_use = false
        ∧ ((rx :: answers).foldl
            (fun s rx => transfer_completed I CmdRef.set_timing_command rx s)
            s).vars.timing_cache = s.vars.timing_cache
        ∧ ∀ cat, cat ∉ rest →
            cat.bits ((rx :: answers).foldl
              (fun s rx => transfer_completed I CmdRef.set_timing_command rx s)
              s).vars.missing_timings = cat.bits s.vars.missing_timings := by
  intro rest
  induction rest with
  | nil =>
    intro c s rx answers ha hp hrx hans
    have hnil : answers = [] := List.forall₂_nil_left_iff.mp hans
    subst hnil
    have hq : first_qualifying s.vars = none := by
      rw [first_qualifying_eq_head, hp]; rfl
    have heq := transfer_completed_set_timing I c rx s ha hrx
    rw [hq] at heq
    simp only [] at heq
    simp only [List.foldl_cons, List.foldl_nil]
    refine ⟨⟨[], ?_, List.Forall₂.nil⟩, ?_, ?_, ?_, ?_, ?_⟩
    · rw [heq, List.append_nil]; rfl
    · intro k hk
      have hk' : k = 0 ∨ k = 1 := by simp at hk; omega
      rcases hk' with rfl | rfl
      · rfl
      · simp only [List.take_succ_cons, List.take_zero, List.foldl_cons, List.foldl_nil]
        rw [heq]; rfl
    · rw [heq, ← hp]
      exact pending_categories_congr _ _ rfl rfl
    · rw [heq]; rfl
    · rw [heq]; rfl
    · intro cat _
      rw [heq]; rfl
  | cons c' rest' ih =>
    intro c s rx answers ha hp hrx hans
    obtain ⟨rx', answers', hrx', hans', rfl⟩ := List.forall₂_cons_left_iff.mp hans
    have hq : first_qualifying s.vars = some c' := by
      rw [first_qualifying_eq_head, hp]; rfl
    have heq := transfer_completed_set_timing I c rx s ha hrx
    rw [hq] at heq
    simp only [] at heq
    have huse : ({ (s.modifyCmd CmdRef.set_timing_command
        fun c => { c with response := rx }) with
        vars.cb_trace := s.vars.cb_trace ++
          [(actuator_cmd_response_cb_t.actuator_set_timing_general_cb,
            CmdRef.set_timing_command)] } : State).set_timing_command.in_use = true := ha.1
    have harmed := resolve_category_armed I c' _ huse
    have hvars := resolve_category_vars I CmdRef.set_timing_command c'
      { (s.modifyCmd CmdRef.set_timing_command fun c => { c with response := rx }) with
        vars.cb_trace := s.vars.cb_trace ++
          [(actuator_cmd_response_cb_t.actuator_set_timing_general_cb,
            CmdRef.set_timing_command)] }
    have hcar := (resolve_category_cmd I CmdRef.set_timing_command c'
      { (s.modifyCmd CmdRef.set_timing_command fun c => { c with response := rx }) with
        vars.cb_trace := s.vars.cb_trace ++
          [(actuator_cmd_response_cb_t.actuator_set_timing_general_cb,
            CmdRef.set_timing_command)] } trivial).1
    rw [← heq] at harmed hvars hcar
    obtain ⟨s', hs'⟩ : ∃ s', transfer_completed I CmdRef.set_timing_command rx s = s' :=
      ⟨_, rfl⟩
    rw [hs'] at harmed hvars hcar
    have hmiss : s'.vars.missing_timings = c'.clear s.vars.missing_timings := by
      rw [hvars]; rfl
    have hcache : s'.vars.timing_cache = s.vars.timing_cache := by
      rw [hvars]; rfl
    have htrace : s'.vars.i2c_trace = s.vars.i2c_trace ++
        [⟨CmdRef.set_timing_command, (s'.cmd CmdRef.set_timing_command).i2c_request,
          (s'.cmd CmdRef.set_timing_command).request⟩] := by
      rw [hvars]; rfl
    have hcar' : c'.carried s.vars (s'.cmd CmdRef.set_timing_command).request := hcar
    have hp' : pending_categories s'.vars = rest' := by
      rw [pending_categories_clear s.vars s'.vars c' hq hmiss hcache, hp]; rfl
    obtain ⟨⟨ts, hts, hfa⟩, hpre, hpend, hfree, hfc, hbits⟩ :=
      ih c' s' rx' answers' harmed hp' hrx' hans'
    simp only [List.foldl_cons] at hts hpend hfree hfc hbits ⊢
    rw [hs']
    refine ⟨⟨(⟨CmdRef.set_timing_command, (s'.cmd CmdRef.set_timing_command).i2c_request,
        (s'.cmd CmdRef.set_timing_command).request⟩ : Transfer) :: ts, ?_,
        List.Forall₂.cons ⟨rfl, hcar'⟩ ?_⟩, ?_, hpend, hfree, hfc.trans hcache, ?_⟩
    · rw [hts, htrace, List.append_assoc]; rfl
    · refine hfa.imp ?_
      intro cat t h
      exact ⟨h.1, (Category.carried_of_timing_cache s.vars s'.vars hcache cat t.frame).mp h.2⟩
    · intro k hk
      cases k with
      | zero => simp
      | succ k' =>
        simp only [List.take_succ_cons, List.foldl_cons]
        rw [hs']
        have := hpre k' (by simp only [List.length_cons] at hk ⊢; omega)
        simp only [List.foldl_cons] at this
        rw [this, htrace]
        simp only [List.length_append, List.length_cons, List.length_nil]
        omega
    · intro cat hcat
      have hne : cat ≠ c' := fun h => hcat (h ▸ List.mem_cons_self _ _)
      have hnot : cat ∉ rest' := fun h => hcat (List.mem_cons_of_mem _ h)
      rw [hbits cat hnot, hmiss]
      exact Category.clear_bits_of_ne _ cat c' hne

/-- The resynchronisation scenario from a state with a free timing slot. -/
theorem resync_scenario (I : Interface) (s : State)
    (answers : List actuator_i2c_response_t)
    (hfree : s.set_timing_command.in_use = false)
    (hans : List.Forall₂ (set_timing_response_ok I) (pending_categories s.vars) answers) :
    (∃ ts : List Transfer,
        (resync I answers s).vars.i2c_trace = s.vars.i2c_trace ++ ts
          ∧ List.Forall₂
              (fun cat t => t.cmd = CmdRef.set_timing_command ∧ cat.carried s.vars t.frame)
              (pending_categories s.vars) ts)
      ∧ (∀ k, k ≤ answers.length →
          (resync I (answers.take k) s).vars.i2c_trace.length
            = s.vars.i2c_trace.length + min (k + 1) (pending_categories s.vars).length)
      ∧ pending_categories (resync I answers s).vars = []
      ∧ (resync I answers s).set_timing_command.in_use = false
      ∧ (resync I answers s).vars.timing_cache = s.vars.timing_cache
      ∧ ∀ cat, cat ∉ pending_categories s.vars →
          cat.bits (resync I answers s).vars.missing_timings
            = cat.bits s.vars.missing_timings := by
  cases hp : pending_categories s.vars with
  | nil =>
    rw [hp] at hans
    have hnil : answers = [] := List.forall₂_nil_left_iff.mp hans
    subst hnil
    have hq : first_qualifying s.vars = none := by
      rw [first_qualifying_eq_head, hp]; rfl
    have hs : resync I [] s = s := by
      unfold resync
      simp only [List.foldl_nil]
      exact actuator_update_missing_timings_none I s hfree hq
    refine ⟨⟨[], ?_, List.Forall₂.nil⟩, ?_, ?_, ?_, ?_, ?_⟩
    · rw [hs]; simp
    · intro k hk
      have hk0 : k = 0 := by simpa using hk
      subst hk0
      simp only [List.take_nil]
      rw [hs]; simp
    · rw [hs]; exact hp
    · rw [hs]; exact hfree
    · rw [hs]
    · intro cat _; rw [hs]
  | cons c rest =>
    rw [hp] at hans
    obtain ⟨rx, answers', hrx, hans', rfl⟩ := List.forall₂_cons_left_iff.mp hans
    have hq : first_qualifying s.vars = some c := by
      rw [first_qualifying_eq_head, hp]; rfl
    have hfree' : ¬ s.set_timing_command.in_use = true := by simp [hfree]
    have hs1 : actuator_update_missing_timings I s
        = resolve_category I CmdRef.set_timing_command c
            { s with set_timing_command := { s.set_timing_command with in_use := true } } := by
      rw [actuator_update_missing_timings_eq, if_neg hfree', hq]
    have harmed := resolve_category_armed I c
      { s with set_timing_command := { s.set_timing_command with in_use := true } } rfl
    have hvars := resolve_category_vars I CmdRef.set_timing_command c
      { s with set_timing_command := { s.set_timing_command with in_use := true } }
    have hcar := (resolve_category_cmd I CmdRef.set_timing_command c
      { s with set_timing_command := { s.set_timing_command with in_use := true } } trivial).1
    rw [← hs1] at harmed hvars hcar
    have hres : ∀ l : List actuator_i2c_response_t, resync I l s
        = l.foldl (fun s rx => transfer_completed I CmdRef.set_timing_command rx s)
            (actuator_update_missing_timings I s) := fun l => rfl
    simp only [hres]
    generalize actuator_update_missing_timings I s = s1 at *
    have hmiss : s1.vars.missing_timings = c.clear s.vars.missing_timings := by
      rw [hvars]
    have hcache : s1.vars.timing_cache = s.vars.timing_cache := by
      rw [hvars]; rfl
    have htrace : s1.vars.i2c_trace = s.vars.i2c_trace ++
        [⟨CmdRef.set_timing_command, (s1.cmd CmdRef.set_timing_command).i2c_request,
          (s1.cmd CmdRef.set_timing_command).request⟩] := by
      rw [hvars]
    have hcar' : c.carried s.vars (s1.cmd CmdRef.set_timing_command).request := hcar
    have hp1 : pending_categories s1.vars = rest := by
      rw [pending_categories_clear s.vars s1.vars c hq hmiss hcache, hp]; rfl
    obtain ⟨⟨ts, hts, hfa⟩, hpre, hpend, hfr, hfc, hbits⟩ :=
      resync_rounds I rest c s1 rx answers' harmed hp1 hrx hans'
    refine ⟨⟨(⟨CmdRef.set_timing_command, (s1.cmd CmdRef.set_timing_command).i2c_request,
        (s1.cmd CmdRef.set_timing_command).request⟩ : Transfer) :: ts, ?_,
        List.Forall₂.cons ⟨rfl, hcar'⟩ ?_⟩, ?_, hpend, hfr, hfc.trans hcache, ?_⟩
    · rw [hts, htrace, List.append_assoc]; rfl
    · refine hfa.imp ?_
      intro cat t h
      exact ⟨h.1, (Category.carried_of_timing_cache s.vars s1.vars hcache cat t.frame).mp h.2⟩
    · intro k hk
      have := hpre k (by simp only [List.length_cons] at hk; omega)
      rw [this, htrace]
      simp only [List.length_append, List.length_cons, List.length_nil]
      omega
    · intro cat hcat
      have hne : cat ≠ c := fun h => hcat (h ▸ List.mem_cons_self _ _)
      have hnot : cat ∉ rest := fun h => hcat (List.mem_cons_of_mem _ h)
      rw [hbits cat hnot, hmiss]
      exact Category.clear_bits_of_ne _ cat c hne

theorem pending_categories_eq_nil_iff (v : Vars) :
    pending_categories v = [] ↔ ∀ cat : Category, cat.qualifies v = false := by
  unfold pending_categories
  rw [List.filter_eq_nil_iff]
  constructor
  · intro h cat
    have := h cat (Category.mem_priority cat)
    simpa using this
  · intro h cat _
    simp [h cat]

theorem not_mem_pending_categories (v : Vars) (cat : Category)
    (h : cat.qualifies v = false) : cat ∉ pending_categories v := by
  unfold pending_categories
  rw [List.mem_filter]
  rintro ⟨-, hq⟩
  rw [h] at hq
  cases hq

/-- C34. Resynchronisation converges: from a state in which the timing
slot is free, let M be the categories that are both missing and locally
configured, in priority order (the claw once for its two bits). Invoking
`actuator_update_missing_timings` and then answering each set-timing command
with a checksum-valid successful response sends exactly one set-timing
command per category of M, on the timing slot, in the order of M, each
carrying the cached value of its category; after `k` answers exactly
`min (k + 1) |M|` commands have been sent, so a command goes out only once
the one before it has been answered; afterwards no category is both missing
and configured, the timing slot is released, the timing cache is as it was,
and the bits of every category outside M, those of unconfigured entries in
particular, are as they were. -/
theorem resync_converges (I : Interface) (s : State)
    (answers : List actuator_i2c_response_t)
    (hfree : s.set_timing_command.in_use = false)
    (hans : List.Forall₂ (set_timing_response_ok I) (pending_categories s.vars) answers) :
    (∃ ts : List Transfer,
        (resync I answers s).vars.i2c_trace = s.vars.i2c_trace ++ ts
          ∧ List.Forall₂
              (fun cat t => t.cmd = CmdRef.set_timing_command ∧ cat.carried s.vars t.frame)
              (pending_categories s.vars) ts)
      ∧ (∀ k, k ≤ answers.length →
          (resync I (answers.take k) s).vars.i2c_trace.length
            = s.vars.i2c_trace.length + min (k + 1) (pending_categories s.vars).length)
      ∧ (∀ cat : Category, cat.qualifies (resync I answers s).vars = false)
      ∧ (resync I answers s).set_timing_command.in_use = false
      ∧ (resync I answers s).vars.timing_cache = s.vars.timing_cache
      ∧ (∀ cat : Category, cat.qualifies s.vars = false →
          cat.bits (resync I answers s).vars.missing_timings
            = cat.bits s.vars.missing_timings)
      ∧ ∀ cat : Category, (cat.entry s.vars).set = false →
          cat.bits (resync I answers s).vars.missing_timings
            = cat.bits s.vars.missing_timings := by
  obtain ⟨h1, h2, h3, h4, h5, h6⟩ := resync_scenario I s answers hfree hans
  refine ⟨h1, h2, (pending_categories_eq_nil_iff _).mp h3, h4, h5,
    fun cat hq => h6 cat (not_mem_pending_categories s.vars cat hq),
    fun cat hset => h6 cat (not_mem_pending_categories s.vars cat ?_)⟩
  unfold Category.qualifies
  rw [hset, Bool.and_false]

/-- Witness for C34: the claw timing and one torpedo timing are missing and
configured; both set-timing commands are answered successfully. -/
theorem resync_converges_witness :
    example_resync_pending.set_timing_command.in_use = false
      ∧ pending_categories example_resync_pending.vars
          = [Category.claw, Category.torpedo1 torpedo_timing_type.COIL1_ON]
      ∧ (resync example_interface [example_rx_ok, example_rx_ok]
          example_resync_pending).set_timing_command.in_use = false
      ∧ ∀ cat : Category,
          cat.qualifies (resync example_interface [example_rx_ok, example_rx_ok]
            example_resync_pending).vars = false :=
  have h := resync_converges example_interface example_resync_pending
    [example_rx_ok, example_rx_ok] (by decide) (by decide)
  ⟨by decide, by decide, h.2.2.2.1, h.2.2.1⟩

/-! ## The 8-bit cyclic redundancy check -/

theorem crc8_shift_eq (poly crc : Nat) :
    crc8_shift poly crc = ((crc <<< 1) % 256) ^^^ (if crc.testBit 7 = true then poly else 0) := by
  unfold crc8_shift
  split
  · rfl
  · rw [Nat.xor_zero]

theorem crc8_shift_testBit (poly crc i : Nat) :
    (crc8_shift poly crc).testBit i
      = ((decide (i < 8) && (decide (1 ≤ i) && crc.testBit (i - 1)))
          ^^ (crc.testBit 7 && poly.testBit i)) := by
  rw [crc8_shift_eq, Nat.testBit_xor, show (256 : Nat) = 2 ^ 8 from rfl,
    Nat.testBit_mod_two_pow, Nat.testBit_shiftLeft]
  congr 1
  cases crc.testBit 7
  · simp
  · simp

theorem crc8_shift_lt (poly crc : Nat) (hp : poly < 256) : crc8_shift poly crc < 256 := by
  rw [crc8_shift_eq]
  refine Nat.xor_lt_two_pow (n := 8) (Nat.mod_lt _ (by decide)) ?_
  split
  · exact hp
  · decide

/-- The shift step is linear over GF(2). -/
theorem crc8_shift_xor (poly a b : Nat) :
    crc8_shift poly (a ^^^ b) = crc8_shift poly a ^^^ crc8_shift poly b := by
  apply Nat.eq_of_testBit_eq
  intro i
  simp only [Nat.testBit_xor, crc8_shift_testBit]
  generalize a.testBit (i - 1) = x1
  generalize b.testBit (i - 1) = x2
  generalize a.testBit 7 = x3
  generalize b.testBit 7 = x4
  generalize poly.testBit i = x5
  generalize decide (i < 8) = x6
  generalize decide (1 ≤ i) = x7
  cases x1 <;> cases x2 <;> cases x3 <;> cases x4 <;> cases x5 <;> cases x6 <;> cases x7 <;> rfl

/-- With a generator polynomial whose constant term is nonzero, the shift step
sends no nonzero register value to zero. -/
theorem crc8_shift_ne_zero (poly crc : Nat) (hodd : poly % 2 = 1) (hc : crc < 256)
    (hne : crc ≠ 0) : crc8_shift poly crc ≠ 0 := by
  intro hz
  have hbit : ∀ i, (crc8_shift poly crc).testBit i = false := by
    intro i; rw [hz]; exact Nat.zero_testBit i
  have hp0 : poly.testBit 0 = true := by
    rw [Nat.testBit_zero]; simp [hodd]
  cases h7 : crc.testBit 7 with
  | true =>
    have := hbit 0
    rw [crc8_shift_testBit, h7, hp0] at this
    simp at this
  | false =>
    obtain ⟨i, hi⟩ := Nat.ne_zero_implies_bit_true hne
    have hge := Nat.testBit_implies_ge hi
    have hi8 : i < 8 := by
      have : 2 ^ i < 2 ^ 8 := lt_of_le_of_lt hge hc
      exact (Nat.pow_lt_pow_iff_right (by decide)).mp this
    have hi7 : i ≠ 7 := by
      rintro rfl
      rw [h7] at hi
      cases hi
    have := hbit (i + 1)
    rw [crc8_shift_testBit, h7] at this
    have h1 : decide (i + 1 < 8) = true := by simp; omega
    simp only [h1, Nat.add_sub_cancel, hi] at this
    simp at this

theorem crc8_shift_iterate_lt (poly : Nat) (hp : poly < 256) (n crc : Nat) (hc : crc < 256) :
    (crc8_shift poly)^[n] crc < 256 := by
  induction n with
  | zero => exact hc
  | succ n ih =>
    rw [Function.iterate_succ_apply']
    exact crc8_shift_lt poly _ hp

theorem crc8_shift_iterate_xor (poly n a b : Nat) :
    (crc8_shift poly)^[n] (a ^^^ b)
      = (crc8_shift poly)^[n] a ^^^ (crc8_shift poly)^[n] b := by
  induction n with
  | zero => rfl
  | succ n ih =>
    rw [Function.iterate_succ_apply', Function.iterate_succ_apply',
      Function.iterate_succ_apply', ih, crc8_shift_xor]

theorem crc8_shift_iterate_ne_zero (poly : Nat) (hp : poly < 256) (hodd : poly % 2 = 1)
    (n crc : Nat) (hc : crc < 256) (hne : crc ≠ 0) : (crc8_shift poly)^[n] crc ≠ 0 := by
  induction n with
  | zero => exact hne
  | succ n ih =>
    rw [Function.iterate_succ_apply']
    exact crc8_shift_ne_zero poly _ hodd (crc8_shift_iterate_lt poly hp n crc hc) ih

/-- Eight shift steps take different register values to different values. -/
theorem crc8_shift_iterate_injective (poly : Nat) (hp : poly < 256) (hodd : poly % 2 = 1)
    (n a b : Nat) (ha : a < 256) (hb : b < 256) (hne : a ≠ b) :
    (crc8_shift poly)^[n] a ≠ (crc8_shift poly)^[n] b := by
  intro heq
  have hx : (crc8_shift poly)^[n] (a ^^^ b) = 0 := by
    rw [crc8_shift_iterate_xor, heq, Nat.xor_self]
  have hlt : a ^^^ b < 256 := Nat.xor_lt_two_pow (n := 8) ha hb
  have hnz : a ^^^ b ≠ 0 := fun h => hne (Nat.xor_eq_zero.mp h)
  exact crc8_shift_iterate_ne_zero poly hp hodd n _ hlt hnz hx

theorem crc8_byte_lt (poly crc byte : Nat) (hp : poly < 256) (hc : crc < 256)
    (hb : byte < 256) : crc8_byte poly crc byte < 256 :=
  crc8_shift_iterate_lt poly hp 8 _ (Nat.xor_lt_two_pow (n := 8) hc hb)

/-- Different register values stay different over a byte. -/
theorem crc8_byte_ne_of_crc (poly : Nat) (hp : poly < 256) (hodd : poly % 2 = 1)
    (c c' byte : Nat) (hc : c < 256) (hc' : c' < 256) (hb : byte < 256) (hne : c ≠ c') :
    crc8_byte poly c byte ≠ crc8_byte poly c' byte :=
  crc8_shift_iterate_injective poly hp hodd 8 _ _ (Nat.xor_lt_two_pow (n := 8) hc hb)
    (Nat.xor_lt_two_pow (n := 8) hc' hb) (fun h => hne (Nat.xor_left_inj.mp h))

theorem two_pow_lt_256 (k : Nat) (hk : k < 8) : 2 ^ k < 256 :=
  Nat.pow_lt_pow_right (by decide) hk

theorem xor_two_pow_ne (b k : Nat) : b ^^^ 2 ^ k ≠ b := by
  intro h
  have h2 : b ^^^ 2 ^ k = b ^^^ 0 := by rw [h, Nat.xor_zero]
  have := Nat.xor_right_inj.mp h2
  exact absurd this (Nat.pos_iff_ne_zero.mp (Nat.two_pow_pos k))

/-- A flipped bit in a byte changes the register value after that byte. -/
theorem crc8_byte_ne_of_flip (poly : Nat) (hp : poly < 256) (hodd : poly % 2 = 1)
    (c byte k : Nat) (hc : c < 256) (hb : byte < 256) (hk : k < 8) :
    crc8_byte poly c (byte ^^^ 2 ^ k) ≠ crc8_byte poly c byte :=
  crc8_shift_iterate_injective poly hp hodd 8 _ _
    (Nat.xor_lt_two_pow (n := 8) hc (Nat.xor_lt_two_pow (n := 8) hb (two_pow_lt_256 k hk)))
    (Nat.xor_lt_two_pow (n := 8) hc hb)
    (fun h => xor_two_pow_ne byte k (Nat.xor_right_inj.mp h))

theorem crc8_lt (poly : Nat) (hp : poly < 256) (bytes : List Nat) :
    ∀ init, init < 256 → (∀ b ∈ bytes, b < 256) → crc8 poly init bytes < 256 := by
  induction bytes with
  | nil => intro init hi _; exact hi
  | cons b rest ih =>
    intro init hi hb
    exact ih _ (crc8_byte_lt poly init b hp hi (hb b (List.mem_cons_self _ _)))
      (fun x hx => hb x (List.mem_cons_of_mem _ hx))

/-- Different register values stay different over any sequence of bytes. -/
theorem crc8_ne_of_init (poly : Nat) (hp : poly < 256) (hodd : poly % 2 = 1)
    (bytes : List Nat) :
    ∀ c c', c < 256 → c' < 256 → (∀ b ∈ bytes, b < 256) → c ≠ c' →
      crc8 poly c bytes ≠ crc8 poly c' bytes := by
  induction bytes with
  | nil => intro c c' _ _ _ hne; exact hne
  | cons b rest ih =>
    intro c c' hc hc' hb hne
    have hb0 := hb b (List.mem_cons_self _ _)
    exact ih _ _ (crc8_byte_lt poly c b hp hc hb0) (crc8_byte_lt poly c' b hp hc' hb0)
      (fun x hx => hb x (List.mem_cons_of_mem _ hx))
      (crc8_byte_ne_of_crc poly hp hodd c c' b hc hc' hb0 hne)

/-- The 8-bit cyclic redundancy check detects every single flipped bit. -/
theorem crc8_flip_bit_ne (poly : Nat) (hp : poly < 256) (hodd : poly % 2 = 1) (k : Nat)
    (hk : k < 8) (bytes : List Nat) :
    ∀ (i init : Nat), i < bytes.length → init < 256 → (∀ b ∈ bytes, b < 256) →
      crc8 poly init (flip_bit bytes i k) ≠ crc8 poly init bytes := by
  induction bytes with
  | nil => intro i init hi; cases hi
  | cons b rest ih =>
    intro i init hi hinit hb
    have hb0 := hb b (List.mem_cons_self _ _)
    have hrest : ∀ x ∈ rest, x < 256 := fun x hx => hb x (List.mem_cons_of_mem _ hx)
    cases i with
    | zero =>
      exact crc8_ne_of_init poly hp hodd rest _ _
        (crc8_byte_lt poly init _ hp hinit
          (Nat.xor_lt_two_pow (n := 8) hb0 (two_pow_lt_256 k hk)))
        (crc8_byte_lt poly init b hp hinit hb0) hrest
        (crc8_byte_ne_of_flip poly hp hodd init b k hinit hb0 hk)
    | succ j =>
      exact ih j _ (by simpa using hi) (crc8_byte_lt poly init b hp hinit hb0) hrest

/-! ## The checksum of the outbound frame -/

theorem Crc8Engine.calc_command_lt (E : Crc8Engine) (hwf : E.wellformed)
    (f : actuator_i2c_cmd_t) (n : Nat) : E.calc_command f n < 256 :=
  crc8_lt E.poly hwf.1 _ E.init hwf.2.2.1 (hwf.2.2.2 f.cmd_id f.data n)

/-- C27. With the checksum of the spec (an 8-bit cyclic redundancy check over
the command id and the payload) in the place of the checksum function of the
absent header: for a populated slot, after `actuator_send_command` the frame
on the wire is the bytes of the command id and of the payload, as they were,
followed by their check; the stored checksum does not depend on the previous
content of the checksum byte; nothing else in the slot changes but the
in-progress flag, which is set; no other slot changes; and exactly one
transfer is enqueued, of the slot's embedded request with the frame as
sent. -/
theorem actuator_send_command_contract (I : Interface) (E : Crc8Engine) (cmd : CmdRef)
    (s : State) (hwf : E.wellformed) (hvalid : s.validRef cmd) :
    E.command_frame ((actuator_send_command (I.with_crc8 E) cmd s).cmd cmd).request
          (s.cmd cmd).i2c_request.bytes_to_send
        = E.command_image (s.cmd cmd).request.cmd_id (s.cmd cmd).request.data
              (s.cmd cmd).i2c_request.bytes_to_send
            ++ [crc8 E.poly E.init
              (E.command_image (s.cmd cmd).request.cmd_id (s.cmd cmd).request.data
                (s.cmd cmd).i2c_request.bytes_to_send)]
      ∧ (∀ c : Nat,
          ((actuator_send_command (I.with_crc8 E) cmd
              (s.modifyCmd cmd fun d => { d with request := { d.request with crc8 := c } })).cmd
            cmd).request = ((actuator_send_command (I.with_crc8 E) cmd s).cmd cmd).request)
      ∧ (actuator_send_command (I.with_crc8 E) cmd s).cmd cmd =
          { (s.cmd cmd) with
            request :=
              { (s.cmd cmd).request with
                crc8 := crc8 E.poly E.init
                  (E.command_image (s.cmd cmd).request.cmd_id (s.cmd cmd).request.data
                    (s.cmd cmd).i2c_request.bytes_to_send) }
            i2c_in_progress := true }
      ∧ (∀ r : CmdRef, r ≠ cmd → (actuator_send_command (I.with_crc8 E) cmd s).cmd r = s.cmd r)
      ∧ (actuator_send_command (I.with_crc8 E) cmd s).vars =
          { s.vars with
            i2c_queue := s.vars.i2c_queue ++ [cmd]
            i2c_trace := s.vars.i2c_trace ++
              [⟨cmd, (s.cmd cmd).i2c_request,
                { (s.cmd cmd).request with
                  crc8 := crc8 E.poly E.init
                    (E.command_image (s.cmd cmd).request.cmd_id (s.cmd cmd).request.data
                      (s.cmd cmd).i2c_request.bytes_to_send) }⟩] } := by
  have hmod : ∀ f n, (I.with_crc8 E).actuator_i2c_crc8_calc_command f n % 256
      = crc8 E.poly E.init (E.command_image f.cmd_id f.data n) := fun f n =>
    Nat.mod_eq_of_lt (Crc8Engine.calc_command_lt E hwf f n)
  obtain ⟨h1, h2, h3⟩ := actuator_send_command_stores (I.with_crc8 E) cmd s hvalid
  rw [hmod] at h1 h3
  refine ⟨?_, fun c => ?_, h1, h2, h3⟩
  · rw [h1]; rfl
  · rw [h1, actuator_send_command_cmd _ cmd _ ((validRef_modifyCmd s cmd cmd _).mpr hvalid),
      cmd_modifyCmd_same _ _ _ hvalid, hmod]

theorem example_crc8_engine_wellformed : example_crc8_engine.wellformed := by
  refine ⟨by decide, by decide, by decide, fun id payload n b hb => ?_⟩
  have hmem := List.mem_of_mem_take hb
  simp only [List.mem_cons, List.mem_singleton, List.not_mem_nil, or_false] at hmem
  rcases hmem with rfl | rfl | rfl
  · cases id <;> decide
  · exact Nat.mod_lt _ (by decide)
  · exact Nat.mod_lt _ (by decide)

/-- The check of the example frame of the dropper timing command. -/
theorem example_crc8_dropper : crc8 7 0 [10, 250, 0] = 17 := by
  have h1 : crc8_byte 7 0 10 = 54 := by decide
  have h2 : crc8_byte 7 54 250 = 106 := by decide
  have h3 : crc8_byte 7 106 0 = 17 := by decide
  simp only [crc8, List.foldl, h1, h2, h3]

/-- Witness for C27: the dropper timing command is sent again on the timing
slot; the frame on the wire is the command code 10, the two bytes of the value
250, and their check. -/
theorem actuator_send_command_contract_witness :
    example_crc8_engine.wellformed
      ∧ example_crc8_dropper_failed.validRef CmdRef.set_timing_command
      ∧ (example_crc8_dropper_failed.cmd CmdRef.set_timing_command).i2c_request.bytes_to_send
          = 4
      ∧ example_crc8_engine.command_frame
          ((actuator_send_command (example_interface.with_crc8 example_crc8_engine) CmdRef.set_timing_command
            example_crc8_dropper_failed).cmd CmdRef.set_timing_command).request 4
          = [10, 250, 0, 17]
      ∧ ∀ c : Nat,
          ((actuator_send_command (example_interface.with_crc8 example_crc8_engine) CmdRef.set_timing_command
              (example_crc8_dropper_failed.modifyCmd CmdRef.set_timing_command fun d =>
                { d with request := { d.request with crc8 := c } })).cmd
            CmdRef.set_timing_command).request
          = ((actuator_send_command (example_interface.with_crc8 example_crc8_engine) CmdRef.set_timing_command
              example_crc8_dropper_failed).cmd CmdRef.set_timing_command).request :=
  have h := actuator_send_command_contract example_interface example_crc8_engine
    CmdRef.set_timing_command example_crc8_dropper_failed example_crc8_engine_wellformed
    trivial
  have hn : (example_crc8_dropper_failed.cmd
      CmdRef.set_timing_command).i2c_request.bytes_to_send = 4 := by decide
  have himg : example_crc8_engine.command_image
      (example_crc8_dropper_failed.cmd CmdRef.set_timing_command).request.cmd_id
      (example_crc8_dropper_failed.cmd CmdRef.set_timing_command).request.data 4
      = [10, 250, 0] := by decide
  ⟨example_crc8_engine_wellformed, trivial, hn,
    by
      have h1 := h.1
      rw [hn, himg] at h1
      rw [h1]
      show [10, 250, 0] ++ [crc8 7 0 [10, 250, 0]] = _
      rw [example_crc8_dropper]
      rfl,
    h.2.1⟩

/-! ## Single flipped bits of a frame -/

theorem flip_bit_length (k : Nat) (l : List Nat) : ∀ i, (flip_bit l i k).length = l.length := by
  induction l with
  | nil => intro i; rfl
  | cons b rest ih =>
    intro i
    cases i with
    | zero => rfl
    | succ j => simp only [flip_bit, List.length_cons, ih j]

theorem flip_bit_lt (k : Nat) (hk : k < 8) (l : List Nat) :
    ∀ i, (∀ b ∈ l, b < 256) → ∀ b ∈ flip_bit l i k, b < 256 := by
  induction l with
  | nil => intro i _ b hb; cases hb
  | cons a rest ih =>
    intro i hl b hb
    have ha := hl a (List.mem_cons_self _ _)
    have hrest : ∀ x ∈ rest, x < 256 := fun x hx => hl x (List.mem_cons_of_mem _ hx)
    cases i with
    | zero =>
      rcases List.mem_cons.mp hb with rfl | hb
      · exact Nat.xor_lt_two_pow (n := 8) ha (two_pow_lt_256 k hk)
      · exact hrest b hb
    | succ j =>
      rcases List.mem_cons.mp hb with rfl | hb
      · exact ha
      · exact ih j hrest b hb

/-- A flip in the bytes before the last byte leaves the last byte alone. -/
theorem flip_bit_append_left (k : Nat) (r : List Nat) (l : List Nat) :
    ∀ i, i < l.length → flip_bit (l ++ r) i k = flip_bit l i k ++ r := by
  induction l with
  | nil => intro i hi; cases hi
  | cons b rest ih =>
    intro i hi
    cases i with
    | zero => rfl
    | succ j =>
      show b :: flip_bit (rest ++ r) j k = b :: (flip_bit rest j k ++ r)
      rw [ih j (by simpa using hi)]

/-- A flip in the last byte leaves the bytes before it alone. -/
theorem flip_bit_append_last (k c : Nat) (l : List Nat) :
    flip_bit (l ++ [c]) l.length k = l ++ [c ^^^ 2 ^ k] := by
  induction l with
  | nil => rfl
  | cons b rest ih =>
    show b :: flip_bit (rest ++ [c]) rest.length k = b :: (rest ++ [c ^^^ 2 ^ k])
    rw [ih]

/-- A frame whose last byte is `c` is the bytes before it followed by `c`. -/
theorem frame_split (w : List Nat) (c : Nat) (h : w.getLast? = some c) :
    w = w.dropLast ++ [c] :=
  (List.dropLast_append_getLast? c (by rw [h]; exact rfl)).symm

theorem mem_dropLast_lt (w : List Nat) (h : ∀ b ∈ w, b < 256) : ∀ b ∈ w.dropLast, b < 256 :=
  fun b hb => h b (List.mem_of_mem_dropLast hb)

/-! ## Checksum integrity of the completion handler -/

theorem Crc8Engine.calc_response_read (E : Crc8Engine) (n : Nat) (hlay : E.layout n)
    (w : List Nat) (hlen : w.length = n) (hb : ∀ b ∈ w, b < 256) :
    E.calc_response (E.read w) n = crc8 E.poly E.init w.dropLast := by
  unfold Crc8Engine.calc_response
  rw [(hlay w hlen hb).1]

/-- A frame whose checksum byte is the check of the bytes before it passes
the test of the completion handler. -/
theorem Crc8Engine.accepts (E : Crc8Engine) (hwf : E.wellformed) (n : Nat) (hlay : E.layout n)
    (w : List Nat) (hw : E.valid_frame n w) :
    E.calc_response (E.read w) n % 256 = (E.read w).crc8 := by
  obtain ⟨hlen, hb, hlast⟩ := hw
  have hc := (hlay w hlen hb).2
  rw [hlast] at hc
  rw [Crc8Engine.calc_response_read E n hlay w hlen hb, Option.some.inj hc]
  exact Nat.mod_eq_of_lt (crc8_lt E.poly hwf.1 _ E.init hwf.2.2.1 (mem_dropLast_lt w hb))

/-- A single flipped bit, in any byte of the frame, makes the recomputed
checksum differ from the checksum byte. -/
theorem Crc8Engine.detects (E : Crc8Engine) (hwf : E.wellformed) (n : Nat) (hlay : E.layout n)
    (w : List Nat) (hw : E.valid_frame n w) (i k : Nat) (hi : i < w.length) (hk : k < 8) :
    E.calc_response (E.read (flip_bit w i k)) n % 256 ≠ (E.read (flip_bit w i k)).crc8 := by
  obtain ⟨hlen, hb, hlast⟩ := hw
  have hsplit := frame_split w _ hlast
  have hd := mem_dropLast_lt w hb
  have hlen' : (flip_bit w i k).length = n := by rw [flip_bit_length, hlen]
  have hb' := flip_bit_lt k hk w i hb
  have hc := (hlay _ hlen' hb').2
  rw [Crc8Engine.calc_response_read E n hlay _ hlen' hb']
  have hdl : w.dropLast.length + 1 = w.length := by
    conv_rhs => rw [hsplit]
    simp
  rcases Nat.lt_or_ge i w.dropLast.length with h | h
  · have hf : flip_bit w i k
        = flip_bit w.dropLast i k ++ [crc8 E.poly E.init w.dropLast] := by
      conv_lhs => rw [hsplit]
      exact flip_bit_append_left k _ _ i h
    rw [hf, List.getLast?_concat] at hc
    rw [hf, List.dropLast_concat, Option.some.inj hc,
      Nat.mod_eq_of_lt (crc8_lt E.poly hwf.1 _ E.init hwf.2.2.1
        (flip_bit_lt k hk _ i hd))]
    exact crc8_flip_bit_ne E.poly hwf.1 hwf.2.1 k hk _ i E.init h hwf.2.2.1 hd
  · have hie : i = w.dropLast.length := by omega
    have hf : flip_bit w i k
        = w.dropLast ++ [crc8 E.poly E.init w.dropLast ^^^ 2 ^ k] := by
      conv_lhs => rw [hsplit]
      rw [hie]
      exact flip_bit_append_last k _ _
    rw [hf, List.getLast?_concat] at hc
    rw [hf, List.dropLast_concat, Option.some.inj hc,
      Nat.mod_eq_of_lt (crc8_lt E.poly hwf.1 _ E.init hwf.2.2.1 hd)]
    exact (xor_two_pow_ne _ k).symm

/-- The state in which the completion handler finds the slot when the
transfer of slot `cmd` has completed with the frame `rx`. -/
theorem transfer_completed_eq (cmd : CmdRef) (rx : actuator_i2c_response_t)
    (s : State) (hvalid : s.validRef cmd) :
    ((s.modifyCmd cmd fun c => { c with response := rx }).cmd cmd)
      = { (s.cmd cmd) with response := rx } :=
  cmd_modifyCmd_same s cmd _ hvalid

/-- A frame that passes the checksum test is handed to the dispatch handler of
the slot, once. -/
theorem transfer_completed_accepts (I : Interface) (cmd : CmdRef)
    (rx : actuator_i2c_response_t) (s : State) (hvalid : s.validRef cmd)
    (hreq : (s.cmd cmd).i2c_request.user_data = some cmd)
    (hok : (s.cmd cmd).i2c_request.bytes_to_receive = 0 ∨
      I.actuator_i2c_crc8_calc_response rx (s.cmd cmd).i2c_request.bytes_to_receive % 256
        = rx.crc8) :
    (transfer_completed I cmd rx s).vars.cb_trace
      = s.vars.cb_trace ++
          match (s.cmd cmd).response_cb with
          | some cb => [(cb, cmd)]
          | none => [] := by
  have hc := transfer_completed_eq cmd rx s hvalid
  unfold transfer_completed
  simp only []
  rw [actuator_command_done_ok_eq I _ cmd _ (by rw [hc]; exact hreq)
    (response_crc_mismatch_none I _ (by rw [hc]; exact hok)), hc]
  simp only []
  cases (s.cmd cmd).response_cb with
  | none => simp
  | some cb =>
    simp only []
    split
    · rw [call_response_cb_cb_trace, modifyCmd_vars]
    · rw [modifyCmd_vars, call_response_cb_cb_trace, modifyCmd_vars]

/-- A frame that fails the checksum test is not handed to the dispatch
handler: the mismatch is logged and the slot is released. -/
theorem transfer_completed_rejects (I : Interface) (cmd : CmdRef)
    (rx : actuator_i2c_response_t) (s : State) (hvalid : s.validRef cmd)
    (hreq : (s.cmd cmd).i2c_request.user_data = some cmd)
    (hlen : (s.cmd cmd).i2c_request.bytes_to_receive > 0)
    (hcrc : I.actuator_i2c_crc8_calc_response rx (s.cmd cmd).i2c_request.bytes_to_receive % 256
        ≠ rx.crc8) :
    (transfer_completed I cmd rx s).vars.cb_trace = s.vars.cb_trace
      ∧ ((transfer_completed I cmd rx s).cmd cmd).in_use = false
      ∧ LogMsg.warn_crc_mismatch
          (I.actuator_i2c_crc8_calc_response rx (s.cmd cmd).i2c_request.bytes_to_receive % 256)
          rx.crc8 ∈ (transfer_completed I cmd rx s).vars.log := by
  have hc := transfer_completed_eq cmd rx s hvalid
  unfold transfer_completed
  simp only []
  rw [actuator_command_done_mismatch_eq I _ cmd _ (by rw [hc]; exact hreq)
    (by rw [hc]; exact hlen) (by rw [hc]; exact hcrc), hc]
  simp only [modifyCmd_vars]
  split
  · refine ⟨by simp, ?_, ?_⟩
    · rw [cmd_modifyCmd_same]
      rw [validRef_of_length (safety_raise_fault_length _ _)]
      simpa using hvalid
    · rw [safety_raise_fault_vars]
      split <;> simp
  · refine ⟨by simp, ?_, by simp⟩
    rw [cmd_modifyCmd_same]
    simpa using hvalid

/-- C32. Checksum integrity, with the checksum of the spec (an 8-bit cyclic
redundancy check) in the place of the checksum functions of the absent
header, for a response structure laid out as the frame arrives: for a slot
whose populated command declares a nonzero response length `n` and every
frame of `n` bytes on the wire whose last byte is the check of the bytes
before it (the result code and the payload), the completion handler finds no
mismatch and hands the frame to the dispatch handler of the slot (once, if
there is one); and for every frame that differs from such a frame in a single
bit of any of its `n` bytes (result code, payload or checksum byte) the
completion handler finds a mismatch: it logs it, does not invoke the dispatch
handler and releases the slot. -/
theorem checksum_integrity (I : Interface) (E : Crc8Engine) (cmd : CmdRef) (s : State)
    (w : List Nat) (hwf : E.wellformed) (hvalid : s.validRef cmd)
    (hreq : (s.cmd cmd).i2c_request.user_data = some cmd)
    (hlen : (s.cmd cmd).i2c_request.bytes_to_receive > 0)
    (hlay : E.layout (s.cmd cmd).i2c_request.bytes_to_receive)
    (hw : E.valid_frame (s.cmd cmd).i2c_request.bytes_to_receive w) :
    (response_crc_mismatch (I.with_crc8 E) { (s.cmd cmd) with response := E.read w } = none
        ∧ (transfer_completed (I.with_crc8 E) cmd (E.read w) s).vars.cb_trace
            = s.vars.cb_trace ++
                match (s.cmd cmd).response_cb with
                | some cb => [(cb, cmd)]
                | none => [])
      ∧ ∀ i k : Nat, i < w.length → k < 8 →
          response_crc_mismatch (I.with_crc8 E)
              { (s.cmd cmd) with response := E.read (flip_bit w i k) }
            = some (E.calc_response (E.read (flip_bit w i k))
                (s.cmd cmd).i2c_request.bytes_to_receive, (E.read (flip_bit w i k)).crc8)
          ∧ (transfer_completed (I.with_crc8 E) cmd (E.read (flip_bit w i k)) s).vars.cb_trace
              = s.vars.cb_trace
          ∧ ((transfer_completed (I.with_crc8 E) cmd (E.read (flip_bit w i k)) s).cmd
              cmd).in_use = false
          ∧ LogMsg.warn_crc_mismatch
              (E.calc_response (E.read (flip_bit w i k))
                (s.cmd cmd).i2c_request.bytes_to_receive)
              (E.read (flip_bit w i k)).crc8
              ∈ (transfer_completed (I.with_crc8 E) cmd (E.read (flip_bit w i k)) s).vars.log := by
  have hok : (I.with_crc8 E).actuator_i2c_crc8_calc_response (E.read w)
      (s.cmd cmd).i2c_request.bytes_to_receive % 256 = (E.read w).crc8 :=
    Crc8Engine.accepts E hwf _ hlay w hw
  refine ⟨⟨response_crc_mismatch_none (I.with_crc8 E) _ (Or.inr hok),
    transfer_completed_accepts (I.with_crc8 E) cmd (E.read w) s hvalid hreq (Or.inr hok)⟩, ?_⟩
  intro i k hi hk
  have hbad : (I.with_crc8 E).actuator_i2c_crc8_calc_response (E.read (flip_bit w i k))
      (s.cmd cmd).i2c_request.bytes_to_receive % 256 ≠ (E.read (flip_bit w i k)).crc8 :=
    Crc8Engine.detects E hwf _ hlay w hw i k hi hk
  have hlen' : (flip_bit w i k).length = (s.cmd cmd).i2c_request.bytes_to_receive := by
    rw [flip_bit_length, hw.1]
  have hlt : E.calc_response (E.read (flip_bit w i k))
      (s.cmd cmd).i2c_request.bytes_to_receive < 256 := by
    rw [Crc8Engine.calc_response_read E _ hlay _ hlen' (flip_bit_lt k hk w i hw.2.1)]
    exact crc8_lt E.poly hwf.1 _ E.init hwf.2.2.1
      (mem_dropLast_lt _ (flip_bit_lt k hk w i hw.2.1))
  have hmod : (I.with_crc8 E).actuator_i2c_crc8_calc_response (E.read (flip_bit w i k))
      (s.cmd cmd).i2c_request.bytes_to_receive % 256
      = E.calc_response (E.read (flip_bit w i k)) (s.cmd cmd).i2c_request.bytes_to_receive :=
    Nat.mod_eq_of_lt hlt
  refine ⟨?_, ?_⟩
  · rw [response_crc_mismatch_some (I.with_crc8 E)
      { (s.cmd cmd) with response := E.read (flip_bit w i k) } hlen hbad]
    simp only [hmod]
  · have h := transfer_completed_rejects (I.with_crc8 E) cmd (E.read (flip_bit w i k)) s hvalid
      hreq hlen hbad
    rw [hmod] at h
    exact h

theorem example_crc8_engine_layout : example_crc8_engine.layout 3 := by
  intro w hlen hb
  rcases w with _ | ⟨a, _ | ⟨b, _ | ⟨c, _ | ⟨d, t⟩⟩⟩⟩
  · cases hlen
  · cases hlen
  · cases hlen
  · have ha : a < 256 := hb a (by simp)
    have hb1 : b < 256 := hb b (by simp)
    simp [example_crc8_engine, Nat.mod_eq_of_lt ha, Nat.mod_eq_of_lt hb1]
  · simp at hlen

/-- Witness for C32: a status response frame with the right checksum, and the
same frame with one bit flipped in the result code, in the firmware version
byte, and in the checksum byte. -/
theorem checksum_integrity_witness :
    example_crc8_engine.wellformed
      ∧ example_crc8_engine.layout 3
      ∧ (example_crc8_polling.cmd CmdRef.status_command).i2c_request.bytes_to_receive = 3
      ∧ example_crc8_engine.valid_frame 3 example_frame_crc8
      ∧ (transfer_completed (example_interface.with_crc8 example_crc8_engine) CmdRef.status_command
          (example_crc8_engine.read example_frame_crc8) example_crc8_polling).vars.cb_trace
          = example_crc8_polling.vars.cb_trace
            ++ [(actuator_cmd_response_cb_t.actuator_status_callback, CmdRef.status_command)]
      ∧ (transfer_completed (example_interface.with_crc8 example_crc8_engine) CmdRef.status_command
          (example_crc8_engine.read (flip_bit example_frame_crc8 0 7))
          example_crc8_polling).vars.cb_trace = example_crc8_polling.vars.cb_trace
      ∧ (transfer_completed (example_interface.with_crc8 example_crc8_engine) CmdRef.status_command
          (example_crc8_engine.read (flip_bit example_frame_crc8 1 1))
          example_crc8_polling).vars.cb_trace = example_crc8_polling.vars.cb_trace
      ∧ (transfer_completed (example_interface.with_crc8 example_crc8_engine) CmdRef.status_command
          (example_crc8_engine.read (flip_bit example_frame_crc8 2 0))
          example_crc8_polling).vars.cb_trace = example_crc8_polling.vars.cb_trace :=
  have hn : (example_crc8_polling.cmd CmdRef.status_command).i2c_request.bytes_to_receive
      = 3 := by decide
  have hcb : (example_crc8_polling.cmd CmdRef.status_command).response_cb
      = some actuator_cmd_response_cb_t.actuator_status_callback := by decide
  have hv : example_crc8_engine.valid_frame 3 example_frame_crc8 := by decide
  have h := checksum_integrity example_interface example_crc8_engine CmdRef.status_command
    example_crc8_polling example_frame_crc8 example_crc8_engine_wellformed trivial
    (by decide) (by rw [hn]; decide) (by rw [hn]; exact example_crc8_engine_layout)
    (by rw [hn]; exact hv)
  ⟨example_crc8_engine_wellformed, example_crc8_engine_layout, hn, hv,
    by
      have h1 := h.1.2
      rw [hcb] at h1
      exact h1,
    (h.2 0 7 (by decide) (by decide)).2.1, (h.2 1 1 (by decide) (by decide)).2.1,
    (h.2 2 0 (by decide) (by decide)).2.1⟩

/-! ## The transfer queue -/

theorem TransferQueue.fires_congr (q q' : TransferQueue) (h : q'.fired = q.fired) (t : Nat) :
    q'.fires t = q.fires t := by
  unfold TransferQueue.fires
  rw [h]

theorem TransferQueue.fires_append (q q' : TransferQueue) (f : Fired)
    (h : q'.fired = q.fired ++ [f]) (t : Nat) :
    q'.fires t = q.fires t + if f.ticket = t ∧ f.link = 0 then 1 else 0 := by
  unfold TransferQueue.fires
  rw [h, List.countP_append, List.countP_cons, List.countP_nil]
  by_cases h1 : f.ticket = t <;> by_cases h2 : f.link = 0 <;> simp [h1, h2]

theorem TransferQueue.fires_eq_zero (q : TransferQueue) (t : Nat)
    (h : ∀ f ∈ q.fired, f.ticket < t) : q.fires t = 0 := by
  unfold TransferQueue.fires
  rw [List.countP_eq_zero]
  intro f hf
  have := h f hf
  have hne : f.ticket ≠ t := by omega
  simp [hne]

theorem TransferQueue.consistent_empty : ({} : TransferQueue).consistent := by
  refine ⟨?_, ?_, ?_, ?_, ?_, ?_⟩
  · intro e he; cases he
  · exact List.nodup_nil
  · intro f hf; cases hf
  · intro e he; cases he
  · intro t ht; cases ht
  · intro f hf; cases hf

/-- A call of `async_i2c_enqueue` keeps the bookkeeping consistent. -/
theorem TransferQueue.enqueue_consistent (q : TransferQueue) (r : QueueRequest) (flag : Nat)
    (hq : q.consistent) : (q.enqueue r flag).consistent := by
  obtain ⟨h1, h2, h5, h6, h7, h8⟩ := hq
  have hp : (q.enqueue r flag).pending
      = q.pending ++ [QueueEntry.mk q.enqueued 0 r.head r.chain flag] := rfl
  have hn : (q.enqueue r flag).enqueued = q.enqueued + 1 := rfl
  have hf : (q.enqueue r flag).fired = q.fired := rfl
  refine ⟨?_, ?_, ?_, ?_, ?_, ?_⟩
  · intro e he
    rw [hp, List.mem_append, List.mem_singleton] at he
    rw [hn]
    rcases he with he | rfl
    · exact Nat.lt_succ_of_lt (h1 e he)
    · exact Nat.lt_succ_self _
  · rw [hp, List.map_append, List.nodup_append]
    refine ⟨h2, List.nodup_singleton _, ?_⟩
    intro t ht ht'
    rw [List.map_cons, List.map_nil, List.mem_singleton] at ht'
    obtain ⟨e, he, rfl⟩ := List.mem_map.mp ht
    have := h1 e he
    simp only [] at ht'
    omega
  · intro f hff
    rw [hn]
    exact Nat.lt_succ_of_lt (h5 f (hf ▸ hff))
  · intro e he
    rw [TransferQueue.fires_congr q _ hf]
    rw [hp, List.mem_append, List.mem_singleton] at he
    rcases he with he | rfl
    · exact h6 e he
    · simp only [if_true]
      exact TransferQueue.fires_eq_zero q _ h5
  · intro t ht hnot
    rw [TransferQueue.fires_congr q _ hf]
    rw [hn] at ht
    have hne : t ≠ q.enqueued := by
      intro h
      exact hnot (QueueEntry.mk q.enqueued 0 r.head r.chain flag)
        (by rw [hp]; simp) h.symm
    refine h7 t (by omega) ?_
    intro e he
    exact hnot e (by rw [hp]; exact List.mem_append_left _ he)
  · intro f hff
    exact h8 f (hf ▸ hff)

/-- The calls of a handler keep the bookkeeping consistent. -/
theorem TransferQueue.handler_calls_consistent (calls : List (QueueRequest × Nat)) :
    ∀ q : TransferQueue, q.consistent → (q.handler_calls calls).consistent := by
  induction calls with
  | nil => intro q hq; exact hq
  | cons c rest ih =>
    intro q hq
    exact ih _ (TransferQueue.enqueue_consistent q c.1 c.2 hq)

theorem TransferQueue.handler_calls_push_front (calls : List (QueueRequest × Nat))
    (e : QueueEntry) :
    ∀ q : TransferQueue, (q.push_front e).handler_calls calls
      = (q.handler_calls calls).push_front e := by
  induction calls with
  | nil => intro q; rfl
  | cons c rest ih =>
    intro q
    show ((q.push_front e).enqueue c.1 c.2).handler_calls rest = _
    have : (q.push_front e).enqueue c.1 c.2 = (q.enqueue c.1 c.2).push_front e := rfl
    rw [this, ih]
    rfl

/-- The end of the oldest pending transfer, before its handler runs: with the
transfer recorded and the entry moved on to the next link, the bookkeeping is
consistent. -/
theorem TransferQueue.fire_consistent (q q2 : TransferQueue) (e e' : QueueEntry)
    (rest : List QueueEntry) (f : Fired) (hq : q.consistent) (hp : q.pending = e :: rest)
    (hp2 : q2.pending = e' :: rest) (ht : e'.ticket = e.ticket) (hl : e'.link = e.link + 1)
    (hn : q2.enqueued = q.enqueued) (hf : q2.fired = q.fired ++ [f])
    (hft : f.ticket = e.ticket) (hflk : f.link = e.link)
    (hfh : f.handler = f.expected_handler) : q2.consistent := by
  obtain ⟨h1, h2, h5, h6, h7, h8⟩ := hq
  rw [hp] at h1 h2 h6 h7
  have he := List.mem_cons_self e rest
  refine ⟨?_, ?_, ?_, ?_, ?_, ?_⟩
  · intro a ha
    rw [hp2] at ha
    rw [hn]
    rcases List.mem_cons.mp ha with rfl | ha
    · rw [ht]; exact h1 e he
    · exact h1 a (List.mem_cons_of_mem _ ha)
  · rw [hp2, List.map_cons, ht]
    exact h2
  · intro a ha
    rw [hf, List.mem_append, List.mem_singleton] at ha
    rw [hn]
    rcases ha with ha | rfl
    · exact h5 a ha
    · rw [hft]; exact h1 e he
  · intro a ha
    rw [hp2] at ha
    rw [TransferQueue.fires_append q q2 f hf]
    rcases List.mem_cons.mp ha with rfl | ha
    · rw [ht, hl, h6 e he, hft, hflk]
      by_cases h0 : e.link = 0
      · simp [h0]
      · simp [h0]
    · have hne : e.ticket ≠ a.ticket := by
        intro h
        have hnd := (List.nodup_cons.mp h2).1
        apply hnd
        rw [h]
        exact List.mem_map_of_mem _ ha
      rw [h6 a (List.mem_cons_of_mem _ ha), hft]
      simp [hne]
  · intro t htlt hnot
    rw [hn] at htlt
    rw [hp2] at hnot
    have hne : e.ticket ≠ t := by
      have := hnot e' (List.mem_cons_self _ _)
      rw [ht] at this
      exact this
    rw [TransferQueue.fires_append q q2 f hf, hft]
    have := h7 t htlt (by
      intro a ha
      rcases List.mem_cons.mp ha with rfl | ha
      · exact hne
      · exact hnot a (List.mem_cons_of_mem _ ha))
    rw [this]
    simp [hne]
  · intro a ha
    rw [hf, List.mem_append, List.mem_singleton] at ha
    rcases ha with ha | rfl
    · exact h8 a ha
    · exact hfh

/-- When the entry in front is past its first link, taking it out keeps the
bookkeeping consistent. -/
theorem TransferQueue.drop_consistent (q q4 : TransferQueue) (e : QueueEntry)
    (rest : List QueueEntry) (hq : q.consistent) (hp : q.pending = e :: rest)
    (hl : e.link ≠ 0) (hp4 : q4.pending = rest)
    (hn : q4.enqueued = q.enqueued) (hf : q4.fired = q.fired) : q4.consistent := by
  obtain ⟨h1, h2, h5, h6, h7, h8⟩ := hq
  rw [hp] at h1 h2 h6 h7
  have he := List.mem_cons_self e rest
  refine ⟨?_, ?_, ?_, ?_, ?_, ?_⟩
  · intro a ha
    rw [hp4] at ha
    rw [hn]
    exact h1 a (List.mem_cons_of_mem _ ha)
  · rw [hp4]
    exact (List.nodup_cons.mp h2).2
  · intro a ha
    rw [hn]
    exact h5 a (hf ▸ ha)
  · intro a ha
    rw [hp4] at ha
    rw [TransferQueue.fires_congr q q4 hf]
    exact h6 a (List.mem_cons_of_mem _ ha)
  · intro t htlt hnot
    rw [hn] at htlt
    rw [hp4] at hnot
    rw [TransferQueue.fires_congr q q4 hf]
    by_cases hte : e.ticket = t
    · rw [← hte, h6 e he]
      simp [hl]
    · exact h7 t htlt (by
        intro a ha
        rcases List.mem_cons.mp ha with rfl | ha
        · exact hte
        · exact hnot a ha)
  · intro a ha
    exact h8 a (hf ▸ ha)

/-- The state in which the handler of the oldest pending transfer returns, with
the entry of that transfer still in front, is consistent. -/
theorem TransferQueue.handled_consistent (q q1 : TransferQueue) (e e' : QueueEntry)
    (rest : List QueueEntry) (f : Fired) (present : Bool)
    (calls : List (QueueRequest × Nat)) (hq : q.consistent) (hp : q.pending = e :: rest)
    (hp1 : q1.pending = rest)
    (hn : q1.enqueued = q.enqueued) (hf : q1.fired = q.fired ++ [f])
    (ht : e'.ticket = e.ticket) (hl : e'.link = e.link + 1)
    (hft : f.ticket = e.ticket) (hflk : f.link = e.link)
    (hfh : f.handler = f.expected_handler) :
    ((if present = true then q1.handler_calls calls else q1).push_front e').consistent := by
  have hv : (q1.push_front e').consistent :=
    TransferQueue.fire_consistent q (q1.push_front e') e e' rest f hq hp
      (by show e' :: q1.pending = _; rw [hp1]) ht hl hn hf hft hflk hfh
  cases present with
  | false => exact hv
  | true =>
    simp only [if_true]
    rw [← TransferQueue.handler_calls_push_front]
    exact TransferQueue.handler_calls_consistent calls _ hv

theorem TransferQueue.transfer_done_consistent (q : TransferQueue)
    (calls : List (QueueRequest × Nat)) (hq : q.consistent) :
    (q.transfer_done calls).consistent := by
  unfold TransferQueue.transfer_done
  cases hp : q.pending with
  | nil => simp only []; exact hq
  | cons e rest =>
    simp only []
    cases hc : e.chain with
    | cons next chain =>
      simp only []
      exact TransferQueue.handled_consistent q
        { q with
          pending := rest
          fired := q.fired ++
            [Fired.mk e.ticket e.link Outcome.completed e.request e.request.completed_callback] }
        e (QueueEntry.mk e.ticket (e.link + 1) next chain e.in_progress) rest
        (Fired.mk e.ticket e.link Outcome.completed e.request e.request.completed_callback)
        e.request.completed_callback.isSome calls hq hp rfl rfl rfl rfl rfl rfl rfl rfl
    | nil =>
      simp only []
      have hv := TransferQueue.handled_consistent q
        { q with
          pending := rest
          fired := q.fired ++
            [Fired.mk e.ticket e.link Outcome.completed e.request e.request.completed_callback] }
        e (QueueEntry.mk e.ticket (e.link + 1) e.request [] e.in_progress) rest
        (Fired.mk e.ticket e.link Outcome.completed e.request e.request.completed_callback)
        e.request.completed_callback.isSome calls hq hp rfl rfl rfl rfl rfl rfl rfl rfl
      exact TransferQueue.drop_consistent _ _ _ _ hv rfl (Nat.succ_ne_zero _) rfl rfl rfl

theorem TransferQueue.transfer_failed_consistent (q : TransferQueue)
    (calls : List (QueueRequest × Nat)) (hq : q.consistent) :
    (q.transfer_failed calls).consistent := by
  unfold TransferQueue.transfer_failed
  cases hp : q.pending with
  | nil => simp only []; exact hq
  | cons e rest =>
    simp only []
    have hv := TransferQueue.handled_consistent q
      { q with
        pending := rest
        fired := q.fired ++
          [Fired.mk e.ticket e.link Outcome.failed e.request e.request.failed_callback] }
      e (QueueEntry.mk e.ticket (e.link + 1) e.request [] e.in_progress) rest
      (Fired.mk e.ticket e.link Outcome.failed e.request e.request.failed_callback)
      e.request.failed_callback.isSome calls hq hp rfl rfl rfl rfl rfl rfl rfl rfl
    exact TransferQueue.drop_consistent _ _ _ _ hv rfl (Nat.succ_ne_zero _) rfl rfl rfl

theorem TransferQueue.step_consistent (q : TransferQueue) (ev : QueueEvent)
    (hq : q.consistent) : (q.step ev).consistent := by
  cases ev with
  | enqueue r flag => exact TransferQueue.enqueue_consistent q r flag hq
  | transfer_done calls => exact TransferQueue.transfer_done_consistent q calls hq
  | transfer_failed calls => exact TransferQueue.transfer_failed_consistent q calls hq

/-- The bookkeeping of the transfer queue is consistent after every run. -/
theorem TransferQueue.run_consistent (evs : List QueueEvent) :
    ∀ q : TransferQueue, q.consistent → (q.run evs).consistent := by
  induction evs with
  | nil => intro q hq; exact hq
  | cons ev rest ih =>
    intro q hq
    exact ih _ (TransferQueue.step_consistent q ev hq)

theorem TransferQueue.run_append (q : TransferQueue) (before after : List QueueEvent) :
    q.run (before ++ after) = (q.run before).run after := by
  unfold TransferQueue.run
  rw [List.foldl_append]

/-! ### The in-progress flags -/

/-- A flag under which nothing is pending is in order. -/
theorem TransferQueue.flag_clean_of_not_pending (q : TransferQueue) (flag : Nat)
    (h : ∀ e ∈ q.pending, e.in_progress ≠ flag) : q.flag_clean flag := by
  refine ⟨?_, fun e he hf => absurd hf (h e he)⟩
  have : (q.pending.map QueueEntry.in_progress).count flag = 0 := by
    rw [List.count_eq_zero]
    intro hm
    obtain ⟨e, he, hf⟩ := List.mem_map.mp hm
    exact h e he hf
  omega

/-- A call of `async_i2c_enqueue` that passes another flag, or this flag while
it is false, keeps the flag in order. -/
theorem TransferQueue.enqueue_flag_clean (q : TransferQueue) (r : QueueRequest)
    (g flag : Nat) (hq : q.flag_clean flag)
    (hfresh : g ≠ flag ∨ q.in_progress flag = false) : (q.enqueue r g).flag_clean flag := by
  obtain ⟨h1, h2⟩ := hq
  have hp : (q.enqueue r g).pending
      = q.pending ++ [QueueEntry.mk q.enqueued 0 r.head r.chain g] := rfl
  have hflag : (q.enqueue r g).in_progress flag
      = if flag = g then true else q.in_progress flag := rfl
  by_cases hg : g = flag
  · have hfalse : q.in_progress flag = false := by
      rcases hfresh with h | h
      · exact absurd hg h
      · exact h
    have h0 : (q.pending.map QueueEntry.in_progress).count flag = 0 := by
      rw [List.count_eq_zero]
      intro hm
      obtain ⟨e, he, hf⟩ := List.mem_map.mp hm
      have := h2 e he hf
      rw [hfalse] at this
      cases this
    refine ⟨?_, ?_⟩
    · rw [hp, List.map_append, List.count_append, h0, List.map_cons, List.map_nil]
      show 0 + List.count flag [g] ≤ 1
      rw [hg, List.count_singleton_self]
    · intro e _ _
      rw [hflag, if_pos hg.symm]
  · refine ⟨?_, ?_⟩
    · rw [hp, List.map_append, List.count_append, List.map_cons, List.map_nil]
      show List.count flag (q.pending.map QueueEntry.in_progress) + List.count flag [g] ≤ 1
      rw [List.count_cons_of_ne (Ne.symm hg), List.count_nil]
      exact h1
    · intro e he hf
      rw [hflag, if_neg (Ne.symm hg)]
      rw [hp, List.mem_append, List.mem_singleton] at he
      rcases he with he | rfl
      · exact h2 e he hf
      · exact absurd hf hg

theorem TransferQueue.calls_fresh_congr (flag : Nat) (calls : List (QueueRequest × Nat)) :
    ∀ q q' : TransferQueue, q'.in_progress = q.in_progress →
      q'.calls_fresh flag calls = q.calls_fresh flag calls := by
  induction calls with
  | nil => intro q q' _; rfl
  | cons c rest ih =>
    intro q q' h
    simp only [TransferQueue.calls_fresh]
    rw [h, ih (q.enqueue c.1 c.2) (q'.enqueue c.1 c.2) (by
      show (fun f => if f = c.2 then true else q'.in_progress f)
        = fun f => if f = c.2 then true else q.in_progress f
      rw [h])]

/-- The calls of a handler, each with another flag or with this flag while it
is false, keep the flag in order. -/
theorem TransferQueue.handler_calls_flag_clean (flag : Nat)
    (calls : List (QueueRequest × Nat)) :
    ∀ q : TransferQueue, q.flag_clean flag → q.calls_fresh flag calls = true →
      (q.handler_calls calls).flag_clean flag := by
  induction calls with
  | nil => intro q hq _; exact hq
  | cons c rest ih =>
    intro q hq hfresh
    simp only [TransferQueue.calls_fresh, Bool.and_eq_true, Bool.or_eq_true,
      decide_eq_true_eq, Bool.not_eq_true'] at hfresh
    exact ih _ (TransferQueue.enqueue_flag_clean q c.1 c.2 flag hq hfresh.1) hfresh.2

/-- A flag that is true stays true through the calls of a handler. -/
theorem TransferQueue.handler_calls_flag_kept (flag : Nat)
    (calls : List (QueueRequest × Nat)) :
    ∀ q : TransferQueue, q.in_progress flag = true →
      (q.handler_calls calls).in_progress flag = true := by
  induction calls with
  | nil => intro q h; exact h
  | cons c rest ih =>
    intro q h
    refine ih (q.enqueue c.1 c.2) ?_
    show (if flag = c.2 then true else q.in_progress flag) = true
    rw [h]; simp

/-- Moving the entry in front on to its next link keeps every flag in
order. -/
theorem TransferQueue.fire_flag_clean (q q2 : TransferQueue) (e e' : QueueEntry)
    (rest : List QueueEntry) (flag : Nat) (hq : q.flag_clean flag)
    (hp : q.pending = e :: rest) (hp2 : q2.pending = e' :: rest)
    (hfl : e'.in_progress = e.in_progress) (hip : q2.in_progress = q.in_progress) :
    q2.flag_clean flag := by
  obtain ⟨h1, h2⟩ := hq
  rw [hp] at h1 h2
  refine ⟨?_, ?_⟩
  · rw [hp2, List.map_cons, hfl]
    exact h1
  · intro a ha hf
    rw [hp2] at ha
    rw [hip]
    rcases List.mem_cons.mp ha with rfl | ha
    · exact h2 e (List.mem_cons_self _ _) (hfl ▸ hf)
    · exact h2 a (List.mem_cons_of_mem _ ha) hf

/-- Taking the entry in front out and clearing its flag keeps every flag in
order. -/
theorem TransferQueue.drop_flag_clean (q q4 : TransferQueue) (e : QueueEntry)
    (rest : List QueueEntry) (flag : Nat) (hq : q.flag_clean flag)
    (hp : q.pending = e :: rest) (hp4 : q4.pending = rest)
    (hip : q4.in_progress = fun f => if f = e.in_progress then false else q.in_progress f) :
    q4.flag_clean flag := by
  obtain ⟨h1, h2⟩ := hq
  rw [hp] at h1 h2
  rw [List.map_cons] at h1
  refine ⟨?_, ?_⟩
  · rw [hp4]
    exact Nat.le_trans (List.count_le_count_cons _ _ _) h1
  · intro a ha hf
    rw [hp4] at ha
    rw [hip]
    have hne : flag ≠ e.in_progress := by
      intro h
      rw [← h, List.count_cons_self] at h1
      have hpos : 0 < List.count flag (rest.map QueueEntry.in_progress) :=
        List.count_pos_iff.mpr (List.mem_map.mpr ⟨a, ha, hf⟩)
      omega
    simp only [hne, if_false]
    exact h2 a (List.mem_cons_of_mem _ ha) hf

/-- The state in which the handler of the oldest pending transfer returns, with
the entry of that transfer still in front, has the flag in order. -/
theorem TransferQueue.handled_flag_clean (q q1 : TransferQueue) (e e' : QueueEntry)
    (rest : List QueueEntry) (flag : Nat) (present : Bool)
    (calls : List (QueueRequest × Nat)) (hq : q.flag_clean flag)
    (hp : q.pending = e :: rest) (hp1 : q1.pending = rest)
    (hip : q1.in_progress = q.in_progress) (hfl : e'.in_progress = e.in_progress)
    (hfresh : (if present = true then q.calls_fresh flag calls else true) = true) :
    ((if present = true then q1.handler_calls calls else q1).push_front e').flag_clean
      flag := by
  have hv : (q1.push_front e').flag_clean flag :=
    TransferQueue.fire_flag_clean q (q1.push_front e') e e' rest flag hq hp
      (by show e' :: q1.pending = _; rw [hp1]) hfl hip
  cases present with
  | false => exact hv
  | true =>
    simp only [if_true] at hfresh ⊢
    rw [← TransferQueue.handler_calls_push_front]
    refine TransferQueue.handler_calls_flag_clean flag calls _ hv ?_
    rw [TransferQueue.calls_fresh_congr flag calls q (q1.push_front e') hip]
    exact hfresh

theorem TransferQueue.transfer_done_flag_clean (q : TransferQueue) (flag : Nat)
    (calls : List (QueueRequest × Nat)) (hq : q.flag_clean flag)
    (hfresh : q.event_fresh flag (QueueEvent.transfer_done calls) = true) :
    (q.transfer_done calls).flag_clean flag := by
  unfold TransferQueue.transfer_done
  unfold TransferQueue.event_fresh at hfresh
  cases hp : q.pending with
  | nil => simp only []; exact hq
  | cons e rest =>
    rw [hp] at hfresh
    simp only [] at hfresh ⊢
    cases hc : e.chain with
    | cons next chain =>
      simp only []
      exact TransferQueue.handled_flag_clean q
        { q with
          pending := rest
          fired := q.fired ++
            [Fired.mk e.ticket e.link Outcome.completed e.request e.request.completed_callback] }
        e (QueueEntry.mk e.ticket (e.link + 1) next chain e.in_progress) rest flag
        e.request.completed_callback.isSome calls hq hp rfl rfl rfl hfresh
    | nil =>
      simp only []
      have hv := TransferQueue.handled_flag_clean q
        { q with
          pending := rest
          fired := q.fired ++
            [Fired.mk e.ticket e.link Outcome.completed e.request e.request.completed_callback] }
        e (QueueEntry.mk e.ticket (e.link + 1) e.request [] e.in_progress) rest flag
        e.request.completed_callback.isSome calls hq hp rfl rfl rfl hfresh
      exact TransferQueue.drop_flag_clean _ _ _ _ flag hv rfl rfl rfl

theorem TransferQueue.transfer_failed_flag_clean (q : TransferQueue) (flag : Nat)
    (calls : List (QueueRequest × Nat)) (hq : q.flag_clean flag)
    (hfresh : q.event_fresh flag (QueueEvent.transfer_failed calls) = true) :
    (q.transfer_failed calls).flag_clean flag := by
  unfold TransferQueue.transfer_failed
  unfold TransferQueue.event_fresh at hfresh
  cases hp : q.pending with
  | nil => simp only []; exact hq
  | cons e rest =>
    rw [hp] at hfresh
    simp only [] at hfresh ⊢
    have hv := TransferQueue.handled_flag_clean q
      { q with
        pending := rest
        fired := q.fired ++
          [Fired.mk e.ticket e.link Outcome.failed e.request e.request.failed_callback] }
      e (QueueEntry.mk e.ticket (e.link + 1) e.request [] e.in_progress) rest flag
      e.request.failed_callback.isSome calls hq hp rfl rfl rfl hfresh
    exact TransferQueue.drop_flag_clean _ _ _ _ flag hv rfl rfl rfl

theorem TransferQueue.step_flag_clean (q : TransferQueue) (flag : Nat) (ev : QueueEvent)
    (hq : q.flag_clean flag) (hfresh : q.event_fresh flag ev = true) :
    (q.step ev).flag_clean flag := by
  cases ev with
  | enqueue r g =>
    exact TransferQueue.enqueue_flag_clean q r g flag hq (by
      simpa [TransferQueue.event_fresh] using hfresh)
  | transfer_done calls => exact TransferQueue.transfer_done_flag_clean q flag calls hq hfresh
  | transfer_failed calls =>
    exact TransferQueue.transfer_failed_flag_clean q flag calls hq hfresh

/-- A flag that is in order stays in order through every run in which each
call that passes it is made while it is false. -/
theorem TransferQueue.run_flag_clean (flag : Nat) (evs : List QueueEvent) :
    ∀ q : TransferQueue, q.flag_clean flag → q.run_fresh flag evs = true →
      (q.run evs).flag_clean flag := by
  induction evs with
  | nil => intro q hq _; exact hq
  | cons ev rest ih =>
    intro q hq hfresh
    simp only [TransferQueue.run_fresh, Bool.and_eq_true] at hfresh
    exact ih _ (TransferQueue.step_flag_clean q flag ev hq hfresh.1) hfresh.2

/-- A chained next request becomes the very next transfer, under the flag of
the call it belongs to, and a flag that is true stays true. -/
theorem TransferQueue.transfer_done_chained (q : TransferQueue)
    (calls : List (QueueRequest × Nat)) (e : QueueEntry) (rest : List QueueEntry)
    (next : QueueLink) (chain : List QueueLink) (hp : q.pending = e :: rest)
    (hc : e.chain = next :: chain) :
    (q.transfer_done calls).pending.head?
        = some (QueueEntry.mk e.ticket (e.link + 1) next chain e.in_progress)
      ∧ ∀ flag, q.in_progress flag = true →
          (q.transfer_done calls).in_progress flag = true := by
  unfold TransferQueue.transfer_done
  rw [hp]
  simp only [hc]
  refine ⟨rfl, ?_⟩
  intro flag hflag
  split
  · exact TransferQueue.handler_calls_flag_kept flag calls _ hflag
  · exact hflag

/-- The flag of a transfer is false after the transfer has failed, and after
it has completed without a chained next request. -/
theorem TransferQueue.transfer_end_clears (q : TransferQueue)
    (calls : List (QueueRequest × Nat)) (e : QueueEntry) (rest : List QueueEntry)
    (hp : q.pending = e :: rest) :
    (q.transfer_failed calls).in_progress e.in_progress = false
      ∧ (e.chain = [] → (q.transfer_done calls).in_progress e.in_progress = false) := by
  refine ⟨?_, ?_⟩
  · unfold TransferQueue.transfer_failed
    rw [hp]
    simp
  · intro hc
    unfold TransferQueue.transfer_done
    rw [hp]
    simp [hc]

/-- A flag that is true becomes false only at the end of a transfer under it:
at its failure, or at its completion without a chained next request. -/
theorem TransferQueue.step_clears_only (q : TransferQueue) (ev : QueueEvent) (flag : Nat)
    (h : q.in_progress flag = true) (h' : (q.step ev).in_progress flag = false) :
    ∃ e rest, q.pending = e :: rest ∧ e.in_progress = flag
      ∧ ((∃ calls, ev = QueueEvent.transfer_failed calls)
        ∨ ∃ calls, ev = QueueEvent.transfer_done calls ∧ e.chain = []) := by
  cases ev with
  | enqueue r g =>
    have : (q.step (QueueEvent.enqueue r g)).in_progress flag
        = if flag = g then true else q.in_progress flag := rfl
    rw [this, h] at h'
    simp at h'
  | transfer_done calls =>
    cases hp : q.pending with
    | nil =>
      have : q.step (QueueEvent.transfer_done calls) = q := by
        show q.transfer_done calls = q
        unfold TransferQueue.transfer_done
        rw [hp]
      rw [this, h] at h'
      cases h'
    | cons e rest =>
      cases hc : e.chain with
      | cons next chain =>
        have := (TransferQueue.transfer_done_chained q calls e rest next chain hp hc).2 flag h
        rw [show q.step (QueueEvent.transfer_done calls) = q.transfer_done calls from rfl,
          this] at h'
        cases h'
      | nil =>
        refine ⟨e, rest, rfl, ?_, Or.inr ⟨calls, rfl, hc⟩⟩
        by_contra hne
        have hk : (q.transfer_done calls).in_progress flag = true := by
          unfold TransferQueue.transfer_done
          rw [hp]
          simp only [hc]
          have hne' : flag ≠ e.in_progress := fun hh => hne hh.symm
          simp only [hne', if_false]
          split
          · exact TransferQueue.handler_calls_flag_kept flag calls _ h
          · exact h
        rw [show q.step (QueueEvent.transfer_done calls) = q.transfer_done calls from rfl,
          hk] at h'
        cases h'
  | transfer_failed calls =>
    cases hp : q.pending with
    | nil =>
      have : q.step (QueueEvent.transfer_failed calls) = q := by
        show q.transfer_failed calls = q
        unfold TransferQueue.transfer_failed
        rw [hp]
      rw [this, h] at h'
      cases h'
    | cons e rest =>
      refine ⟨e, rest, rfl, ?_, Or.inl ⟨calls, rfl⟩⟩
      by_contra hne
      have hk : (q.transfer_failed calls).in_progress flag = true := by
        unfold TransferQueue.transfer_failed
        rw [hp]
        have hne' : flag ≠ e.in_progress := fun hh => hne hh.symm
        simp only [hne', if_false]
        split
        · exact TransferQueue.handler_calls_flag_kept flag calls _ h
        · exact h
      rw [show q.step (QueueEvent.transfer_failed calls) = q.transfer_failed calls from rfl,
        hk] at h'
      cases h'

/-- C33 (as stated, refuted). In the transfer queue: a request is
enqueued with flag 0, its transfer succeeds and its completion handler
enqueues a request with the same flag; afterwards that request (call 1) is
pending, none of its handlers has fired, and the flag is false. The program
does this: when a set-timing command is answered while another timing is
missing, the set-timing handler sends on the same slot, and afterwards the
slot's transfer is pending with its in-progress flag false. And a request
without a failure handler whose transfer fails has its flag cleared with no
handler invoked. -/
theorem in_progress_cleared_while_pending :
    (example_queue_resent.pending.map QueueEntry.ticket = [1]
        ∧ example_queue_resent.fires 1 = 0
        ∧ example_queue_resent.in_progress 0 = false)
      ∧ (example_set_timing_resent.vars.i2c_queue = [CmdRef.set_timing_command]
        ∧ example_set_timing_resent.vars.i2c_trace.map Transfer.cmd
            = [CmdRef.set_timing_command, CmdRef.set_timing_command]
        ∧ example_set_timing_resent.vars.cb_trace
            = [(actuator_cmd_response_cb_t.actuator_set_timing_general_cb,
                CmdRef.set_timing_command)]
        ∧ example_set_timing_resent.set_timing_command.i2c_in_progress = false)
      ∧ (example_queue_failed.pending = []
        ∧ example_queue_failed.in_progress 0 = false
        ∧ example_queue_failed.fired.map Fired.handler = [none]) :=
  ⟨⟨by decide, by decide, by decide⟩, ⟨by decide, by decide, by decide, by decide⟩,
    ⟨by decide, by decide, by decide⟩⟩

/-- C33 (amended). In every run of the transfer queue: the in-progress
flag is true when `async_i2c_enqueue` returns; the request that was passed has
fired (completion or failure) not at all while it is itself pending and exactly
once when a later link of its chain is, and exactly once for every call that is
no longer pending; every transfer that ended has invoked the handler its
request has for that outcome, and none when the request has none. For every
flag: from a moment at which no request under it is pending, as long as every
call that passes it is made while it is false, at most one pending request is
under it and it is true while that request is pending. A chained next request
becomes the very next transfer under the same flag, and a flag that is true
stays true. The flag of a transfer is false after the transfer has failed and
after it has completed without a chained next request, and a flag that is true
becomes false at no other step. -/
theorem transfer_queue_contract (evs : List QueueEvent) :
    (∀ (q : TransferQueue) (r : QueueRequest) (flag : Nat),
        (q.enqueue r flag).in_progress flag = true
          ∧ (q.enqueue r flag).pending
              = q.pending ++ [QueueEntry.mk q.enqueued 0 r.head r.chain flag])
      ∧ (∀ e ∈ (TransferQueue.run {} evs).pending,
          (TransferQueue.run {} evs).fires e.ticket = if e.link = 0 then 0 else 1)
      ∧ (∀ t, t < (TransferQueue.run {} evs).enqueued →
          (∀ e ∈ (TransferQueue.run {} evs).pending, e.ticket ≠ t) →
          (TransferQueue.run {} evs).fires t = 1)
      ∧ (∀ f ∈ (TransferQueue.run {} evs).fired, f.handler = f.expected_handler)
      ∧ (∀ (flag : Nat) (before after : List QueueEvent), evs = before ++ after →
          (∀ e ∈ (TransferQueue.run {} before).pending, e.in_progress ≠ flag) →
          (TransferQueue.run {} before).run_fresh flag after = true →
          ((TransferQueue.run {} evs).pending.map QueueEntry.in_progress).count flag ≤ 1
            ∧ ∀ e ∈ (TransferQueue.run {} evs).pending, e.in_progress = flag →
                (TransferQueue.run {} evs).in_progress flag = true)
      ∧ (∀ (calls : List (QueueRequest × Nat)) (e : QueueEntry) (rest : List QueueEntry)
          (next : QueueLink) (chain : List QueueLink),
          (TransferQueue.run {} evs).pending = e :: rest → e.chain = next :: chain →
          ((TransferQueue.run {} evs).transfer_done calls).pending.head?
              = some (QueueEntry.mk e.ticket (e.link + 1) next chain e.in_progress)
            ∧ ∀ flag, (TransferQueue.run {} evs).in_progress flag = true →
                ((TransferQueue.run {} evs).transfer_done calls).in_progress flag = true)
      ∧ (∀ (calls : List (QueueRequest × Nat)) (e : QueueEntry) (rest : List QueueEntry),
          (TransferQueue.run {} evs).pending = e :: rest →
          ((TransferQueue.run {} evs).transfer_failed calls).in_progress e.in_progress = false
            ∧ (e.chain = [] →
                ((TransferQueue.run {} evs).transfer_done calls).in_progress e.in_progress
                  = false))
      ∧ ∀ (ev : QueueEvent) (flag : Nat),
          (TransferQueue.run {} evs).in_progress flag = true →
          ((TransferQueue.run {} evs).step ev).in_progress flag = false →
          ∃ e rest, (TransferQueue.run {} evs).pending = e :: rest ∧ e.in_progress = flag
            ∧ ((∃ calls, ev = QueueEvent.transfer_failed calls)
              ∨ ∃ calls, ev = QueueEvent.transfer_done calls ∧ e.chain = []) := by
  have hc := TransferQueue.run_consistent evs {} TransferQueue.consistent_empty
  obtain ⟨-, -, -, h6, h7, h8⟩ := hc
  refine ⟨fun q r flag => ⟨?_, rfl⟩, h6, h7, h8, ?_,
    fun calls e rest next chain hp hch =>
      TransferQueue.transfer_done_chained _ calls e rest next chain hp hch,
    fun calls e rest hp => TransferQueue.transfer_end_clears _ calls e rest hp,
    fun ev flag h h' => TransferQueue.step_clears_only _ ev flag h h'⟩
  · show (if flag = flag then true else q.in_progress flag) = true
    rw [if_pos rfl]
  · intro flag before after hev hnone hfresh
    rw [hev, TransferQueue.run_append]
    exact TransferQueue.run_flag_clean flag after _
      (TransferQueue.flag_clean_of_not_pending _ flag hnone) hfresh

/-- Witness for C33: in the run `example_queue_events` the handler of the
first request enqueues with flag 0, the flag of its own transfer, so the run
is not fresh for flag 0, and it is fresh for flag 1, the flag of the chained
request: the first request has fired once, and flag 1 is true while the second
link of the chain is pending. -/
theorem transfer_queue_contract_witness :
    TransferQueue.run_fresh {} 0 example_queue_events = false
      ∧ TransferQueue.run_fresh {} 1 example_queue_events = true
      ∧ (TransferQueue.run {} example_queue_events).pending.map
          (fun e => (e.ticket, e.link, e.in_progress)) = [(1, 1, 1), (2, 0, 0)]
      ∧ (TransferQueue.run {} example_queue_events).fires 0 = 1
      ∧ (TransferQueue.run {} example_queue_events).in_progress 1 = true
      ∧ (TransferQueue.run {} example_queue_events).in_progress 0 = false :=
  have h := transfer_queue_contract example_queue_events
  ⟨by decide, by decide, by decide, h.2.2.1 0 (by decide) (by decide),
    (h.2.2.2.2.1 1 [] example_queue_events rfl (fun e he => by cases he) (by decide)).2
      ⟨1, 1, { completed_callback := some 3, failed_callback := some 4 },
        [{ completed_callback := none, failed_callback := some 5 }], 1⟩
      (by decide) rfl,
    by decide⟩

/-- Witness for C31: fault 3 is raised on the empty fault list of
`example_booted`, with 31 as the largest fault id. -/
theorem fault_list_contract_witness :
    (3 : Nat) ≤ 31
      ∧ example_booted.vars.fault_list < 2 ^ 32
      ∧ (safety_raise_fault 3 example_booted).vars.fault_list.testBit 3 = true
      ∧ (safety_lower_fault 5
          (safety_raise_fault 3 example_booted)).vars.fault_list.testBit 3 = true :=
  have h := fault_list_contract 31 3 example_booted (by decide) (by decide) (by decide)
  ⟨by decide, by decide, h.1.1, (h.2.2 [FaultCall.lower 5] (by decide)).1⟩

/-! ## The invariants: elementary steps -/

end Titan
